import Mathlib

/-!
# WiiGL: a fixed-function OpenGL 1.x shim over the GX command interface

Shallow embedding of `src/share/wiigl.c` (with `src/share/wiigl.h`).

Conventions of the embedding:

* C `int` values (`GLenum`, `GLint`, GX enumerators) are `Int`; unsigned machine integers
  (`u8`, `u16`, `u32`, pointers) are `Nat`, with an explicit `% 2^w` wherever the C code can
  wrap or truncate.
* `f32`/`double` arithmetic is idealised as exact arithmetic in a field `α`.
* `fatal_error` prints and calls `exit(1)`: a call that reaches it ends in `Result.fatal`,
  carrying the message and the state of the globals at that moment.
* Every call into the GX library is appended, in program order, to the trace `Context.hw`.
* Enumerators and routines of libogc/libm (`GX_*`, `gu*`, `sinf`, `cosf`), which are not part
  of this repository, are parameters: `GXConsts` and `Ext`.
* The file is compiled with `#define DEBUG`, so all `#ifdef DEBUG` checks are present.
-/

namespace WiiGL

/-! ## Constants of `wiigl.h` -/

def GL_BYTE : Int := 0x1400
def GL_UNSIGNED_BYTE : Int := 0x1401
def GL_SHORT : Int := 0x1402
def GL_UNSIGNED_SHORT : Int := 0x1403
def GL_FLOAT : Int := 0x1406

def GL_POINTS : Int := 0x0000
def GL_LINE_STRIP : Int := 0x0003
def GL_TRIANGLES : Int := 0x0004
def GL_TRIANGLE_STRIP : Int := 0x0005
def GL_QUADS : Int := 0x0007

def GL_NEVER : Int := 0x0200
def GL_LESS : Int := 0x0201
def GL_EQUAL : Int := 0x0202
def GL_LEQUAL : Int := 0x0203
def GL_GREATER : Int := 0x0204
def GL_NOTEQUAL : Int := 0x0205
def GL_GEQUAL : Int := 0x0206
def GL_ALWAYS : Int := 0x0207

def GL_CLAMP_TO_EDGE : Int := 0x812F
def GL_MIRRORED_REPEAT : Int := 0x8370
def GL_REPEAT : Int := 0x2901

def GL_NEAREST : Int := 0x2600
def GL_LINEAR : Int := 0x2601
def GL_NEAREST_MIPMAP_NEAREST : Int := 0x2700
def GL_LINEAR_MIPMAP_NEAREST : Int := 0x2701
def GL_NEAREST_MIPMAP_LINEAR : Int := 0x2702
def GL_LINEAR_MIPMAP_LINEAR : Int := 0x2703

def GL_FRONT : Int := 0x0404
def GL_BACK : Int := 0x0405
def GL_FRONT_AND_BACK : Int := 0x0408

def GL_MODELVIEW : Int := 0x1700
def GL_PROJECTION : Int := 0x1701
def GL_TEXTURE : Int := 0x1702
def GL_COLOR : Int := 0x1800

def GL_ARRAY_BUFFER : Int := 0x8892
def GL_ELEMENT_ARRAY_BUFFER : Int := 0x8893

def GL_TEXTURE_2D : Int := 0x0DE1

def GL_ALPHA : Int := 0x1906
def GL_RGB : Int := 0x1907
def GL_RGBA : Int := 0x1908
def GL_LUMINANCE : Int := 0x1909
def GL_LUMINANCE_ALPHA : Int := 0x190A

def GL_TEXTURE_MAG_FILTER : Int := 0x2800
def GL_TEXTURE_MIN_FILTER : Int := 0x2801
def GL_TEXTURE_WRAP_S : Int := 0x2802
def GL_TEXTURE_WRAP_T : Int := 0x2803

def GL_ALPHA_TEST : Int := 0x0BC0
def GL_BLEND : Int := 0x0BE2
def GL_CLIP_PLANE0 : Int := 0x3000
def GL_CLIP_PLANE1 : Int := 0x3001
def GL_CLIP_PLANE2 : Int := 0x3002
def GL_CLIP_PLANE3 : Int := 0x3003
def GL_CLIP_PLANE4 : Int := 0x3004
def GL_CLIP_PLANE5 : Int := 0x3005
def GL_COLOR_MATERIAL : Int := 0x0B57
def GL_CULL_FACE : Int := 0x0B44
def GL_DEPTH_TEST : Int := 0x0B71
def GL_LIGHT0 : Int := 0x4000
def GL_LIGHT1 : Int := 0x4001
def GL_LIGHT2 : Int := 0x4002
def GL_LIGHT3 : Int := 0x4003
def GL_LIGHT4 : Int := 0x4004
def GL_LIGHT5 : Int := 0x4005
def GL_LIGHT6 : Int := 0x4006
def GL_LIGHT7 : Int := 0x4007
def GL_LIGHTING : Int := 0x0B50
def GL_NORMALIZE : Int := 0x0BA1
def GL_POLYGON_OFFSET_FILL : Int := 0x8037
def GL_POINT_SPRITE : Int := 0x8861
def GL_STENCIL_TEST : Int := 0x0B90
def GL_TEXTURE_GEN_S : Int := 0x0C60
def GL_TEXTURE_GEN_T : Int := 0x0C61

def GL_VERTEX_ARRAY : Int := 0x8074
def GL_NORMAL_ARRAY : Int := 0x8075
def GL_COLOR_ARRAY : Int := 0x8076
def GL_INDEX_ARRAY : Int := 0x8077
def GL_TEXTURE_COORD_ARRAY : Int := 0x8078

def GL_AMBIENT : Int := 0x1200
def GL_DIFFUSE : Int := 0x1201
def GL_SPECULAR : Int := 0x1202
def GL_POSITION : Int := 0x1203
def GL_LIGHT_MODEL_AMBIENT : Int := 0x0B53

def GL_ZERO : Int := 0
def GL_ONE : Int := 1
def GL_SRC_COLOR : Int := 0x0300
def GL_ONE_MINUS_SRC_COLOR : Int := 0x0301
def GL_SRC_ALPHA : Int := 0x0302
def GL_ONE_MINUS_SRC_ALPHA : Int := 0x0303
def GL_DST_ALPHA : Int := 0x0304
def GL_ONE_MINUS_DST_ALPHA : Int := 0x0305
def GL_DST_COLOR : Int := 0x0306
def GL_ONE_MINUS_DST_COLOR : Int := 0x0307

def GL_T : Int := 0x2001
def GL_TEXTURE_GEN_MODE : Int := 0x2500
def GL_SPHERE_MAP : Int := 0x2402

def GL_MAX_TEXTURE_SIZE : Int := 0x0D33
def GL_MAX_TEXTURE_UNITS : Int := 0x84E2
def GL_VENDOR : Int := 0x1F00
def GL_RENDERER : Int := 0x1F01
def GL_VERSION : Int := 0x1F02
def GL_EXTENSIONS : Int := 0x1F03

/-- The macro `MTX_STACK_LIMIT`. -/
def MTX_STACK_LIMIT : Int := 16

/-! ## Parameters standing for libogc -/

/-- Enumerators of libogc's `gx.h` that `wiigl.c` mentions. Their values are not part of
this repository, so the embedding takes them as a parameter. -/
structure GXConsts where
  GX_S8 : Int
  GX_U8 : Int
  GX_S16 : Int
  GX_U16 : Int
  GX_F32 : Int
  GX_POINTS : Int
  GX_LINESTRIP : Int
  GX_TRIANGLES : Int
  GX_TRIANGLESTRIP : Int
  GX_QUADS : Int
  GX_NEVER : Int
  GX_LESS : Int
  GX_EQUAL : Int
  GX_LEQUAL : Int
  GX_GREATER : Int
  GX_NEQUAL : Int
  GX_GEQUAL : Int
  GX_ALWAYS : Int
  GX_CLAMP : Int
  GX_MIRROR : Int
  GX_REPEAT : Int
  GX_NEAR : Int
  GX_LINEAR : Int
  GX_NEAR_MIP_NEAR : Int
  GX_LIN_MIP_NEAR : Int
  GX_NEAR_MIP_LIN : Int
  GX_LIN_MIP_LIN : Int
  GX_CULL_BACK : Int
  GX_CULL_FRONT : Int
  GX_CULL_ALL : Int
  GX_PNMTX0 : Int
  GX_TEXMTX0 : Int
  GX_MTX2x4 : Int
  GX_PERSPECTIVE : Int
  GX_ORTHOGRAPHIC : Int
  GX_POS_XY : Int
  GX_POS_XYZ : Int
  GX_CLR_RGB : Int
  GX_CLR_RGBA : Int
  GX_RGB8 : Int
  GX_RGBA8 : Int
  GX_TEX_S : Int
  GX_TEX_ST : Int
  GX_NRM_XYZ : Int
  GX_VA_POS : Int
  GX_VA_NRM : Int
  GX_VA_CLR0 : Int
  GX_VA_TEX0 : Int
  GX_INDEX16 : Int
  GX_VTXFMT0 : Int
  GX_TEXMAP0 : Int
  GX_TEVSTAGE0 : Int
  GX_TEVREG1 : Int
  GX_TEVPREV : Int
  GX_CC_ZERO : Int
  GX_CC_ONE : Int
  GX_CC_RASC : Int
  GX_CC_C0 : Int
  GX_CC_TEXC : Int
  GX_CA_ZERO : Int
  GX_CA_RASA : Int
  GX_CA_A0 : Int
  GX_CA_A1 : Int
  GX_CA_TEXA : Int
  GX_TEV_ADD : Int
  GX_TB_ZERO : Int
  GX_CS_SCALE_1 : Int
  GX_TRUE : Int
  GX_FALSE : Int
  GX_NONE : Int
  GX_CULL_NONE : Int
  GX_ENABLE : Int
  GX_COLOR1A1 : Int
  GX_SRC_REG : Int
  GX_LIGHT0 : Int
  GX_DF_CLAMP : Int
  GX_AF_NONE : Int
  GX_TEXCOORD0 : Int
  GX_TEXCOORDNULL : Int
  GX_TEXMAP_NULL : Int
  GX_TG_MTX2x4 : Int
  GX_TG_TEX0 : Int
  GX_TG_TEXCOORD0 : Int
  GX_TG_NRM : Int
  GX_IDENTITY : Int
  GX_TEVSTAGE1 : Int
  GX_TEVREG0 : Int
  GX_CC_CPREV : Int
  GX_CA_APREV : Int
  GX_TF_RGB5A3 : Int
  GX_BM_BLEND : Int
  GX_LO_CLEAR : Int
  GX_BL_ZERO : Int
  GX_BL_ONE : Int
  GX_BL_SRCCLR : Int
  GX_BL_INVSRCCLR : Int
  GX_BL_SRCALPHA : Int
  GX_BL_INVSRCALPHA : Int
  GX_BL_DSTALPHA : Int
  GX_BL_INVDSTALPHA : Int
  GX_BL_DSTCLR : Int
  GX_BL_INVDSTCLR : Int
  GX_TO_ZERO : Int

/-- The values libogc's `gx.h` gives these enumerators; used to evaluate the embedding on
concrete inputs. -/
def libogc : GXConsts where
  GX_S8 := 1
  GX_U8 := 0
  GX_S16 := 3
  GX_U16 := 2
  GX_F32 := 4
  GX_POINTS := 0xB8
  GX_LINESTRIP := 0xB0
  GX_TRIANGLES := 0x90
  GX_TRIANGLESTRIP := 0x98
  GX_QUADS := 0x80
  GX_NEVER := 0
  GX_LESS := 1
  GX_EQUAL := 2
  GX_LEQUAL := 3
  GX_GREATER := 4
  GX_NEQUAL := 5
  GX_GEQUAL := 6
  GX_ALWAYS := 7
  GX_CLAMP := 0
  GX_MIRROR := 2
  GX_REPEAT := 1
  GX_NEAR := 0
  GX_LINEAR := 1
  GX_NEAR_MIP_NEAR := 2
  GX_LIN_MIP_NEAR := 3
  GX_NEAR_MIP_LIN := 4
  GX_LIN_MIP_LIN := 5
  GX_CULL_BACK := 2
  GX_CULL_FRONT := 1
  GX_CULL_ALL := 3
  GX_PNMTX0 := 0
  GX_TEXMTX0 := 30
  GX_MTX2x4 := 0
  GX_PERSPECTIVE := 0
  GX_ORTHOGRAPHIC := 1
  GX_POS_XY := 0
  GX_POS_XYZ := 1
  GX_CLR_RGB := 0
  GX_CLR_RGBA := 1
  GX_RGB8 := 1
  GX_RGBA8 := 5
  GX_TEX_S := 0
  GX_TEX_ST := 1
  GX_NRM_XYZ := 0
  GX_VA_POS := 9
  GX_VA_NRM := 10
  GX_VA_CLR0 := 11
  GX_VA_TEX0 := 13
  GX_INDEX16 := 3
  GX_VTXFMT0 := 0
  GX_TEXMAP0 := 0
  GX_TEVSTAGE0 := 0
  GX_TEVREG1 := 2
  GX_TEVPREV := 0
  GX_CC_ZERO := 15
  GX_CC_ONE := 12
  GX_CC_RASC := 10
  GX_CC_C0 := 2
  GX_CC_TEXC := 8
  GX_CA_ZERO := 7
  GX_CA_RASA := 5
  GX_CA_A0 := 1
  GX_CA_A1 := 2
  GX_CA_TEXA := 4
  GX_TEV_ADD := 0
  GX_TB_ZERO := 0
  GX_CS_SCALE_1 := 0
  GX_TRUE := 1
  GX_FALSE := 0
  GX_NONE := 0
  GX_CULL_NONE := 0
  GX_ENABLE := 1
  GX_COLOR1A1 := 5
  GX_SRC_REG := 0
  GX_LIGHT0 := 1
  GX_DF_CLAMP := 2
  GX_AF_NONE := 2
  GX_TEXCOORD0 := 0
  GX_TEXCOORDNULL := 255
  GX_TEXMAP_NULL := 255
  GX_TG_MTX2x4 := 1
  GX_TG_TEX0 := 4
  GX_TG_TEXCOORD0 := 12
  GX_TG_NRM := 1
  GX_IDENTITY := 60
  GX_TEVSTAGE1 := 1
  GX_TEVREG0 := 1
  GX_CC_CPREV := 0
  GX_CA_APREV := 0
  GX_TF_RGB5A3 := 5
  GX_BM_BLEND := 1
  GX_LO_CLEAR := 0
  GX_BL_ZERO := 0
  GX_BL_ONE := 1
  GX_BL_SRCCLR := 2
  GX_BL_INVSRCCLR := 3
  GX_BL_SRCALPHA := 4
  GX_BL_INVSRCALPHA := 5
  GX_BL_DSTALPHA := 6
  GX_BL_INVDSTALPHA := 7
  GX_BL_DSTCLR := 2
  GX_BL_INVDSTCLR := 3
  GX_TO_ZERO := 0

/-- A 4x4 matrix `Mtx44`, indexed row then column as `m[r][c]`. -/
abbrev Mtx44 (α : Type) := Fin 4 → Fin 4 → α

/-- Routines of libogc (`gu*`) and libm that `wiigl.c` calls. An output parameter becomes the
returned value; where the routine receives the destination's previous contents these are the
first argument. `f32_to_u8` is the conversion of a float to the `u8` field of a `GXColor`. -/
structure Ext (α : Type) where
  sinf : α → α
  cosf : α → α
  guVecNormalize : α × α × α → α × α × α
  guOrtho : Mtx44 α → α → α → α → α → α → α → Mtx44 α
  guFrustum : Mtx44 α → α → α → α → α → α → α → Mtx44 α
  guMtxInvXpose : Mtx44 α → Mtx44 α
  guMtxApplyTrans : Mtx44 α → α → α → α → Mtx44 α
  guMtxApplyScale : Mtx44 α → α → α → α → Mtx44 α
  f32_to_u8 : α → Nat

/-! ## Outcome of a call -/

/-- Outcome of an API call: it returns (`ok`) or it reaches `fatal_error` (`fatal`), which
prints the message and terminates the process; the state is that of the globals then. -/
inductive Result (σ : Type) where
  | ok (s : σ)
  | fatal (msg : String) (s : σ)

/-- Run `f` after a call that returned; a terminated process runs nothing more. -/
def Result.andThen {σ : Type} (r : Result σ) (f : σ → Result σ) : Result σ :=
  match r with
  | .ok s => f s
  | .fatal msg s => .fatal msg s

/-- The call reached `fatal_error`. -/
def Result.isFatal {σ : Type} : Result σ → Bool
  | .ok _ => false
  | .fatal _ _ => true

/-- The state in which the call returned or terminated. -/
def Result.state {σ : Type} : Result σ → σ
  | .ok s => s
  | .fatal _ s => s

/-! ## Data model -/

/-- The record `serverEnabled`; the one-bit fields are booleans, `clipPlanes` has 6 bits and
`lights` 8 bits. -/
structure ServerEnabled where
  alphaTest : Bool
  blend : Bool
  clipPlanes : Nat
  colorMaterial : Bool
  cullFace : Bool
  depthTest : Bool
  lights : Nat
  lighting : Bool
  normalize : Bool
  polygonOffsetFill : Bool
  pointSprite : Bool
  stencilTest : Bool
  texture2d : Bool
  textureGenS : Bool
  textureGenT : Bool

/-- The record `clientEnabled`. -/
structure ClientEnabled where
  colorArray : Bool
  indexArray : Bool
  normalArray : Bool
  textureCoordArray : Bool
  vertexArray : Bool

/-- A `struct Buffer`: `data` is the address of the storage (0 is `NULL`), `size` a `u32`. -/
structure Buffer where
  data : Nat
  size : Nat

/-- A `struct VtxDesc`; `pointer` is an address. -/
structure VtxDesc where
  components : Int
  format : Int
  stride : Int
  pointer : Nat

/-- The library's `GXTexObj`, as the values its initialisers (`GX_InitTexObj`,
`GX_InitTexObjFilterMode`, `GX_InitTexObjWrapMode`) store and `GX_GetTexObjAll` reads back. -/
structure TexObj where
  image : Option (List Nat) := none
  width : Nat := 0
  height : Nat := 0
  format : Nat := 0
  wrap_s : Nat := 0
  wrap_t : Nat := 0
  mipmap : Nat := 0
  minfilt : Nat := 0
  magfilt : Nat := 0

/-- A `struct Texture`. `imgBuffer` is the converted image (`none` is `NULL`), one entry per
16-bit texel; `texObj` is the library's `GXTexObj`. -/
structure Texture where
  initialized : Bool
  imgBuffer : Option (List Nat)
  magFilter : Nat
  minFilter : Nat
  texObj : TexObj := {}

/-- A `struct MatrixStack`. The C array `stack` has `MTX_STACK_LIMIT` entries, indices
`0..15`; reading or writing any other index is undefined in C. -/
structure MatrixStack (α : Type) where
  stack : Int → Mtx44 α
  stackPos : Int

/-- The three matrix stacks `currMtxStack` can point to. -/
inductive StackRef where
  | modelview
  | proj
  | texture
  deriving DecidableEq

/-- A call into the GX library, with its arguments. A matrix argument is recorded as the
`Mtx44` the passed pointer refers to; a `GXTexObj *` as the handle of its texture; a
`GXLightObj *` as its index in `lightObj`; a frame buffer as its index in `frameBuffers`.
`SetVcdNrms` is the store to `__gx->vcdNrms`; `VideoSetup` stands for the calls by which
`initialize_video` sets up the video mode, the frame buffers, the FIFO, the viewport and the
display copy; `WaitVSync` and `SetNextFramebuffer` are the `VIDEO_*` calls of
`wiigl_swap_buffers`. -/
inductive GXCall (α : Type) where
  | LoadPosMtxImm (m : Mtx44 α) (pnidx : Int)
  | LoadNrmMtxImm (m : Mtx44 α) (pnidx : Int)
  | LoadProjectionMtx (m : Mtx44 α) (type : Int)
  | LoadTexMtxImm (m : Mtx44 α) (texidx : Int) (type : Int)
  | LoadTexObj (tex : Nat) (mapid : Int)
  | SetTevColor (tev_regid : Int) (r g b a : Nat)
  | SetTevColorIn (tevstage a b c d : Int)
  | SetTevAlphaIn (tevstage a b c d : Int)
  | SetTevColorOp (tevstage tevop tevbias tevscale clamp tevregid : Int)
  | SetTevAlphaOp (tevstage tevop tevbias tevscale clamp tevregid : Int)
  | InvVtxCache
  | Begin (primitive : Int) (vtxfmt : Int) (vtxcnt : Nat)
  | Position1x16 (index : Nat)
  | Normal1x16 (index : Nat)
  | Color1x16 (index : Nat)
  | TexCoord1x16 (index : Nat)
  | End
  | SetVtxDesc (attr type : Int)
  | SetVtxAttrFmt (vtxfmt vtxattr comptype compsize : Int) (frac : Nat)
  | SetArray (attr : Int) (ptr : Nat) (stride : Int)
  | SetCullMode (mode : Int)
  | SetZMode (enable func update_enable : Int)
  | SetChanCtrl (channel enable ambsrc matsrc litmask diff_fn attn_fn : Int)
  | SetNumChans (num : Int)
  | SetNumTevStages (num : Int)
  | SetNumTexGens (num : Int)
  | SetTexCoordGen (texcoord tgen_typ tgen_src mtxsrc : Int)
  | ClearVtxDesc
  | SetVcdNrms (value : Nat)
  | VideoSetup
  | SetBlendMode (type src_fact dst_fact op : Int)
  | SetAlphaUpdate (enable : Int)
  | SetColorUpdate (enable : Int)
  | SetCopyClear (r g b a : Nat) (zvalue : Nat)
  | DrawDone
  | WaitVSync
  | CopyDisp (frameBuffer : Nat) (clear : Int)
  | SetNextFramebuffer (frameBuffer : Nat)
  | SetTevOrder (tevstage texcoord texmap color : Int)
  | SetChanAmbColor (channel : Int) (r g b a : Nat)
  | SetChanMatColor (channel : Int) (r g b a : Nat)
  | InitTexObj (tex : Nat) (img : Option (List Nat)) (wd ht : Nat) (fmt wrap_s wrap_t mipmap : Int)
  | InitTexObjFilterMode (tex : Nat) (minfilt magfilt : Nat)
  | InitTexObjWrapMode (tex : Nat) (wrap_s wrap_t : Nat)
  | GetTexObjAll (tex : Nat)
  | InvalidateTexAll
  | InitLightPos (light : Int) (x y z : α)
  | InitLightColor (light : Int) (r g b a : Nat)
  | LoadLightObj (light : Int) (lit_id : Nat)
  | SetPointSize (width : Nat) (fmt : Int)

/-- The global variables of `wiigl.c`, the memory they point into, and the trace of GX calls.

* `mem` is byte-addressed memory (client arrays and buffer storage);
* `buffers` and `textures` give the heap objects behind a handle, handle 0 being `NULL`;
* `boundBuffers 0` is the array binding, `boundBuffers 1` the element-array binding. -/
structure Context (α : Type) where
  initialized : Bool
  serverEnabled : ServerEnabled
  clientEnabled : ClientEnabled
  mem : Nat → Nat
  buffers : Nat → Buffer
  boundBuffers : Fin 2 → Nat
  posDesc : VtxDesc
  colorDesc : VtxDesc
  texCoordDesc : VtxDesc
  nrmDesc : VtxDesc
  textures : Nat → Texture
  boundTexture : Nat
  modelviewMtxStack : MatrixStack α
  projMtxStack : MatrixStack α
  textureMtxStack : MatrixStack α
  currMtxStack : StackRef
  matrixMode : Int
  zEnable : Nat
  zFunc : Nat
  zUpdate : Nat
  cullMode : Nat
  polyOffsFactor : α
  polyOffsUnits : α
  hw : List (GXCall α)
  frameBufferNum : Nat := 0

section Ops

variable {α : Type}

/-- The stack `*currMtxStack`. -/
def Context.curr (s : Context α) : MatrixStack α :=
  match s.currMtxStack with
  | .modelview => s.modelviewMtxStack
  | .proj => s.projMtxStack
  | .texture => s.textureMtxStack

/-- Store into `*currMtxStack`. -/
def Context.setCurr (s : Context α) (ms : MatrixStack α) : Context α :=
  match s.currMtxStack with
  | .modelview => { s with modelviewMtxStack := ms }
  | .proj => { s with projMtxStack := ms }
  | .texture => { s with textureMtxStack := ms }

/-- The macro `CURR_MATRIX`, read. -/
def CURR_MATRIX (s : Context α) : Mtx44 α :=
  s.curr.stack s.curr.stackPos

/-- The macro `CURR_MATRIX`, written. -/
def setCURR_MATRIX (s : Context α) (m : Mtx44 α) : Context α :=
  s.setCurr { s.curr with stack := Function.update s.curr.stack s.curr.stackPos m }

/-- Append one GX call to the trace. -/
def Context.emit (s : Context α) (c : GXCall α) : Context α :=
  { s with hw := s.hw ++ [c] }

/-- Function `gl_enum_to_gx`: `none` when the `default:` branch reaches `fatal_error`. -/
def gl_enum_to_gx (gx : GXConsts) (n : Int) : Option Int :=
  if n = GL_BYTE then some gx.GX_S8
  else if n = GL_UNSIGNED_BYTE then some gx.GX_U8
  else if n = GL_SHORT then some gx.GX_S16
  else if n = GL_UNSIGNED_SHORT then some gx.GX_U16
  else if n = GL_FLOAT then some gx.GX_F32
  else if n = GL_POINTS then some gx.GX_POINTS
  else if n = GL_LINE_STRIP then some gx.GX_LINESTRIP
  else if n = GL_TRIANGLES then some gx.GX_TRIANGLES
  else if n = GL_TRIANGLE_STRIP then some gx.GX_TRIANGLESTRIP
  else if n = GL_QUADS then some gx.GX_QUADS
  else if n = GL_NEVER then some gx.GX_NEVER
  else if n = GL_LESS then some gx.GX_LESS
  else if n = GL_EQUAL then some gx.GX_EQUAL
  else if n = GL_LEQUAL then some gx.GX_LEQUAL
  else if n = GL_GREATER then some gx.GX_GREATER
  else if n = GL_NOTEQUAL then some gx.GX_NEQUAL
  else if n = GL_GEQUAL then some gx.GX_GEQUAL
  else if n = GL_ALWAYS then some gx.GX_ALWAYS
  else if n = GL_CLAMP_TO_EDGE then some gx.GX_CLAMP
  else if n = GL_MIRRORED_REPEAT then some gx.GX_MIRROR
  else if n = GL_REPEAT then some gx.GX_REPEAT
  else if n = GL_NEAREST then some gx.GX_NEAR
  else if n = GL_LINEAR then some gx.GX_LINEAR
  else if n = GL_NEAREST_MIPMAP_NEAREST then some gx.GX_NEAR_MIP_NEAR
  else if n = GL_LINEAR_MIPMAP_NEAREST then some gx.GX_LIN_MIP_NEAR
  else if n = GL_NEAREST_MIPMAP_LINEAR then some gx.GX_NEAR_MIP_LIN
  else if n = GL_LINEAR_MIPMAP_LINEAR then some gx.GX_LIN_MIP_LIN
  else if n = GL_FRONT then some gx.GX_CULL_BACK
  else if n = GL_BACK then some gx.GX_CULL_FRONT
  else if n = GL_FRONT_AND_BACK then some gx.GX_CULL_ALL
  else none

/-- Function `round_up`, in `u32` arithmetic. -/
def round_up (number multiple : Nat) : Nat :=
  ((number + multiple + (2 ^ 32 - 1)) % 2 ^ 32 / multiple * multiple) % 2 ^ 32

/-! ### Matrix stack -/

/-- Function `glMatrixMode`. -/
def glMatrixMode (mode : Int) (s : Context α) : Result (Context α) :=
  let s1 := { s with matrixMode := mode }
  if mode = GL_MODELVIEW then .ok { s1 with currMtxStack := .modelview }
  else if mode = GL_PROJECTION then .ok { s1 with currMtxStack := .proj }
  else if mode = GL_TEXTURE then .ok { s1 with currMtxStack := .texture }
  else if mode = GL_COLOR then .fatal "glMatrixMode: color not implemented" s1
  else .fatal "glMatrixMode: invalid mode" s1

/-- Function `glPushMatrix`. -/
def glPushMatrix (s : Context α) : Result (Context α) :=
  if s.curr.stackPos + 1 ≥ MTX_STACK_LIMIT then
    .fatal "glPushMatrix: stack overflow" s
  else
    .ok (s.setCurr
      { stack := Function.update s.curr.stack (s.curr.stackPos + 1) (s.curr.stack s.curr.stackPos)
        stackPos := s.curr.stackPos + 1 })

/-- Function `load_curr_matrix`. The cache flush `flush_mem_range` changes nothing in the
modelled state. For a `matrixMode` outside the four cases the `switch` does nothing. -/
def load_curr_matrix (gx : GXConsts) (ext : Ext α) (s : Context α) : Result (Context α) :=
  if s.matrixMode = GL_MODELVIEW then
    .ok ((s.emit (.LoadPosMtxImm (CURR_MATRIX s) gx.GX_PNMTX0)).emit
      (.LoadNrmMtxImm (ext.guMtxInvXpose (CURR_MATRIX s)) gx.GX_PNMTX0))
  else if s.matrixMode = GL_PROJECTION then
    .ok (s.emit (.LoadProjectionMtx (CURR_MATRIX s) gx.GX_PERSPECTIVE))
  else if s.matrixMode = GL_TEXTURE then
    .ok (s.emit (.LoadTexMtxImm (CURR_MATRIX s) gx.GX_TEXMTX0 gx.GX_MTX2x4))
  else if s.matrixMode = GL_COLOR then
    .fatal "TODO: implement color matrix" s
  else .ok s

/-- Function `mult_mtx44`; the result is returned, which covers the aliasing of `res` with
an argument that the C code handles through `tmp`. -/
def mult_mtx44 [Add α] [Mul α] (a b : Mtx44 α) : Mtx44 α :=
  fun r c => a r 0 * b 0 c + a r 1 * b 1 c + a r 2 * b 2 c + a r 3 * b 3 c

/-- Function `glPopMatrix`: the decrement comes before the check. -/
def glPopMatrix (gx : GXConsts) (ext : Ext α) (s : Context α) : Result (Context α) :=
  let s1 := s.setCurr { s.curr with stackPos := s.curr.stackPos - 1 }
  if s1.curr.stackPos < 0 then
    .fatal "glPopMatrix: stack underflow" s1
  else load_curr_matrix gx ext s1

variable [Field α]

/-- Function `glLoadIdentity`. -/
def glLoadIdentity (gx : GXConsts) (ext : Ext α) (s : Context α) : Result (Context α) :=
  let m : Mtx44 α := ![![1, 0, 0, 0], ![0, 1, 0, 0], ![0, 0, 1, 0], ![0, 0, 0, 1]]
  load_curr_matrix gx ext (setCURR_MATRIX s m)

/-- Function `glLoadMatrixf`; `m` is the array of 16 floats behind the pointer. -/
def glLoadMatrixf (gx : GXConsts) (ext : Ext α) (m : Nat → α) (s : Context α) :
    Result (Context α) :=
  load_curr_matrix gx ext (setCURR_MATRIX s (fun r c => m (c.val * 4 + r.val)))

/-- Function `glMultMatrixf`. -/
def glMultMatrixf (gx : GXConsts) (ext : Ext α) (m : Nat → α) (s : Context α) :
    Result (Context α) :=
  let mtx : Mtx44 α := fun r c => m (c.val * 4 + r.val)
  load_curr_matrix gx ext (setCURR_MATRIX s (mult_mtx44 (CURR_MATRIX s) mtx))

/-- Function `glTranslatef`. -/
def glTranslatef (gx : GXConsts) (ext : Ext α) (x y z : α) (s : Context α) :
    Result (Context α) :=
  let m : Mtx44 α := ![![1, 0, 0, x], ![0, 1, 0, y], ![0, 0, 1, z], ![0, 0, 0, 1]]
  load_curr_matrix gx ext (setCURR_MATRIX s (mult_mtx44 (CURR_MATRIX s) m))

/-- Function `glScalef`. -/
def glScalef (gx : GXConsts) (ext : Ext α) (x y z : α) (s : Context α) :
    Result (Context α) :=
  let m : Mtx44 α := ![![x, 0, 0, 0], ![0, y, 0, 0], ![0, 0, z, 0], ![0, 0, 0, 1]]
  load_curr_matrix gx ext (setCURR_MATRIX s (mult_mtx44 (CURR_MATRIX s) m))

/-- The matrix `m` that `glRotatef` builds from the normalised axis and the sine and cosine
of the angle. -/
def rotationMtx (x y z s c : α) : Mtx44 α :=
  let xsq := x * x
  let ysq := y * y
  let zsq := z * z
  let xy := x * y
  let xz := x * z
  let yz := y * z
  ![![xsq*(1-c)+c, xy*(1-c)-z*s, xz*(1-c)+y*s, 0],
    ![xy*(1-c)+z*s, ysq*(1-c)+c, yz*(1-c)-x*s, 0],
    ![xz*(1-c)-y*s, yz*(1-c)+x*s, zsq*(1-c)+c, 0],
    ![0, 0, 0, 1]]

/-- Function `glRotatef`. -/
def glRotatef (gx : GXConsts) (ext : Ext α) (angle x y z : α) (s : Context α) :
    Result (Context α) :=
  let axis := ext.guVecNormalize (x, y, z)
  let angle := angle * 3.14159265359 / 180.0
  let m := rotationMtx axis.1 axis.2.1 axis.2.2 (ext.sinf angle) (ext.cosf angle)
  load_curr_matrix gx ext (setCURR_MATRIX s (mult_mtx44 (CURR_MATRIX s) m))

/-- Function `glOrtho`. The matrix filled in by hand is handed to `guOrtho`, which writes
the matrix that is then multiplied in. -/
def glOrtho (gx : GXConsts) (ext : Ext α) (left right bottom top nearVal farVal : α)
    (s : Context α) : Result (Context α) :=
  let tx := -(right + left) / (right - left)
  let ty := -(top + bottom) / (top - bottom)
  let tz := -(farVal + nearVal) / (farVal - nearVal)
  let mtx0 : Mtx44 α :=
    ![![2.0 / (right - left), 0, 0, tx],
      ![0, 2.0 / (top - bottom), 0, ty],
      ![0, 0, -2.0 / (farVal - nearVal), tz],
      ![0, 0, 0, 1.0]]
  let mtx := ext.guOrtho mtx0 top bottom left right nearVal farVal
  let s1 := setCURR_MATRIX s (mult_mtx44 (CURR_MATRIX s) mtx)
  if s1.matrixMode = GL_PROJECTION then
    .ok (s1.emit (.LoadProjectionMtx (CURR_MATRIX s1) gx.GX_ORTHOGRAPHIC))
  else load_curr_matrix gx ext s1

/-- Function `glFrustum`. -/
def glFrustum (gx : GXConsts) (ext : Ext α) (left right bottom top nearVal farVal : α)
    (s : Context α) : Result (Context α) :=
  load_curr_matrix gx ext
    (setCURR_MATRIX s (ext.guFrustum (CURR_MATRIX s) top bottom left right nearVal farVal))

/-! ### Buffer objects -/

/-- Function `get_buffer`: the handle in the binding slot, `none` when the `default:` branch
reaches `fatal_error`. -/
def get_buffer (target : Int) (s : Context α) : Option Nat :=
  if target = GL_ARRAY_BUFFER then some (s.boundBuffers 0)
  else if target = GL_ELEMENT_ARRAY_BUFFER then some (s.boundBuffers 1)
  else none

/-- Library routine `memcpy dst src n` on byte-addressed memory. -/
def memcpy (mem : Nat → Nat) (dst src n : Nat) : Nat → Nat :=
  fun a => if dst ≤ a ∧ a < dst + n then mem (src + (a - dst)) else mem a

/-- The address `base + off` of 32-bit pointer arithmetic. -/
def ptr_add (base : Nat) (off : Int) : Nat :=
  (((base : Int) + off) % 2 ^ 32).toNat

/-- Function `glBufferSubData`. `offset` is a `GLintptr` (`intptr_t`, signed 32 bits), `size`
a `GLsizeiptr` (`uintptr_t`, unsigned 32 bits) and `data` an address. The sum
`offset + size` is formed in unsigned 32-bit arithmetic before it is compared with the `u32`
field `size` of the buffer. -/
def glBufferSubData (target : Int) (offset : Int) (size : Nat) (data : Nat) (s : Context α) :
    Result (Context α) :=
  match get_buffer target s with
  | none => .fatal "bad buffer target" s
  | some buf =>
    if buf = 0 ∨ (s.buffers buf).data = 0 then
      .fatal "glBufferSubData: buffer has not been initialized" s
    else if (offset + (size : Int)) % 2 ^ 32 > ((s.buffers buf).size : Int) then
      .fatal "glBufferSubData: offset + size is too large" s
    else
      .ok { s with mem := memcpy s.mem (ptr_add (s.buffers buf).data offset) data size }

/-! ### Vertex attribute pointers -/

/-- Conversion of a `u32` (`GLsizei`) to `int`. -/
def u32_to_int (n : Nat) : Int :=
  ((n : Int) + 2 ^ 31) % 2 ^ 32 - 2 ^ 31

/-- The address stored in a descriptor: relative to the storage of the buffer bound to
`GL_ARRAY_BUFFER` when there is one, the argument itself otherwise. -/
def resolve_pointer (pointer : Nat) (s : Context α) : Nat :=
  if s.boundBuffers 0 ≠ 0 then ((s.buffers (s.boundBuffers 0)).data + pointer) % 2 ^ 32
  else pointer

/-- Function `glVertexPointer`. -/
def glVertexPointer (gx : GXConsts) (size : Int) (type : Int) (stride : Nat) (pointer : Nat)
    (s : Context α) : Result (Context α) :=
  if size ≠ 2 ∧ size ≠ 3 then .fatal "glVertexPointer: invalid size" s
  else
    let size := if size = 2 then gx.GX_POS_XY else gx.GX_POS_XYZ
    match gl_enum_to_gx gx type with
    | none => .fatal "unknown GL enum" s
    | some type =>
      let d : VtxDesc :=
        { components := size, format := type, stride := u32_to_int stride,
          pointer := resolve_pointer pointer s }
      let s1 := { s with posDesc := d }
      .ok (((s1.emit (.SetVtxDesc gx.GX_VA_POS gx.GX_INDEX16)).emit
        (.SetVtxAttrFmt gx.GX_VTXFMT0 gx.GX_VA_POS d.components d.format 0)).emit
        (.SetArray gx.GX_VA_POS d.pointer (d.stride % 256)))

/-- Function `glColorPointer`. -/
def glColorPointer (gx : GXConsts) (size : Int) (type : Int) (stride : Nat) (pointer : Nat)
    (s : Context α) : Result (Context α) :=
  if size ≠ 3 ∧ size ≠ 4 then .fatal "glColorPointer: invalid size" s
  else
    let size := if size = 3 then gx.GX_CLR_RGB else gx.GX_CLR_RGBA
    match gl_enum_to_gx gx type with
    | none => .fatal "unknown GL enum" s
    | some type =>
      let conv : Option Int :=
        if type = gx.GX_U8 then
          if size = gx.GX_CLR_RGB then some gx.GX_RGB8
          else if size = gx.GX_CLR_RGBA then some gx.GX_RGBA8
          else none
        else if type = gx.GX_F32 then some type
        else none
      match conv with
      | none => .fatal "glColorPointer: invalid type" s
      | some type =>
        let d : VtxDesc :=
          { components := size, format := type, stride := u32_to_int stride,
            pointer := resolve_pointer pointer s }
        let s1 := { s with colorDesc := d }
        .ok ((s1.emit
          (.SetVtxAttrFmt gx.GX_VTXFMT0 gx.GX_VA_CLR0 d.components d.format 0)).emit
          (.SetArray gx.GX_VA_CLR0 d.pointer (d.stride % 256)))

/-- Function `glTexCoordPointer`. -/
def glTexCoordPointer (gx : GXConsts) (size : Int) (type : Int) (stride : Nat) (pointer : Nat)
    (s : Context α) : Result (Context α) :=
  if size ≠ 1 ∧ size ≠ 2 ∧ size ≠ 3 then .fatal "glTexCoordPointer: invalid size" s
  else
    let size := if size = 1 then gx.GX_TEX_S else if size = 2 then gx.GX_TEX_ST
      else gx.GX_TEX_ST
    match gl_enum_to_gx gx type with
    | none => .fatal "unknown GL enum" s
    | some type =>
      let d : VtxDesc :=
        { components := size, format := type, stride := u32_to_int stride,
          pointer := resolve_pointer pointer s }
      let s1 := { s with texCoordDesc := d }
      .ok ((s1.emit
        (.SetVtxAttrFmt gx.GX_VTXFMT0 gx.GX_VA_TEX0 d.components d.format 0)).emit
        (.SetArray gx.GX_VA_TEX0 d.pointer (d.stride % 256)))

/-- Function `glNormalPointer`. -/
def glNormalPointer (gx : GXConsts) (type : Int) (stride : Nat) (pointer : Nat)
    (s : Context α) : Result (Context α) :=
  match gl_enum_to_gx gx type with
  | none => .fatal "unknown GL enum" s
  | some type =>
    let d : VtxDesc :=
      { components := gx.GX_NRM_XYZ, format := type, stride := u32_to_int stride,
        pointer := resolve_pointer pointer s }
    let s1 := { s with nrmDesc := d }
    .ok ((s1.emit
      (.SetVtxAttrFmt gx.GX_VTXFMT0 gx.GX_VA_NRM d.components d.format 0)).emit
      (.SetArray gx.GX_VA_NRM d.pointer (d.stride % 256)))

/-! ### Drawing -/

/-- Function `setup_drawing`. -/
def setup_drawing (gx : GXConsts) (s : Context α) : Context α :=
  let vtxColorInput := if s.clientEnabled.colorArray then gx.GX_CC_RASC else gx.GX_CC_C0
  let vtxAlphaInput := if s.clientEnabled.colorArray then gx.GX_CA_RASA else gx.GX_CA_A0
  let texColorInput := if s.clientEnabled.textureCoordArray then gx.GX_CC_TEXC else gx.GX_CC_ONE
  let texAlphaInput := if s.clientEnabled.textureCoordArray then gx.GX_CA_TEXA else gx.GX_CA_A1
  let s1 := if s.clientEnabled.textureCoordArray then s
    else s.emit (.SetTevColor gx.GX_TEVREG1 255 255 255 255)
  (((s1.emit
    (.SetTevColorIn gx.GX_TEVSTAGE0 gx.GX_CC_ZERO vtxColorInput texColorInput gx.GX_CC_ZERO)).emit
    (.SetTevAlphaIn gx.GX_TEVSTAGE0 gx.GX_CA_ZERO vtxAlphaInput texAlphaInput gx.GX_CA_ZERO)).emit
    (.SetTevColorOp gx.GX_TEVSTAGE0 gx.GX_TEV_ADD gx.GX_TB_ZERO gx.GX_CS_SCALE_1 gx.GX_TRUE
      gx.GX_TEVPREV)).emit
    (.SetTevAlphaOp gx.GX_TEVSTAGE0 gx.GX_TEV_ADD gx.GX_TB_ZERO gx.GX_CS_SCALE_1 gx.GX_TRUE
      gx.GX_TEVPREV)

/-- The records one vertex contributes inside `GX_Begin`/`GX_End`: one indexed submission per
enabled client array, in the order position, normal, color, texture coordinate. The `int`
index becomes the `u16` argument of the `GX_*1x16` call. -/
def vertexRecords (ce : ClientEnabled) (index : Int) : List (GXCall α) :=
  (if ce.vertexArray then [GXCall.Position1x16 (index % 65536).toNat] else []) ++
  (if ce.normalArray then [GXCall.Normal1x16 (index % 65536).toNat] else []) ++
  (if ce.colorArray then [GXCall.Color1x16 (index % 65536).toNat] else []) ++
  (if ce.textureCoordArray then [GXCall.TexCoord1x16 (index % 65536).toNat] else [])

/-- Body of the vertex loop: submit one vertex. -/
def emitVertex (index : Int) (s : Context α) : Context α :=
  { s with hw := s.hw ++ vertexRecords s.clientEnabled index }

/-- A `u8` read from memory. -/
def load8 (mem : Nat → Nat) (a : Nat) : Nat :=
  mem a % 256

/-- A `u16` read from memory; the PowerPC is big-endian. -/
def load16 (mem : Nat → Nat) (a : Nat) : Nat :=
  mem a % 256 * 256 + mem (a + 1) % 256

/-- What both draw calls do before `GX_Begin`: load the bound texture, perturb the projection
for polygon offset, configure the TEV stage, invalidate the vertex cache. -/
def drawPrologue (gx : GXConsts) (ext : Ext α) (s : Context α) : Context α :=
  let s1 := if s.serverEnabled.texture2d ∧ s.boundTexture ≠ 0 then
      s.emit (.LoadTexObj s.boundTexture gx.GX_TEXMAP0)
    else s
  let s2 := if s1.serverEnabled.polygonOffsetFill then
      s1.emit (.LoadProjectionMtx
        (ext.guMtxApplyTrans (s1.projMtxStack.stack s1.projMtxStack.stackPos) 0 0
          (-s1.polyOffsUnits * 0.1)) gx.GX_PERSPECTIVE)
    else s1
  (setup_drawing gx s2).emit .InvVtxCache

/-- What both draw calls do after the vertex loop: `GX_End` and the reload of the projection
matrix when polygon offset is enabled. -/
def drawEpilogue (gx : GXConsts) (s : Context α) : Context α :=
  let s1 := s.emit .End
  if s1.serverEnabled.polygonOffsetFill then
    s1.emit (.LoadProjectionMtx (s1.projMtxStack.stack s1.projMtxStack.stackPos)
      gx.GX_PERSPECTIVE)
  else s1

/-- One iteration `i` of the loop of `glDrawElements`; `indices` is the address the index
pointers started from. -/
def drawElementsStep (type : Int) (indices : Nat) (s : Context α) (i : Nat) :
    Result (Context α) :=
  if type = GL_UNSIGNED_BYTE then .ok (emitVertex (load8 s.mem (indices + i)) s)
  else if type = GL_UNSIGNED_SHORT then .ok (emitVertex (load16 s.mem (indices + 2 * i)) s)
  else .fatal "glDrawElements: bad type parameter" s

/-- Function `glDrawElements`; `count` is a `GLsizei` (`u32`), `indices` an address or, with
an element-array buffer bound, a byte offset into its storage. -/
def glDrawElements (gx : GXConsts) (ext : Ext α) (mode : Int) (count : Nat) (type : Int)
    (indices : Nat) (s : Context α) : Result (Context α) :=
  match gl_enum_to_gx gx mode with
  | none => .fatal "unknown GL enum" s
  | some mode =>
    let s1 := drawPrologue gx ext s
    let indices := if s1.boundBuffers 1 ≠ 0 then
        ((s1.buffers (s1.boundBuffers 1)).data + indices) % 2 ^ 32
      else indices
    let s2 := s1.emit (.Begin (mode % 256) gx.GX_VTXFMT0 (count % 65536))
    Result.andThen
      ((List.range count).foldl
        (fun (r : Result (Context α)) i => r.andThen (fun t => drawElementsStep type indices t i))
        (Result.ok s2))
      (fun t => Result.ok (drawEpilogue gx t))

/-- Function `glDrawArrays`; `first` is a `GLint`, `count` a `GLsizei` (`u32`). -/
def glDrawArrays (gx : GXConsts) (ext : Ext α) (mode : Int) (first : Int) (count : Nat)
    (s : Context α) : Result (Context α) :=
  match gl_enum_to_gx gx mode with
  | none => .fatal "unknown GL enum" s
  | some mode =>
    let s1 := drawPrologue gx ext s
    let s2 := s1.emit (.Begin (mode % 256) gx.GX_VTXFMT0 (count % 65536))
    .ok (drawEpilogue gx
      ((List.range count).foldl (fun t i => emitVertex (first + (i : Int)) t) s2))

end Ops

/-! ### Texture conversion -/

/-- The 16-bit texel `pixel` that the loop body of `convert_to_rgb5a3` computes from the four
bytes of one RGBA pixel. -/
def rgb5a3_pixel (r8 g8 b8 a8 : Nat) : Nat :=
  if a8 = 255 then
    let r := (r8 >>> 3) &&& 31
    let g := (g8 >>> 3) &&& 31
    let b := (b8 >>> 3) &&& 31
    ((1 <<< 15) ||| (r <<< 10) ||| (g <<< 5) ||| b) % 2 ^ 16
  else
    let r := (r8 >>> 4) &&& 15
    let g := (g8 >>> 4) &&& 15
    let b := (b8 >>> 4) &&& 15
    let a := (a8 >>> 5) &&& 7
    ((a <<< 12) ||| (r <<< 8) ||| (g <<< 4) ||| b) % 2 ^ 16

/-- The index at which the loop body of `convert_to_rgb5a3` stores pixel `(x, y)`, in `u32`
arithmetic. -/
def texel_index (width x y : Nat) : Nat :=
  let blockCols := width / 4
  let blockX := x / 4
  let remX := x % 4
  let blockY := y / 4
  let remY := y % 4
  (16 * (blockX + blockY * blockCols) + (remY * 4 + remX)) % 2 ^ 32

/-- Function `convert_to_rgb5a3`. `data` is the `u8` array behind the pointer; the result is
the allocated buffer, one entry per `u16`. A store outside the buffer, undefined in C, is
dropped. -/
def convert_to_rgb5a3 (data : Nat → Nat) (width height : Nat) : List Nat :=
  let bufferWidth := round_up width 4
  let bufferHeight := round_up height 4
  let buffer := List.replicate ((bufferWidth * bufferHeight * 2) % 2 ^ 32 / 2) 0
  (List.range width).foldl
    (fun buffer x =>
      (List.range height).foldl
        (fun buffer y =>
          let p := (4 * (x + y * width)) % 2 ^ 32
          let pixel := rgb5a3_pixel (data (p + 0) % 256) (data (p + 1) % 256)
            (data (p + 2) % 256) (data (p + 3) % 256)
          buffer.set (texel_index width x y) pixel)
        buffer)
    buffer

section Api

variable {α : Type}

/-- Conversion of an `int` to `u8`. -/
def to_u8 (i : Int) : Nat :=
  (i % 256).toNat

/-! ### Capabilities -/

/-- Function `glEnable`. -/
def glEnable (gx : GXConsts) (cap : Int) (s : Context α) : Result (Context α) :=
  let se := s.serverEnabled
  if cap = GL_ALPHA_TEST then .ok { s with serverEnabled := { se with alphaTest := true } }
  else if cap = GL_BLEND then .ok { s with serverEnabled := { se with blend := true } }
  else if cap = GL_CLIP_PLANE0 ∨ cap = GL_CLIP_PLANE1 ∨ cap = GL_CLIP_PLANE2 ∨
      cap = GL_CLIP_PLANE3 ∨ cap = GL_CLIP_PLANE4 ∨ cap = GL_CLIP_PLANE5 then
    .ok { s with serverEnabled := { se with
      clipPlanes := (se.clipPlanes ||| (1 <<< (cap - GL_CLIP_PLANE0).toNat)) % 64 } }
  else if cap = GL_COLOR_MATERIAL then
    .ok { s with serverEnabled := { se with colorMaterial := true } }
  else if cap = GL_CULL_FACE then
    .ok ({ s with serverEnabled := { se with cullFace := true } }.emit
      (.SetCullMode s.cullMode))
  else if cap = GL_DEPTH_TEST then
    let s1 := { s with serverEnabled := { se with depthTest := true }, zEnable := to_u8 gx.GX_TRUE }
    .ok (s1.emit (.SetZMode s1.zEnable s1.zFunc s1.zUpdate))
  else if cap = GL_LIGHT0 ∨ cap = GL_LIGHT1 ∨ cap = GL_LIGHT2 ∨ cap = GL_LIGHT3 ∨
      cap = GL_LIGHT4 ∨ cap = GL_LIGHT5 ∨ cap = GL_LIGHT6 ∨ cap = GL_LIGHT7 then
    let lights := (se.lights ||| (1 <<< (cap - GL_LIGHT0).toNat)) % 256
    .ok ({ s with serverEnabled := { se with lights := lights } }.emit
      (.SetChanCtrl gx.GX_COLOR1A1 gx.GX_ENABLE gx.GX_SRC_REG gx.GX_SRC_REG lights
        gx.GX_DF_CLAMP gx.GX_AF_NONE))
  else if cap = GL_LIGHTING then
    .ok (({ s with serverEnabled := { se with lighting := true } }.emit
      (.SetNumChans 2)).emit (.SetNumTevStages 2))
  else if cap = GL_NORMALIZE then .ok { s with serverEnabled := { se with normalize := true } }
  else if cap = GL_POLYGON_OFFSET_FILL then
    .ok { s with serverEnabled := { se with polygonOffsetFill := true } }
  else if cap = GL_POINT_SPRITE then
    .ok { s with serverEnabled := { se with pointSprite := true } }
  else if cap = GL_STENCIL_TEST then
    .ok { s with serverEnabled := { se with stencilTest := true } }
  else if cap = GL_TEXTURE_2D then .ok { s with serverEnabled := { se with texture2d := true } }
  else if cap = GL_TEXTURE_GEN_S then
    .ok { s with serverEnabled := { se with textureGenS := true } }
  else if cap = GL_TEXTURE_GEN_T then
    .ok { s with serverEnabled := { se with textureGenT := true } }
  else .fatal "glEnable: unknown capability" s

/-- Function `glDisable`. The mask `~(1 << k)` is the 32-bit complement. -/
def glDisable (gx : GXConsts) (cap : Int) (s : Context α) : Result (Context α) :=
  let se := s.serverEnabled
  if cap = GL_ALPHA_TEST then .ok { s with serverEnabled := { se with alphaTest := false } }
  else if cap = GL_BLEND then .ok { s with serverEnabled := { se with blend := false } }
  else if cap = GL_CLIP_PLANE0 ∨ cap = GL_CLIP_PLANE1 ∨ cap = GL_CLIP_PLANE2 ∨
      cap = GL_CLIP_PLANE3 ∨ cap = GL_CLIP_PLANE4 ∨ cap = GL_CLIP_PLANE5 then
    .ok { s with serverEnabled := { se with
      clipPlanes :=
        (se.clipPlanes &&& (2 ^ 32 - 1 - (1 <<< (cap - GL_CLIP_PLANE0).toNat))) % 64 } }
  else if cap = GL_COLOR_MATERIAL then
    .ok { s with serverEnabled := { se with colorMaterial := false } }
  else if cap = GL_CULL_FACE then
    .ok ({ s with serverEnabled := { se with cullFace := false } }.emit
      (.SetCullMode gx.GX_CULL_NONE))
  else if cap = GL_DEPTH_TEST then
    let s1 := { s with serverEnabled := { se with depthTest := false },
                       zEnable := to_u8 gx.GX_FALSE }
    .ok (s1.emit (.SetZMode s1.zEnable s1.zFunc s1.zUpdate))
  else if cap = GL_LIGHT0 ∨ cap = GL_LIGHT1 ∨ cap = GL_LIGHT2 ∨ cap = GL_LIGHT3 ∨
      cap = GL_LIGHT4 ∨ cap = GL_LIGHT5 ∨ cap = GL_LIGHT6 ∨ cap = GL_LIGHT7 then
    let lights := (se.lights &&& (2 ^ 32 - 1 - (1 <<< (cap - GL_LIGHT0).toNat))) % 256
    .ok ({ s with serverEnabled := { se with lights := lights } }.emit
      (.SetChanCtrl gx.GX_COLOR1A1 gx.GX_ENABLE gx.GX_SRC_REG gx.GX_SRC_REG gx.GX_LIGHT0
        gx.GX_DF_CLAMP gx.GX_AF_NONE))
  else if cap = GL_LIGHTING then
    .ok (({ s with serverEnabled := { se with lighting := false } }.emit
      (.SetNumChans 1)).emit (.SetNumTevStages 1))
  else if cap = GL_NORMALIZE then .ok { s with serverEnabled := { se with normalize := false } }
  else if cap = GL_POLYGON_OFFSET_FILL then
    .ok { s with serverEnabled := { se with polygonOffsetFill := false } }
  else if cap = GL_POINT_SPRITE then
    .ok { s with serverEnabled := { se with pointSprite := false } }
  else if cap = GL_STENCIL_TEST then
    .ok { s with serverEnabled := { se with stencilTest := false } }
  else if cap = GL_TEXTURE_2D then
    .ok { s with serverEnabled := { se with texture2d := false } }
  else if cap = GL_TEXTURE_GEN_S then
    .ok { s with serverEnabled := { se with textureGenS := false } }
  else if cap = GL_TEXTURE_GEN_T then
    .ok ({ s with serverEnabled := { se with textureGenT := false } }.emit
      (.SetTexCoordGen gx.GX_TEXCOORD0 gx.GX_TG_MTX2x4 gx.GX_TG_TEX0 gx.GX_IDENTITY))
  else .fatal "glDisable: unknown capability" s

/-- Function `glEnableClientState`. -/
def glEnableClientState (gx : GXConsts) (cap : Int) (s : Context α) : Result (Context α) :=
  let ce := s.clientEnabled
  if cap = GL_COLOR_ARRAY then
    .ok ({ s with clientEnabled := { ce with colorArray := true } }.emit
      (.SetVtxDesc gx.GX_VA_CLR0 gx.GX_INDEX16))
  else if cap = GL_INDEX_ARRAY then
    .ok { s with clientEnabled := { ce with indexArray := true } }
  else if cap = GL_NORMAL_ARRAY then
    .ok ({ s with clientEnabled := { ce with normalArray := true } }.emit
      (.SetVtxDesc gx.GX_VA_NRM gx.GX_INDEX16))
  else if cap = GL_TEXTURE_COORD_ARRAY then
    .ok ({ s with clientEnabled := { ce with textureCoordArray := true } }.emit
      (.SetVtxDesc gx.GX_VA_TEX0 gx.GX_INDEX16))
  else if cap = GL_VERTEX_ARRAY then
    .ok ({ s with clientEnabled := { ce with vertexArray := true } }.emit
      (.SetVtxDesc gx.GX_VA_POS gx.GX_INDEX16))
  else .fatal "glEnableClientState: invalid capability" s

/-- Function `glDisableClientState`. -/
def glDisableClientState (gx : GXConsts) (cap : Int) (s : Context α) : Result (Context α) :=
  let ce := s.clientEnabled
  if cap = GL_COLOR_ARRAY then
    .ok ({ s with clientEnabled := { ce with colorArray := false } }.emit
      (.SetVtxDesc gx.GX_VA_CLR0 gx.GX_NONE))
  else if cap = GL_INDEX_ARRAY then
    .ok { s with clientEnabled := { ce with indexArray := false } }
  else if cap = GL_NORMAL_ARRAY then
    .ok (({ s with clientEnabled := { ce with normalArray := false } }.emit
      (.SetVtxDesc gx.GX_VA_NRM gx.GX_NONE)).emit (.SetVcdNrms 0))
  else if cap = GL_TEXTURE_COORD_ARRAY then
    .ok ({ s with clientEnabled := { ce with textureCoordArray := false } }.emit
      (.SetVtxDesc gx.GX_VA_TEX0 gx.GX_NONE))
  else if cap = GL_VERTEX_ARRAY then
    .ok ({ s with clientEnabled := { ce with vertexArray := false } }.emit
      (.SetVtxDesc gx.GX_VA_POS gx.GX_NONE))
  else .fatal "glDisableClientState: invalid capability" s

/-! ### Buffer objects, continued -/

/-- A big-endian `u32` store in byte-addressed memory. -/
def store32 (mem : Nat → Nat) (a v : Nat) : Nat → Nat :=
  fun b =>
    if b = a then v / 2 ^ 24 % 256
    else if b = a + 1 then v / 2 ^ 16 % 256
    else if b = a + 2 then v / 2 ^ 8 % 256
    else if b = a + 3 then v % 256
    else mem b

/-- Function `set_buffer`. -/
def set_buffer (target : Int) (buf : Nat) (s : Context α) : Result (Context α) :=
  if target = GL_ARRAY_BUFFER then
    .ok { s with boundBuffers := Function.update s.boundBuffers 0 buf }
  else if target = GL_ELEMENT_ARRAY_BUFFER then
    .ok { s with boundBuffers := Function.update s.boundBuffers 1 buf }
  else .fatal "bad buffer target" s

/-- Function `glGenBuffers`. `fresh i` is the address `malloc` returns in iteration `i`,
taken to be non-null; the handle is stored in the `GLuint` array at `buffers`. -/
def glGenBuffers (n : Nat) (buffers : Nat) (fresh : Nat → Nat) (s : Context α) :
    Result (Context α) :=
  .ok ((List.range n).foldl
    (fun t i =>
      { t with
        buffers := Function.update t.buffers (fresh i) { data := 0, size := 0 }
        mem := store32 t.mem (buffers + 4 * i) (fresh i) })
    s)

/-- Function `glDeleteBuffers`. It only calls `free`: no global and no byte of memory
changes, the released objects may just no longer be used. -/
def glDeleteBuffers (_n : Nat) (_buffers : Nat) (s : Context α) : Result (Context α) :=
  .ok s

/-- Function `glBindBuffer`. -/
def glBindBuffer (target : Int) (buffer : Nat) (s : Context α) : Result (Context α) :=
  set_buffer target buffer s

/-- Function `glBufferData`. `size` is a `GLsizeiptr` (`u32`), `data` an address (0 is
`NULL`) and `newData` the address `malloc(size)` returns; `free` and the cache flush change
nothing in the modelled state. -/
def glBufferData (target : Int) (size : Nat) (data : Nat) (_usage : Int) (newData : Nat)
    (s : Context α) : Result (Context α) :=
  match get_buffer target s with
  | none => .fatal "bad buffer target" s
  | some buf =>
    if buf ≠ 0 then
      let s1 := { s with buffers := Function.update s.buffers buf { data := newData, size := size } }
      if data ≠ 0 then .ok { s1 with mem := memcpy s1.mem newData data size }
      else .ok s1
    else .ok s

/-! ### Textures -/

/-- Function `glGenTextures`. `fresh i` is the address `malloc` returns in iteration `i`,
taken to be non-null; the `GXTexObj` of the new object is not initialised. -/
def glGenTextures (gx : GXConsts) (n : Nat) (textures : Nat) (fresh : Nat → Nat)
    (s : Context α) : Result (Context α) :=
  .ok ((List.range n).foldl
    (fun t i =>
      { t with
        textures := Function.update t.textures (fresh i)
          { t.textures (fresh i) with
            imgBuffer := none, initialized := false,
            magFilter := to_u8 gx.GX_LINEAR, minFilter := to_u8 gx.GX_LINEAR }
        mem := store32 t.mem (textures + 4 * i) (fresh i) })
    s)

/-- Function `glDeleteTextures`. It only calls `free`: no global and no byte of memory
changes. -/
def glDeleteTextures (_n : Nat) (_textures : Nat) (s : Context α) : Result (Context α) :=
  .ok s

/-- The buffer `temp` that `glTexImage2D` fills: for `x` from 0 to `width - 1` and, inside,
`y` from 0 to `height - 1`, the four bytes `px x y` are stored at index
`4 * (x + y * width)` (in `u32` arithmetic) and the three following. The contents `malloc`
leaves in the buffer are taken as 0. -/
def fill_temp (width height : Nat) (px : Nat → Nat → Nat × Nat × Nat × Nat) : Nat → Nat :=
  (List.range width).foldl
    (fun temp x =>
      (List.range height).foldl
        (fun temp y =>
          let p := (4 * (x + y * width)) % 2 ^ 32
          Function.update (Function.update (Function.update (Function.update temp
            (p + 0) (px x y).1) (p + 1) (px x y).2.1) (p + 2) (px x y).2.2.1)
            (p + 3) (px x y).2.2.2)
        temp)
    (fun _ => 0)

/-- The RGBA buffer `glTexImage2D` hands to `convert_to_rgb5a3`, `none` for an
`internalformat` that reaches the `default:` branch. `src i` is the byte `data8[i]`; the
indices are formed in `u32` arithmetic. -/
def texture_source (internalformat : Int) (width height : Nat) (src : Nat → Nat) :
    Option (Nat → Nat) :=
  if internalformat = GL_ALPHA then
    some (fill_temp width height fun x y =>
      (0, 0, 0, src ((x + y * width) % 2 ^ 32)))
  else if internalformat = GL_LUMINANCE then
    some (fill_temp width height fun x y =>
      let lum := src ((x + y * width) % 2 ^ 32)
      (lum, lum, lum, 0xFF))
  else if internalformat = GL_LUMINANCE_ALPHA then
    some (fill_temp width height fun x y =>
      let lum := src ((2 * (x + y * width) + 0) % 2 ^ 32)
      let alpha := src ((2 * (x + y * width) + 1) % 2 ^ 32)
      (lum, lum, lum, alpha))
  else if internalformat = GL_RGB then
    some (fill_temp width height fun x y =>
      (src ((3 * (x + y * width) + 0) % 2 ^ 32), src ((3 * (x + y * width) + 1) % 2 ^ 32),
        src ((3 * (x + y * width) + 2) % 2 ^ 32), 0xFF))
  else if internalformat = GL_RGBA then some src
  else none

/-- Function `glTexImage2D`. `width` and `height` are `GLsizei` (`u32`), `data` is an
address. The allocations (`malloc`, `memalign`) are taken to succeed, so the final check of
`imgBuffer` against `NULL` passes. -/
def glTexImage2D (gx : GXConsts) (_target : Int) (_level : Int) (internalformat : Int)
    (width height : Nat) (_border : Int) (_format : Int) (type : Int) (data : Nat)
    (s : Context α) : Result (Context α) :=
  if s.boundTexture = 0 then .fatal "glTexImage2D: no texture is bound" s
  else if type ≠ GL_UNSIGNED_BYTE then .fatal "glTexImage2D: unsupported type" s
  else
    match texture_source internalformat width height (fun i => load8 s.mem (data + i)) with
    | none => .fatal "glTexImage2D: unknown format" s
    | some canonical =>
      let h := s.boundTexture
      let tex := s.textures h
      let img := convert_to_rgb5a3 canonical width height
      let tex1 : Texture :=
        { tex with
          imgBuffer := some img
          initialized := true
          texObj :=
            { image := some img, width := width % 65536, height := height % 65536,
              format := to_u8 gx.GX_TF_RGB5A3, wrap_s := to_u8 gx.GX_CLAMP,
              wrap_t := to_u8 gx.GX_CLAMP, mipmap := to_u8 gx.GX_FALSE,
              minfilt := tex.minFilter, magfilt := tex.magFilter } }
      .ok ((({ s with textures := Function.update s.textures h tex1 }.emit
        (.InitTexObj h (some img) (width % 65536) (height % 65536) gx.GX_TF_RGB5A3 gx.GX_CLAMP
          gx.GX_CLAMP gx.GX_FALSE)).emit
        (.InitTexObjFilterMode h tex.minFilter tex.magFilter)).emit .InvalidateTexAll)

/-- Function `glBindTexture`. -/
def glBindTexture (target : Int) (texture : Nat) (s : Context α) : Result (Context α) :=
  if target ≠ GL_TEXTURE_2D then .fatal "glBindTexture: invalid texture type" s
  else .ok { s with boundTexture := texture }

/-- Function `glTexParameteri`. -/
def glTexParameteri (gx : GXConsts) (_target : Int) (pname : Int) (param : Int)
    (s : Context α) : Result (Context α) :=
  if s.boundTexture = 0 then .fatal "glTexParameteri: no texture is bound" s
  else
    let h := s.boundTexture
    let tex := s.textures h
    let s0 := s.emit (.GetTexObjAll h)
    let wrapS := tex.texObj.wrap_s
    let wrapT := tex.texObj.wrap_t
    if pname = GL_TEXTURE_MAG_FILTER then
      match gl_enum_to_gx gx param with
      | none => .fatal "unknown GL enum" s0
      | some v =>
        let tex1 : Texture :=
          { tex with
            magFilter := to_u8 v
            texObj := { tex.texObj with minfilt := tex.minFilter, magfilt := to_u8 v } }
        .ok ({ s0 with textures := Function.update s0.textures h tex1 }.emit
          (.InitTexObjFilterMode h tex.minFilter (to_u8 v)))
    else if pname = GL_TEXTURE_MIN_FILTER then
      match gl_enum_to_gx gx param with
      | none => .fatal "unknown GL enum" s0
      | some v =>
        let tex1 : Texture :=
          { tex with
            minFilter := to_u8 v
            texObj := { tex.texObj with minfilt := to_u8 v, magfilt := tex.magFilter } }
        .ok ({ s0 with textures := Function.update s0.textures h tex1 }.emit
          (.InitTexObjFilterMode h (to_u8 v) tex.magFilter))
    else if pname = GL_TEXTURE_WRAP_S then
      match gl_enum_to_gx gx param with
      | none => .fatal "unknown GL enum" s0
      | some v =>
        let tex1 : Texture :=
          { tex with texObj := { tex.texObj with wrap_s := to_u8 v, wrap_t := wrapT } }
        .ok ({ s0 with textures := Function.update s0.textures h tex1 }.emit
          (.InitTexObjWrapMode h (to_u8 v) wrapT))
    else if pname = GL_TEXTURE_WRAP_T then
      match gl_enum_to_gx gx param with
      | none => .fatal "unknown GL enum" s0
      | some v =>
        let tex1 : Texture :=
          { tex with texObj := { tex.texObj with wrap_s := wrapS, wrap_t := to_u8 v } }
        .ok ({ s0 with textures := Function.update s0.textures h tex1 }.emit
          (.InitTexObjWrapMode h wrapS (to_u8 v)))
    else .fatal "glTexParameteri: unknown pname" s0

/-! ### Colours, materials, lights and fixed-function state -/

/-- Function `glClearColor`. -/
def glClearColor (ext : Ext α) [Mul α] [OfNat α 255] (red green blue alpha : α)
    (s : Context α) : Result (Context α) :=
  .ok (s.emit (.SetCopyClear (ext.f32_to_u8 (red * 255)) (ext.f32_to_u8 (green * 255))
    (ext.f32_to_u8 (blue * 255)) (ext.f32_to_u8 (alpha * 255)) 0x00FFFFFF))

/-- Function `glColor4ub`; the arguments are `GLubyte`. -/
def glColor4ub (gx : GXConsts) (red green blue alpha : Nat) (s : Context α) :
    Result (Context α) :=
  .ok (s.emit (.SetTevColor gx.GX_TEVREG0 (red % 256) (green % 256) (blue % 256) (alpha % 256)))

/-- Function `glColor4f`. -/
def glColor4f (gx : GXConsts) (ext : Ext α) [Mul α] [OfNat α 255] (red green blue alpha : α)
    (s : Context α) : Result (Context α) :=
  .ok (s.emit (.SetTevColor gx.GX_TEVREG0 (ext.f32_to_u8 (red * 255))
    (ext.f32_to_u8 (green * 255)) (ext.f32_to_u8 (blue * 255)) (ext.f32_to_u8 (alpha * 255))))

/-- Function `glMaterialfv`; `params` is the float array behind the pointer. -/
def glMaterialfv (gx : GXConsts) (ext : Ext α) [Mul α] [OfNat α 255] (_face : Int) (pname : Int)
    (params : Nat → α) (s : Context α) : Result (Context α) :=
  if pname = GL_AMBIENT then
    .ok (s.emit (.SetChanAmbColor gx.GX_COLOR1A1 (ext.f32_to_u8 (params 0 * 255))
      (ext.f32_to_u8 (params 1 * 255)) (ext.f32_to_u8 (params 2 * 255))
      (ext.f32_to_u8 (params 3 * 255))))
  else if pname = GL_DIFFUSE then
    .ok (s.emit (.SetChanMatColor gx.GX_COLOR1A1 (ext.f32_to_u8 (params 0 * 255))
      (ext.f32_to_u8 (params 1 * 255)) (ext.f32_to_u8 (params 2 * 255))
      (ext.f32_to_u8 (params 3 * 255))))
  else .ok s

/-- Function `blend_factor`: `none` when the `default:` branch reaches `fatal_error`. -/
def blend_factor (gx : GXConsts) (f : Int) : Option Int :=
  if f = GL_ZERO then some gx.GX_BL_ZERO
  else if f = GL_ONE then some gx.GX_BL_ONE
  else if f = GL_SRC_COLOR then some gx.GX_BL_SRCCLR
  else if f = GL_ONE_MINUS_SRC_COLOR then some gx.GX_BL_INVSRCCLR
  else if f = GL_DST_COLOR then some gx.GX_BL_DSTCLR
  else if f = GL_ONE_MINUS_DST_COLOR then some gx.GX_BL_INVDSTCLR
  else if f = GL_SRC_ALPHA then some gx.GX_BL_SRCALPHA
  else if f = GL_ONE_MINUS_SRC_ALPHA then some gx.GX_BL_INVSRCALPHA
  else if f = GL_DST_ALPHA then some gx.GX_BL_DSTALPHA
  else if f = GL_ONE_MINUS_DST_ALPHA then some gx.GX_BL_INVDSTALPHA
  else none

/-- Function `glBlendFunc`. -/
def glBlendFunc (gx : GXConsts) (sfactor dfactor : Int) (s : Context α) : Result (Context α) :=
  match blend_factor gx sfactor with
  | none => .fatal "unknown blend factor" s
  | some sf =>
    match blend_factor gx dfactor with
    | none => .fatal "unknown blend factor" s
    | some df => .ok (s.emit (.SetBlendMode gx.GX_BM_BLEND sf df 0))

/-- Function `glTexGeni`. -/
def glTexGeni (gx : GXConsts) (ext : Ext α) [Field α]
    (coord pname param : Int) (s : Context α) : Result (Context α) :=
  if coord = GL_T ∧ pname = GL_TEXTURE_GEN_MODE ∧ param = GL_SPHERE_MAP then
    let m := ext.guMtxInvXpose (s.modelviewMtxStack.stack s.modelviewMtxStack.stackPos)
    let m := ext.guMtxApplyTrans m 0.5 (-0.5) 0
    let m := ext.guMtxApplyScale m 0.5 0.5 1
    .ok ((s.emit (.LoadTexMtxImm m gx.GX_TEXMTX0 gx.GX_MTX2x4)).emit
      (.SetTexCoordGen gx.GX_TEXCOORD0 gx.GX_TG_MTX2x4 gx.GX_TG_NRM gx.GX_TEXMTX0))
  else .ok s

/-- Function `glDepthMask`; a `GLboolean` is stored as 0 or 1. -/
def glDepthMask (flag : Bool) (s : Context α) : Result (Context α) :=
  let s1 := { s with zUpdate := if flag then 1 else 0 }
  .ok (s1.emit (.SetZMode s1.zEnable s1.zFunc s1.zUpdate))

/-- Function `glPolygonOffset`. -/
def glPolygonOffset (factor units : α) (s : Context α) : Result (Context α) :=
  .ok { s with polyOffsFactor := factor, polyOffsUnits := units }

/-- Function `glDepthFunc`. -/
def glDepthFunc (gx : GXConsts) (func : Int) (s : Context α) : Result (Context α) :=
  match gl_enum_to_gx gx func with
  | none => .fatal "unknown GL enum" s
  | some v =>
    let s1 := { s with zFunc := to_u8 v }
    .ok (s1.emit (.SetZMode s1.zEnable s1.zFunc s1.zUpdate))

/-- Function `glLightModelfv`. -/
def glLightModelfv (gx : GXConsts) (ext : Ext α) [Mul α] [OfNat α 255] (pname : Int)
    (params : Nat → α) (s : Context α) : Result (Context α) :=
  if pname = GL_LIGHT_MODEL_AMBIENT then
    .ok (s.emit (.SetChanAmbColor gx.GX_COLOR1A1 (ext.f32_to_u8 (params 0 * 255))
      (ext.f32_to_u8 (params 1 * 255)) (ext.f32_to_u8 (params 2 * 255))
      (ext.f32_to_u8 (params 3 * 255))))
  else .ok s

/-- Function `mult_mtx44_vec4`; the result is returned. -/
def mult_mtx44_vec4 [Add α] [Mul α] (m : Mtx44 α) (v : Fin 4 → α) : Fin 4 → α :=
  fun i => m i 0 * v 0 + m i 1 * v 1 + m i 2 * v 2 + m i 3 * v 3

/-- Function `glLightfv`. The light object `lightObj[lightNum]` is recorded by its index;
the `int` value `1 << lightNum` becomes the `u8` argument of `GX_LoadLightObj`. -/
def glLightfv (ext : Ext α) [Add α] [Mul α] [OfNat α 255] (light pname : Int)
    (params : Nat → α) (s : Context α) : Result (Context α) :=
  let lightNum := light - GL_LIGHT0
  let s1 :=
    if pname = GL_POSITION then
      let lightPos := mult_mtx44_vec4
        (s.modelviewMtxStack.stack s.modelviewMtxStack.stackPos)
        ![params 0, params 1, params 2, params 3]
      s.emit (.InitLightPos lightNum (lightPos 0) (lightPos 1) (lightPos 2))
    else if pname = GL_DIFFUSE then
      s.emit (.InitLightColor lightNum (ext.f32_to_u8 (params 0 * 255))
        (ext.f32_to_u8 (params 1 * 255)) (ext.f32_to_u8 (params 2 * 255)) 0)
    else s
  .ok (s1.emit (.LoadLightObj lightNum ((1 <<< lightNum.toNat) % 256)))

/-- Function `glPointSize`. -/
def glPointSize (gx : GXConsts) (_size : α) (s : Context α) : Result (Context α) :=
  .ok (s.emit (.SetPointSize 128 gx.GX_TO_ZERO))

/-- Function `glCullFace`. -/
def glCullFace (gx : GXConsts) (mode : Int) (s : Context α) : Result (Context α) :=
  match gl_enum_to_gx gx mode with
  | none => .fatal "unknown GL enum" s
  | some v =>
    let s1 := { s with cullMode := to_u8 v }
    .ok (s1.emit (.SetCullMode s1.cullMode))

/-- Function `glGetIntegerv`; `data` is the address of the `GLint` written. -/
def glGetIntegerv (pname : Int) (data : Nat) (s : Context α) : Result (Context α) :=
  if pname = GL_MAX_TEXTURE_SIZE then .ok { s with mem := store32 s.mem data 1024 }
  else if pname = GL_MAX_TEXTURE_UNITS then .ok { s with mem := store32 s.mem data 8 }
  else .fatal "glGetIntegerv: unknown pname" s

/-- Function `glGetString`, as its effect on the state: the returned string is a constant. -/
def glGetString (name : Int) (s : Context α) : Result (Context α) :=
  if name = GL_VENDOR ∨ name = GL_RENDERER ∨ name = GL_VERSION ∨ name = GL_EXTENSIONS then .ok s
  else .fatal "glGetString: unknown name" s

/-- The functions of `wiigl.c` whose body is only the comment `TODO: implement`:
`glPointParameterfv`, `glTexEnvi`, `glAlphaFunc`, `glFrontFace`, `glStencilFunc`,
`glStencilOp`, `glColorMask`, `glClear`, `glClipPlane`, `glActiveTexture`,
`glClientActiveTexture`, `glPointParameterf`, `glPixelStorei`, `glViewport`,
`glLightModeli`, `glLightModelf`, `glPolygonMode` and `glReadPixels`. Whatever the
arguments, the call returns and changes nothing. -/
def unimplemented (s : Context α) : Result (Context α) :=
  .ok s

/-! ### Context creation and buffer swap -/

/-- Function `initialize_video`. -/
def initialize_video (gx : GXConsts) (s : Context α) : Context α :=
  let s := s.emit .VideoSetup
  let s := s.emit (.SetBlendMode gx.GX_BM_BLEND gx.GX_BL_SRCALPHA gx.GX_BL_INVSRCALPHA
    gx.GX_LO_CLEAR)
  let s := s.emit (.SetAlphaUpdate gx.GX_TRUE)
  let s := s.emit (.SetColorUpdate gx.GX_TRUE)
  let s := s.emit (.SetCullMode gx.GX_CULL_NONE)
  { s with initialized := true }

/-- What `memset(&stack, 0, sizeof(stack))` leaves in a matrix stack: every float has the
all-zero bit pattern, which is `0.0`, and the depth index is 0. -/
def zeroStack [OfNat α 0] : MatrixStack α :=
  { stack := fun _ _ _ => 0, stackPos := 0 }

/-- Function `wiigl_swap_buffers`. -/
def wiigl_swap_buffers (gx : GXConsts) (s : Context α) : Result (Context α) :=
  let s1 := { s with frameBufferNum := s.frameBufferNum ^^^ 1 }
  .ok ((((s1.emit .DrawDone).emit .WaitVSync).emit
    (.CopyDisp s1.frameBufferNum gx.GX_TRUE)).emit (.SetNextFramebuffer s1.frameBufferNum))

/-- Function `wiigl_create_context`. -/
def wiigl_create_context [Field α] (gx : GXConsts) (ext : Ext α) (s : Context α) :
    Result (Context α) :=
  let s := if s.initialized then s else initialize_video gx s
  let s : Context α :=
    { s with
      clientEnabled :=
        { colorArray := false, indexArray := false, normalArray := false,
          textureCoordArray := false, vertexArray := false }
      serverEnabled :=
        { alphaTest := false, blend := false, clipPlanes := 0, colorMaterial := false,
          cullFace := false, depthTest := false, lights := 0, lighting := false,
          normalize := false, polygonOffsetFill := false, pointSprite := false,
          stencilTest := false, texture2d := false, textureGenS := false,
          textureGenT := false }
      boundTexture := 0
      boundBuffers := fun _ => 0
      modelviewMtxStack := zeroStack
      projMtxStack := zeroStack
      textureMtxStack := zeroStack }
  (glMatrixMode GL_MODELVIEW s).andThen fun s =>
  (glLoadIdentity gx ext s).andThen fun s =>
  (glMatrixMode GL_PROJECTION s).andThen fun s =>
  (glLoadIdentity gx ext s).andThen fun s =>
  (glMatrixMode GL_TEXTURE s).andThen fun s =>
  (glLoadIdentity gx ext s).andThen fun s =>
  let s : Context α :=
    { s with
      posDesc := { s.posDesc with pointer := 0 }
      colorDesc := { s.colorDesc with pointer := 0 }
      texCoordDesc := { s.texCoordDesc with pointer := 0 }
      nrmDesc := { s.nrmDesc with pointer := 0 } }
  (glDisable gx GL_TEXTURE_2D s).andThen fun s =>
  let s : Context α :=
    { s with
      cullMode := to_u8 gx.GX_CULL_FRONT
      zEnable := to_u8 gx.GX_FALSE
      zFunc := to_u8 gx.GX_LEQUAL
      zUpdate := to_u8 gx.GX_TRUE }
  let s := s.emit (.SetZMode s.zEnable s.zFunc s.zUpdate)
  (glMatrixMode GL_MODELVIEW s).andThen fun s =>
  let s := s.emit (.SetNumTevStages 1)
  let s := s.emit (.SetNumTexGens 1)
  let s := s.emit (.SetNumChans 1)
  let s := s.emit (.SetTevColorIn gx.GX_TEVSTAGE1 gx.GX_CC_ZERO gx.GX_CC_RASC gx.GX_CC_CPREV
    gx.GX_CC_ZERO)
  let s := s.emit (.SetTevColorOp gx.GX_TEVSTAGE1 gx.GX_TEV_ADD gx.GX_TB_ZERO gx.GX_CS_SCALE_1
    gx.GX_TRUE gx.GX_TEVPREV)
  let s := s.emit (.SetTevAlphaIn gx.GX_TEVSTAGE1 gx.GX_CC_ZERO gx.GX_CA_RASA gx.GX_CA_APREV
    gx.GX_CA_ZERO)
  let s := s.emit (.SetTevAlphaOp gx.GX_TEVSTAGE1 gx.GX_TEV_ADD gx.GX_TB_ZERO gx.GX_CS_SCALE_1
    gx.GX_TRUE gx.GX_TEVPREV)
  let s := s.emit (.SetTevOrder gx.GX_TEVSTAGE1 gx.GX_TEXCOORDNULL gx.GX_TEXMAP_NULL
    gx.GX_COLOR1A1)
  let s := s.emit (.SetChanAmbColor gx.GX_COLOR1A1 128 128 128 255)
  let s := s.emit (.SetChanMatColor gx.GX_COLOR1A1 255 255 255 255)
  let s := s.emit (.SetChanCtrl gx.GX_COLOR1A1 gx.GX_ENABLE gx.GX_SRC_REG gx.GX_SRC_REG
    gx.GX_LIGHT0 gx.GX_DF_CLAMP gx.GX_AF_NONE)
  let s := s.emit (.SetTexCoordGen gx.GX_TEXCOORD0 gx.GX_TG_MTX2x4 gx.GX_TG_TEXCOORD0
    gx.GX_TEXMTX0)
  .ok (s.emit .ClearVtxDesc)

/-! ### The programming interface as a whole -/

/-- One call of a function that `wiigl.c` exports, with its arguments. A pointer to floats is
the array behind it; `fresh` gives the addresses the allocator returns to `glGenBuffers` and
`glGenTextures`, `newData` the address it returns to `glBufferData`. The last constructors,
from `glPointParameterfv` on, are the functions whose body is empty: their arguments have no
effect and are left out. -/
inductive APICall (α : Type) where
  | wiigl_create_context
  | wiigl_swap_buffers
  | glClearColor (red green blue alpha : α)
  | glEnable (cap : Int)
  | glDisable (cap : Int)
  | glEnableClientState (cap : Int)
  | glDisableClientState (cap : Int)
  | glMatrixMode (mode : Int)
  | glPushMatrix
  | glPopMatrix
  | glLoadIdentity
  | glLoadMatrixf (m : Nat → α)
  | glMultMatrixf (m : Nat → α)
  | glTranslatef (x y z : α)
  | glScalef (x y z : α)
  | glRotatef (angle x y z : α)
  | glOrtho (left right bottom top nearVal farVal : α)
  | glFrustum (left right bottom top nearVal farVal : α)
  | glGenBuffers (n : Nat) (buffers : Nat) (fresh : Nat → Nat)
  | glDeleteBuffers (n : Nat) (buffers : Nat)
  | glBindBuffer (target : Int) (buffer : Nat)
  | glBufferData (target : Int) (size : Nat) (data : Nat) (usage : Int) (newData : Nat)
  | glBufferSubData (target : Int) (offset : Int) (size : Nat) (data : Nat)
  | glColor4ub (red green blue alpha : Nat)
  | glColor4f (red green blue alpha : α)
  | glVertexPointer (size : Int) (type : Int) (stride : Nat) (pointer : Nat)
  | glColorPointer (size : Int) (type : Int) (stride : Nat) (pointer : Nat)
  | glTexCoordPointer (size : Int) (type : Int) (stride : Nat) (pointer : Nat)
  | glNormalPointer (type : Int) (stride : Nat) (pointer : Nat)
  | glDrawArrays (mode : Int) (first : Int) (count : Nat)
  | glDrawElements (mode : Int) (count : Nat) (type : Int) (indices : Nat)
  | glGenTextures (n : Nat) (textures : Nat) (fresh : Nat → Nat)
  | glDeleteTextures (n : Nat) (textures : Nat)
  | glBindTexture (target : Int) (texture : Nat)
  | glTexImage2D (target level internalformat : Int) (width height : Nat)
      (border format type : Int) (data : Nat)
  | glTexParameteri (target pname param : Int)
  | glMaterialfv (face pname : Int) (params : Nat → α)
  | blend_factor (f : Int)
  | glBlendFunc (sfactor dfactor : Int)
  | glTexGeni (coord pname param : Int)
  | glDepthMask (flag : Bool)
  | glPolygonOffset (factor units : α)
  | glDepthFunc (func : Int)
  | glLightModelfv (pname : Int) (params : Nat → α)
  | glLightfv (light pname : Int) (params : Nat → α)
  | glPointSize (size : α)
  | glCullFace (mode : Int)
  | glGetIntegerv (pname : Int) (data : Nat)
  | glGetString (name : Int)
  | glPointParameterfv
  | glTexEnvi
  | glAlphaFunc
  | glFrontFace
  | glStencilFunc
  | glStencilOp
  | glColorMask
  | glClear
  | glClipPlane
  | glActiveTexture
  | glClientActiveTexture
  | glPointParameterf
  | glPixelStorei
  | glViewport
  | glLightModeli
  | glLightModelf
  | glPolygonMode
  | glReadPixels

/-- Run one API call. -/
def APICall.run [Field α] (gx : GXConsts) (ext : Ext α) :
    APICall α → Context α → Result (Context α)
  | .wiigl_create_context => WiiGL.wiigl_create_context gx ext
  | .wiigl_swap_buffers => WiiGL.wiigl_swap_buffers gx
  | .glClearColor r g b a => WiiGL.glClearColor ext r g b a
  | .glEnable cap => WiiGL.glEnable gx cap
  | .glDisable cap => WiiGL.glDisable gx cap
  | .glEnableClientState cap => WiiGL.glEnableClientState gx cap
  | .glDisableClientState cap => WiiGL.glDisableClientState gx cap
  | .glMatrixMode mode => WiiGL.glMatrixMode mode
  | .glPushMatrix => WiiGL.glPushMatrix
  | .glPopMatrix => WiiGL.glPopMatrix gx ext
  | .glLoadIdentity => WiiGL.glLoadIdentity gx ext
  | .glLoadMatrixf m => WiiGL.glLoadMatrixf gx ext m
  | .glMultMatrixf m => WiiGL.glMultMatrixf gx ext m
  | .glTranslatef x y z => WiiGL.glTranslatef gx ext x y z
  | .glScalef x y z => WiiGL.glScalef gx ext x y z
  | .glRotatef angle x y z => WiiGL.glRotatef gx ext angle x y z
  | .glOrtho l r b t n f => WiiGL.glOrtho gx ext l r b t n f
  | .glFrustum l r b t n f => WiiGL.glFrustum gx ext l r b t n f
  | .glGenBuffers n buffers fresh => WiiGL.glGenBuffers n buffers fresh
  | .glDeleteBuffers n buffers => WiiGL.glDeleteBuffers n buffers
  | .glBindBuffer target buffer => WiiGL.glBindBuffer target buffer
  | .glBufferData target size data usage newData =>
      WiiGL.glBufferData target size data usage newData
  | .glBufferSubData target offset size data => WiiGL.glBufferSubData target offset size data
  | .glColor4ub r g b a => WiiGL.glColor4ub gx r g b a
  | .glColor4f r g b a => WiiGL.glColor4f gx ext r g b a
  | .glVertexPointer size type stride pointer => WiiGL.glVertexPointer gx size type stride pointer
  | .glColorPointer size type stride pointer => WiiGL.glColorPointer gx size type stride pointer
  | .glTexCoordPointer size type stride pointer =>
      WiiGL.glTexCoordPointer gx size type stride pointer
  | .glNormalPointer type stride pointer => WiiGL.glNormalPointer gx type stride pointer
  | .glDrawArrays mode first count => WiiGL.glDrawArrays gx ext mode first count
  | .glDrawElements mode count type indices => WiiGL.glDrawElements gx ext mode count type indices
  | .glGenTextures n textures fresh => WiiGL.glGenTextures gx n textures fresh
  | .glDeleteTextures n textures => WiiGL.glDeleteTextures n textures
  | .glBindTexture target texture => WiiGL.glBindTexture target texture
  | .glTexImage2D target level internalformat width height border format type data =>
      WiiGL.glTexImage2D gx target level internalformat width height border format type data
  | .glTexParameteri target pname param => WiiGL.glTexParameteri gx target pname param
  | .glMaterialfv face pname params => WiiGL.glMaterialfv gx ext face pname params
  | .blend_factor f => fun s =>
      match WiiGL.blend_factor gx f with
      | none => .fatal "unknown blend factor" s
      | some _ => .ok s
  | .glBlendFunc sfactor dfactor => WiiGL.glBlendFunc gx sfactor dfactor
  | .glTexGeni coord pname param => WiiGL.glTexGeni gx ext coord pname param
  | .glDepthMask flag => WiiGL.glDepthMask flag
  | .glPolygonOffset factor units => WiiGL.glPolygonOffset factor units
  | .glDepthFunc func => WiiGL.glDepthFunc gx func
  | .glLightModelfv pname params => WiiGL.glLightModelfv gx ext pname params
  | .glLightfv light pname params => WiiGL.glLightfv ext light pname params
  | .glPointSize size => WiiGL.glPointSize gx size
  | .glCullFace mode => WiiGL.glCullFace gx mode
  | .glGetIntegerv pname data => WiiGL.glGetIntegerv pname data
  | .glGetString name => WiiGL.glGetString name
  | .glPointParameterfv => unimplemented
  | .glTexEnvi => unimplemented
  | .glAlphaFunc => unimplemented
  | .glFrontFace => unimplemented
  | .glStencilFunc => unimplemented
  | .glStencilOp => unimplemented
  | .glColorMask => unimplemented
  | .glClear => unimplemented
  | .glClipPlane => unimplemented
  | .glActiveTexture => unimplemented
  | .glClientActiveTexture => unimplemented
  | .glPointParameterf => unimplemented
  | .glPixelStorei => unimplemented
  | .glViewport => unimplemented
  | .glLightModeli => unimplemented
  | .glLightModelf => unimplemented
  | .glPolygonMode => unimplemented
  | .glReadPixels => unimplemented

/-- The states a program can be in: `wiigl_create_context` has returned, and since then any
number of API calls, each of which returned. The state before the creation is arbitrary. -/
inductive Reachable [Field α] (gx : GXConsts) (ext : Ext α) : Context α → Prop where
  | create (s0 s : Context α) (h : WiiGL.wiigl_create_context gx ext s0 = .ok s) :
      Reachable gx ext s
  | step (s s' : Context α) (c : APICall α) (hs : Reachable gx ext s)
      (h : c.run gx ext s = .ok s') : Reachable gx ext s'

end Api

/-! ### Sequences of matrix-stack operations -/

/-- The matrix-stack calls of the API, with their arguments. -/
inductive MatOp (α : Type) where
  | loadIdentity
  | loadMatrixf (m : Nat → α)
  | multMatrixf (m : Nat → α)
  | translatef (x y z : α)
  | scalef (x y z : α)
  | rotatef (angle x y z : α)
  | ortho (left right bottom top nearVal farVal : α)
  | frustum (left right bottom top nearVal farVal : α)
  | pushMatrix
  | popMatrix

/-- The call an operation stands for. -/
def MatOp.run {α : Type} [Field α] (gx : GXConsts) (ext : Ext α) :
    MatOp α → Context α → Result (Context α)
  | .loadIdentity => glLoadIdentity gx ext
  | .loadMatrixf m => glLoadMatrixf gx ext m
  | .multMatrixf m => glMultMatrixf gx ext m
  | .translatef x y z => glTranslatef gx ext x y z
  | .scalef x y z => glScalef gx ext x y z
  | .rotatef angle x y z => glRotatef gx ext angle x y z
  | .ortho l r b t n f => glOrtho gx ext l r b t n f
  | .frustum l r b t n f => glFrustum gx ext l r b t n f
  | .pushMatrix => glPushMatrix
  | .popMatrix => glPopMatrix gx ext

/-- The calls of a list made one after the other; nothing runs after a fatal error. -/
def runOps {α : Type} [Field α] (gx : GXConsts) (ext : Ext α) :
    List (MatOp α) → Context α → Result (Context α)
  | [], s => .ok s
  | op :: ops, s => (op.run gx ext s).andThen (runOps gx ext ops)

/-- A sequence run at depth `d` is balanced and non-overflowing above `base`: every pop
matches an earlier push of the sequence (the depth never goes below `base`), no push exceeds
the capacity, and the sequence ends at depth `base`. -/
def balancedFrom {α : Type} (base : Int) : Int → List (MatOp α) → Bool
  | d, [] => decide (d = base)
  | d, .pushMatrix :: ops => decide (d + 1 < MTX_STACK_LIMIT) && balancedFrom base (d + 1) ops
  | d, .popMatrix :: ops => decide (base < d) && balancedFrom base (d - 1) ops
  | d, _ :: ops => balancedFrom base d ops

/-- The invariant `glMatrixMode` establishes between `matrixMode` and `currMtxStack`: the
current domain is one of the three matrix domains and `currMtxStack` is its stack. -/
def ModeConsistent {α : Type} (s : Context α) : Prop :=
  (s.matrixMode = GL_MODELVIEW ∧ s.currMtxStack = .modelview) ∨
  (s.matrixMode = GL_PROJECTION ∧ s.currMtxStack = .proj) ∨
  (s.matrixMode = GL_TEXTURE ∧ s.currMtxStack = .texture)

/-! ### Concrete inputs -/

/-- The identity matrix over the rationals. -/
def idMtx : Mtx44 ℚ := ![![1, 0, 0, 0], ![0, 1, 0, 0], ![0, 0, 1, 0], ![0, 0, 0, 1]]

/-- Stand-ins for the library routines, to evaluate the embedding on concrete inputs. -/
def exampleExt : Ext ℚ where
  sinf := fun _ => 0
  cosf := fun _ => 1
  guVecNormalize := fun v => v
  guOrtho := fun m _ _ _ _ _ _ => m
  guFrustum := fun m _ _ _ _ _ _ => m
  guMtxInvXpose := fun m => m
  guMtxApplyTrans := fun m _ _ _ => m
  guMtxApplyScale := fun m _ _ _ => m
  f32_to_u8 := fun _ => 0

/-- A context in model-view mode with the three stacks at depth 0, nothing enabled and
nothing bound. -/
def exampleCtx : Context ℚ where
  initialized := true
  serverEnabled :=
    { alphaTest := false, blend := false, clipPlanes := 0, colorMaterial := false,
      cullFace := false, depthTest := false, lights := 0, lighting := false,
      normalize := false, polygonOffsetFill := false, pointSprite := false,
      stencilTest := false, texture2d := false, textureGenS := false, textureGenT := false }
  clientEnabled :=
    { colorArray := false, indexArray := false, normalArray := false,
      textureCoordArray := false, vertexArray := false }
  mem := fun _ => 0
  buffers := fun _ => { data := 0, size := 0 }
  boundBuffers := fun _ => 0
  posDesc := { components := 0, format := 0, stride := 0, pointer := 0 }
  colorDesc := { components := 0, format := 0, stride := 0, pointer := 0 }
  texCoordDesc := { components := 0, format := 0, stride := 0, pointer := 0 }
  nrmDesc := { components := 0, format := 0, stride := 0, pointer := 0 }
  textures := fun _ => { initialized := false, imgBuffer := none, magFilter := 0, minFilter := 0 }
  boundTexture := 0
  modelviewMtxStack := { stack := fun _ => idMtx, stackPos := 0 }
  projMtxStack := { stack := fun _ => idMtx, stackPos := 0 }
  textureMtxStack := { stack := fun _ => idMtx, stackPos := 0 }
  currMtxStack := .modelview
  matrixMode := GL_MODELVIEW
  zEnable := 0
  zFunc := 3
  zUpdate := 1
  cullMode := 1
  polyOffsFactor := 0
  polyOffsUnits := 0
  hw := []

/-- Bytes of an opaque grey image: pixel number `k` (its bytes are `4k .. 4k+3`) has the
three colour channels `8 * (k + 1)` and alpha 255. -/
def greyRamp : Nat → Nat :=
  fun i => if i % 4 = 3 then 255 else 8 * (i / 4 + 1)

/-- A context with a buffer object (handle `0x800`) bound to `GL_ARRAY_BUFFER`; its storage
is the 16 bytes at `0x1000`, all zero. The bytes from `0x2000` on hold the value 7. -/
def bufCtx : Context ℚ :=
  { exampleCtx with
    mem := fun a => if 0x2000 ≤ a then 7 else 0
    buffers := fun h => if h = 0x800 then { data := 0x1000, size := 16 } else { data := 0, size := 0 }
    boundBuffers := fun i => if i = 0 then 0x800 else 0 }

/-- The element types of a vertex attribute array. -/
def elementTypes : List Int :=
  [GL_BYTE, GL_UNSIGNED_BYTE, GL_SHORT, GL_UNSIGNED_SHORT, GL_FLOAT]

/-- The element types `glColorPointer` accepts. -/
def colorTypes : List Int := [GL_UNSIGNED_BYTE, GL_FLOAT]

/-- What the attribute formats need of the enumerators of `gx.h`: the five component types
differ from each other, the two component counts of each attribute differ, and the colour
formats `GX_RGB8` and `GX_RGBA8` differ from `GX_F32`, with which they share the format
field of the colour descriptor. -/
def GXDistinct (gx : GXConsts) : Prop :=
  [gx.GX_S8, gx.GX_U8, gx.GX_S16, gx.GX_U16, gx.GX_F32].Nodup ∧
  gx.GX_POS_XY ≠ gx.GX_POS_XYZ ∧ gx.GX_CLR_RGB ≠ gx.GX_CLR_RGBA ∧
  gx.GX_TEX_S ≠ gx.GX_TEX_ST ∧ gx.GX_RGB8 ≠ gx.GX_F32 ∧ gx.GX_RGBA8 ≠ gx.GX_F32

/-- The calls that submit one attribute index of a vertex. -/
def GXCall.isVertexRecord {α : Type} : GXCall α → Bool
  | .Position1x16 _ => true
  | .Normal1x16 _ => true
  | .Color1x16 _ => true
  | .TexCoord1x16 _ => true
  | _ => false

/-- The trace of `t` is the trace of `s` followed by calls none of which submits a vertex. -/
def ExtendsWithoutVertex {α : Type} (s t : Context α) : Prop :=
  ∃ pre, t.hw = s.hw ++ pre ∧ pre.filter GXCall.isVertexRecord = []

/-- The primitive topologies `gl_enum_to_gx` knows. -/
def supportedTopologies : List Int :=
  [GL_POINTS, GL_LINE_STRIP, GL_TRIANGLES, GL_TRIANGLE_STRIP, GL_QUADS]

/-- A context with only the vertex array enabled, no buffer bound, and the four bytes
`0, 2, 1, 3` at the addresses `0x3000 .. 0x3003` of client memory. -/
def drawCtx : Context ℚ :=
  { exampleCtx with
    clientEnabled :=
      { colorArray := false, indexArray := false, normalArray := false,
        textureCoordArray := false, vertexArray := true }
    mem := fun a => if 0x3000 ≤ a then [0, 2, 1, 3].getD (a - 0x3000) 0 else 0 }

/-- The internal formats `glTexImage2D` converts. -/
def textureFormats : List Int :=
  [GL_ALPHA, GL_LUMINANCE, GL_LUMINANCE_ALPHA, GL_RGB, GL_RGBA]

/-- The canonical RGBA pixel at `(x, y)` as the specification gives it, from the source bytes
`src` laid out in row-major order (pixel number `y * width + x`) with 1, 1, 2, 3 and 4 bytes
per pixel: `(0, 0, 0, a)` for `GL_ALPHA`, `(l, l, l, 255)` for `GL_LUMINANCE`, `(l, l, l, a)`
for `GL_LUMINANCE_ALPHA`, `(r, g, b, 255)` for `GL_RGB`, `(r, g, b, a)` for `GL_RGBA`. -/
def canonicalPixel (internalformat : Int) (width : Nat) (src : Nat → Nat) (x y : Nat) :
    Nat × Nat × Nat × Nat :=
  let n := y * width + x
  if internalformat = GL_ALPHA then (0, 0, 0, src n)
  else if internalformat = GL_LUMINANCE then (src n, src n, src n, 255)
  else if internalformat = GL_LUMINANCE_ALPHA then (src (2 * n), src (2 * n), src (2 * n),
    src (2 * n + 1))
  else if internalformat = GL_RGB then (src (3 * n), src (3 * n + 1), src (3 * n + 2), 255)
  else (src (4 * n), src (4 * n + 1), src (4 * n + 2), src (4 * n + 3))

/-- Channel `k` (0 to 3) of an RGBA pixel. -/
def channel (p : Nat × Nat × Nat × Nat) (k : Nat) : Nat :=
  if k = 0 then p.1 else if k = 1 then p.2.1 else if k = 2 then p.2.2.1 else p.2.2.2

/-- The buffer `data` holds, at the four bytes from `4 * (y * width + x)` on, the canonical
pixel of every `(x, y)` of a `width` by `height` image. -/
def HoldsCanonical (internalformat : Int) (width height : Nat) (src : Nat → Nat)
    (data : Nat → Nat) : Prop :=
  ∀ x, x < width → ∀ y, y < height →
    (data (4 * (y * width + x)), data (4 * (y * width + x) + 1),
      data (4 * (y * width + x) + 2), data (4 * (y * width + x) + 3)) =
    canonicalPixel internalformat width src x y

/-- The depth index of each of the three matrix stacks lies in `[0, 15]`. -/
def DepthsInRange {α : Type} (s : Context α) : Prop :=
  (0 ≤ s.modelviewMtxStack.stackPos ∧ s.modelviewMtxStack.stackPos ≤ 15) ∧
  (0 ≤ s.projMtxStack.stackPos ∧ s.projMtxStack.stackPos ≤ 15) ∧
  (0 ≤ s.textureMtxStack.stackPos ∧ s.textureMtxStack.stackPos ≤ 15)

/-- The matrix mode, the selected stack and the three depth indices. -/
def Context.shape {α : Type} (s : Context α) : Int × StackRef × Int × Int × Int :=
  (s.matrixMode, s.currMtxStack, s.modelviewMtxStack.stackPos, s.projMtxStack.stackPos,
    s.textureMtxStack.stackPos)

/-- The three arrays of stored matrices. -/
def Context.stored {α : Type} (s : Context α) :
    (Int → Mtx44 α) × (Int → Mtx44 α) × (Int → Mtx44 α) :=
  (s.modelviewMtxStack.stack, s.projMtxStack.stack, s.textureMtxStack.stack)

/-- The calls by which `load_curr_matrix` loads the matrix `m` into the hardware slot of the
domain `d`: position and normal matrix for model-view, the projection matrix, or the texture
matrix. -/
def loadCalls {α : Type} (gx : GXConsts) (ext : Ext α) (d : StackRef) (m : Mtx44 α) :
    List (GXCall α) :=
  match d with
  | .modelview =>
    [.LoadPosMtxImm m gx.GX_PNMTX0, .LoadNrmMtxImm (ext.guMtxInvXpose m) gx.GX_PNMTX0]
  | .proj => [.LoadProjectionMtx m gx.GX_PERSPECTIVE]
  | .texture => [.LoadTexMtxImm m gx.GX_TEXMTX0 gx.GX_MTX2x4]

/-- Routine `guFrustum` of libogc (`gu.c`): it writes all sixteen entries of its output from
the six parameters. -/
def guFrustum {α : Type} [Field α] (t b l r n f : α) : Mtx44 α :=
  ![![(2 * n) * (1 / (r - l)), 0, (r + l) * (1 / (r - l)), 0],
    ![0, (2 * n) * (1 / (t - b)), (t + b) * (1 / (t - b)), 0],
    ![0, 0, -n * (1 / (f - n)), -(f * n) * (1 / (f - n))],
    ![0, 0, -1, 0]]

/-- Routine `guOrtho` of libogc (`gu.c`): it writes all sixteen entries of its output from
the six parameters. -/
def guOrtho {α : Type} [Field α] (t b l r n f : α) : Mtx44 α :=
  ![![2 * (1 / (r - l)), 0, 0, -(r + l) * (1 / (r - l))],
    ![0, 2 * (1 / (t - b)), 0, -(t + b) * (1 / (t - b))],
    ![0, 0, -1 * (1 / (f - n)), -f * (1 / (f - n))],
    ![0, 0, 0, 1]]

/-- The stand-ins of `exampleExt` with the two projection routines of libogc. -/
def projectionExt : Ext ℚ :=
  { exampleExt with
    guFrustum := fun _ t b l r n f => guFrustum t b l r n f
    guOrtho := fun _ t b l r n f => guOrtho t b l r n f }

/-- The float array whose element `i` is `i`. -/
def rampArray : Nat → ℚ := fun i => i

/-- The matrix of a uniform scaling by 2. -/
def scale2 : Mtx44 ℚ := ![![2, 0, 0, 0], ![0, 2, 0, 0], ![0, 0, 2, 0], ![0, 0, 0, 1]]

/-- A context in projection mode whose projection stack has the scaling by 2 on top. -/
def projCtx : Context ℚ :=
  { exampleCtx with
    matrixMode := GL_PROJECTION
    currMtxStack := .proj
    projMtxStack := { stack := fun _ => scale2, stackPos := 0 } }

/-- A context with a texture object (handle `0x900`) bound that has no image yet, and the
four bytes `10, 20, 30, 40` at the addresses `0x4000 .. 0x4003` of client memory. -/
def texCtx : Context ℚ :=
  { exampleCtx with
    boundTexture := 0x900
    mem := fun a => if 0x4000 ≤ a then [10, 20, 30, 40].getD (a - 0x4000) 0 else 0 }

/-- A context in model-view mode at depth 1, with the scaling by 2 stored below the top. -/
def depth1Ctx : Context ℚ :=
  { exampleCtx with
    modelviewMtxStack :=
      { stack := fun i => if i = 0 then scale2 else idMtx, stackPos := 1 } }

/-- A call that returned left the matrix mode, the selected stack and the three depth
indices as they are in `sh`. -/
def Result.okShape {α : Type} (r : Result (Context α))
    (sh : Int × StackRef × Int × Int × Int) : Prop :=
  match r with
  | .ok s => s.shape = sh
  | .fatal _ _ => True

/-- The invariant of the matrix stacks: the three depth indices are in range and the matrix
mode agrees with the selected stack. -/
def StackInvariant {α : Type} (s : Context α) : Prop :=
  DepthsInRange s ∧ ModeConsistent s

/-- The state after `wiigl_create_context` on `exampleCtx`. -/
def createdCtx : Context ℚ :=
  (wiigl_create_context libogc exampleExt exampleCtx).state

/-- The state after `wiigl_create_context` on `exampleCtx` and one `glPushMatrix`. -/
def pushedCtx : Context ℚ :=
  (glPushMatrix createdCtx).state

/-- The base address the specification gives for an attribute array: the storage base of
the buffer bound to the array target plus the pointer argument taken as a byte offset, or,
with no buffer bound there, the pointer argument itself. -/
def resolvedAddress {α : Type} (s : Context α) (pointer : Nat) : Nat :=
  if s.boundBuffers 0 ≠ 0 then (s.buffers (s.boundBuffers 0)).data + pointer else pointer

/-- The state `s` with the handle `e` in the element-array binding slot. -/
def withElementBinding {α : Type} (s : Context α) (e : Nat) : Context α :=
  { s with boundBuffers := Function.update s.boundBuffers 1 e }

/-- The capability tokens `glEnable` and `glDisable` recognise. -/
def capabilities : List Int :=
  [GL_ALPHA_TEST, GL_BLEND, GL_CLIP_PLANE0, GL_CLIP_PLANE1, GL_CLIP_PLANE2, GL_CLIP_PLANE3,
    GL_CLIP_PLANE4, GL_CLIP_PLANE5, GL_COLOR_MATERIAL, GL_CULL_FACE, GL_DEPTH_TEST, GL_LIGHT0,
    GL_LIGHT1, GL_LIGHT2, GL_LIGHT3, GL_LIGHT4, GL_LIGHT5, GL_LIGHT6, GL_LIGHT7, GL_LIGHTING,
    GL_NORMALIZE, GL_POLYGON_OFFSET_FILL, GL_POINT_SPRITE, GL_STENCIL_TEST, GL_TEXTURE_2D,
    GL_TEXTURE_GEN_S, GL_TEXTURE_GEN_T]

/-- The flag of a capability in the record `serverEnabled`: the field of the capability,
bit `i` of the 6-bit field `clipPlanes` for `GL_CLIP_PLANEi`, bit `i` of the 8-bit field
`lights` for `GL_LIGHTi`. A token that is no capability has no flag (`false`). -/
def capabilityFlag (se : ServerEnabled) (cap : Int) : Bool :=
  if cap = GL_ALPHA_TEST then se.alphaTest
  else if cap = GL_BLEND then se.blend
  else if GL_CLIP_PLANE0 ≤ cap ∧ cap ≤ GL_CLIP_PLANE5 then
    se.clipPlanes.testBit (cap - GL_CLIP_PLANE0).toNat
  else if cap = GL_COLOR_MATERIAL then se.colorMaterial
  else if cap = GL_CULL_FACE then se.cullFace
  else if cap = GL_DEPTH_TEST then se.depthTest
  else if GL_LIGHT0 ≤ cap ∧ cap ≤ GL_LIGHT7 then se.lights.testBit (cap - GL_LIGHT0).toNat
  else if cap = GL_LIGHTING then se.lighting
  else if cap = GL_NORMALIZE then se.normalize
  else if cap = GL_POLYGON_OFFSET_FILL then se.polygonOffsetFill
  else if cap = GL_POINT_SPRITE then se.pointSprite
  else if cap = GL_STENCIL_TEST then se.stencilTest
  else if cap = GL_TEXTURE_2D then se.texture2d
  else if cap = GL_TEXTURE_GEN_S then se.textureGenS
  else if cap = GL_TEXTURE_GEN_T then se.textureGenT
  else false

/-- The submissions of one vertex with index `i`: one per enabled client array, in the
order position, normal, color, texture coordinate. -/
def recordsOf {α : Type} (ce : ClientEnabled) (i : Nat) : List (GXCall α) :=
  (if ce.vertexArray then [GXCall.Position1x16 i] else []) ++
  (if ce.normalArray then [GXCall.Normal1x16 i] else []) ++
  (if ce.colorArray then [GXCall.Color1x16 i] else []) ++
  (if ce.textureCoordArray then [GXCall.TexCoord1x16 i] else [])

/-- The index list `[first, first + 1, ..., first + count - 1]`. -/
def indexRun (first : Int) (count : Nat) : List Nat :=
  List.map (fun (k : Nat) => (first + (k : Int)).toNat) (List.range count)

/-- The indices `glDrawArrays` hands to the hardware: the `int` values `first + i` for
`i = 0 .. count - 1`, each converted to the `u16` argument of the `GX_*1x16` calls. -/
def submittedRun (first : Int) (count : Nat) : List Nat :=
  List.map (fun (k : Nat) => ((first + (k : Int)) % 65536).toNat) (List.range count)

/-- A context with the vertex and the color array enabled, no buffer bound, and the three
16-bit big-endian values `5, 6, 7` at the addresses `0x3000 .. 0x3005` of client memory. -/
def runCtx : Context ℚ :=
  { exampleCtx with
    clientEnabled :=
      { colorArray := true, indexArray := false, normalArray := false,
        textureCoordArray := false, vertexArray := true }
    mem := fun a => if 0x3000 ≤ a then [0, 5, 0, 6, 0, 7].getD (a - 0x3000) 0 else 0 }

/-! ### The hardware registers behind the trace -/

/-- What the GX calls of a trace leave in the hardware, as far as the properties below
look at it: the position matrix of slot `GX_PNMTX0`, the projection matrix and its kind, the
texture matrix of slot `GX_TEXMTX0`, the numbers of TEV stages and of colour channels, the
cull mode, the light mask of the channel control of `GX_COLOR1A1`, and for each vertex
attribute whether its descriptor is armed for indexed reads (`GX_INDEX16`). `none` stands
for a register no call has written yet. -/
structure HwRegs (α : Type) where
  posMtx : Option (Mtx44 α) := none
  projMtx : Option (Mtx44 α) := none
  projType : Option Int := none
  texMtx : Option (Mtx44 α) := none
  numTevStages : Option Int := none
  numChans : Option Int := none
  cullMode : Option Int := none
  litmask : Option Int := none
  armed : Int → Bool := fun _ => false

/-- The effect of one GX call on the registers. -/
def GXCall.exec {α : Type} (gx : GXConsts) (c : GXCall α) (r : HwRegs α) : HwRegs α :=
  match c with
  | .LoadPosMtxImm m pnidx => if pnidx = gx.GX_PNMTX0 then { r with posMtx := some m } else r
  | .LoadProjectionMtx m type => { r with projMtx := some m, projType := some type }
  | .LoadTexMtxImm m texidx _ =>
    if texidx = gx.GX_TEXMTX0 then { r with texMtx := some m } else r
  | .SetNumTevStages num => { r with numTevStages := some num }
  | .SetNumChans num => { r with numChans := some num }
  | .SetCullMode mode => { r with cullMode := some mode }
  | .SetChanCtrl channel _ _ _ litmask _ _ =>
    if channel = gx.GX_COLOR1A1 then { r with litmask := some litmask } else r
  | .SetVtxDesc attr type =>
    { r with armed := Function.update r.armed attr (decide (type = gx.GX_INDEX16)) }
  | .ClearVtxDesc => { r with armed := fun _ => false }
  | _ => r

/-- The registers after the calls of a trace, in order. -/
def hwRegs {α : Type} (gx : GXConsts) (hw : List (GXCall α)) : HwRegs α :=
  hw.foldl (fun r c => c.exec gx r) {}

/-- The registers and the tracked state they are compared with. -/
def Context.hwView {α : Type} (gx : GXConsts) (s : Context α) :
    HwRegs α × MatrixStack α × MatrixStack α × MatrixStack α × ServerEnabled ×
      ClientEnabled × Nat :=
  (hwRegs gx s.hw, s.modelviewMtxStack, s.projMtxStack, s.textureMtxStack, s.serverEnabled,
    s.clientEnabled, s.cullMode)

/-- The three matrix registers and the three matrix stacks. -/
def Context.matrixView {α : Type} (gx : GXConsts) (s : Context α) :
    Option (Mtx44 α) × Option (Mtx44 α) × Option (Mtx44 α) × MatrixStack α × MatrixStack α ×
      MatrixStack α :=
  ((hwRegs gx s.hw).posMtx, (hwRegs gx s.hw).projMtx, (hwRegs gx s.hw).texMtx,
    s.modelviewMtxStack, s.projMtxStack, s.textureMtxStack)

/-- A call that returned left the observation `obs` as it is in `s`. -/
def Result.okSame {α β : Type} (r : Result (Context α)) (obs : Context α → β)
    (s : Context α) : Prop :=
  match r with
  | .ok s' => obs s' = obs s
  | .fatal _ _ => True

/-- The position and the projection matrix in the hardware are the tops of the model-view
and of the projection stack. -/
def MirrorsStacks {α : Type} (gx : GXConsts) (s : Context α) : Prop :=
  (hwRegs gx s.hw).posMtx = some (s.modelviewMtxStack.stack s.modelviewMtxStack.stackPos) ∧
  (hwRegs gx s.hw).projMtx = some (s.projMtxStack.stack s.projMtxStack.stackPos)

/-- The texture matrix in the hardware is the top of the texture stack. -/
def MirrorsTexture {α : Type} (gx : GXConsts) (s : Context α) : Prop :=
  (hwRegs gx s.hw).texMtx = some (s.textureMtxStack.stack s.textureMtxStack.stackPos)

/-- The matrix in the hardware slot of the domain `d` is the top of the stack of `d`. -/
def MirrorsAt {α : Type} (gx : GXConsts) (d : StackRef) (s : Context α) : Prop :=
  match d with
  | .modelview =>
    (hwRegs gx s.hw).posMtx = some (s.modelviewMtxStack.stack s.modelviewMtxStack.stackPos)
  | .proj => (hwRegs gx s.hw).projMtx = some (s.projMtxStack.stack s.projMtxStack.stackPos)
  | .texture =>
    (hwRegs gx s.hw).texMtx = some (s.textureMtxStack.stack s.textureMtxStack.stackPos)

/-- What a draw call leaves alone until `GX_End`: the position and the texture matrix in
the hardware, the three stacks, the flag of polygon offset, and, with polygon offset
disabled, the projection matrix in the hardware. -/
def Context.drawView {α : Type} (gx : GXConsts) (s : Context α) :
    Option (Mtx44 α) × Option (Mtx44 α) × Option (Mtx44 α) × MatrixStack α × MatrixStack α ×
      MatrixStack α × Bool :=
  ((hwRegs gx s.hw).posMtx,
    (if s.serverEnabled.polygonOffsetFill then none else (hwRegs gx s.hw).projMtx),
    (hwRegs gx s.hw).texMtx, s.modelviewMtxStack, s.projMtxStack, s.textureMtxStack,
    s.serverEnabled.polygonOffsetFill)

/-- The registers that no matrix load writes, with the capability flags, the client-array
flags and the tracked cull mode. -/
def Context.switchView {α : Type} (gx : GXConsts) (s : Context α) :
    Option Int × Option Int × Option Int × Option Int × (Int → Bool) × ServerEnabled ×
      ClientEnabled × Nat :=
  ((hwRegs gx s.hw).numTevStages, (hwRegs gx s.hw).numChans, (hwRegs gx s.hw).cullMode,
    (hwRegs gx s.hw).litmask, (hwRegs gx s.hw).armed, s.serverEnabled, s.clientEnabled,
    s.cullMode)

/-- The client-array flags `wiigl_create_context` sets: every array disabled. -/
def noClientArrays : ClientEnabled :=
  { colorArray := false, indexArray := false, normalArray := false,
    textureCoordArray := false, vertexArray := false }

/-- The vertex descriptors in the hardware and the client-array flags. -/
def Context.armedView {α : Type} (gx : GXConsts) (s : Context α) :
    (Int → Bool) × ClientEnabled :=
  ((hwRegs gx s.hw).armed, s.clientEnabled)

/-- What the vertex descriptors need of the enumerators of `gx.h`: the four attributes
differ from each other and `GX_INDEX16` differs from `GX_NONE`. -/
def VtxDistinct (gx : GXConsts) : Prop :=
  [gx.GX_VA_POS, gx.GX_VA_NRM, gx.GX_VA_CLR0, gx.GX_VA_TEX0].Nodup ∧
  gx.GX_INDEX16 ≠ gx.GX_NONE

/-- The vertex descriptors of the normal, the colour and the texture-coordinate attribute
are armed for indexed reads exactly when the client array is enabled, and that of the
position attribute at least when the vertex array is enabled. -/
def ArmedMirrors {α : Type} (gx : GXConsts) (s : Context α) : Prop :=
  (hwRegs gx s.hw).armed gx.GX_VA_NRM = s.clientEnabled.normalArray ∧
  (hwRegs gx s.hw).armed gx.GX_VA_CLR0 = s.clientEnabled.colorArray ∧
  (hwRegs gx s.hw).armed gx.GX_VA_TEX0 = s.clientEnabled.textureCoordArray ∧
  (s.clientEnabled.vertexArray = true → (hwRegs gx s.hw).armed gx.GX_VA_POS = true)

/-- A call that returned left a state with the property `P`. -/
def Result.okAll {α : Type} (r : Result (Context α)) (P : Context α → Prop) : Prop :=
  match r with
  | .ok s => P s
  | .fatal _ _ => True

/-- Routine `guMtxApplyTrans` of libogc (`gu.c`), on the three rows of a `Mtx`: the
translation column becomes `src * (x, y, z, 1)`, the other columns are copied. A `Mtx` has
no fourth row; the fourth row of the representation is passed through. -/
def guMtxApplyTrans {α : Type} [Field α] (src : Mtx44 α) (x y z : α) : Mtx44 α :=
  fun r c =>
    if r.val < 3 ∧ c.val = 3 then src r 0 * x + src r 1 * y + src r 2 * z + src r 3
    else src r c

/-- Routine `guMtxApplyScale` of libogc (`gu.c`), on the three rows of a `Mtx`: the first
three columns are scaled by `x`, `y` and `z`, the last is copied. The fourth row of the
representation is passed through. -/
def guMtxApplyScale {α : Type} [Field α] (src : Mtx44 α) (x y z : α) : Mtx44 α :=
  fun r c =>
    if r.val < 3 ∧ c.val = 0 then src r 0 * x
    else if r.val < 3 ∧ c.val = 1 then src r 1 * y
    else if r.val < 3 ∧ c.val = 2 then src r 2 * z
    else src r c

/-- The stand-ins of `exampleExt` with the two routines of libogc that `glTexGeni` applies
to the matrix it loads. -/
def sphereExt : Ext ℚ :=
  { exampleExt with
    guMtxApplyTrans := guMtxApplyTrans
    guMtxApplyScale := guMtxApplyScale }

/-- The state after `wiigl_create_context` on `exampleCtx` and
`glTexGeni(GL_T, GL_TEXTURE_GEN_MODE, GL_SPHERE_MAP)`. -/
def sphereCtx : Context ℚ :=
  (glTexGeni libogc sphereExt GL_T GL_TEXTURE_GEN_MODE GL_SPHERE_MAP
    (wiigl_create_context libogc sphereExt exampleCtx).state).state

/-- The state after `wiigl_create_context` on `exampleCtx`, `glTranslatef(1, 2, 3)` on the
model-view stack, `glMatrixMode(GL_TEXTURE)` and `glScalef(2, 2, 2)` on the texture stack. -/
def movedCtx : Context ℚ :=
  (glScalef libogc exampleExt 2 2 2
    (glMatrixMode GL_TEXTURE (glTranslatef libogc exampleExt 1 2 3 createdCtx).state).state).state

/-- The call is the sphere-map texture generation of `glTexGeni`, the one case in which
that function does anything. -/
def APICall.isSphereMapGen {α : Type} : APICall α → Prop
  | .glTexGeni coord pname param =>
    coord = GL_T ∧ pname = GL_TEXTURE_GEN_MODE ∧ param = GL_SPHERE_MAP
  | _ => False

/-- The states reachable from `wiigl_create_context` by API calls that returned and that
all satisfy `allowed`. -/
inductive ReachableVia {α : Type} [Field α] (gx : GXConsts) (ext : Ext α)
    (allowed : APICall α → Prop) : Context α → Prop where
  | create (s0 s : Context α) (h : wiigl_create_context gx ext s0 = .ok s) :
      ReachableVia gx ext allowed s
  | step (s s' : Context α) (c : APICall α) (hs : ReachableVia gx ext allowed s)
      (hc : allowed c) (h : c.run gx ext s = .ok s') : ReachableVia gx ext allowed s'

/-- A context with the lights 0 and 1 enabled: `exampleCtx` after `glEnable(GL_LIGHT0)` and
`glEnable(GL_LIGHT1)`. -/
def litCtx : Context ℚ :=
  (glEnable libogc GL_LIGHT1 (glEnable libogc GL_LIGHT0 exampleCtx).state).state

/-- The state after `wiigl_create_context` on `exampleCtx` and
`glVertexPointer(3, GL_FLOAT, 0, 0x3000)`. -/
def armedCtx : Context ℚ :=
  (glVertexPointer libogc 3 GL_FLOAT 0 0x3000 createdCtx).state

/-! ### Definitions for the texel layout, rotations, stage wiring and the reset state -/

/-- The position of the byte `0` of pixel `(x, y)` in the RGBA source of
`convert_to_rgb5a3`, in `u32` arithmetic. -/
def pixel_offset (width x y : Nat) : Nat :=
  (4 * (x + y * width)) % 2 ^ 32

/-- The texel `convert_to_rgb5a3` computes for the pixel `(x, y)` of the source. -/
def texel_of (data : Nat → Nat) (width x y : Nat) : Nat :=
  rgb5a3_pixel (data (pixel_offset width x y + 0) % 256)
    (data (pixel_offset width x y + 1) % 256) (data (pixel_offset width x y + 2) % 256)
    (data (pixel_offset width x y + 3) % 256)

/-- The pixels in the order in which the two loops of `convert_to_rgb5a3` visit them. -/
def pixelOrder (width height : Nat) : List (Nat × Nat) :=
  (List.range width).flatMap (fun x => (List.range height).map (fun y => (x, y)))

/-- The identity matrix. -/
def identityMtx {α : Type} [Field α] : Mtx44 α :=
  ![![1, 0, 0, 0], ![0, 1, 0, 0], ![0, 0, 1, 0], ![0, 0, 0, 1]]

/-- The transpose of a matrix. -/
def transpose {α : Type} (m : Mtx44 α) : Mtx44 α :=
  fun r c => m c r

/-- The cross-product matrix `[k]x` of the axis `k = (x, y, z)`, bordered with zeros. -/
def crossMtx {α : Type} [Field α] (x y z : α) : Mtx44 α :=
  ![![0, -z, y, 0], ![z, 0, -x, 0], ![-y, x, 0, 0], ![0, 0, 0, 0]]

/-- The axis `k = (x, y, z)`, with a fourth component 0. -/
def axisVec {α : Type} [Field α] (x y z : α) : Fin 4 → α :=
  ![x, y, z, 0]

/-- The Rodrigues matrix of the specification: `c * I + s * [k]x + (1 - c) * k * k^T` in the
upper-left 3x3 block, last row and last column `(0, 0, 0, 1)`. -/
def rodrigues {α : Type} [Field α] (x y z s c : α) : Mtx44 α :=
  fun i j =>
    if i = 3 ∨ j = 3 then (if i = j then 1 else 0)
    else c * (if i = j then 1 else 0) + s * crossMtx x y z i j +
      (1 - c) * (axisVec x y z i * axisVec x y z j)

/-- The wiring the specification gives for TEV stage 0: colour inputs and alpha inputs
`(ZERO, V, T, ZERO)`, where `V` is the rasterised colour or alpha with the colour array
enabled and colour register 0 otherwise, and `T` is the texture colour or alpha with the
texture-coordinate array enabled and otherwise the constant `ONE` for colour and
register 1 for alpha. -/
def stageWiring (gx : GXConsts) (colorArray textureCoordArray : Bool) :
    (Int × Int × Int × Int) × (Int × Int × Int × Int) :=
  ((gx.GX_CC_ZERO, (if colorArray then gx.GX_CC_RASC else gx.GX_CC_C0),
      (if textureCoordArray then gx.GX_CC_TEXC else gx.GX_CC_ONE), gx.GX_CC_ZERO),
    (gx.GX_CA_ZERO, (if colorArray then gx.GX_CA_RASA else gx.GX_CA_A0),
      (if textureCoordArray then gx.GX_CA_TEXA else gx.GX_CA_A1), gx.GX_CA_ZERO))

/-- The calls that configure TEV stage 0 with the wiring `w`: without the
texture-coordinate array first the load of register 1 with `(255, 255, 255, 255)`, then the
colour inputs, the alpha inputs and the two combiner operations. -/
def wiringCalls {α : Type} (gx : GXConsts) (textureCoordArray : Bool)
    (w : (Int × Int × Int × Int) × (Int × Int × Int × Int)) : List (GXCall α) :=
  (if textureCoordArray then [] else [GXCall.SetTevColor gx.GX_TEVREG1 255 255 255 255]) ++
  [GXCall.SetTevColorIn gx.GX_TEVSTAGE0 w.1.1 w.1.2.1 w.1.2.2.1 w.1.2.2.2,
    GXCall.SetTevAlphaIn gx.GX_TEVSTAGE0 w.2.1 w.2.2.1 w.2.2.2.1 w.2.2.2.2,
    GXCall.SetTevColorOp gx.GX_TEVSTAGE0 gx.GX_TEV_ADD gx.GX_TB_ZERO gx.GX_CS_SCALE_1 gx.GX_TRUE
      gx.GX_TEVPREV,
    GXCall.SetTevAlphaOp gx.GX_TEVSTAGE0 gx.GX_TEV_ADD gx.GX_TB_ZERO gx.GX_CS_SCALE_1 gx.GX_TRUE
      gx.GX_TEVPREV]

/-- What the four wirings need of the enumerators of `gx.h`: the two choices of each
variable input differ. -/
def TevDistinct (gx : GXConsts) : Prop :=
  gx.GX_CC_RASC ≠ gx.GX_CC_C0 ∧ gx.GX_CC_TEXC ≠ gx.GX_CC_ONE ∧
  gx.GX_CA_RASA ≠ gx.GX_CA_A0 ∧ gx.GX_CA_TEXA ≠ gx.GX_CA_A1

/-- The numbers of TEV stages and of colour channels and the cull mode in the hardware,
with the capability flags. -/
def Context.capView {α : Type} (gx : GXConsts) (s : Context α) :
    Option Int × Option Int × Option Int × ServerEnabled :=
  ((hwRegs gx s.hw).numTevStages, (hwRegs gx s.hw).numChans, (hwRegs gx s.hw).cullMode,
    s.serverEnabled)

/-- The numbers of TEV stages and of colour channels last configured in the hardware are 2
with the flag of `GL_LIGHTING` enabled and 1 with it disabled. -/
def LightingMirrors {α : Type} (gx : GXConsts) (s : Context α) : Prop :=
  (hwRegs gx s.hw).numTevStages = some (if s.serverEnabled.lighting then 2 else 1) ∧
  (hwRegs gx s.hw).numChans = some (if s.serverEnabled.lighting then 2 else 1)

/-- With the flag of `GL_CULL_FACE` disabled, the cull mode last issued to the hardware is
`GX_CULL_NONE`. -/
def CullOffMirrors {α : Type} (gx : GXConsts) (s : Context α) : Prop :=
  s.serverEnabled.cullFace = false → (hwRegs gx s.hw).cullMode = some gx.GX_CULL_NONE

/-- The call is `glCullFace` or `wiigl_create_context`. -/
def APICall.isCullFaceOrCreate {α : Type} : APICall α → Prop
  | .glCullFace _ => True
  | .wiigl_create_context => True
  | _ => False

/-- The states reachable from a first `wiigl_create_context`, one that finds the video
system not yet initialised, by API calls that returned and that all satisfy `allowed`. -/
inductive ReachableFromFirst {α : Type} [Field α] (gx : GXConsts) (ext : Ext α)
    (allowed : APICall α → Prop) : Context α → Prop where
  | first (s0 s : Context α) (h0 : s0.initialized = false)
      (h : wiigl_create_context gx ext s0 = .ok s) : ReachableFromFirst gx ext allowed s
  | step (s s' : Context α) (c : APICall α) (hs : ReachableFromFirst gx ext allowed s)
      (hc : allowed c) (h : c.run gx ext s = .ok s') : ReachableFromFirst gx ext allowed s'

/-- The capability record `memset` leaves: every flag off, both masks 0. -/
def noCapabilities : ServerEnabled :=
  { alphaTest := false, blend := false, clipPlanes := 0, colorMaterial := false,
    cullFace := false, depthTest := false, lights := 0, lighting := false,
    normalize := false, polygonOffsetFill := false, pointSprite := false,
    stencilTest := false, texture2d := false, textureGenS := false, textureGenT := false }

/-- The state after `wiigl_create_context` on `exampleCtx`, `glMatrixMode(GL_PROJECTION)`,
`glOrtho(-1, 1, -1, 1, -1, 1)` and `glEnable(GL_POLYGON_OFFSET_FILL)`, with the projection
routines of libogc. -/
def orthoCtx : Context ℚ :=
  (glEnable libogc GL_POLYGON_OFFSET_FILL
    (glOrtho libogc projectionExt (-1) 1 (-1) 1 (-1) 1
      (glMatrixMode GL_PROJECTION
        (wiigl_create_context libogc projectionExt exampleCtx).state).state).state).state

/-- A context like `exampleCtx` before the video system is initialised. -/
def freshCtx : Context ℚ :=
  { exampleCtx with initialized := false }

/-- The state after a first `wiigl_create_context`. -/
def firstCtx : Context ℚ :=
  (wiigl_create_context libogc exampleExt freshCtx).state

/-- The state after a first `wiigl_create_context` and `glCullFace(GL_BACK)`. -/
def culledCtx : Context ℚ :=
  (glCullFace libogc GL_BACK firstCtx).state

/-- The state after a first `wiigl_create_context`, `glEnable(GL_CULL_FACE)` and a second
`wiigl_create_context`. -/
def recreatedCtx : Context ℚ :=
  (wiigl_create_context libogc exampleExt (glEnable libogc GL_CULL_FACE firstCtx).state).state

/-- The state after `wiigl_create_context` on `exampleCtx` and `glEnable(GL_LIGHTING)`. -/
def lightingCtx : Context ℚ :=
  (glEnable libogc GL_LIGHTING createdCtx).state

/-- The bytes of an image whose byte `i` is `i mod 256`. -/
def byteRamp : Nat → Nat :=
  fun i => i % 256

/-! ### Definitions for the texture-matrix slot and for texture parameters -/

/-- The matrix the sphere-map case of `glTexGeni` loads into texture matrix 0: the result of
`guMtxInvXpose` on the top of the model-view stack of `s`, then `guMtxApplyTrans` by
`(0.5, -0.5, 0)` and `guMtxApplyScale` by `(0.5, 0.5, 1)`. -/
def sphereMapMtx {α : Type} [Field α] (ext : Ext α) (s : Context α) : Mtx44 α :=
  ext.guMtxApplyScale
    (ext.guMtxApplyTrans
      (ext.guMtxInvXpose (s.modelviewMtxStack.stack s.modelviewMtxStack.stackPos))
      0.5 (-0.5) 0)
    0.5 0.5 1

/-- The record of the most recent write to texture matrix 0, after the call `c` made in the
state `s`; `w` is the record before the call. `none` stands for a load of the top of the
texture stack: `wiigl_create_context` ends its matrix set-up with one, and so does each of
the nine matrix calls that end in `load_curr_matrix` when the matrix mode is `GL_TEXTURE`.
`some m` stands for the load of `m` by the sphere-map case of `glTexGeni`. Every other call
leaves the record as it is. -/
def APICall.texWriter {α : Type} [Field α] (ext : Ext α) (c : APICall α) (s : Context α)
    (w : Option (Mtx44 α)) : Option (Mtx44 α) :=
  match c with
  | .wiigl_create_context => none
  | .glTexGeni coord pname param =>
    if coord = GL_T ∧ pname = GL_TEXTURE_GEN_MODE ∧ param = GL_SPHERE_MAP then
      some (sphereMapMtx ext s)
    else w
  | .glPopMatrix => if s.matrixMode = GL_TEXTURE then none else w
  | .glLoadIdentity => if s.matrixMode = GL_TEXTURE then none else w
  | .glLoadMatrixf _ => if s.matrixMode = GL_TEXTURE then none else w
  | .glMultMatrixf _ => if s.matrixMode = GL_TEXTURE then none else w
  | .glTranslatef _ _ _ => if s.matrixMode = GL_TEXTURE then none else w
  | .glScalef _ _ _ => if s.matrixMode = GL_TEXTURE then none else w
  | .glRotatef _ _ _ _ => if s.matrixMode = GL_TEXTURE then none else w
  | .glOrtho _ _ _ _ _ _ => if s.matrixMode = GL_TEXTURE then none else w
  | .glFrustum _ _ _ _ _ _ => if s.matrixMode = GL_TEXTURE then none else w
  | _ => w

/-- The states reachable from `wiigl_create_context` by API calls that returned, each with
the record of the most recent write to texture matrix 0 on the way to it. -/
inductive ReachableTex {α : Type} [Field α] (gx : GXConsts) (ext : Ext α) :
    Option (Mtx44 α) → Context α → Prop where
  | create (s0 s : Context α) (h : wiigl_create_context gx ext s0 = .ok s) :
      ReachableTex gx ext none s
  | step (w : Option (Mtx44 α)) (s s' : Context α) (c : APICall α)
      (hs : ReachableTex gx ext w s) (h : c.run gx ext s = .ok s') :
      ReachableTex gx ext (c.texWriter ext s w) s'

/-- The state after `wiigl_create_context` on `exampleCtx`,
`glTexGeni(GL_T, GL_TEXTURE_GEN_MODE, GL_SPHERE_MAP)`, `glMatrixMode(GL_TEXTURE)` and
`glLoadIdentity()`. -/
def reloadedCtx : Context ℚ :=
  (glLoadIdentity libogc sphereExt (glMatrixMode GL_TEXTURE sphereCtx).state).state

/-- The parameter names `glTexParameteri` has a `case` for. -/
def textureParameters : List Int :=
  [GL_TEXTURE_MAG_FILTER, GL_TEXTURE_MIN_FILTER, GL_TEXTURE_WRAP_S, GL_TEXTURE_WRAP_T]

/-- The state after `wiigl_create_context` on `exampleCtx`, `glGenTextures(1, ...)`, which
allocates the texture object at `0x900` and stores its handle at `0x5000`, and
`glBindTexture(GL_TEXTURE_2D, 0x900)`: a texture is bound on which no image has been
uploaded. -/
def genTexCtx : Context ℚ :=
  (glBindTexture GL_TEXTURE_2D 0x900
    (glGenTextures libogc 1 0x5000 (fun _ => 0x900) createdCtx).state).state

/-! ## Properties -/

section MatrixStackFacts

variable {α : Type}

@[simp] theorem curr_setCurr (s : Context α) (ms : MatrixStack α) :
    (s.setCurr ms).curr = ms := by
  unfold Context.setCurr Context.curr
  cases h : s.currMtxStack <;> simp [h]

@[simp] theorem currMtxStack_setCurr (s : Context α) (ms : MatrixStack α) :
    (s.setCurr ms).currMtxStack = s.currMtxStack := by
  unfold Context.setCurr
  cases h : s.currMtxStack <;> simp [h]

@[simp] theorem matrixMode_setCurr (s : Context α) (ms : MatrixStack α) :
    (s.setCurr ms).matrixMode = s.matrixMode := by
  unfold Context.setCurr
  cases h : s.currMtxStack <;> simp

@[simp] theorem curr_emit (s : Context α) (c : GXCall α) : (s.emit c).curr = s.curr := rfl

@[simp] theorem currMtxStack_emit (s : Context α) (c : GXCall α) :
    (s.emit c).currMtxStack = s.currMtxStack := rfl

@[simp] theorem matrixMode_emit (s : Context α) (c : GXCall α) :
    (s.emit c).matrixMode = s.matrixMode := rfl

@[simp] theorem curr_setCURR_MATRIX (s : Context α) (m : Mtx44 α) :
    (setCURR_MATRIX s m).curr =
      { s.curr with stack := Function.update s.curr.stack s.curr.stackPos m } := by
  simp [setCURR_MATRIX]

@[simp] theorem currMtxStack_setCURR_MATRIX (s : Context α) (m : Mtx44 α) :
    (setCURR_MATRIX s m).currMtxStack = s.currMtxStack := by
  simp [setCURR_MATRIX]

@[simp] theorem matrixMode_setCURR_MATRIX (s : Context α) (m : Mtx44 α) :
    (setCURR_MATRIX s m).matrixMode = s.matrixMode := by
  simp [setCURR_MATRIX]

theorem CURR_MATRIX_setCURR_MATRIX (s : Context α) (m : Mtx44 α) :
    CURR_MATRIX (setCURR_MATRIX s m) = m := by
  simp [CURR_MATRIX]

theorem ModeConsistent.ne_color {s : Context α} (h : ModeConsistent s) :
    s.matrixMode ≠ GL_COLOR := by
  rcases h with h | h | h <;> rw [h.1] <;> decide

/-- Outside the colour-matrix mode `load_curr_matrix` returns, and it changes no stack, nor
the current stack or mode. -/
theorem load_curr_matrix_ok (gx : GXConsts) (ext : Ext α) (s : Context α)
    (h : s.matrixMode ≠ GL_COLOR) :
    ∃ s', load_curr_matrix gx ext s = .ok s' ∧ s'.curr = s.curr ∧
      s'.currMtxStack = s.currMtxStack ∧ s'.matrixMode = s.matrixMode := by
  unfold load_curr_matrix
  split_ifs <;> exact ⟨_, rfl, by simp⟩

/-- Storing a matrix in `CURR_MATRIX` and loading it: the call returns, and only the
top entry of the current stack differs afterwards. -/
theorem mutate_ok (gx : GXConsts) (ext : Ext α) (s : Context α) (m : Mtx44 α)
    (h : s.matrixMode ≠ GL_COLOR) :
    ∃ s', load_curr_matrix gx ext (setCURR_MATRIX s m) = .ok s' ∧
      s'.curr = { s.curr with stack := Function.update s.curr.stack s.curr.stackPos m } ∧
      s'.currMtxStack = s.currMtxStack ∧ s'.matrixMode = s.matrixMode := by
  obtain ⟨s', h1, h2, h3, h4⟩ :=
    load_curr_matrix_ok gx ext (setCURR_MATRIX s m) (by simpa using h)
  exact ⟨s', h1, by simpa using h2, by simpa using h3, by simpa using h4⟩

/-- Every call that is neither a push nor a pop returns and rewrites only the top entry of
the current stack. -/
theorem MatOp.run_mutation [Field α] (gx : GXConsts) (ext : Ext α) (op : MatOp α)
    (s : Context α) (h : s.matrixMode ≠ GL_COLOR)
    (hpush : op ≠ .pushMatrix) (hpop : op ≠ .popMatrix) :
    ∃ m s', op.run gx ext s = .ok s' ∧
      s'.curr = { s.curr with stack := Function.update s.curr.stack s.curr.stackPos m } ∧
      s'.currMtxStack = s.currMtxStack ∧ s'.matrixMode = s.matrixMode := by
  cases op with
  | loadIdentity => exact ⟨_, mutate_ok gx ext s _ h⟩
  | loadMatrixf m => exact ⟨_, mutate_ok gx ext s _ h⟩
  | multMatrixf m => exact ⟨_, mutate_ok gx ext s _ h⟩
  | translatef x y z => exact ⟨_, mutate_ok gx ext s _ h⟩
  | scalef x y z => exact ⟨_, mutate_ok gx ext s _ h⟩
  | rotatef a x y z => exact ⟨_, mutate_ok gx ext s _ h⟩
  | frustum l r b t n f => exact ⟨_, mutate_ok gx ext s _ h⟩
  | ortho l r b t n f =>
    simp only [MatOp.run, glOrtho]
    split_ifs with hp
    · exact ⟨_, _, rfl, by rw [curr_emit, curr_setCURR_MATRIX],
        by rw [currMtxStack_emit, currMtxStack_setCURR_MATRIX],
        by rw [matrixMode_emit, matrixMode_setCURR_MATRIX]⟩
    · exact ⟨_, mutate_ok gx ext s _ h⟩
  | pushMatrix => exact absurd rfl hpush
  | popMatrix => exact absurd rfl hpop

/-- Below the capacity `glPushMatrix` returns with the top duplicated one slot up. -/
theorem glPushMatrix_ok (s : Context α) (h : s.curr.stackPos < 15) :
    glPushMatrix s = .ok (s.setCurr
      { stack := Function.update s.curr.stack (s.curr.stackPos + 1)
          (s.curr.stack s.curr.stackPos)
        stackPos := s.curr.stackPos + 1 }) := by
  unfold glPushMatrix
  rw [if_neg]
  simp only [MTX_STACK_LIMIT]
  omega

/-- Above depth 0 and outside the colour-matrix mode `glPopMatrix` returns; it lowers the
depth by one and leaves every stack entry as it was. -/
theorem glPopMatrix_ok (gx : GXConsts) (ext : Ext α) (s : Context α)
    (h : s.matrixMode ≠ GL_COLOR) (hpos : 0 < s.curr.stackPos) :
    ∃ s', glPopMatrix gx ext s = .ok s' ∧
      s'.curr = { s.curr with stackPos := s.curr.stackPos - 1 } ∧
      s'.currMtxStack = s.currMtxStack ∧ s'.matrixMode = s.matrixMode := by
  unfold glPopMatrix
  simp only [curr_setCurr]
  rw [if_neg (by omega)]
  obtain ⟨s', h1, h2, h3, h4⟩ := load_curr_matrix_ok gx ext
    (s.setCurr { s.curr with stackPos := s.curr.stackPos - 1 }) (by simpa using h)
  exact ⟨s', h1, by simpa using h2, by simpa using h3, by simpa using h4⟩

/-- A balanced, non-overflowing sequence run at depth `e` above `base` returns at depth
`base` and leaves every entry below `base` of the current stack as it was. -/
theorem runOps_balanced [Field α] (gx : GXConsts) (ext : Ext α) (base : Int)
    (ops : List (MatOp α)) :
    ∀ (e : Int) (t : Context α), t.matrixMode ≠ GL_COLOR → t.curr.stackPos = e → base ≤ e →
      0 ≤ base → balancedFrom base e ops = true →
      ∃ t', runOps gx ext ops t = .ok t' ∧ t'.curr.stackPos = base ∧
        t'.currMtxStack = t.currMtxStack ∧ t'.matrixMode = t.matrixMode ∧
        ∀ i, i < base → t'.curr.stack i = t.curr.stack i := by
  induction ops with
  | nil =>
    intro e t _ he _ _ hb
    simp only [balancedFrom, decide_eq_true_eq] at hb
    exact ⟨t, rfl, by omega, rfl, rfl, fun _ _ => rfl⟩
  | cons op ops ih =>
    intro e t hm he hbe hb0 hb
    by_cases hpush : op = .pushMatrix
    · subst hpush
      simp only [balancedFrom, Bool.and_eq_true, decide_eq_true_eq, MTX_STACK_LIMIT] at hb
      have hlt : t.curr.stackPos < 15 := by omega
      obtain ⟨t', h1, h2, h3, h4, h5⟩ := ih (e + 1)
        (t.setCurr
          { stack := Function.update t.curr.stack (t.curr.stackPos + 1)
              (t.curr.stack t.curr.stackPos)
            stackPos := t.curr.stackPos + 1 })
        (by simpa using hm) (by simp [he]) (by omega) hb0 hb.2
      refine ⟨t', ?_, h2, by simpa using h3, by simpa using h4, ?_⟩
      · simp only [runOps, MatOp.run, glPushMatrix_ok t hlt, Result.andThen]
        exact h1
      · intro i hi
        rw [h5 i hi]
        simp only [curr_setCurr]
        exact Function.update_noteq (by omega) _ _
    · by_cases hpop : op = .popMatrix
      · subst hpop
        simp only [balancedFrom, Bool.and_eq_true, decide_eq_true_eq] at hb
        obtain ⟨t1, g1, g2, g3, g4⟩ := glPopMatrix_ok gx ext t hm (by omega)
        obtain ⟨t', h1, h2, h3, h4, h5⟩ := ih (e - 1) t1 (by rw [g4]; exact hm)
          (by rw [g2]; simp [he]) (by omega) hb0 hb.2
        refine ⟨t', ?_, h2, by rw [h3, g3], by rw [h4, g4], ?_⟩
        · simp only [runOps, MatOp.run, g1, Result.andThen]
          exact h1
        · intro i hi
          rw [h5 i hi, g2]
      · obtain ⟨m, t1, g1, g2, g3, g4⟩ := MatOp.run_mutation gx ext op t hm hpush hpop
        have hb' : balancedFrom base e ops = true := by
          cases op <;> first | exact hb | exact absurd rfl hpush | exact absurd rfl hpop
        obtain ⟨t', h1, h2, h3, h4, h5⟩ := ih e t1 (by rw [g4]; exact hm)
          (by rw [g2]; exact he) hbe hb0 hb'
        refine ⟨t', ?_, h2, by rw [h3, g3], by rw [h4, g4], ?_⟩
        · simp only [runOps, g1, Result.andThen]
          exact h1
        · intro i hi
          rw [h5 i hi, g2]
          exact Function.update_noteq (by omega) _ _

theorem runOps_append [Field α] (gx : GXConsts) (ext : Ext α) (xs ys : List (MatOp α))
    (s : Context α) :
    runOps gx ext (xs ++ ys) s = (runOps gx ext xs s).andThen (runOps gx ext ys) := by
  induction xs generalizing s with
  | nil => rfl
  | cons op xs ih =>
    simp only [List.cons_append, runOps]
    cases op.run gx ext s with
    | ok t => exact ih t
    | fatal msg t => rfl

/-- Claim C10 (push semantics): for every state whose current stack has depth `d <= 14`,
`glPushMatrix` returns with that stack at depth `d + 1`, entry `d + 1` equal to the old
entry `d`, and the entries up to `d` (so `0..d`) unchanged. -/
theorem glPushMatrix_duplicates_top (s : Context α) (d : Int)
    (hd : s.curr.stackPos = d) (h14 : d ≤ 14) :
    ∃ s', glPushMatrix s = .ok s' ∧ s'.currMtxStack = s.currMtxStack ∧
      s'.curr.stackPos = d + 1 ∧ s'.curr.stack (d + 1) = s.curr.stack d ∧
      ∀ i, i ≤ d → s'.curr.stack i = s.curr.stack i := by
  refine ⟨_, glPushMatrix_ok s (by omega), by simp, by simp [hd], ?_, ?_⟩
  · simp [hd]
  · intro i hi
    simp only [curr_setCurr]
    exact Function.update_noteq (by omega) _ _

theorem glPushMatrix_duplicates_top_witness :
    exampleCtx.curr.stackPos = 0 ∧ (0 : Int) ≤ 14 ∧
    ∃ s', glPushMatrix exampleCtx = .ok s' ∧ s'.currMtxStack = exampleCtx.currMtxStack ∧
      s'.curr.stackPos = 0 + 1 ∧ s'.curr.stack (0 + 1) = exampleCtx.curr.stack 0 ∧
      ∀ i, i ≤ 0 → s'.curr.stack i = exampleCtx.curr.stack i :=
  ⟨rfl, by decide, glPushMatrix_duplicates_top exampleCtx 0 rfl (by decide)⟩

/-- Claim C6 (capacity violations): with the capacity of 16, in a state whose current stack
has its depth index in `0..15`, `glPushMatrix` reaches the fatal error exactly when the depth
index is 15 and `glPopMatrix` exactly when it is 0; in either failing call no matrix entry of
the current stack is changed (and the current stack is still the same one). -/
theorem capacity_violations (gx : GXConsts) (ext : Ext α) (s : Context α)
    (hmode : ModeConsistent s) (h0 : 0 ≤ s.curr.stackPos) (h15 : s.curr.stackPos ≤ 15) :
    ((glPushMatrix s).isFatal = true ↔ s.curr.stackPos = 15) ∧
    ((glPopMatrix gx ext s).isFatal = true ↔ s.curr.stackPos = 0) ∧
    ((glPushMatrix s).isFatal = true →
      (glPushMatrix s).state.currMtxStack = s.currMtxStack ∧
      ∀ i, (glPushMatrix s).state.curr.stack i = s.curr.stack i) ∧
    ((glPopMatrix gx ext s).isFatal = true →
      (glPopMatrix gx ext s).state.currMtxStack = s.currMtxStack ∧
      ∀ i, (glPopMatrix gx ext s).state.curr.stack i = s.curr.stack i) := by
  have push_iff : (glPushMatrix s).isFatal = true ↔ s.curr.stackPos = 15 := by
    by_cases h : s.curr.stackPos < 15
    · rw [glPushMatrix_ok s h]
      simp only [Result.isFatal]
      constructor
      · intro hf; cases hf
      · intro he; omega
    · have : s.curr.stackPos + 1 ≥ MTX_STACK_LIMIT := by simp only [MTX_STACK_LIMIT]; omega
      simp only [glPushMatrix, if_pos this, Result.isFatal, true_iff]
      omega
  have pop_iff : (glPopMatrix gx ext s).isFatal = true ↔ s.curr.stackPos = 0 := by
    by_cases h : 0 < s.curr.stackPos
    · obtain ⟨s', h1, _⟩ := glPopMatrix_ok gx ext s hmode.ne_color h
      rw [h1]
      simp only [Result.isFatal]
      constructor
      · intro hf; cases hf
      · intro he; omega
    · have : s.curr.stackPos - 1 < 0 := by omega
      simp only [glPopMatrix, curr_setCurr, if_pos this, Result.isFatal, true_iff]
      omega
  refine ⟨push_iff, pop_iff, ?_, ?_⟩
  · intro hf
    have h : s.curr.stackPos + 1 ≥ MTX_STACK_LIMIT := by
      have := push_iff.1 hf
      simp only [MTX_STACK_LIMIT]; omega
    simp [glPushMatrix, if_pos h, Result.state]
  · intro hf
    have h : s.curr.stackPos - 1 < 0 := by
      have := pop_iff.1 hf
      omega
    have e : glPopMatrix gx ext s = .fatal "glPopMatrix: stack underflow"
        (s.setCurr { s.curr with stackPos := s.curr.stackPos - 1 }) := by
      simp only [glPopMatrix, curr_setCurr, if_pos h]
    rw [e]
    simp [Result.state]

theorem capacity_violations_witness :
    ModeConsistent exampleCtx ∧ 0 ≤ exampleCtx.curr.stackPos ∧ exampleCtx.curr.stackPos ≤ 15 ∧
    ((glPushMatrix exampleCtx).isFatal = true ↔ exampleCtx.curr.stackPos = 15) ∧
    ((glPopMatrix libogc exampleExt exampleCtx).isFatal = true ↔
      exampleCtx.curr.stackPos = 0) :=
  have hm : ModeConsistent exampleCtx := Or.inl ⟨rfl, rfl⟩
  have h0 : 0 ≤ exampleCtx.curr.stackPos := by decide
  have h15 : exampleCtx.curr.stackPos ≤ 15 := by decide
  have h := capacity_violations libogc exampleExt exampleCtx hm h0 h15
  ⟨hm, h0, h15, h.1, h.2.1⟩

/-- Claim C1 (matrix stack round trip): in a state whose current stack has depth `d` with
`0 <= d < 15`, for every sequence `ops` of matrix mutations and balanced, non-overflowing
push/pop pairs, running `glPushMatrix`, then `ops`, then `glPopMatrix` returns with the same
current stack at depth `d` and a top matrix equal entry for entry to the top matrix before
the push. -/
theorem matrix_stack_round_trip [Field α] (gx : GXConsts) (ext : Ext α) (s : Context α)
    (ops : List (MatOp α)) (d : Int)
    (hmode : ModeConsistent s) (hd : s.curr.stackPos = d) (hd0 : 0 ≤ d) (hd15 : d < 15)
    (hops : balancedFrom (d + 1) (d + 1) ops = true) :
    ∃ s', runOps gx ext (MatOp.pushMatrix :: ops ++ [MatOp.popMatrix]) s = .ok s' ∧
      s'.currMtxStack = s.currMtxStack ∧ s'.curr.stackPos = d ∧
      ∀ r c, CURR_MATRIX s' r c = CURR_MATRIX s r c := by
  have hm := hmode.ne_color
  obtain ⟨s1, p1, p2, p3, p5, hm1⟩ : ∃ s1, glPushMatrix s = .ok s1 ∧
      s1.currMtxStack = s.currMtxStack ∧ s1.curr.stackPos = d + 1 ∧
      (∀ i, i ≤ d → s1.curr.stack i = s.curr.stack i) ∧ s1.matrixMode ≠ GL_COLOR := by
    refine ⟨_, glPushMatrix_ok s (by omega), by simp, by simp [hd], ?_, by simpa using hm⟩
    intro i hi
    simp only [curr_setCurr]
    exact Function.update_noteq (by omega) _ _
  obtain ⟨s2, q1, q2, q3, q4, q5⟩ :=
    runOps_balanced gx ext (d + 1) ops (d + 1) s1 hm1 p3 (le_refl _) (by omega) hops
  obtain ⟨s3, r1, r2, r3, r4⟩ := glPopMatrix_ok gx ext s2 (by rw [q4]; exact hm1) (by omega)
  refine ⟨s3, ?_, by rw [r3, q3, p2], by rw [r2]; simp [q2], ?_⟩
  · rw [List.cons_append, runOps, MatOp.run, p1, Result.andThen, runOps_append, q1,
      Result.andThen, runOps, MatOp.run, r1, Result.andThen, runOps]
  · intro r c
    have e1 : s3.curr.stack d = s.curr.stack d := by
      rw [r2]
      show s2.curr.stack d = _
      rw [q5 d (by omega), p5 d (le_refl _)]
    simp only [CURR_MATRIX, r2, q2, add_sub_cancel_right, hd]
    have e2 : s2.curr.stack d = s.curr.stack d := by
      rw [q5 d (by omega), p5 d (le_refl _)]
    rw [e2]

/-- A sequence for the round trip: a translation, a nested push/scale/pop, a reload. -/
theorem matrix_stack_round_trip_witness :
    ModeConsistent exampleCtx ∧ exampleCtx.curr.stackPos = 0 ∧
    balancedFrom (α := ℚ) (0 + 1) (0 + 1)
      [.translatef 1 2 3, .pushMatrix, .scalef 2 2 2, .popMatrix, .loadIdentity] = true ∧
    ∃ s', runOps libogc exampleExt
        (MatOp.pushMatrix ::
          [.translatef 1 2 3, .pushMatrix, .scalef 2 2 2, .popMatrix, .loadIdentity] ++
          [MatOp.popMatrix]) exampleCtx = .ok s' ∧
      s'.currMtxStack = exampleCtx.currMtxStack ∧ s'.curr.stackPos = 0 ∧
      ∀ r c, CURR_MATRIX s' r c = CURR_MATRIX exampleCtx r c :=
  ⟨Or.inl ⟨rfl, rfl⟩, rfl, by decide,
    matrix_stack_round_trip libogc exampleExt exampleCtx _ 0 (Or.inl ⟨rfl, rfl⟩) rfl
      (by decide) (by decide) (by decide)⟩

/-- The product of a translation by `(x, y, z)` and one by `(-x, -y, -z)` cancels. -/
theorem mult_translate_inverse [Field α] (M : Mtx44 α) (x y z : α) :
    mult_mtx44
      (mult_mtx44 M ![![1, 0, 0, x], ![0, 1, 0, y], ![0, 0, 1, z], ![0, 0, 0, 1]])
      ![![1, 0, 0, -x], ![0, 1, 0, -y], ![0, 0, 1, -z], ![0, 0, 0, 1]] = M := by
  funext r c
  fin_cases c <;> simp only [mult_mtx44] <;>
    simp only [Matrix.cons_val_zero, Matrix.cons_val_one, Matrix.head_cons, Matrix.cons_val_two,
      Matrix.tail_cons, Matrix.cons_val_three, Fin.zero_eta, Fin.mk_one, Fin.reduceFinMk] <;>
    ring

/-- A translation followed by the opposite translation, outside the colour-matrix mode. -/
theorem translate_pair [Field α] (gx : GXConsts) (ext : Ext α) (s : Context α)
    (x y z : α) (hm : s.matrixMode ≠ GL_COLOR) :
    ∃ s1 s2, glTranslatef gx ext x y z s = .ok s1 ∧
      glTranslatef gx ext (-x) (-y) (-z) s1 = .ok s2 ∧
      s2.currMtxStack = s.currMtxStack ∧ s2.curr.stackPos = s.curr.stackPos ∧
      CURR_MATRIX s2 = CURR_MATRIX s := by
  obtain ⟨s1, a1, a2, a3, a4⟩ := mutate_ok gx ext s
    (mult_mtx44 (CURR_MATRIX s) ![![1, 0, 0, x], ![0, 1, 0, y], ![0, 0, 1, z], ![0, 0, 0, 1]]) hm
  obtain ⟨s2, b1, b2, b3, b4⟩ := mutate_ok gx ext s1
    (mult_mtx44 (CURR_MATRIX s1)
      ![![1, 0, 0, -x], ![0, 1, 0, -y], ![0, 0, 1, -z], ![0, 0, 0, 1]]) (by rw [a4]; exact hm)
  refine ⟨s1, s2, a1, b1, by rw [b3, a3], by rw [b2, a2], ?_⟩
  have t1 : CURR_MATRIX s1 = mult_mtx44 (CURR_MATRIX s)
      ![![1, 0, 0, x], ![0, 1, 0, y], ![0, 0, 1, z], ![0, 0, 0, 1]] := by
    simp [CURR_MATRIX, a2]
  have t2 : CURR_MATRIX s2 = mult_mtx44 (CURR_MATRIX s1)
      ![![1, 0, 0, -x], ![0, 1, 0, -y], ![0, 0, 1, -z], ![0, 0, 0, 1]] := by
    simp [CURR_MATRIX, b2]
  rw [t2, t1, mult_translate_inverse]

/-- Claim C9 (translate / inverse translate): in exact arithmetic, for every `x`, `y`, `z`
and every current top matrix, `glTranslatef(x,y,z)` followed by `glTranslatef(-x,-y,-z)`
returns and leaves the top matrix equal to what it was; in particular `glLoadIdentity`
followed by the two translations leaves the identity matrix on top. -/
theorem translate_inverse_translate [Field α] (gx : GXConsts) (ext : Ext α) (s : Context α)
    (x y z : α) (hmode : ModeConsistent s) :
    (∃ s1 s2, glTranslatef gx ext x y z s = .ok s1 ∧
      glTranslatef gx ext (-x) (-y) (-z) s1 = .ok s2 ∧
      s2.currMtxStack = s.currMtxStack ∧ s2.curr.stackPos = s.curr.stackPos ∧
      CURR_MATRIX s2 = CURR_MATRIX s) ∧
    (∃ s0 s1 s2, glLoadIdentity gx ext s = .ok s0 ∧ glTranslatef gx ext x y z s0 = .ok s1 ∧
      glTranslatef gx ext (-x) (-y) (-z) s1 = .ok s2 ∧
      CURR_MATRIX s2 = ![![1, 0, 0, 0], ![0, 1, 0, 0], ![0, 0, 1, 0], ![0, 0, 0, 1]]) := by
  have hm := hmode.ne_color
  refine ⟨translate_pair gx ext s x y z hm, ?_⟩
  obtain ⟨s0, c1, c2, c3, c4⟩ := mutate_ok gx ext s
    ![![1, 0, 0, 0], ![0, 1, 0, 0], ![0, 0, 1, 0], ![0, 0, 0, 1]] hm
  obtain ⟨s1, s2, d1, d2, -, -, d5⟩ := translate_pair gx ext s0 x y z (by rw [c4]; exact hm)
  refine ⟨s0, s1, s2, c1, d1, d2, ?_⟩
  rw [d5]
  simp [CURR_MATRIX, c2]

theorem translate_inverse_translate_witness :
    ModeConsistent exampleCtx ∧
    ∃ s0 s1 s2, glLoadIdentity libogc exampleExt exampleCtx = .ok s0 ∧
      glTranslatef libogc exampleExt 1 2 3 s0 = .ok s1 ∧
      glTranslatef libogc exampleExt (-1) (-2) (-3) s1 = .ok s2 ∧
      CURR_MATRIX s2 = ![![1, 0, 0, 0], ![0, 1, 0, 0], ![0, 0, 1, 0], ![0, 0, 0, 1]] :=
  ⟨Or.inl ⟨rfl, rfl⟩,
    (translate_inverse_translate libogc exampleExt exampleCtx 1 2 3 (Or.inl ⟨rfl, rfl⟩)).2⟩

end MatrixStackFacts

section TexelFacts

/-- A field shifted above a smaller value: the bitwise or is a sum. -/
theorem shl_or (hi lo k : Nat) (h : lo < 2 ^ k) : (hi <<< k) ||| lo = hi * 2 ^ k + lo := by
  rw [Nat.shiftLeft_eq, Nat.mul_comm, ← Nat.mul_add_lt_is_or h]

theorem and_31 (x : Nat) : x &&& 31 = x % 32 := Nat.and_pow_two_sub_one_eq_mod x 5

theorem and_15 (x : Nat) : x &&& 15 = x % 16 := Nat.and_pow_two_sub_one_eq_mod x 4

theorem and_7 (x : Nat) : x &&& 7 = x % 8 := Nat.and_pow_two_sub_one_eq_mod x 3

/-- Four fields packed with shifts and ors, as a sum. -/
theorem pack4 (a b c d i j k : Nat) (hk : d < 2 ^ k) (hj : c * 2 ^ k + d < 2 ^ j)
    (hi : b * 2 ^ j + (c * 2 ^ k + d) < 2 ^ i) :
    (a <<< i) ||| (b <<< j) ||| (c <<< k) ||| d =
      a * 2 ^ i + (b * 2 ^ j + (c * 2 ^ k + d)) := by
  rw [Nat.lor_assoc, Nat.lor_assoc, shl_or c d k hk, shl_or b _ j hj, shl_or a _ i hi]

/-- The texel of an opaque pixel, in arithmetic form. -/
theorem rgb5a3_pixel_alpha_255 (r g b : Nat) (hr : r < 256) (hg : g < 256) (hb : b < 256) :
    rgb5a3_pixel r g b 255 = 32768 + (r / 8) * 1024 + (g / 8) * 32 + b / 8 := by
  simp only [rgb5a3_pixel, if_true, and_31, Nat.shiftRight_eq_div_pow]
  rw [pack4 1 _ _ _ 15 10 5 (by omega) (by omega) (by omega)]
  omega

/-- The texel of a translucent pixel, in arithmetic form. -/
theorem rgb5a3_pixel_alpha_lt (r g b a : Nat) (hr : r < 256) (hg : g < 256) (hb : b < 256)
    (ha : a < 255) :
    rgb5a3_pixel r g b a = (a / 32) * 4096 + (r / 16) * 256 + (g / 16) * 16 + b / 16 := by
  have : a ≠ 255 := by omega
  simp only [rgb5a3_pixel, if_neg this, and_15, and_7, Nat.shiftRight_eq_div_pow]
  rw [pack4 _ _ _ _ 12 8 4 (by omega) (by omega) (by omega)]
  omega

/-- The conversion of an image of one pixel: the texel of the pixel, then the zero padding of
the 4x4 block. -/
theorem convert_to_rgb5a3_one_pixel (data : Nat → Nat) :
    convert_to_rgb5a3 data 1 1 =
      rgb5a3_pixel (data 0 % 256) (data 1 % 256) (data 2 % 256) (data 3 % 256) ::
        List.replicate 15 0 := by
  simp [convert_to_rgb5a3, round_up, texel_index, List.range_succ, List.replicate]

/-- Claim C2 (per-pixel texel encoding): for every RGBA pixel `(r,g,b,a)` of 8-bit channels
the texel that `convert_to_rgb5a3` computes is `0x8000 | (r>>3)<<10 | (g>>3)<<5 | (b>>3)`
when `a = 255` and `(a>>5)<<12 | (r>>4)<<8 | (g>>4)<<4 | (b>>4)` when `a < 255`; bit 15, the
mark of the 15-bit opaque form, is set exactly when `a = 255`; and this texel is what the
function stores for the pixel (shown on the image made of that single pixel). -/
theorem rgb5a3_texel_encoding (data : Nat → Nat) (r g b a : Nat)
    (hdata : data 0 = r ∧ data 1 = g ∧ data 2 = b ∧ data 3 = a)
    (hr : r < 256) (hg : g < 256) (hb : b < 256) (ha : a < 256) :
    (a = 255 → rgb5a3_pixel r g b a =
      0x8000 ||| ((r >>> 3) <<< 10) ||| ((g >>> 3) <<< 5) ||| (b >>> 3)) ∧
    (a < 255 → rgb5a3_pixel r g b a =
      ((a >>> 5) <<< 12) ||| ((r >>> 4) <<< 8) ||| ((g >>> 4) <<< 4) ||| (b >>> 4)) ∧
    ((rgb5a3_pixel r g b a).testBit 15 = true ↔ a = 255) ∧
    (convert_to_rgb5a3 data 1 1).head? = some (rgb5a3_pixel r g b a) := by
  refine ⟨?_, ?_, ?_, ?_⟩
  · intro h
    subst h
    rw [rgb5a3_pixel_alpha_255 r g b hr hg hb]
    simp only [Nat.shiftRight_eq_div_pow]
    have e : (0x8000 : Nat) = 1 <<< 15 := by decide
    rw [e, pack4 1 _ _ _ 15 10 5 (by omega) (by omega) (by omega)]
    omega
  · intro h
    rw [rgb5a3_pixel_alpha_lt r g b a hr hg hb h]
    simp only [Nat.shiftRight_eq_div_pow]
    rw [pack4 _ _ _ _ 12 8 4 (by omega) (by omega) (by omega)]
    omega
  · rw [Nat.testBit_to_div_mod]
    by_cases h : a = 255
    · subst h
      rw [rgb5a3_pixel_alpha_255 r g b hr hg hb]
      simp only [decide_eq_true_eq, iff_true]
      omega
    · rw [rgb5a3_pixel_alpha_lt r g b a hr hg hb (by omega)]
      simp only [decide_eq_true_eq, h, iff_false]
      omega
  · obtain ⟨h0, h1, h2, h3⟩ := hdata
    rw [convert_to_rgb5a3_one_pixel, h0, h1, h2, h3, Nat.mod_eq_of_lt hr, Nat.mod_eq_of_lt hg,
      Nat.mod_eq_of_lt hb, Nat.mod_eq_of_lt ha]
    rfl

/-- An opaque orange pixel and its texel `0xFE00`. -/
theorem rgb5a3_texel_encoding_witness :
    (255 < 256 ∧ 128 < 256 ∧ 0 < 256) ∧
    rgb5a3_pixel 255 128 0 255 = 0xFE00 ∧
    (convert_to_rgb5a3 (fun i => [255, 128, 0, 255].getD i 0) 1 1).head? = some 0xFE00 :=
  have h := rgb5a3_texel_encoding (fun i => [255, 128, 0, 255].getD i 0) 255 128 0 255
    ⟨rfl, rfl, rfl, rfl⟩ (by decide) (by decide) (by decide) (by decide)
  have e : rgb5a3_pixel 255 128 0 255 = 0xFE00 := (h.1 rfl).trans (by decide)
  ⟨by decide, e, e ▸ h.2.2.2⟩

/-- Claim C7 (texture format round-trip tolerance): for a pixel with alpha 255 each 5-bit
field `q` mask-extracted from the texel satisfies `0 <= v - 8*q <= 7` for its channel value
`v`; for a pixel with alpha below 255 the texel has bit 15 clear and its 3-bit alpha field
`a3` satisfies `32*a3 <= alpha` and `32*a3 < 255`. -/
theorem rgb5a3_round_trip_tolerance (r g b a : Nat)
    (hr : r < 256) (hg : g < 256) (hb : b < 256) (ha : a < 256) :
    (a = 255 →
      (8 * ((rgb5a3_pixel r g b a >>> 10) &&& 31) ≤ r ∧
        r ≤ 8 * ((rgb5a3_pixel r g b a >>> 10) &&& 31) + 7) ∧
      (8 * ((rgb5a3_pixel r g b a >>> 5) &&& 31) ≤ g ∧
        g ≤ 8 * ((rgb5a3_pixel r g b a >>> 5) &&& 31) + 7) ∧
      (8 * (rgb5a3_pixel r g b a &&& 31) ≤ b ∧
        b ≤ 8 * (rgb5a3_pixel r g b a &&& 31) + 7)) ∧
    (a < 255 →
      (rgb5a3_pixel r g b a).testBit 15 = false ∧
      32 * ((rgb5a3_pixel r g b a >>> 12) &&& 7) ≤ a ∧
      32 * ((rgb5a3_pixel r g b a >>> 12) &&& 7) < 255) := by
  constructor
  · intro h
    subst h
    rw [rgb5a3_pixel_alpha_255 r g b hr hg hb]
    simp only [and_31, Nat.shiftRight_eq_div_pow]
    omega
  · intro h
    rw [rgb5a3_pixel_alpha_lt r g b a hr hg hb h, Nat.testBit_to_div_mod]
    simp only [and_7, Nat.shiftRight_eq_div_pow, decide_eq_false_iff_not]
    omega

/-- A translucent pixel: alpha 200 is kept as the field 6, that is 192. -/
theorem rgb5a3_round_trip_tolerance_witness :
    (77 < 256 ∧ 130 < 256 ∧ 9 < 256 ∧ 200 < 256 ∧ 200 < 255) ∧
    (rgb5a3_pixel 77 130 9 200).testBit 15 = false ∧
    32 * ((rgb5a3_pixel 77 130 9 200 >>> 12) &&& 7) ≤ 200 ∧
    32 * ((rgb5a3_pixel 77 130 9 200 >>> 12) &&& 7) < 255 :=
  ⟨by decide,
    (rgb5a3_round_trip_tolerance 77 130 9 200 (by decide) (by decide) (by decide)
      (by decide)).2 (by decide)⟩

/-- Claim C3, evaluation at a failing input: the opaque image of width 1 and height 5 whose
pixel `(0, y)` is the grey `8 * (y + 1)`. The buffer has the 32 texels of the padded 4x8
image. The claim places pixel `(0,4)` at index `16*(0 + 1*ceil(1/4)) = 16`, through the
number of block columns of the padded image; the code uses `width / 4 = 0` block columns and
stores it at index 0, over the texel of pixel `(0,0)`; index 16 keeps the padding value 0. -/
theorem convert_to_rgb5a3_narrow_image :
    (convert_to_rgb5a3 greyRamp 1 5).length = 32 ∧
    rgb5a3_pixel 8 8 8 255 = 0x8421 ∧
    rgb5a3_pixel 40 40 40 255 = 0x94A5 ∧
    (convert_to_rgb5a3 greyRamp 1 5).getD 0 0 = 0x94A5 ∧
    (convert_to_rgb5a3 greyRamp 1 5).getD 16 0 = 0 := by
  decide

end TexelFacts

section BufferFacts

variable {α : Type}

/-- As long as `offset + size` stays below `2^32`, a range that ends beyond the allocated
size is rejected, with the memory as it was. -/
theorem glBufferSubData_rejects_without_wrap (s : Context α) (target offset : Int)
    (size data buf : Nat) (hb : get_buffer target s = some buf) (hbuf : buf ≠ 0)
    (hdata : (s.buffers buf).data ≠ 0) (ho : 0 ≤ offset) (hsum : offset + size < 2 ^ 32)
    (hgt : offset + size > (s.buffers buf).size) :
    glBufferSubData target offset size data s =
      .fatal "glBufferSubData: offset + size is too large" s := by
  have e : (offset + (size : Int)) % 2 ^ 32 = offset + size :=
    Int.emod_eq_of_lt (by omega) hsum
  simp only [glBufferSubData, hb]
  rw [if_neg (by simp [hbuf, hdata]), if_pos (by rw [e]; exact hgt)]

/-- Claim C5, evaluation at a failing input: the buffer bound to `GL_ARRAY_BUFFER` has 16
bytes of storage; with `offset = 1` and `size = 4294967295` the sum `4294967296` exceeds 16,
but in 32-bit arithmetic it is 0: the call is not rejected, and the byte at `0x1001` of the
storage, 0 before, is 7 afterwards. -/
theorem glBufferSubData_wraparound :
    (1 : Int) + 4294967295 > ((bufCtx.buffers 0x800).size : Int) ∧
    (glBufferSubData GL_ARRAY_BUFFER 1 4294967295 0x2000 bufCtx).isFatal = false ∧
    bufCtx.mem 0x1001 = 0 ∧
    (glBufferSubData GL_ARRAY_BUFFER 1 4294967295 0x2000 bufCtx).state.mem 0x1001 = 7 := by
  decide

end BufferFacts

section AttributeFacts

variable {α : Type}

/-- The five element types are translated, each to its own enumerator. -/
theorem gl_enum_to_gx_elementTypes (gx : GXConsts) :
    gl_enum_to_gx gx GL_BYTE = some gx.GX_S8 ∧
    gl_enum_to_gx gx GL_UNSIGNED_BYTE = some gx.GX_U8 ∧
    gl_enum_to_gx gx GL_SHORT = some gx.GX_S16 ∧
    gl_enum_to_gx gx GL_UNSIGNED_SHORT = some gx.GX_U16 ∧
    gl_enum_to_gx gx GL_FLOAT = some gx.GX_F32 :=
  ⟨rfl, rfl, rfl, rfl, rfl⟩

/-- On the element types `gl_enum_to_gx` is injective, the component types being distinct. -/
theorem gl_enum_to_gx_injective (gx : GXConsts) (hgx : GXDistinct gx) (t1 t2 : Int)
    (h1 : t1 ∈ elementTypes) (h2 : t2 ∈ elementTypes)
    (h : gl_enum_to_gx gx t1 = gl_enum_to_gx gx t2) : t1 = t2 := by
  obtain ⟨e1, e2, e3, e4, e5⟩ := gl_enum_to_gx_elementTypes gx
  have hn := hgx.1
  simp only [List.nodup_cons, List.mem_cons, List.mem_singleton, not_or, List.not_mem_nil,
    not_false_eq_true, List.nodup_nil, and_true] at hn
  simp only [elementTypes, List.mem_cons, List.mem_singleton, List.not_mem_nil, or_false]
    at h1 h2
  rcases h1 with rfl | rfl | rfl | rfl | rfl <;> rcases h2 with rfl | rfl | rfl | rfl | rfl <;>
    first
    | rfl
    | (simp only [e1, e2, e3, e4, e5, Option.some.injEq] at h; simp_all)

/-- Every element type is translated. -/
theorem gl_enum_to_gx_isSome (gx : GXConsts) (t : Int) (h : t ∈ elementTypes) :
    ∃ f, gl_enum_to_gx gx t = some f := by
  obtain ⟨e1, e2, e3, e4, e5⟩ := gl_enum_to_gx_elementTypes gx
  simp only [elementTypes, List.mem_cons, List.mem_singleton, List.not_mem_nil, or_false] at h
  rcases h with rfl | rfl | rfl | rfl | rfl
  exacts [⟨_, e1⟩, ⟨_, e2⟩, ⟨_, e3⟩, ⟨_, e4⟩, ⟨_, e5⟩]

/-- The descriptor `glVertexPointer` stores for a supported input. -/
theorem glVertexPointer_desc (gx : GXConsts) (s : Context α) (n t : Int) (stride pointer : Nat)
    (hn : n ∈ [2, 3]) (ht : t ∈ elementTypes) :
    ∃ s' f, glVertexPointer gx n t stride pointer s = .ok s' ∧ gl_enum_to_gx gx t = some f ∧
      s'.posDesc.components = (if n = 2 then gx.GX_POS_XY else gx.GX_POS_XYZ) ∧
      s'.posDesc.format = f := by
  obtain ⟨f, hf⟩ := gl_enum_to_gx_isSome gx t ht
  have hn' : ¬ (n ≠ 2 ∧ n ≠ 3) := by
    simp only [List.mem_cons, List.mem_singleton, List.not_mem_nil, or_false] at hn
    omega
  simp only [glVertexPointer, if_neg hn', hf]
  exact ⟨_, f, rfl, rfl, rfl, rfl⟩

/-- The descriptor `glTexCoordPointer` stores for a supported input. -/
theorem glTexCoordPointer_desc (gx : GXConsts) (s : Context α) (n t : Int)
    (stride pointer : Nat) (hn : n ∈ [1, 2, 3]) (ht : t ∈ elementTypes) :
    ∃ s' f, glTexCoordPointer gx n t stride pointer s = .ok s' ∧
      gl_enum_to_gx gx t = some f ∧
      s'.texCoordDesc.components = (if n = 1 then gx.GX_TEX_S else gx.GX_TEX_ST) ∧
      s'.texCoordDesc.format = f := by
  obtain ⟨f, hf⟩ := gl_enum_to_gx_isSome gx t ht
  have hn' : ¬ (n ≠ 1 ∧ n ≠ 2 ∧ n ≠ 3) := by
    simp only [List.mem_cons, List.mem_singleton, List.not_mem_nil, or_false] at hn
    omega
  simp only [glTexCoordPointer, if_neg hn', hf]
  exact ⟨_, f, rfl, rfl, by simp [Context.emit], rfl⟩

/-- The descriptor `glColorPointer` stores for a supported input. -/
theorem glColorPointer_desc (gx : GXConsts) (hgx : GXDistinct gx) (s : Context α) (n t : Int)
    (stride pointer : Nat) (hn : n ∈ [3, 4]) (ht : t ∈ colorTypes) :
    ∃ s', glColorPointer gx n t stride pointer s = .ok s' ∧
      s'.colorDesc.components = (if n = 3 then gx.GX_CLR_RGB else gx.GX_CLR_RGBA) ∧
      s'.colorDesc.format =
        (if t = GL_UNSIGNED_BYTE then (if n = 3 then gx.GX_RGB8 else gx.GX_RGBA8)
          else gx.GX_F32) := by
  obtain ⟨-, e2, -, -, e5⟩ := gl_enum_to_gx_elementTypes gx
  obtain ⟨hnd, -, hclr, -, -, -⟩ := hgx
  simp only [List.nodup_cons, List.mem_cons, List.mem_singleton, not_or, List.not_mem_nil,
    not_false_eq_true, List.nodup_nil, and_true] at hnd
  have hfu : gx.GX_F32 ≠ gx.GX_U8 := fun h => hnd.2.1.2.2 h.symm
  simp only [colorTypes, List.mem_cons, List.mem_singleton, List.not_mem_nil, or_false]
    at hn ht
  have hne : GL_FLOAT ≠ GL_UNSIGNED_BYTE := by decide
  rcases hn with rfl | rfl <;> rcases ht with rfl | rfl <;>
    simp [glColorPointer, e2, e5, hfu, hclr.symm, Context.emit, hne]

/-- The values of libogc satisfy `GXDistinct`. -/
theorem libogc_distinct : GXDistinct libogc := by
  unfold GXDistinct
  decide

/-- Claim C8 as stated fails: `glTexCoordPointer` with the supported inputs `(2, GL_FLOAT)`
and `(3, GL_FLOAT)`, which differ, stores the same (components, format) pair. -/
theorem texcoord_counts_2_and_3_collide :
    (2 : Int) ∈ [1, 2, 3] ∧ (3 : Int) ∈ [1, 2, 3] ∧ GL_FLOAT ∈ elementTypes ∧
    ((2 : Int), GL_FLOAT) ≠ ((3 : Int), GL_FLOAT) ∧
    ∃ s2 s3, glTexCoordPointer libogc 2 GL_FLOAT 0 0 exampleCtx = .ok s2 ∧
      glTexCoordPointer libogc 3 GL_FLOAT 0 0 exampleCtx = .ok s3 ∧
      (s2.texCoordDesc.components, s2.texCoordDesc.format) =
        (s3.texCoordDesc.components, s3.texCoordDesc.format) :=
  ⟨by decide, by decide, by decide, by decide, _, _, rfl, rfl, rfl⟩

/-- Claim C8, amended: for `glVertexPointer` (counts 2, 3; the five element types) and
`glColorPointer` (counts 3, 4; types unsigned byte, float) the call returns on every
supported input and two distinct supported inputs store distinct (components, format) pairs;
for `glTexCoordPointer` (counts 1, 2, 3; the five element types) the call returns on every
supported input and two supported inputs store the same pair exactly when they have the same
element type and either the same count or the counts 2 and 3. -/
theorem attribute_format_mapping (gx : GXConsts) (hgx : GXDistinct gx) (s t : Context α)
    (n1 n2 t1 t2 : Int) (st1 st2 p1 p2 : Nat) :
    (n1 ∈ [2, 3] → n2 ∈ [2, 3] → t1 ∈ elementTypes → t2 ∈ elementTypes →
      ∃ s1 s2, glVertexPointer gx n1 t1 st1 p1 s = .ok s1 ∧
        glVertexPointer gx n2 t2 st2 p2 t = .ok s2 ∧
        ((s1.posDesc.components, s1.posDesc.format) =
            (s2.posDesc.components, s2.posDesc.format) → n1 = n2 ∧ t1 = t2)) ∧
    (n1 ∈ [3, 4] → n2 ∈ [3, 4] → t1 ∈ colorTypes → t2 ∈ colorTypes →
      ∃ s1 s2, glColorPointer gx n1 t1 st1 p1 s = .ok s1 ∧
        glColorPointer gx n2 t2 st2 p2 t = .ok s2 ∧
        ((s1.colorDesc.components, s1.colorDesc.format) =
            (s2.colorDesc.components, s2.colorDesc.format) → n1 = n2 ∧ t1 = t2)) ∧
    (n1 ∈ [1, 2, 3] → n2 ∈ [1, 2, 3] → t1 ∈ elementTypes → t2 ∈ elementTypes →
      ∃ s1 s2, glTexCoordPointer gx n1 t1 st1 p1 s = .ok s1 ∧
        glTexCoordPointer gx n2 t2 st2 p2 t = .ok s2 ∧
        ((s1.texCoordDesc.components, s1.texCoordDesc.format) =
            (s2.texCoordDesc.components, s2.texCoordDesc.format) ↔
          t1 = t2 ∧ (n1 = n2 ∨ (n1 = 2 ∧ n2 = 3) ∨ (n1 = 3 ∧ n2 = 2)))) := by
  obtain ⟨hnd, hpos, hclr, htex, hrgb, hrgba⟩ := id hgx
  refine ⟨?_, ?_, ?_⟩
  · intro hn1 hn2 ht1 ht2
    obtain ⟨s1, f1, a1, a2, a3, a4⟩ := glVertexPointer_desc gx s n1 t1 st1 p1 hn1 ht1
    obtain ⟨s2, f2, b1, b2, b3, b4⟩ := glVertexPointer_desc gx t n2 t2 st2 p2 hn2 ht2
    refine ⟨s1, s2, a1, b1, ?_⟩
    intro h
    rw [Prod.mk.injEq, a3, a4, b3, b4] at h
    refine ⟨?_, gl_enum_to_gx_injective gx hgx t1 t2 ht1 ht2 (by rw [a2, b2, h.2])⟩
    have hc := h.1
    simp only [List.mem_cons, List.mem_singleton, List.not_mem_nil, or_false] at hn1 hn2
    rcases hn1 with rfl | rfl <;> rcases hn2 with rfl | rfl <;> simp_all
  · intro hn1 hn2 ht1 ht2
    obtain ⟨s1, a1, a3, a4⟩ := glColorPointer_desc gx hgx s n1 t1 st1 p1 hn1 ht1
    obtain ⟨s2, b1, b3, b4⟩ := glColorPointer_desc gx hgx t n2 t2 st2 p2 hn2 ht2
    refine ⟨s1, s2, a1, b1, ?_⟩
    intro h
    rw [Prod.mk.injEq, a3, a4, b3, b4] at h
    have hne : GL_FLOAT ≠ GL_UNSIGNED_BYTE := by decide
    simp only [colorTypes, List.mem_cons, List.mem_singleton, List.not_mem_nil, or_false]
      at hn1 hn2 ht1 ht2
    rcases hn1 with rfl | rfl <;> rcases hn2 with rfl | rfl <;>
      rcases ht1 with rfl | rfl <;> rcases ht2 with rfl | rfl <;> simp_all
  · intro hn1 hn2 ht1 ht2
    obtain ⟨s1, f1, a1, a2, a3, a4⟩ := glTexCoordPointer_desc gx s n1 t1 st1 p1 hn1 ht1
    obtain ⟨s2, f2, b1, b2, b3, b4⟩ := glTexCoordPointer_desc gx t n2 t2 st2 p2 hn2 ht2
    refine ⟨s1, s2, a1, b1, ?_⟩
    rw [Prod.mk.injEq, a3, a4, b3, b4]
    have hf : f1 = f2 ↔ t1 = t2 := by
      constructor
      · intro h
        exact gl_enum_to_gx_injective gx hgx t1 t2 ht1 ht2 (by rw [a2, b2, h])
      · intro h
        subst h
        rw [a2] at b2
        exact Option.some.inj b2
    rw [hf]
    have htex' : ¬ gx.GX_TEX_ST = gx.GX_TEX_S := fun h => htex h.symm
    simp only [List.mem_cons, List.mem_singleton, List.not_mem_nil, or_false] at hn1 hn2
    rcases hn1 with rfl | rfl | rfl <;> rcases hn2 with rfl | rfl | rfl <;> simp_all

/-- Positions `(2, GL_FLOAT)` and `(3, GL_SHORT)`, colours `(3, GL_UNSIGNED_BYTE)` and
`(4, GL_FLOAT)`, texture coordinates `(2, GL_FLOAT)` and `(3, GL_FLOAT)`. -/
theorem attribute_format_mapping_witness :
    GXDistinct libogc ∧
    (∃ s1 s2, glVertexPointer libogc 2 GL_FLOAT 12 0 exampleCtx = .ok s1 ∧
      glVertexPointer libogc 3 GL_SHORT 6 64 bufCtx = .ok s2 ∧
      ((s1.posDesc.components, s1.posDesc.format) =
          (s2.posDesc.components, s2.posDesc.format) → (2 : Int) = 3 ∧ GL_FLOAT = GL_SHORT)) ∧
    (∃ s1 s2, glTexCoordPointer libogc 2 GL_FLOAT 12 0 exampleCtx = .ok s1 ∧
      glTexCoordPointer libogc 3 GL_FLOAT 6 64 bufCtx = .ok s2 ∧
      ((s1.texCoordDesc.components, s1.texCoordDesc.format) =
          (s2.texCoordDesc.components, s2.texCoordDesc.format) ↔
        GL_FLOAT = GL_FLOAT ∧ ((2 : Int) = 3 ∨ ((2 : Int) = 2 ∧ (3 : Int) = 3) ∨
          ((2 : Int) = 3 ∧ (3 : Int) = 2)))) :=
  have h := attribute_format_mapping libogc libogc_distinct exampleCtx bufCtx 2 3 GL_FLOAT
    GL_SHORT 12 6 0 64
  have h' := attribute_format_mapping libogc libogc_distinct exampleCtx bufCtx 2 3 GL_FLOAT
    GL_FLOAT 12 6 0 64
  ⟨libogc_distinct, h.1 (by decide) (by decide) (by decide) (by decide),
    h'.2.2 (by decide) (by decide) (by decide) (by decide)⟩

end AttributeFacts

section DrawFacts

variable {α : Type}

theorem extendsWithoutVertex_refl (s : Context α) : ExtendsWithoutVertex s s :=
  ⟨[], (List.append_nil _).symm, rfl⟩

theorem extendsWithoutVertex_trans {s t u : Context α} (h1 : ExtendsWithoutVertex s t)
    (h2 : ExtendsWithoutVertex t u) : ExtendsWithoutVertex s u := by
  obtain ⟨p1, e1, f1⟩ := h1
  obtain ⟨p2, e2, f2⟩ := h2
  exact ⟨p1 ++ p2, by rw [e2, e1, List.append_assoc], by rw [List.filter_append, f1, f2]; rfl⟩

theorem extendsWithoutVertex_emit (s : Context α) (c : GXCall α)
    (hc : c.isVertexRecord = false) : ExtendsWithoutVertex s (s.emit c) :=
  ⟨[c], rfl, by simp [List.filter, hc]⟩

@[simp] theorem clientEnabled_emit (s : Context α) (c : GXCall α) :
    (s.emit c).clientEnabled = s.clientEnabled := rfl

@[simp] theorem serverEnabled_emit (s : Context α) (c : GXCall α) :
    (s.emit c).serverEnabled = s.serverEnabled := rfl

@[simp] theorem mem_emit (s : Context α) (c : GXCall α) : (s.emit c).mem = s.mem := rfl

@[simp] theorem boundBuffers_emit (s : Context α) (c : GXCall α) :
    (s.emit c).boundBuffers = s.boundBuffers := rfl

@[simp] theorem projMtxStack_emit (s : Context α) (c : GXCall α) :
    (s.emit c).projMtxStack = s.projMtxStack := rfl

@[simp] theorem hw_emit (s : Context α) (c : GXCall α) : (s.emit c).hw = s.hw ++ [c] := rfl

theorem setup_drawing_hw (gx : GXConsts) (s : Context α) :
    ExtendsWithoutVertex s (setup_drawing gx s) := by
  unfold setup_drawing
  have h0 : ExtendsWithoutVertex s
      (if s.clientEnabled.textureCoordArray = true then s
        else s.emit (.SetTevColor gx.GX_TEVREG1 255 255 255 255)) := by
    split_ifs
    · exact extendsWithoutVertex_refl s
    · exact extendsWithoutVertex_emit s _ rfl
  refine extendsWithoutVertex_trans (extendsWithoutVertex_trans (extendsWithoutVertex_trans
    (extendsWithoutVertex_trans h0 (extendsWithoutVertex_emit _ _ ?_))
    (extendsWithoutVertex_emit _ _ ?_)) (extendsWithoutVertex_emit _ _ ?_))
    (extendsWithoutVertex_emit _ _ ?_) <;> rfl

theorem setup_drawing_frame (gx : GXConsts) (s : Context α) :
    (setup_drawing gx s).clientEnabled = s.clientEnabled ∧
    (setup_drawing gx s).serverEnabled = s.serverEnabled ∧
    (setup_drawing gx s).mem = s.mem ∧
    (setup_drawing gx s).boundBuffers = s.boundBuffers ∧
    (setup_drawing gx s).projMtxStack = s.projMtxStack := by
  unfold setup_drawing
  simp only [clientEnabled_emit, serverEnabled_emit, mem_emit, boundBuffers_emit,
    projMtxStack_emit]
  refine ⟨?_, ?_, ?_, ?_, ?_⟩ <;> split_ifs <;> rfl

/-- The calls before `GX_Begin` submit no vertex and touch only the trace. -/
theorem drawPrologue_spec [Field α] (gx : GXConsts) (ext : Ext α) (s : Context α) :
    ExtendsWithoutVertex s (drawPrologue gx ext s) ∧
    (drawPrologue gx ext s).clientEnabled = s.clientEnabled ∧
    (drawPrologue gx ext s).serverEnabled = s.serverEnabled ∧
    (drawPrologue gx ext s).mem = s.mem ∧
    (drawPrologue gx ext s).boundBuffers = s.boundBuffers ∧
    (drawPrologue gx ext s).projMtxStack = s.projMtxStack := by
  unfold drawPrologue
  refine ⟨?_, ?_⟩
  · refine extendsWithoutVertex_trans (extendsWithoutVertex_trans ?_ (setup_drawing_hw gx _))
      (extendsWithoutVertex_emit _ _ rfl)
    refine extendsWithoutVertex_trans (t := if s.serverEnabled.texture2d = true ∧
      s.boundTexture ≠ 0 then s.emit (.LoadTexObj s.boundTexture gx.GX_TEXMAP0) else s) ?_ ?_
    · split_ifs
      · exact extendsWithoutVertex_emit _ _ rfl
      · exact extendsWithoutVertex_refl s
    · split_ifs
      all_goals first
        | exact extendsWithoutVertex_emit _ _ rfl
        | exact extendsWithoutVertex_refl _
  · simp only [clientEnabled_emit, serverEnabled_emit, mem_emit, boundBuffers_emit,
      projMtxStack_emit]
    refine ⟨?_, ?_, ?_, ?_, ?_⟩
    all_goals
      first
      | rw [(setup_drawing_frame gx _).1]
      | rw [(setup_drawing_frame gx _).2.1]
      | rw [(setup_drawing_frame gx _).2.2.1]
      | rw [(setup_drawing_frame gx _).2.2.2.1]
      | rw [(setup_drawing_frame gx _).2.2.2.2]
    all_goals split_ifs <;> rfl

/-- A `u8` or `u16` index passes unchanged into the `u16` argument of the submission. -/
theorem vertexRecords_of_lt (ce : ClientEnabled) (i : Nat) (h : i < 65536) :
    (vertexRecords ce (i : Int) : List (GXCall α)) =
      (if ce.vertexArray then [GXCall.Position1x16 i] else []) ++
      (if ce.normalArray then [GXCall.Normal1x16 i] else []) ++
      (if ce.colorArray then [GXCall.Color1x16 i] else []) ++
      (if ce.textureCoordArray then [GXCall.TexCoord1x16 i] else []) := by
  have e : ((i : Int) % 65536).toNat = i := by omega
  simp only [vertexRecords, e]

theorem load8_lt (mem : Nat → Nat) (a : Nat) : load8 mem a < 65536 := by
  unfold load8; omega

theorem load16_lt (mem : Nat → Nat) (a : Nat) : load16 mem a < 65536 := by
  unfold load16; omega

/-- The vertex loop of `glDrawElements` over the first `n` indices of the list in memory. -/
theorem drawElements_loop (type : Int) (indices : Nat) (idx : List Nat) (t : Context α)
    (hidx : (type = GL_UNSIGNED_BYTE ∧
        ∀ k, k < idx.length → idx[k]? = some (load8 t.mem (indices + k))) ∨
      (type = GL_UNSIGNED_SHORT ∧
        ∀ k, k < idx.length → idx[k]? = some (load16 t.mem (indices + 2 * k)))) :
    ∀ n, n ≤ idx.length →
      (List.range n).foldl
        (fun (r : Result (Context α)) i => r.andThen (fun u => drawElementsStep type indices u i))
        (Result.ok t) =
      .ok { t with hw := t.hw ++ (idx.take n).flatMap (fun i =>
        (if t.clientEnabled.vertexArray then [GXCall.Position1x16 i] else []) ++
        (if t.clientEnabled.normalArray then [GXCall.Normal1x16 i] else []) ++
        (if t.clientEnabled.colorArray then [GXCall.Color1x16 i] else []) ++
        (if t.clientEnabled.textureCoordArray then [GXCall.TexCoord1x16 i] else [])) } := by
  intro n
  induction n with
  | zero => intro _; simp
  | succ n ih =>
    intro hn
    rw [List.range_succ, List.foldl_append, ih (by omega), List.take_succ]
    simp only [List.foldl_cons, List.foldl_nil, Result.andThen]
    have hne : GL_UNSIGNED_SHORT ≠ GL_UNSIGNED_BYTE := by decide
    rcases hidx with ⟨rfl, h⟩ | ⟨rfl, h⟩
    · rw [h n (by omega)]
      simp only [drawElementsStep, if_true, emitVertex, Option.toList, List.flatMap_append,
        List.flatMap_cons, List.flatMap_nil, List.append_nil,
        vertexRecords_of_lt _ _ (load8_lt _ _), List.append_assoc]
    · rw [h n (by omega)]
      simp only [drawElementsStep, if_neg hne, if_true, emitVertex, Option.toList,
        List.flatMap_append, List.flatMap_cons, List.flatMap_nil, List.append_nil,
        vertexRecords_of_lt _ _ (load16_lt _ _), List.append_assoc]

theorem gl_enum_to_gx_topology (gx : GXConsts) (mode : Int) (h : mode ∈ supportedTopologies) :
    ∃ gmode, gl_enum_to_gx gx mode = some gmode := by
  simp only [supportedTopologies, List.mem_cons, List.mem_singleton, List.not_mem_nil,
    or_false] at h
  rcases h with rfl | rfl | rfl | rfl | rfl
  exacts [⟨_, rfl⟩, ⟨_, rfl⟩, ⟨_, rfl⟩, ⟨_, rfl⟩, ⟨_, rfl⟩]

/-- The records of a list of indices are all vertex submissions. -/
theorem filter_vertex_records (ce : ClientEnabled) (idx : List Nat) :
    (idx.flatMap (fun i =>
      (if ce.vertexArray then [(GXCall.Position1x16 i : GXCall α)] else []) ++
      (if ce.normalArray then [GXCall.Normal1x16 i] else []) ++
      (if ce.colorArray then [GXCall.Color1x16 i] else []) ++
      (if ce.textureCoordArray then [GXCall.TexCoord1x16 i] else []))).filter
        GXCall.isVertexRecord =
    idx.flatMap (fun i =>
      (if ce.vertexArray then [(GXCall.Position1x16 i : GXCall α)] else []) ++
      (if ce.normalArray then [GXCall.Normal1x16 i] else []) ++
      (if ce.colorArray then [GXCall.Color1x16 i] else []) ++
      (if ce.textureCoordArray then [GXCall.TexCoord1x16 i] else [])) := by
  rw [List.filter_eq_self]
  intro c hc
  rw [List.mem_flatMap] at hc
  obtain ⟨i, -, hi⟩ := hc
  simp only [List.mem_append] at hi
  rcases hi with ((hi | hi) | hi) | hi <;> split_ifs at hi <;>
    simp only [List.mem_singleton, List.not_mem_nil] at hi <;> subst hi <;> rfl

theorem drawEpilogue_hw (gx : GXConsts) (t : Context α) :
    (drawEpilogue gx t).hw = t.hw ++ [GXCall.End] ++
      (if t.serverEnabled.polygonOffsetFill then
        [GXCall.LoadProjectionMtx (t.projMtxStack.stack t.projMtxStack.stackPos)
          gx.GX_PERSPECTIVE]
      else []) := by
  unfold drawEpilogue
  simp only [serverEnabled_emit, projMtxStack_emit]
  split_ifs <;> simp

/-- From `GX_Begin` to the end of `glDrawElements`, for a list of indices in memory. -/
theorem drawElements_body (gx : GXConsts) (type : Int) (indices : Nat) (idx : List Nat)
    (P : Context α) (b : GXCall α)
    (hidx : (type = GL_UNSIGNED_BYTE ∧
        ∀ k, k < idx.length → idx[k]? = some (load8 P.mem (indices + k))) ∨
      (type = GL_UNSIGNED_SHORT ∧
        ∀ k, k < idx.length → idx[k]? = some (load16 P.mem (indices + 2 * k)))) :
    ∃ s', Result.andThen
        ((List.range idx.length).foldl
          (fun (r : Result (Context α)) i =>
            r.andThen (fun t => drawElementsStep type indices t i))
          (Result.ok (P.emit b)))
        (fun t => Result.ok (drawEpilogue gx t)) = .ok s' ∧
      s'.hw = P.hw ++ [b] ++
        idx.flatMap (fun i =>
          (if P.clientEnabled.vertexArray then [GXCall.Position1x16 i] else []) ++
          (if P.clientEnabled.normalArray then [GXCall.Normal1x16 i] else []) ++
          (if P.clientEnabled.colorArray then [GXCall.Color1x16 i] else []) ++
          (if P.clientEnabled.textureCoordArray then [GXCall.TexCoord1x16 i] else [])) ++
        [GXCall.End] ++
        (if P.serverEnabled.polygonOffsetFill then
          [GXCall.LoadProjectionMtx (P.projMtxStack.stack P.projMtxStack.stackPos)
            gx.GX_PERSPECTIVE]
        else []) := by
  have hloop := drawElements_loop type indices idx (P.emit b)
    (by simpa only [mem_emit] using hidx) idx.length (le_refl _)
  rw [hloop, List.take_length]
  refine ⟨_, rfl, ?_⟩
  rw [drawEpilogue_hw]
  rfl

/-- Claim C4 (draw-call index resolution): for every list `idx` of unsigned 8-bit (or
16-bit) indices lying in memory at `indices`, with `count = idx.length`, no element-array
buffer bound and a supported topology, `glDrawElements` returns, and between `GX_Begin` and
`GX_End` it has emitted exactly the concatenation, index after index in order, of
[position i if the vertex array is enabled, normal i if the normal array is enabled, color i
if the color array is enabled, texcoord i if the texcoord array is enabled]; these are the
only vertex submissions the call adds to the trace. -/
theorem glDrawElements_index_resolution [Field α] (gx : GXConsts) (ext : Ext α)
    (s : Context α) (mode type : Int) (indices : Nat) (idx : List Nat)
    (hmode : mode ∈ supportedTopologies) (hbuf : s.boundBuffers 1 = 0)
    (hidx : (type = GL_UNSIGNED_BYTE ∧
        ∀ k, k < idx.length → idx[k]? = some (load8 s.mem (indices + k))) ∨
      (type = GL_UNSIGNED_SHORT ∧
        ∀ k, k < idx.length → idx[k]? = some (load16 s.mem (indices + 2 * k)))) :
    ∃ s' gmode, gl_enum_to_gx gx mode = some gmode ∧
      glDrawElements gx ext mode idx.length type indices s = .ok s' ∧
      s'.hw = (drawPrologue gx ext s).hw ++
        [GXCall.Begin (gmode % 256) gx.GX_VTXFMT0 (idx.length % 65536)] ++
        idx.flatMap (fun i =>
          (if s.clientEnabled.vertexArray then [GXCall.Position1x16 i] else []) ++
          (if s.clientEnabled.normalArray then [GXCall.Normal1x16 i] else []) ++
          (if s.clientEnabled.colorArray then [GXCall.Color1x16 i] else []) ++
          (if s.clientEnabled.textureCoordArray then [GXCall.TexCoord1x16 i] else [])) ++
        [GXCall.End] ++
        (if s.serverEnabled.polygonOffsetFill then
          [GXCall.LoadProjectionMtx (s.projMtxStack.stack s.projMtxStack.stackPos)
            gx.GX_PERSPECTIVE]
        else []) ∧
      (s'.hw.drop s.hw.length).filter GXCall.isVertexRecord =
        idx.flatMap (fun i =>
          (if s.clientEnabled.vertexArray then [GXCall.Position1x16 i] else []) ++
          (if s.clientEnabled.normalArray then [GXCall.Normal1x16 i] else []) ++
          (if s.clientEnabled.colorArray then [GXCall.Color1x16 i] else []) ++
          (if s.clientEnabled.textureCoordArray then [GXCall.TexCoord1x16 i] else [])) := by
  obtain ⟨gmode, hg⟩ := gl_enum_to_gx_topology gx mode hmode
  obtain ⟨⟨pre, hpre, hfpre⟩, pce, pse, pmem, pbb, pproj⟩ := drawPrologue_spec gx ext s
  have hb1 : ¬ (drawPrologue gx ext s).boundBuffers 1 ≠ 0 := by rw [pbb]; simp [hbuf]
  obtain ⟨s', hrun, hhw⟩ := drawElements_body gx type indices idx (drawPrologue gx ext s)
    (.Begin (gmode % 256) gx.GX_VTXFMT0 (idx.length % 65536)) (by rw [pmem]; exact hidx)
  rw [pce, pse, pproj] at hhw
  refine ⟨s', gmode, hg, ?_, hhw, ?_⟩
  · simp only [glDrawElements, hg, if_neg hb1]
    exact hrun
  · have hR := filter_vertex_records (α := α) s.clientEnabled idx
    have hT : (if s.serverEnabled.polygonOffsetFill then
        [GXCall.LoadProjectionMtx (s.projMtxStack.stack s.projMtxStack.stackPos)
          gx.GX_PERSPECTIVE]
      else []).filter GXCall.isVertexRecord = [] := by
      split_ifs <;> rfl
    rw [hhw, hpre]
    generalize (idx.flatMap (fun i =>
      (if s.clientEnabled.vertexArray then [(GXCall.Position1x16 i : GXCall α)] else []) ++
      (if s.clientEnabled.normalArray then [GXCall.Normal1x16 i] else []) ++
      (if s.clientEnabled.colorArray then [GXCall.Color1x16 i] else []) ++
      (if s.clientEnabled.textureCoordArray then [GXCall.TexCoord1x16 i] else []))) = R
      at hR ⊢
    simp only [List.append_assoc]
    rw [List.drop_left, List.filter_append, hfpre, List.nil_append, List.filter_append,
      List.filter_append, hR, List.filter_append, hT]
    simp [List.filter, GXCall.isVertexRecord]

/-- The list `[0,2,1,3]` of 8-bit indices, drawn as a triangle strip with only the vertex
array enabled: four records, referencing slots 0, 2, 1, 3. -/
theorem glDrawElements_index_resolution_witness :
    GL_TRIANGLE_STRIP ∈ supportedTopologies ∧ drawCtx.boundBuffers 1 = 0 ∧
    (∀ k, k < [0, 2, 1, 3].length →
      [0, 2, 1, 3][k]? = some (load8 drawCtx.mem (0x3000 + k))) ∧
    ∃ s', glDrawElements libogc exampleExt GL_TRIANGLE_STRIP 4 GL_UNSIGNED_BYTE 0x3000 drawCtx
        = .ok s' ∧
      (s'.hw.drop drawCtx.hw.length).filter GXCall.isVertexRecord =
        [.Position1x16 0, .Position1x16 2, .Position1x16 1, .Position1x16 3] :=
  have hk : ∀ k, k < [0, 2, 1, 3].length →
      [0, 2, 1, 3][k]? = some (load8 drawCtx.mem (0x3000 + k)) := by decide
  have h := glDrawElements_index_resolution libogc exampleExt drawCtx GL_TRIANGLE_STRIP
    GL_UNSIGNED_BYTE 0x3000 [0, 2, 1, 3] (by decide) rfl (Or.inl ⟨rfl, hk⟩)
  ⟨by decide, rfl, hk, h.choose, h.choose_spec.choose_spec.2.1,
    h.choose_spec.choose_spec.2.2.2⟩

end DrawFacts

section MatrixApiFacts

variable {α : Type}

@[simp] theorem hw_setCurr (s : Context α) (ms : MatrixStack α) :
    (s.setCurr ms).hw = s.hw := by
  unfold Context.setCurr
  cases h : s.currMtxStack <;> simp

@[simp] theorem stored_emit (s : Context α) (c : GXCall α) : (s.emit c).stored = s.stored := rfl

@[simp] theorem shape_emit (s : Context α) (c : GXCall α) : (s.emit c).shape = s.shape := rfl

theorem stored_setCurr (s : Context α) (ms : MatrixStack α) (h : ms.stack = s.curr.stack) :
    (s.setCurr ms).stored = s.stored := by
  unfold Context.setCurr Context.stored
  unfold Context.curr at h
  cases hc : s.currMtxStack <;> simp only [hc] at h ⊢ <;> rw [h]

theorem CURR_MATRIX_setCurr (s : Context α) (ms : MatrixStack α) :
    CURR_MATRIX (s.setCurr ms) = ms.stack ms.stackPos := by
  simp [CURR_MATRIX]

/-- Under the mode invariant `load_curr_matrix` returns and appends the loads of the
current top matrix into the slot of the active domain. -/
theorem load_curr_matrix_loads (gx : GXConsts) (ext : Ext α) (s : Context α)
    (hmode : ModeConsistent s) :
    load_curr_matrix gx ext s =
      .ok { s with hw := s.hw ++ loadCalls gx ext s.currMtxStack (CURR_MATRIX s) } := by
  have h1 : GL_PROJECTION ≠ GL_MODELVIEW := by decide
  have h2 : GL_TEXTURE ≠ GL_MODELVIEW := by decide
  have h3 : GL_TEXTURE ≠ GL_PROJECTION := by decide
  unfold load_curr_matrix
  rcases hmode with ⟨hm, hc⟩ | ⟨hm, hc⟩ | ⟨hm, hc⟩
  · rw [if_pos hm, hc]
    simp [Context.emit, loadCalls, hc, hm]
  · rw [hm, if_neg h1, if_pos rfl, hc]
    simp [Context.emit, loadCalls, hc, hm]
  · rw [hm, if_neg h2, if_neg h3, if_pos rfl, hc]
    simp [Context.emit, loadCalls, hc, hm]

/-- Claim C11 (pop semantics): for every state (in one of the three matrix modes) whose
current stack has depth `d >= 1`, `glPopMatrix` returns with that stack at depth `d - 1`,
every stored matrix of the three stacks unchanged, and the trace extended by exactly the
loads of entry `d - 1` (the new top) into the hardware slot of the active domain. -/
theorem glPopMatrix_semantics (gx : GXConsts) (ext : Ext α) (s : Context α) (d : Int)
    (hmode : ModeConsistent s) (hdepth : s.curr.stackPos = d) (hd : 1 ≤ d) :
    ∃ s', glPopMatrix gx ext s = .ok s' ∧ s'.currMtxStack = s.currMtxStack ∧
      s'.curr.stackPos = d - 1 ∧ s'.stored = s.stored ∧
      s'.hw = s.hw ++ loadCalls gx ext s.currMtxStack (s.curr.stack (d - 1)) := by
  subst hdepth
  have hm : ModeConsistent (s.setCurr { s.curr with stackPos := s.curr.stackPos - 1 }) := by
    unfold ModeConsistent
    simpa using hmode
  unfold glPopMatrix
  simp only [curr_setCurr]
  rw [if_neg (by omega), load_curr_matrix_loads gx ext _ hm]
  refine ⟨_, rfl, ?_, ?_, ?_, ?_⟩
  · exact currMtxStack_setCurr _ _
  · exact congrArg MatrixStack.stackPos (curr_setCurr s _)
  · exact stored_setCurr s _ rfl
  · simp only [hw_setCurr, currMtxStack_setCurr, CURR_MATRIX_setCurr]

theorem glPopMatrix_semantics_witness :
    ModeConsistent depth1Ctx ∧ depth1Ctx.curr.stackPos = 1 ∧ (1 : Int) ≤ 1 ∧
    ∃ s', glPopMatrix libogc exampleExt depth1Ctx = .ok s' ∧
      s'.currMtxStack = depth1Ctx.currMtxStack ∧
      s'.curr.stackPos = 1 - 1 ∧ s'.stored = depth1Ctx.stored ∧
      s'.hw = depth1Ctx.hw ++
        loadCalls libogc exampleExt depth1Ctx.currMtxStack (depth1Ctx.curr.stack (1 - 1)) :=
  ⟨Or.inl ⟨rfl, rfl⟩, rfl, le_refl _,
    glPopMatrix_semantics libogc exampleExt depth1Ctx 1 (Or.inl ⟨rfl, rfl⟩) rfl (le_refl _)⟩

/-- Storing a matrix in `CURR_MATRIX` and loading it leaves that matrix on top of the same
stack at the same depth. -/
theorem mutate_top (gx : GXConsts) (ext : Ext α) (s : Context α) (m : Mtx44 α)
    (hmode : ModeConsistent s) :
    ∃ s', load_curr_matrix gx ext (setCURR_MATRIX s m) = .ok s' ∧
      s'.currMtxStack = s.currMtxStack ∧ s'.curr.stackPos = s.curr.stackPos ∧
      CURR_MATRIX s' = m := by
  obtain ⟨s', h1, h2, h3, _⟩ := mutate_ok gx ext s m hmode.ne_color
  refine ⟨s', h1, h3, ?_, ?_⟩
  · rw [h2]
  · unfold CURR_MATRIX
    rw [h2]
    exact Function.update_same _ _ _

/-- Claim C13 (column-major input is transposed on load): for every input array `m`,
`glLoadMatrixf` returns with the top matrix of the current stack having `m[4*c + r]` in
row `r`, column `c`, and `glMultMatrixf` returns with the top matrix equal to the
row-by-column product of the old top with the matrix `M`, `M[r][c] = m[4*c + r]`. -/
theorem column_major_transposed_on_load [Field α] (gx : GXConsts) (ext : Ext α)
    (s : Context α) (m : Nat → α) (hmode : ModeConsistent s) :
    (∃ s', glLoadMatrixf gx ext m s = .ok s' ∧ s'.currMtxStack = s.currMtxStack ∧
      s'.curr.stackPos = s.curr.stackPos ∧
      ∀ r c : Fin 4, CURR_MATRIX s' r c = m (4 * c.val + r.val)) ∧
    (∃ s', glMultMatrixf gx ext m s = .ok s' ∧ s'.currMtxStack = s.currMtxStack ∧
      s'.curr.stackPos = s.curr.stackPos ∧
      ∀ r c : Fin 4, CURR_MATRIX s' r c =
        ∑ k : Fin 4, CURR_MATRIX s r k * m (4 * c.val + k.val)) := by
  constructor
  · obtain ⟨s', h1, h2, h3, h4⟩ :=
      mutate_top gx ext s (fun r c => m (c.val * 4 + r.val)) hmode
    refine ⟨s', h1, h2, h3, fun r c => ?_⟩
    rw [h4, Nat.mul_comm]
  · obtain ⟨s', h1, h2, h3, h4⟩ :=
      mutate_top gx ext s
        (mult_mtx44 (CURR_MATRIX s) (fun r c => m (c.val * 4 + r.val))) hmode
    refine ⟨s', h1, h2, h3, fun r c => ?_⟩
    rw [h4, Fin.sum_univ_four]
    simp only [mult_mtx44, Nat.mul_comm c.val 4]

theorem column_major_transposed_on_load_witness :
    ModeConsistent exampleCtx ∧
    (∃ s', glLoadMatrixf libogc exampleExt rampArray exampleCtx = .ok s' ∧
      s'.currMtxStack = exampleCtx.currMtxStack ∧
      s'.curr.stackPos = exampleCtx.curr.stackPos ∧
      ∀ r c : Fin 4, CURR_MATRIX s' r c = rampArray (4 * c.val + r.val)) ∧
    (∃ s', glMultMatrixf libogc exampleExt rampArray exampleCtx = .ok s' ∧
      s'.currMtxStack = exampleCtx.currMtxStack ∧
      s'.curr.stackPos = exampleCtx.curr.stackPos ∧
      ∀ r c : Fin 4, CURR_MATRIX s' r c =
        ∑ k : Fin 4, CURR_MATRIX exampleCtx r k * rampArray (4 * c.val + k.val)) :=
  ⟨Or.inl ⟨rfl, rfl⟩,
    column_major_transposed_on_load libogc exampleExt exampleCtx _ (Or.inl ⟨rfl, rfl⟩)⟩

/-- What `glFrustum` leaves on top: the output of `guFrustum`, to which the old top was
handed as the destination. -/
theorem glFrustum_top [Field α] (gx : GXConsts) (ext : Ext α) (s : Context α)
    (left right bottom top nearVal farVal : α) (hmode : ModeConsistent s) :
    ∃ s', glFrustum gx ext left right bottom top nearVal farVal s = .ok s' ∧
      CURR_MATRIX s' = ext.guFrustum (CURR_MATRIX s) top bottom left right nearVal farVal := by
  obtain ⟨s', h1, _, _, h4⟩ := mutate_top gx ext s
    (ext.guFrustum (CURR_MATRIX s) top bottom left right nearVal farVal) hmode
  exact ⟨s', h1, h4⟩

/-- What `glOrtho` leaves on top when `guOrtho` writes its whole output: the product of the
old top with that output. -/
theorem glOrtho_top [Field α] (gx : GXConsts) (ext : Ext α) (s : Context α)
    (left right bottom top nearVal farVal : α) (hmode : ModeConsistent s) (O : Mtx44 α)
    (hO : ∀ m, ext.guOrtho m top bottom left right nearVal farVal = O) :
    ∃ s', glOrtho gx ext left right bottom top nearVal farVal s = .ok s' ∧
      CURR_MATRIX s' = mult_mtx44 (CURR_MATRIX s) O := by
  unfold glOrtho
  simp only [hO, matrixMode_setCURR_MATRIX]
  split_ifs
  · refine ⟨_, rfl, ?_⟩
    show CURR_MATRIX (setCURR_MATRIX s _) = _
    exact CURR_MATRIX_setCURR_MATRIX _ _
  · obtain ⟨s', h1, _, _, h4⟩ := mutate_top gx ext s (mult_mtx44 (CURR_MATRIX s) O) hmode
    exact ⟨s', h1, h4⟩

/-- Claim C14 (frustum composition) fails: with the scaling by 2 on top of the projection
stack, `glFrustum(-1, 1, -1, 1, 1, 3)` leaves the frustum matrix `F` itself on top (entry
`(0, 0)` is 1) and not the product of the old top with `F` (entry `(0, 0)` is 2), whereas
`glOrtho` with the same arguments in the same state leaves the product of the old top with
the orthographic matrix. -/
theorem glFrustum_overwrites_top :
    (∃ s', glFrustum libogc projectionExt (-1) 1 (-1) 1 1 3 projCtx = .ok s' ∧
      CURR_MATRIX s' = guFrustum 1 (-1) (-1) 1 1 3 ∧
      CURR_MATRIX s' 0 0 = 1 ∧
      mult_mtx44 (CURR_MATRIX projCtx) (guFrustum 1 (-1) (-1) 1 1 3) 0 0 = 2) ∧
    (∃ s', glOrtho libogc projectionExt (-1) 1 (-1) 1 1 3 projCtx = .ok s' ∧
      CURR_MATRIX s' = mult_mtx44 (CURR_MATRIX projCtx) (guOrtho 1 (-1) (-1) 1 1 3)) := by
  have hmode : ModeConsistent projCtx := Or.inr (Or.inl ⟨rfl, rfl⟩)
  constructor
  · obtain ⟨s', h1, h2⟩ := glFrustum_top libogc projectionExt projCtx (-1) 1 (-1) 1 1 3 hmode
    have h3 : CURR_MATRIX s' = guFrustum 1 (-1) (-1) 1 1 3 := h2
    refine ⟨s', h1, h3, ?_, ?_⟩
    · rw [h3]
      norm_num [guFrustum]
    · have h4 : CURR_MATRIX projCtx = scale2 := rfl
      rw [h4]
      norm_num [mult_mtx44, guFrustum, scale2]
  · exact glOrtho_top libogc projectionExt projCtx (-1) 1 (-1) 1 1 3 hmode _ (fun _ => rfl)

end MatrixApiFacts

section BufferApiFacts

variable {α : Type}

/-- Claim C18 (upload replaces storage wholesale): for every buffer object bound to the
target, whatever its previous storage and size, `glBufferData` with non-null `data`
returns with that buffer's size field equal to `size`, its storage being the newly allocated
block, and the first `size` bytes of the storage equal to the first `size` bytes at `data`;
every other buffer object is unchanged, and so is every byte outside the new block. -/
theorem glBufferData_replaces_storage (s : Context α) (target usage : Int)
    (size data newData buf : Nat) (hb : get_buffer target s = some buf) (hbuf : buf ≠ 0)
    (hdata : data ≠ 0) :
    ∃ s', glBufferData target size data usage newData s = .ok s' ∧
      (s'.buffers buf).size = size ∧ (s'.buffers buf).data = newData ∧
      (∀ i, i < size → s'.mem ((s'.buffers buf).data + i) = s.mem (data + i)) ∧
      (∀ b, b ≠ buf → s'.buffers b = s.buffers b) ∧
      (∀ a, ¬(newData ≤ a ∧ a < newData + size) → s'.mem a = s.mem a) ∧
      s'.boundBuffers = s.boundBuffers := by
  unfold glBufferData
  rw [hb]
  simp only [ne_eq, hbuf, not_false_eq_true, if_true, hdata]
  refine ⟨_, rfl, ?_, ?_, ?_, ?_, ?_, rfl⟩
  · simp
  · simp
  · intro i hi
    simp only [Function.update_same, memcpy]
    rw [if_pos ⟨by omega, by omega⟩]
    congr 1
    omega
  · intro b hne
    exact Function.update_noteq hne _ _
  · intro a ha
    simp only [memcpy]
    rw [if_neg ha]

theorem glBufferData_replaces_storage_witness :
    get_buffer GL_ARRAY_BUFFER bufCtx = some 0x800 ∧ (0x800 : Nat) ≠ 0 ∧ (0x2000 : Nat) ≠ 0 ∧
    ∃ s', glBufferData GL_ARRAY_BUFFER 4 0x2000 0 0x5000 bufCtx = .ok s' ∧
      (s'.buffers 0x800).size = 4 ∧ (s'.buffers 0x800).data = 0x5000 ∧
      (∀ i, i < 4 → s'.mem ((s'.buffers 0x800).data + i) = bufCtx.mem (0x2000 + i)) ∧
      (∀ b, b ≠ 0x800 → s'.buffers b = bufCtx.buffers b) ∧
      (∀ a, ¬(0x5000 ≤ a ∧ a < 0x5000 + 4) → s'.mem a = bufCtx.mem a) ∧
      s'.boundBuffers = bufCtx.boundBuffers :=
  ⟨rfl, by decide, by decide,
    glBufferData_replaces_storage bufCtx GL_ARRAY_BUFFER 0 4 0x2000 0x5000 0x800 rfl
      (by decide) (by decide)⟩

/-- Claim C19 (sub-upload is a partial update): for every bound buffer with storage of
size `s` inside the 32-bit address space, every `offset >= 0` and every `size` with
`offset + size <= s`, `glBufferSubData` returns having set the bytes
`[offset, offset + size)` of the storage to the first `size` bytes at `data`; every other
byte of memory, so every other byte of the buffer, is unchanged, and so are the size
field and the storage address of every buffer object. -/
theorem glBufferSubData_updates_range (s : Context α) (target : Int) (offset : Int)
    (size data buf : Nat) (hb : get_buffer target s = some buf) (hbuf : buf ≠ 0)
    (hstorage : (s.buffers buf).data ≠ 0)
    (haddr : (s.buffers buf).data + (s.buffers buf).size < 2 ^ 32)
    (hoff : 0 ≤ offset) (hfit : offset + (size : Int) ≤ ((s.buffers buf).size : Int)) :
    ∃ s', glBufferSubData target offset size data s = .ok s' ∧
      (∀ i, i < size →
        s'.mem ((s.buffers buf).data + offset.toNat + i) = s.mem (data + i)) ∧
      (∀ a, ¬((s.buffers buf).data + offset.toNat ≤ a ∧
          a < (s.buffers buf).data + offset.toNat + size) → s'.mem a = s.mem a) ∧
      s'.buffers = s.buffers ∧ s'.boundBuffers = s.boundBuffers := by
  have hsz : (s.buffers buf).size < 2 ^ 32 := by
    have := Nat.pos_of_ne_zero hstorage
    omega
  have hmod : (offset + (size : Int)) % 2 ^ 32 = offset + (size : Int) :=
    Int.emod_eq_of_lt (by omega) (by omega)
  have hptr : ptr_add (s.buffers buf).data offset = (s.buffers buf).data + offset.toNat := by
    unfold ptr_add
    rw [Int.emod_eq_of_lt (by omega) (by omega)]
    omega
  unfold glBufferSubData
  rw [hb]
  simp only [hbuf, hstorage, or_self, if_false, hmod]
  rw [if_neg (by omega), hptr]
  refine ⟨_, rfl, ?_, ?_, rfl, rfl⟩
  · intro i hi
    simp only [memcpy]
    rw [if_pos ⟨by omega, by omega⟩]
    congr 1
    omega
  · intro a ha
    simp only [memcpy]
    rw [if_neg ha]

theorem glBufferSubData_updates_range_witness :
    get_buffer GL_ARRAY_BUFFER bufCtx = some 0x800 ∧ (0x800 : Nat) ≠ 0 ∧
    (bufCtx.buffers 0x800).data ≠ 0 ∧
    (bufCtx.buffers 0x800).data + (bufCtx.buffers 0x800).size < 2 ^ 32 ∧
    (0 : Int) ≤ 4 ∧ (4 : Int) + ((8 : Nat) : Int) ≤ ((bufCtx.buffers 0x800).size : Int) ∧
    ∃ s', glBufferSubData GL_ARRAY_BUFFER 4 8 0x2000 bufCtx = .ok s' ∧
      (∀ i, i < 8 →
        s'.mem ((bufCtx.buffers 0x800).data + (4 : Int).toNat + i) = bufCtx.mem (0x2000 + i)) ∧
      (∀ a, ¬((bufCtx.buffers 0x800).data + (4 : Int).toNat ≤ a ∧
          a < (bufCtx.buffers 0x800).data + (4 : Int).toNat + 8) → s'.mem a = bufCtx.mem a) ∧
      s'.buffers = bufCtx.buffers ∧ s'.boundBuffers = bufCtx.boundBuffers :=
  ⟨rfl, by decide, by decide, by decide, by decide, by decide,
    glBufferSubData_updates_range bufCtx GL_ARRAY_BUFFER 4 8 0x2000 0x800 rfl (by decide)
      (by decide) (by decide) (by decide) (by decide)⟩

/-- Counterexample to claim C20: with nothing bound to `GL_ARRAY_BUFFER`, `glBufferData`
on that target returns, and the state is the one before the call. -/
theorem glBufferData_unbound_returns :
    get_buffer GL_ARRAY_BUFFER exampleCtx = some 0 ∧
    (glBufferData GL_ARRAY_BUFFER 4 0x2000 0 0x5000 exampleCtx).isFatal = false ∧
    (glBufferData GL_ARRAY_BUFFER 4 0x2000 0 0x5000 exampleCtx).state.hw = exampleCtx.hw :=
  ⟨rfl, rfl, rfl⟩

/-- Claim C20, amended: for every valid target (array or element) with no buffer currently
bound, that is when `get_buffer` finds the null handle in the slot of the target,
`glBufferData` returns and leaves the whole state as it was: the guard `buf != NULL`
skips the upload. -/
theorem glBufferData_unbound_is_skipped (s : Context α) (target usage : Int)
    (size data newData : Nat) (hunbound : get_buffer target s = some 0) :
    (target = GL_ARRAY_BUFFER ∨ target = GL_ELEMENT_ARRAY_BUFFER) ∧
    glBufferData target size data usage newData s = .ok s := by
  constructor
  · unfold get_buffer at hunbound
    split_ifs at hunbound with h1 h2
    · exact Or.inl h1
    · exact Or.inr h2
  · unfold glBufferData
    rw [hunbound]
    simp

theorem glBufferData_unbound_is_skipped_witness :
    get_buffer GL_ELEMENT_ARRAY_BUFFER bufCtx = some 0 ∧
    (GL_ELEMENT_ARRAY_BUFFER = GL_ARRAY_BUFFER ∨
      GL_ELEMENT_ARRAY_BUFFER = GL_ELEMENT_ARRAY_BUFFER) ∧
    glBufferData GL_ELEMENT_ARRAY_BUFFER 4 0x2000 0 0x5000 bufCtx = .ok bufCtx :=
  ⟨rfl, glBufferData_unbound_is_skipped bufCtx GL_ELEMENT_ARRAY_BUFFER 0 4 0x2000 0x5000 rfl⟩

end BufferApiFacts

section TextureApiFacts

variable {α : Type}

@[simp] theorem textures_emit (s : Context α) (c : GXCall α) :
    (s.emit c).textures = s.textures := rfl

@[simp] theorem boundTexture_emit (s : Context α) (c : GXCall α) :
    (s.emit c).boundTexture = s.boundTexture := rfl

/-- The `switch` of `glTexImage2D` reaches `default:` exactly for the formats outside the
five it converts. -/
theorem texture_source_eq_none (internalformat : Int) (width height : Nat) (src : Nat → Nat) :
    texture_source internalformat width height src = none ↔
      internalformat ∉ textureFormats := by
  unfold texture_source textureFormats
  split_ifs <;> simp_all

/-- The conversion reads only the four bytes of each pixel of the image. -/
theorem convert_to_rgb5a3_congr (d1 d2 : Nat → Nat) (width height : Nat)
    (h : ∀ x, x < width → ∀ y, y < height → ∀ k, k < 4 →
      d1 ((4 * (x + y * width)) % 2 ^ 32 + k) = d2 ((4 * (x + y * width)) % 2 ^ 32 + k)) :
    convert_to_rgb5a3 d1 width height = convert_to_rgb5a3 d2 width height := by
  unfold convert_to_rgb5a3
  dsimp only
  apply List.foldl_ext
  intro buf x hx
  apply List.foldl_ext
  intro buf2 y hy
  have hx2 := List.mem_range.1 hx
  have hy2 := List.mem_range.1 hy
  have e0 := h x hx2 y hy2 0 (by omega)
  have e1 := h x hx2 y hy2 1 (by omega)
  have e2 := h x hx2 y hy2 2 (by omega)
  have e3 := h x hx2 y hy2 3 (by omega)
  rw [e0, e1, e2, e3]

/-- A loop of stores: when every iteration that stores to address `a` stores `v` there, and
either `a` held `v` before the loop or some iteration stores to it, `a` holds `v` after. -/
theorem foldl_written {ι : Type} (step : (Nat → Nat) → ι → (Nat → Nat)) (a v : Nat)
    (hits : ι → Prop) (l : List ι)
    (hstep : ∀ t, ∀ i ∈ l, (t a = v ∨ hits i) → step t i a = v) :
    ∀ t, (t a = v ∨ ∃ i ∈ l, hits i) → (l.foldl step t) a = v := by
  induction l with
  | nil =>
    intro t h
    rcases h with h | ⟨i, hi, _⟩
    · exact h
    · cases hi
  | cons i l ih =>
    intro t h
    rw [List.foldl_cons]
    apply ih (fun t j hj => hstep t j (List.mem_cons_of_mem _ hj))
    rcases h with h | ⟨j, hj, hh⟩
    · exact Or.inl (hstep t i (List.mem_cons_self _ _) (Or.inl h))
    · rcases List.mem_cons.1 hj with rfl | hj
      · exact Or.inl (hstep t j (List.mem_cons_self _ _) (Or.inr hh))
      · exact Or.inr ⟨j, hj, hh⟩

/-- A pixel number of a `width` by `height` image is below `width * height`. -/
theorem pixel_number_lt (width height x y : Nat) (hx : x < width) (hy : y < height) :
    x + y * width < width * height := by
  have h1 : (y + 1) * width ≤ height * width := Nat.mul_le_mul_right width hy
  have h2 : (y + 1) * width = y * width + width := by ring
  have h3 : height * width = width * height := Nat.mul_comm _ _
  omega

/-- The buffer `temp` after the loops of `glTexImage2D`, for an image whose `temp` fits in
the 32-bit address space: byte `k` of pixel `(x, y)` is channel `k` of the pixel stored for
`(x, y)`, when that pixel is a function `g` of the pixel number. -/
theorem fill_temp_pixel (width height : Nat) (px : Nat → Nat → Nat × Nat × Nat × Nat)
    (g : Nat → Nat × Nat × Nat × Nat) (hsize : 4 * width * height ≤ 2 ^ 32)
    (hpx : ∀ x, x < width → ∀ y, y < height → px x y = g (x + y * width))
    (x0 y0 k0 : Nat) (hx0 : x0 < width) (hy0 : y0 < height) (hk0 : k0 < 4) :
    fill_temp width height px (4 * (x0 + y0 * width) + k0) =
      channel (g (x0 + y0 * width)) k0 := by
  unfold fill_temp
  refine foldl_written _ _ _ (fun x => x = x0) _ ?_ _ (Or.inr ⟨x0, List.mem_range.2 hx0, rfl⟩)
  intro t x hx h
  refine foldl_written _ _ _ (fun y => x = x0 ∧ y = y0) _ ?_ _ ?_
  · intro t2 y hy h2
    have hxw := List.mem_range.1 hx
    have hyh := List.mem_range.1 hy
    have hn := pixel_number_lt width height x y hxw hyh
    have hn0 := pixel_number_lt width height x0 y0 hx0 hy0
    have hwh : 4 * (width * height) ≤ 2 ^ 32 := by rw [← Nat.mul_assoc]; exact hsize
    have hmod : (4 * (x + y * width)) % 2 ^ 32 = 4 * (x + y * width) :=
      Nat.mod_eq_of_lt (by omega)
    rw [hmod, hpx x hxw y hyh]
    simp only [Function.update_apply, Nat.add_zero]
    rcases h2 with h2 | ⟨rfl, rfl⟩
    · generalize x + y * width = n at *
      generalize x0 + y0 * width = n0 at *
      split_ifs with c3 c2 c1 c0
      · obtain ⟨rfl, rfl⟩ : n0 = n ∧ k0 = 3 := by omega
        simp [channel]
      · obtain ⟨rfl, rfl⟩ : n0 = n ∧ k0 = 2 := by omega
        simp [channel]
      · obtain ⟨rfl, rfl⟩ : n0 = n ∧ k0 = 1 := by omega
        simp [channel]
      · obtain ⟨rfl, rfl⟩ : n0 = n ∧ k0 = 0 := by omega
        simp [channel]
      · exact h2
    · generalize x + y * width = n at *
      have hk : k0 = 0 ∨ k0 = 1 ∨ k0 = 2 ∨ k0 = 3 := by omega
      rcases hk with rfl | rfl | rfl | rfl <;> simp [channel]
  · rcases h with h | rfl
    · exact Or.inl h
    · exact Or.inr ⟨y0, List.mem_range.2 hy0, rfl, rfl⟩

/-- For each of the five formats, and an image whose `temp` fits in the 32-bit address
space, the buffer `glTexImage2D` builds converts to the same texels as any buffer that
holds the canonical pixels. -/
theorem texture_source_canonical (internalformat : Int) (width height : Nat)
    (src canonical : Nat → Nat) (hfmt : internalformat ∈ textureFormats)
    (hsize : 4 * width * height ≤ 2 ^ 32)
    (hcan : HoldsCanonical internalformat width height src canonical) :
    ∃ t, texture_source internalformat width height src = some t ∧
      convert_to_rgb5a3 t width height = convert_to_rgb5a3 canonical width height := by
  have hwh : 4 * (width * height) ≤ 2 ^ 32 := by rw [← Nat.mul_assoc]; exact hsize
  have key : ∀ (px : Nat → Nat → Nat × Nat × Nat × Nat),
      (∀ x, x < width → ∀ y, y < height →
        px x y = canonicalPixel internalformat width src x y) →
      convert_to_rgb5a3 (fill_temp width height px) width height =
        convert_to_rgb5a3 canonical width height := by
    intro px hpx
    apply convert_to_rgb5a3_congr
    intro x hx y hy k hk
    have hn := pixel_number_lt width height x y hx hy
    rw [Nat.mod_eq_of_lt (by omega)]
    have hg : ∀ x2, x2 < width → ∀ y2, y2 < height → px x2 y2 =
        (fun n => canonicalPixel internalformat width src (n % width) (n / width))
          (x2 + y2 * width) := by
      intro x2 hx2 y2 hy2
      have hw : 0 < width := by omega
      simp only [Nat.add_mul_mod_self_right, Nat.mod_eq_of_lt hx2,
        Nat.add_mul_div_right _ _ hw, Nat.div_eq_of_lt hx2, Nat.zero_add]
      exact hpx x2 hx2 y2 hy2
    rw [fill_temp_pixel width height px
      (fun n => canonicalPixel internalformat width src (n % width) (n / width))
      hsize hg x y k hx hy hk]
    have hw : 0 < width := by omega
    simp only [Nat.add_mul_mod_self_right, Nat.mod_eq_of_lt hx,
      Nat.add_mul_div_right _ _ hw, Nat.div_eq_of_lt hx, Nat.zero_add]
    have hc := hcan x hx y hy
    rw [Nat.add_comm (y * width) x] at hc
    rw [← hc]
    have hk4 : k = 0 ∨ k = 1 ∨ k = 2 ∨ k = 3 := by omega
    rcases hk4 with rfl | rfl | rfl | rfl <;> simp [channel]
  have a1 : GL_LUMINANCE ≠ GL_ALPHA := by decide
  have a2 : GL_LUMINANCE_ALPHA ≠ GL_ALPHA := by decide
  have a3 : GL_LUMINANCE_ALPHA ≠ GL_LUMINANCE := by decide
  have a4 : GL_RGB ≠ GL_ALPHA := by decide
  have a5 : GL_RGB ≠ GL_LUMINANCE := by decide
  have a6 : GL_RGB ≠ GL_LUMINANCE_ALPHA := by decide
  have a7 : GL_RGBA ≠ GL_ALPHA := by decide
  have a8 : GL_RGBA ≠ GL_LUMINANCE := by decide
  have a9 : GL_RGBA ≠ GL_LUMINANCE_ALPHA := by decide
  have a10 : GL_RGBA ≠ GL_RGB := by decide
  have hmod : ∀ x, x < width → ∀ y, y < height → ∀ c j, c ≤ 4 → j < c →
      (c * (x + y * width) + j) % 2 ^ 32 = c * (y * width + x) + j := by
    intro x hx y hy c j hc hj
    have hn := pixel_number_lt width height x y hx hy
    have hle : c * (x + y * width) ≤ 4 * (x + y * width) := Nat.mul_le_mul_right _ hc
    rw [Nat.mod_eq_of_lt (by omega), Nat.add_comm x]
  have hmod0 : ∀ x, x < width → ∀ y, y < height → ∀ c, c ≤ 4 →
      (c * (x + y * width)) % 2 ^ 32 = c * (y * width + x) := by
    intro x hx y hy c hc
    have hn := pixel_number_lt width height x y hx hy
    have hle : c * (x + y * width) ≤ 4 * (x + y * width) := Nat.mul_le_mul_right _ hc
    rw [Nat.mod_eq_of_lt (by omega), Nat.add_comm x]
  have hmod1 : ∀ x, x < width → ∀ y, y < height →
      (x + y * width) % 2 ^ 32 = y * width + x := by
    intro x hx y hy
    have hn := pixel_number_lt width height x y hx hy
    rw [Nat.mod_eq_of_lt (by omega), Nat.add_comm x]
  unfold textureFormats at hfmt
  simp only [List.mem_cons, List.mem_singleton, List.not_mem_nil, or_false] at hfmt
  unfold texture_source
  rcases hfmt with rfl | rfl | rfl | rfl | rfl
  · rw [if_pos rfl]
    refine ⟨_, rfl, key _ ?_⟩
    intro x hx y hy
    simp only [canonicalPixel, if_true, hmod1 x hx y hy]
  · rw [if_neg a1, if_pos rfl]
    refine ⟨_, rfl, key _ ?_⟩
    intro x hx y hy
    simp only [canonicalPixel, if_neg a1, if_true, hmod1 x hx y hy]
  · rw [if_neg a2, if_neg a3, if_pos rfl]
    refine ⟨_, rfl, key _ ?_⟩
    intro x hx y hy
    simp only [canonicalPixel, if_neg a2, if_neg a3, if_true,
      hmod0 x hx y hy 2 (by omega), hmod x hx y hy 2 1 (by omega) (by omega),
      Nat.add_zero]
  · rw [if_neg a4, if_neg a5, if_neg a6, if_pos rfl]
    refine ⟨_, rfl, key _ ?_⟩
    intro x hx y hy
    simp only [canonicalPixel, if_neg a4, if_neg a5, if_neg a6, if_true,
      hmod0 x hx y hy 3 (by omega), hmod x hx y hy 3 1 (by omega) (by omega),
      hmod x hx y hy 3 2 (by omega) (by omega), Nat.add_zero]
  · rw [if_neg a7, if_neg a8, if_neg a9, if_neg a10, if_pos rfl]
    refine ⟨_, rfl, ?_⟩
    apply convert_to_rgb5a3_congr
    intro x hx y hy k hk
    have hn := pixel_number_lt width height x y hx hy
    rw [Nat.mod_eq_of_lt (by omega)]
    have hc := hcan x hx y hy
    rw [Nat.add_comm (y * width) x] at hc
    simp only [canonicalPixel, if_neg a7, if_neg a8, if_neg a9, if_neg a10, Prod.mk.injEq]
      at hc
    obtain ⟨c0, c1, c2, c3⟩ := hc
    have hk4 : k = 0 ∨ k = 1 ∨ k = 2 ∨ k = 3 := by omega
    rcases hk4 with rfl | rfl | rfl | rfl
    · rw [Nat.add_zero, c0, Nat.add_comm x]
    · rw [c1, Nat.add_comm x]
    · rw [c2, Nat.add_comm x]
    · rw [c3, Nat.add_comm x]

/-- A buffer filled by the loops of `glTexImage2D` with the canonical pixels holds them. -/
theorem fill_temp_holds (internalformat : Int) (width height : Nat) (src : Nat → Nat)
    (px : Nat → Nat → Nat × Nat × Nat × Nat) (hsize : 4 * width * height ≤ 2 ^ 32)
    (hpx : ∀ x, x < width → ∀ y, y < height →
      px x y = canonicalPixel internalformat width src x y) :
    HoldsCanonical internalformat width height src (fill_temp width height px) := by
  intro x hx y hy
  have hw : 0 < width := by omega
  have hg : ∀ x2, x2 < width → ∀ y2, y2 < height → px x2 y2 =
      (fun n => canonicalPixel internalformat width src (n % width) (n / width))
        (x2 + y2 * width) := by
    intro x2 hx2 y2 hy2
    simp only [Nat.add_mul_mod_self_right, Nat.mod_eq_of_lt hx2,
      Nat.add_mul_div_right _ _ hw, Nat.div_eq_of_lt hx2, Nat.zero_add]
    exact hpx x2 hx2 y2 hy2
  have hk : ∀ k, k < 4 → fill_temp width height px (4 * (y * width + x) + k) =
      channel (canonicalPixel internalformat width src x y) k := by
    intro k hk
    rw [Nat.add_comm (y * width) x]
    rw [fill_temp_pixel width height px
      (fun n => canonicalPixel internalformat width src (n % width) (n / width))
      hsize hg x y k hx hy hk]
    simp only [Nat.add_mul_mod_self_right, Nat.mod_eq_of_lt hx,
      Nat.add_mul_div_right _ _ hw, Nat.div_eq_of_lt hx, Nat.zero_add]
  have h0 := hk 0 (by omega)
  rw [Nat.add_zero] at h0
  rw [h0, hk 1 (by omega), hk 2 (by omega), hk 3 (by omega)]
  simp [channel]

/-- For each of the five formats, and an image whose `temp` fits in the 32-bit address
space, the `switch` of `glTexImage2D` builds a buffer that holds, for each pixel `(x, y)`
of the image, the canonical pixel of the format. -/
theorem texture_source_holds (internalformat : Int) (width height : Nat)
    (src : Nat → Nat) (hfmt : internalformat ∈ textureFormats)
    (hsize : 4 * width * height ≤ 2 ^ 32) :
    ∃ t, texture_source internalformat width height src = some t ∧
      HoldsCanonical internalformat width height src t := by
  have hwh : 4 * (width * height) ≤ 2 ^ 32 := by rw [← Nat.mul_assoc]; exact hsize
  have a1 : GL_LUMINANCE ≠ GL_ALPHA := by decide
  have a2 : GL_LUMINANCE_ALPHA ≠ GL_ALPHA := by decide
  have a3 : GL_LUMINANCE_ALPHA ≠ GL_LUMINANCE := by decide
  have a4 : GL_RGB ≠ GL_ALPHA := by decide
  have a5 : GL_RGB ≠ GL_LUMINANCE := by decide
  have a6 : GL_RGB ≠ GL_LUMINANCE_ALPHA := by decide
  have a7 : GL_RGBA ≠ GL_ALPHA := by decide
  have a8 : GL_RGBA ≠ GL_LUMINANCE := by decide
  have a9 : GL_RGBA ≠ GL_LUMINANCE_ALPHA := by decide
  have a10 : GL_RGBA ≠ GL_RGB := by decide
  have hmod : ∀ x, x < width → ∀ y, y < height → ∀ c j, c ≤ 4 → j < c →
      (c * (x + y * width) + j) % 2 ^ 32 = c * (y * width + x) + j := by
    intro x hx y hy c j hc hj
    have hn := pixel_number_lt width height x y hx hy
    have hle : c * (x + y * width) ≤ 4 * (x + y * width) := Nat.mul_le_mul_right _ hc
    rw [Nat.mod_eq_of_lt (by omega), Nat.add_comm x]
  have hmod0 : ∀ x, x < width → ∀ y, y < height → ∀ c, c ≤ 4 →
      (c * (x + y * width)) % 2 ^ 32 = c * (y * width + x) := by
    intro x hx y hy c hc
    have hn := pixel_number_lt width height x y hx hy
    have hle : c * (x + y * width) ≤ 4 * (x + y * width) := Nat.mul_le_mul_right _ hc
    rw [Nat.mod_eq_of_lt (by omega), Nat.add_comm x]
  have hmod1 : ∀ x, x < width → ∀ y, y < height →
      (x + y * width) % 2 ^ 32 = y * width + x := by
    intro x hx y hy
    have hn := pixel_number_lt width height x y hx hy
    rw [Nat.mod_eq_of_lt (by omega), Nat.add_comm x]
  unfold textureFormats at hfmt
  simp only [List.mem_cons, List.mem_singleton, List.not_mem_nil, or_false] at hfmt
  unfold texture_source
  rcases hfmt with rfl | rfl | rfl | rfl | rfl
  · rw [if_pos rfl]
    refine ⟨_, rfl, fill_temp_holds _ _ _ _ _ hsize ?_⟩
    intro x hx y hy
    simp only [canonicalPixel, if_true, hmod1 x hx y hy]
  · rw [if_neg a1, if_pos rfl]
    refine ⟨_, rfl, fill_temp_holds _ _ _ _ _ hsize ?_⟩
    intro x hx y hy
    simp only [canonicalPixel, if_neg a1, if_true, hmod1 x hx y hy]
  · rw [if_neg a2, if_neg a3, if_pos rfl]
    refine ⟨_, rfl, fill_temp_holds _ _ _ _ _ hsize ?_⟩
    intro x hx y hy
    simp only [canonicalPixel, if_neg a2, if_neg a3, if_true,
      hmod0 x hx y hy 2 (by omega), hmod x hx y hy 2 1 (by omega) (by omega),
      Nat.add_zero]
  · rw [if_neg a4, if_neg a5, if_neg a6, if_pos rfl]
    refine ⟨_, rfl, fill_temp_holds _ _ _ _ _ hsize ?_⟩
    intro x hx y hy
    simp only [canonicalPixel, if_neg a4, if_neg a5, if_neg a6, if_true,
      hmod0 x hx y hy 3 (by omega), hmod x hx y hy 3 1 (by omega) (by omega),
      hmod x hx y hy 3 2 (by omega) (by omega), Nat.add_zero]
  · rw [if_neg a7, if_neg a8, if_neg a9, if_neg a10, if_pos rfl]
    refine ⟨_, rfl, ?_⟩
    intro x hx y hy
    simp only [canonicalPixel, if_neg a7, if_neg a8, if_neg a9, if_neg a10]

/-- Claim C15 (format normalization): for every width and height whose RGBA buffer, of
`4 * width * height` bytes, fits in the 32-bit address space and every source data,
`glTexImage2D` with a bound texture, the type `GL_UNSIGNED_BYTE` and one of the five formats
returns. The buffer `canonical` its `switch` builds holds, at the four bytes from
`4 * (y * width + x)` on, the canonical RGBA pixel of every `(x, y)` of the image:
`(0, 0, 0, a)` for `GL_ALPHA`, `(l, l, l, 255)` for `GL_LUMINANCE`, `(l, l, l, a)` for
`GL_LUMINANCE_ALPHA`, `(r, g, b, 255)` for `GL_RGB` and the unchanged `(r, g, b, a)` for
`GL_RGBA`, read from 1, 1, 2, 3 and 4 source bytes per pixel in row-major order
(`canonicalPixel`). The image buffer of the bound texture is `convert_to_rgb5a3` of that
buffer, which is also `convert_to_rgb5a3` of any other buffer that holds the canonical
pixels. -/
theorem glTexImage2D_format_normalization (gx : GXConsts) (s : Context α)
    (target level internalformat border format : Int) (width height data : Nat)
    (hb : s.boundTexture ≠ 0)
    (hfmt : internalformat ∈ textureFormats) (hsize : 4 * width * height < 2 ^ 32) :
    ∃ canonical s',
      texture_source internalformat width height (fun i => load8 s.mem (data + i)) =
        some canonical ∧
      (∀ x, x < width → ∀ y, y < height →
        (canonical (4 * (y * width + x)), canonical (4 * (y * width + x) + 1),
          canonical (4 * (y * width + x) + 2), canonical (4 * (y * width + x) + 3)) =
        canonicalPixel internalformat width (fun i => load8 s.mem (data + i)) x y) ∧
      glTexImage2D gx target level internalformat width height border format
        GL_UNSIGNED_BYTE data s = .ok s' ∧
      (s'.textures s.boundTexture).imgBuffer =
        some (convert_to_rgb5a3 canonical width height) ∧
      ∀ other, HoldsCanonical internalformat width height
          (fun i => load8 s.mem (data + i)) other →
        (s'.textures s.boundTexture).imgBuffer =
          some (convert_to_rgb5a3 other width height) := by
  obtain ⟨t, h1, h2⟩ := texture_source_holds internalformat width height
    (fun i => load8 s.mem (data + i)) hfmt (Nat.le_of_lt hsize)
  have himg : ∀ c, texture_source internalformat width height
      (fun i => load8 s.mem (data + i)) = some c →
      ∃ s', glTexImage2D gx target level internalformat width height border format
          GL_UNSIGNED_BYTE data s = .ok s' ∧
        (s'.textures s.boundTexture).imgBuffer = some (convert_to_rgb5a3 c width height) := by
    intro c hc
    unfold glTexImage2D
    rw [if_neg hb, if_neg (by simp)]
    simp only [hc]
    refine ⟨_, rfl, ?_⟩
    simp
  obtain ⟨s', hs1, hs2⟩ := himg t h1
  refine ⟨t, s', h1, h2, hs1, hs2, ?_⟩
  intro other ho
  obtain ⟨t2, e1, e2⟩ := texture_source_canonical internalformat width height _ other
    hfmt (Nat.le_of_lt hsize) ho
  rw [h1] at e1
  cases e1
  rw [hs2, e2]

theorem glTexImage2D_format_normalization_witness :
    texCtx.boundTexture ≠ 0 ∧ GL_LUMINANCE ∈ textureFormats ∧ 4 * 2 * 2 < 2 ^ 32 ∧
    (∃ canonical s',
      texture_source GL_LUMINANCE 2 2 (fun i => load8 texCtx.mem (0x4000 + i)) =
        some canonical ∧
      (∀ x, x < 2 → ∀ y, y < 2 →
        (canonical (4 * (y * 2 + x)), canonical (4 * (y * 2 + x) + 1),
          canonical (4 * (y * 2 + x) + 2), canonical (4 * (y * 2 + x) + 3)) =
        canonicalPixel GL_LUMINANCE 2 (fun i => load8 texCtx.mem (0x4000 + i)) x y) ∧
      glTexImage2D libogc GL_TEXTURE_2D 0 GL_LUMINANCE 2 2 0 GL_LUMINANCE
        GL_UNSIGNED_BYTE 0x4000 texCtx = .ok s' ∧
      (s'.textures texCtx.boundTexture).imgBuffer =
        some (convert_to_rgb5a3 canonical 2 2) ∧
      ∀ other, HoldsCanonical GL_LUMINANCE 2 2
          (fun i => load8 texCtx.mem (0x4000 + i)) other →
        (s'.textures texCtx.boundTexture).imgBuffer =
          some (convert_to_rgb5a3 other 2 2)) ∧
    (texture_source GL_LUMINANCE 2 2 (fun i => load8 texCtx.mem (0x4000 + i))).map
        (fun canonical => (List.range 16).map canonical) =
      some [10, 10, 10, 255, 20, 20, 20, 255, 30, 30, 30, 255, 40, 40, 40, 255] ∧
    (texture_source GL_ALPHA 2 2 (fun i => load8 texCtx.mem (0x4000 + i))).map
        (fun canonical => (List.range 16).map canonical) =
      some [0, 0, 0, 10, 0, 0, 0, 20, 0, 0, 0, 30, 0, 0, 0, 40] ∧
    ((glTexImage2D libogc GL_TEXTURE_2D 0 GL_LUMINANCE 2 2 0 GL_LUMINANCE
        GL_UNSIGNED_BYTE 0x4000 texCtx).state.textures texCtx.boundTexture).imgBuffer =
      some [0x8421, 0x8842, 0, 0, 0x8C63, 0x94A5, 0, 0, 0, 0, 0, 0, 0, 0, 0, 0] :=
  ⟨by decide, by decide, by decide,
    glTexImage2D_format_normalization libogc texCtx GL_TEXTURE_2D 0 GL_LUMINANCE 0
      GL_LUMINANCE 2 2 0x4000 (by decide) (by decide) (by decide),
    by decide, by decide, by decide⟩

/-- Claim C16: `glTexImage2D` takes the fatal-error path exactly when no texture is bound,
or the element type is not `GL_UNSIGNED_BYTE`, or the internal format is not one of
`GL_ALPHA`, `GL_LUMINANCE`, `GL_LUMINANCE_ALPHA`, `GL_RGB`, `GL_RGBA`; otherwise it returns,
and the bound texture is marked as initialized and has an image buffer. The allocations are
taken to succeed. -/
theorem glTexImage2D_fatal_iff (gx : GXConsts) (s : Context α)
    (target level internalformat border format type : Int) (width height data : Nat) :
    ((glTexImage2D gx target level internalformat width height border format type data
        s).isFatal = true ↔
      (s.boundTexture = 0 ∨ type ≠ GL_UNSIGNED_BYTE ∨ internalformat ∉ textureFormats)) ∧
    (¬(s.boundTexture = 0 ∨ type ≠ GL_UNSIGNED_BYTE ∨ internalformat ∉ textureFormats) →
      ∃ s', glTexImage2D gx target level internalformat width height border format type data
          s = .ok s' ∧
        s'.boundTexture = s.boundTexture ∧
        (s'.textures s.boundTexture).initialized = true ∧
        (s'.textures s.boundTexture).imgBuffer ≠ none) := by
  unfold glTexImage2D
  by_cases hb : s.boundTexture = 0
  · simp [hb, Result.isFatal]
  by_cases ht : type = GL_UNSIGNED_BYTE
  · cases hsrc : texture_source internalformat width height (fun i => load8 s.mem (data + i)) with
    | none =>
      have hf := (texture_source_eq_none _ _ _ _).1 hsrc
      simp [hb, ht, Result.isFatal, hf]
    | some canonical =>
      have hf : ¬ internalformat ∉ textureFormats := fun h =>
        Option.some_ne_none _ (hsrc.symm.trans ((texture_source_eq_none _ _ _ _).2 h))
      simp [hb, ht, Result.isFatal, hf]
  · simp [hb, ht, Result.isFatal]

theorem glTexImage2D_fatal_iff_witness :
    ((glTexImage2D libogc GL_TEXTURE_2D 0 GL_LUMINANCE 1 1 0 GL_LUMINANCE GL_UNSIGNED_BYTE
        0x4000 texCtx).isFatal = true ↔
      (texCtx.boundTexture = 0 ∨ GL_UNSIGNED_BYTE ≠ GL_UNSIGNED_BYTE ∨
        GL_LUMINANCE ∉ textureFormats)) ∧
    (¬(texCtx.boundTexture = 0 ∨ GL_UNSIGNED_BYTE ≠ GL_UNSIGNED_BYTE ∨
        GL_LUMINANCE ∉ textureFormats) →
      ∃ s', glTexImage2D libogc GL_TEXTURE_2D 0 GL_LUMINANCE 1 1 0 GL_LUMINANCE
          GL_UNSIGNED_BYTE 0x4000 texCtx = .ok s' ∧
        s'.boundTexture = texCtx.boundTexture ∧
        (s'.textures texCtx.boundTexture).initialized = true ∧
        (s'.textures texCtx.boundTexture).imgBuffer ≠ none) :=
  glTexImage2D_fatal_iff libogc texCtx GL_TEXTURE_2D 0 GL_LUMINANCE 0 GL_LUMINANCE
    GL_UNSIGNED_BYTE 1 1 0x4000

end TextureApiFacts

section ReachableFacts

variable {α : Type}

theorem okShape_ok {r : Result (Context α)} {sh : Int × StackRef × Int × Int × Int}
    (h : r.okShape sh) {s' : Context α} (hr : r = .ok s') : s'.shape = sh := by
  subst hr
  exact h

theorem okShape_ite {c : Prop} [Decidable c] {a b : Result (Context α)}
    {sh : Int × StackRef × Int × Int × Int} (ha : a.okShape sh) (hb : b.okShape sh) :
    (if c then a else b).okShape sh := by
  split_ifs
  · exact ha
  · exact hb

theorem shape_setCURR_MATRIX (s : Context α) (m : Mtx44 α) :
    (setCURR_MATRIX s m).shape = s.shape := by
  unfold setCURR_MATRIX Context.setCurr Context.shape Context.curr
  cases h : s.currMtxStack <;> simp [h]

theorem load_curr_matrix_shape (gx : GXConsts) (ext : Ext α) (s : Context α) :
    (load_curr_matrix gx ext s).okShape s.shape := by
  unfold load_curr_matrix
  split_ifs <;> first | exact rfl | exact trivial

theorem mutate_shape (gx : GXConsts) (ext : Ext α) (s : Context α) (m : Mtx44 α) :
    (load_curr_matrix gx ext (setCURR_MATRIX s m)).okShape s.shape := by
  rw [← shape_setCURR_MATRIX s m]
  exact load_curr_matrix_shape gx ext _

theorem glOrtho_shape [Field α] (gx : GXConsts) (ext : Ext α) (s : Context α)
    (l r b t n f : α) : (glOrtho gx ext l r b t n f s).okShape s.shape := by
  unfold glOrtho
  dsimp only
  split_ifs
  · show (Context.emit _ _).shape = _
    rw [shape_emit, shape_setCURR_MATRIX]
  · exact mutate_shape gx ext s _

theorem glEnable_shape (gx : GXConsts) (cap : Int) (s : Context α) :
    (glEnable gx cap s).okShape s.shape := by
  unfold glEnable
  repeat' first | apply okShape_ite | exact rfl | exact trivial

theorem glDisable_shape (gx : GXConsts) (cap : Int) (s : Context α) :
    (glDisable gx cap s).okShape s.shape := by
  unfold glDisable
  repeat' first | apply okShape_ite | exact rfl | exact trivial

theorem glEnableClientState_shape (gx : GXConsts) (cap : Int) (s : Context α) :
    (glEnableClientState gx cap s).okShape s.shape := by
  unfold glEnableClientState
  repeat' first | apply okShape_ite | exact rfl | exact trivial

theorem glDisableClientState_shape (gx : GXConsts) (cap : Int) (s : Context α) :
    (glDisableClientState gx cap s).okShape s.shape := by
  unfold glDisableClientState
  repeat' first | apply okShape_ite | exact rfl | exact trivial

theorem okShape_andThen {r : Result (Context α)} {f : Context α → Result (Context α)}
    {sh : Int × StackRef × Int × Int × Int} (hr : r.okShape sh)
    (hf : ∀ t, t.shape = sh → (f t).okShape sh) : (r.andThen f).okShape sh := by
  cases r with
  | ok t => exact hf t hr
  | fatal msg t => exact trivial

theorem okShape_chain (sh sh2 : Int × StackRef × Int × Int × Int)
    (r : Result (Context α)) (f : Context α → Result (Context α)) (hr : r.okShape sh)
    (hf : ∀ t, t.shape = sh → (f t).okShape sh2) : (r.andThen f).okShape sh2 := by
  cases r with
  | ok t => exact hf t hr
  | fatal msg t => exact trivial

theorem shape_foldl {ι : Type} (step : Context α → ι → Context α)
    (h : ∀ t i, (step t i).shape = t.shape) (l : List ι) (s : Context α) :
    (l.foldl step s).shape = s.shape := by
  induction l generalizing s with
  | nil => rfl
  | cons i l ih => rw [List.foldl_cons, ih, h]

theorem okShape_foldl {ι : Type} (step : Context α → ι → Result (Context α))
    (h : ∀ t i, (step t i).okShape t.shape) (l : List ι)
    (sh : Int × StackRef × Int × Int × Int) (r : Result (Context α)) (hr : r.okShape sh) :
    (l.foldl (fun (r : Result (Context α)) i => r.andThen (fun t => step t i)) r).okShape
      sh := by
  induction l generalizing r with
  | nil => exact hr
  | cons i l ih =>
    rw [List.foldl_cons]
    apply ih
    apply okShape_andThen hr
    intro t ht
    rw [← ht]
    exact h t i

theorem shape_setup_drawing (gx : GXConsts) (s : Context α) :
    (setup_drawing gx s).shape = s.shape := by
  unfold setup_drawing
  simp only [shape_emit]
  split_ifs <;> rfl

theorem shape_drawPrologue [Field α] (gx : GXConsts) (ext : Ext α) (s : Context α) :
    (drawPrologue gx ext s).shape = s.shape := by
  unfold drawPrologue
  simp only [shape_emit, shape_setup_drawing]
  split_ifs <;> rfl

theorem shape_drawEpilogue (gx : GXConsts) (s : Context α) :
    (drawEpilogue gx s).shape = s.shape := by
  unfold drawEpilogue
  dsimp only
  split_ifs <;> rfl

theorem glDrawArrays_shape [Field α] (gx : GXConsts) (ext : Ext α) (mode first : Int)
    (count : Nat) (s : Context α) : (glDrawArrays gx ext mode first count s).okShape s.shape := by
  unfold glDrawArrays
  cases gl_enum_to_gx gx mode with
  | none => exact trivial
  | some m =>
    show (drawEpilogue gx _).shape = _
    rw [shape_drawEpilogue]
    refine (shape_foldl _ ?_ _ _).trans ?_
    · intro t i
      rfl
    · rw [shape_emit, shape_drawPrologue]

theorem drawElementsStep_shape (type : Int) (indices : Nat) (t : Context α) (i : Nat) :
    (drawElementsStep type indices t i).okShape t.shape := by
  unfold drawElementsStep
  repeat' first | apply okShape_ite | exact rfl | exact trivial

theorem glDrawElements_shape [Field α] (gx : GXConsts) (ext : Ext α) (mode : Int)
    (count : Nat) (type : Int) (indices : Nat) (s : Context α) :
    (glDrawElements gx ext mode count type indices s).okShape s.shape := by
  unfold glDrawElements
  cases gl_enum_to_gx gx mode with
  | none => exact trivial
  | some m =>
    dsimp only
    apply okShape_andThen
    · apply okShape_foldl _ (drawElementsStep_shape type _)
      show (Context.emit _ _).shape = _
      rw [shape_emit, shape_drawPrologue]
    · intro t ht
      show (drawEpilogue gx t).shape = _
      rw [shape_drawEpilogue, ht]

theorem glVertexPointer_shape (gx : GXConsts) (size type : Int) (stride pointer : Nat)
    (s : Context α) : (glVertexPointer gx size type stride pointer s).okShape s.shape := by
  unfold glVertexPointer
  apply okShape_ite
  · exact trivial
  · cases gl_enum_to_gx gx type <;> first | exact rfl | exact trivial

theorem glColorPointer_shape (gx : GXConsts) (size type : Int) (stride pointer : Nat)
    (s : Context α) : (glColorPointer gx size type stride pointer s).okShape s.shape := by
  unfold glColorPointer
  apply okShape_ite
  · exact trivial
  · cases gl_enum_to_gx gx type with
    | none => exact trivial
    | some t =>
      dsimp only
      split <;> first | exact rfl | exact trivial

theorem glTexCoordPointer_shape (gx : GXConsts) (size type : Int) (stride pointer : Nat)
    (s : Context α) : (glTexCoordPointer gx size type stride pointer s).okShape s.shape := by
  unfold glTexCoordPointer
  apply okShape_ite
  · exact trivial
  · cases gl_enum_to_gx gx type <;> first | exact rfl | exact trivial

theorem glNormalPointer_shape (gx : GXConsts) (type : Int) (stride pointer : Nat)
    (s : Context α) : (glNormalPointer gx type stride pointer s).okShape s.shape := by
  unfold glNormalPointer
  cases gl_enum_to_gx gx type <;> first | exact rfl | exact trivial

theorem glBufferData_shape (target : Int) (size data : Nat) (usage : Int) (newData : Nat)
    (s : Context α) : (glBufferData target size data usage newData s).okShape s.shape := by
  unfold glBufferData
  cases get_buffer target s with
  | none => exact trivial
  | some buf =>
    dsimp only
    repeat' first | apply okShape_ite | exact rfl

theorem glBufferSubData_shape (target offset : Int) (size data : Nat) (s : Context α) :
    (glBufferSubData target offset size data s).okShape s.shape := by
  unfold glBufferSubData
  cases get_buffer target s with
  | none => exact trivial
  | some buf =>
    dsimp only
    repeat' first | apply okShape_ite | exact rfl | exact trivial

theorem glBindBuffer_shape (target : Int) (buffer : Nat) (s : Context α) :
    (glBindBuffer target buffer s).okShape s.shape := by
  unfold glBindBuffer set_buffer
  repeat' first | apply okShape_ite | exact rfl | exact trivial

theorem glGenBuffers_shape (n buffers : Nat) (fresh : Nat → Nat) (s : Context α) :
    (glGenBuffers n buffers fresh s).okShape s.shape := by
  unfold glGenBuffers
  show Context.shape (List.foldl _ _ _) = _
  refine shape_foldl _ ?_ _ _
  intro t i
  rfl

theorem glGenTextures_shape (gx : GXConsts) (n textures : Nat) (fresh : Nat → Nat)
    (s : Context α) : (glGenTextures gx n textures fresh s).okShape s.shape := by
  unfold glGenTextures
  show Context.shape (List.foldl _ _ _) = _
  refine shape_foldl _ ?_ _ _
  intro t i
  rfl

theorem glBindTexture_shape (target : Int) (texture : Nat) (s : Context α) :
    (glBindTexture target texture s).okShape s.shape := by
  unfold glBindTexture
  repeat' first | apply okShape_ite | exact rfl | exact trivial

theorem glTexImage2D_shape (gx : GXConsts) (target level internalformat : Int)
    (width height : Nat) (border format type : Int) (data : Nat) (s : Context α) :
    (glTexImage2D gx target level internalformat width height border format type data
      s).okShape s.shape := by
  unfold glTexImage2D
  apply okShape_ite
  · exact trivial
  apply okShape_ite
  · exact trivial
  cases texture_source internalformat width height fun i => load8 s.mem (data + i) <;>
    first | exact rfl | exact trivial

theorem glTexParameteri_shape (gx : GXConsts) (target pname param : Int) (s : Context α) :
    (glTexParameteri gx target pname param s).okShape s.shape := by
  unfold glTexParameteri
  apply okShape_ite
  · exact trivial
  dsimp only
  cases gl_enum_to_gx gx param <;>
    repeat' first | apply okShape_ite | exact rfl | exact trivial

theorem glClearColor_shape [Field α] (ext : Ext α) (r g b a : α) (s : Context α) :
    (glClearColor ext r g b a s).okShape s.shape := rfl

theorem glColor4ub_shape (gx : GXConsts) (r g b a : Nat) (s : Context α) :
    (glColor4ub gx r g b a s).okShape s.shape := rfl

theorem glColor4f_shape [Field α] (gx : GXConsts) (ext : Ext α) (r g b a : α)
    (s : Context α) : (glColor4f gx ext r g b a s).okShape s.shape := rfl

theorem wiigl_swap_buffers_shape (gx : GXConsts) (s : Context α) :
    (wiigl_swap_buffers gx s).okShape s.shape := by
  unfold wiigl_swap_buffers
  show Context.shape _ = _
  simp only [shape_emit]
  simp only [Context.shape]

theorem glMaterialfv_shape [Field α] (gx : GXConsts) (ext : Ext α) (face pname : Int)
    (params : Nat → α) (s : Context α) :
    (glMaterialfv gx ext face pname params s).okShape s.shape := by
  unfold glMaterialfv
  repeat' first | apply okShape_ite | exact rfl

theorem glBlendFunc_shape (gx : GXConsts) (sfactor dfactor : Int) (s : Context α) :
    (glBlendFunc gx sfactor dfactor s).okShape s.shape := by
  unfold glBlendFunc
  cases blend_factor gx sfactor with
  | none => exact trivial
  | some sf =>
    cases blend_factor gx dfactor with
    | none => exact trivial
    | some df => exact rfl

theorem glTexGeni_shape [Field α] (gx : GXConsts) (ext : Ext α) (coord pname param : Int)
    (s : Context α) : (glTexGeni gx ext coord pname param s).okShape s.shape := by
  unfold glTexGeni
  repeat' first | apply okShape_ite | exact rfl

theorem glDepthMask_shape (flag : Bool) (s : Context α) :
    (glDepthMask flag s).okShape s.shape := rfl

theorem glPolygonOffset_shape (factor units : α) (s : Context α) :
    (glPolygonOffset factor units s).okShape s.shape := rfl

theorem glDepthFunc_shape (gx : GXConsts) (func : Int) (s : Context α) :
    (glDepthFunc gx func s).okShape s.shape := by
  unfold glDepthFunc
  cases gl_enum_to_gx gx func with
  | none => exact trivial
  | some v => exact rfl

theorem glLightModelfv_shape [Field α] (gx : GXConsts) (ext : Ext α) (pname : Int)
    (params : Nat → α) (s : Context α) :
    (glLightModelfv gx ext pname params s).okShape s.shape := by
  unfold glLightModelfv
  repeat' first | apply okShape_ite | exact rfl

theorem glLightfv_shape [Field α] (ext : Ext α) (light pname : Int) (params : Nat → α)
    (s : Context α) : (glLightfv ext light pname params s).okShape s.shape := by
  unfold glLightfv
  show Context.shape (Context.emit _ _) = _
  rw [shape_emit]
  split_ifs <;> rfl

theorem glPointSize_shape (gx : GXConsts) (size : α) (s : Context α) :
    (glPointSize gx size s).okShape s.shape := rfl

theorem glCullFace_shape (gx : GXConsts) (mode : Int) (s : Context α) :
    (glCullFace gx mode s).okShape s.shape := by
  unfold glCullFace
  cases gl_enum_to_gx gx mode with
  | none => exact trivial
  | some v => exact rfl

theorem glGetIntegerv_shape (pname : Int) (data : Nat) (s : Context α) :
    (glGetIntegerv pname data s).okShape s.shape := by
  unfold glGetIntegerv
  repeat' first | apply okShape_ite | exact rfl | exact trivial

theorem glGetString_shape (name : Int) (s : Context α) :
    (glGetString name s).okShape s.shape := by
  unfold glGetString
  repeat' first | apply okShape_ite | exact rfl | exact trivial

theorem glMatrixMode_modelview_shape (s : Context α) :
    (glMatrixMode GL_MODELVIEW s).okShape
      (GL_MODELVIEW, .modelview, s.modelviewMtxStack.stackPos, s.projMtxStack.stackPos,
        s.textureMtxStack.stackPos) := by
  unfold glMatrixMode
  rw [if_pos rfl]
  exact rfl

theorem glMatrixMode_projection_shape (s : Context α) :
    (glMatrixMode GL_PROJECTION s).okShape
      (GL_PROJECTION, .proj, s.modelviewMtxStack.stackPos, s.projMtxStack.stackPos,
        s.textureMtxStack.stackPos) := by
  have h1 : GL_PROJECTION ≠ GL_MODELVIEW := by decide
  unfold glMatrixMode
  rw [if_neg h1, if_pos rfl]
  exact rfl

theorem glMatrixMode_texture_shape (s : Context α) :
    (glMatrixMode GL_TEXTURE s).okShape
      (GL_TEXTURE, .texture, s.modelviewMtxStack.stackPos, s.projMtxStack.stackPos,
        s.textureMtxStack.stackPos) := by
  have h1 : GL_TEXTURE ≠ GL_MODELVIEW := by decide
  have h2 : GL_TEXTURE ≠ GL_PROJECTION := by decide
  unfold glMatrixMode
  rw [if_neg h1, if_neg h2, if_pos rfl]
  exact rfl

theorem glLoadIdentity_shape [Field α] (gx : GXConsts) (ext : Ext α) (s : Context α) :
    (glLoadIdentity gx ext s).okShape s.shape :=
  mutate_shape gx ext s _

/-- When `wiigl_create_context` returns, the model-view stack is selected and the three
stacks are at depth 0. -/
theorem wiigl_create_context_shape [Field α] (gx : GXConsts) (ext : Ext α) (s0 : Context α) :
    (wiigl_create_context gx ext s0).okShape (GL_MODELVIEW, .modelview, 0, 0, 0) := by
  unfold wiigl_create_context
  dsimp only
  refine okShape_chain (GL_MODELVIEW, .modelview, 0, 0, 0) _ _ _
    (glMatrixMode_modelview_shape _) ?_
  intro t1 h1
  refine okShape_chain (GL_MODELVIEW, .modelview, 0, 0, 0) _ _ _ ?_ ?_
  · rw [← h1]
    exact glLoadIdentity_shape gx ext t1
  intro t2 h2
  refine okShape_chain (GL_PROJECTION, .proj, 0, 0, 0) _ _ _ ?_ ?_
  · have h := glMatrixMode_projection_shape t2
    simp only [Context.shape, Prod.mk.injEq] at h2
    rw [h2.2.2.1, h2.2.2.2.1, h2.2.2.2.2] at h
    exact h
  intro t3 h3
  refine okShape_chain (GL_PROJECTION, .proj, 0, 0, 0) _ _ _ ?_ ?_
  · rw [← h3]
    exact glLoadIdentity_shape gx ext t3
  intro t4 h4
  refine okShape_chain (GL_TEXTURE, .texture, 0, 0, 0) _ _ _ ?_ ?_
  · have h := glMatrixMode_texture_shape t4
    simp only [Context.shape, Prod.mk.injEq] at h4
    rw [h4.2.2.1, h4.2.2.2.1, h4.2.2.2.2] at h
    exact h
  intro t5 h5
  refine okShape_chain (GL_TEXTURE, .texture, 0, 0, 0) _ _ _ ?_ ?_
  · rw [← h5]
    exact glLoadIdentity_shape gx ext t5
  intro t6 h6
  refine okShape_chain (GL_TEXTURE, .texture, 0, 0, 0) _ _ _ ?_ ?_
  · rw [← h6]
    exact glDisable_shape gx GL_TEXTURE_2D _
  intro t7 h7
  refine okShape_chain (GL_MODELVIEW, .modelview, 0, 0, 0) _ _ _ ?_ ?_
  · have h := glMatrixMode_modelview_shape
      ((({ t7 with
          cullMode := to_u8 gx.GX_CULL_FRONT
          zEnable := to_u8 gx.GX_FALSE
          zFunc := to_u8 gx.GX_LEQUAL
          zUpdate := to_u8 gx.GX_TRUE } : Context α)).emit
        (.SetZMode (to_u8 gx.GX_FALSE) (to_u8 gx.GX_LEQUAL) (to_u8 gx.GX_TRUE)))
    simp only [Context.shape, Prod.mk.injEq] at h7
    simp only [Context.emit] at h
    rw [h7.2.2.1, h7.2.2.2.1, h7.2.2.2.2] at h
    exact h
  intro t8 h8
  show Context.shape _ = _
  simp only [shape_emit]
  exact h8

theorem stackInvariant_of_shape {s s' : Context α} (h : s'.shape = s.shape)
    (hinv : StackInvariant s) : StackInvariant s' := by
  simp only [Context.shape, Prod.mk.injEq] at h
  obtain ⟨h1, h2, h3, h4, h5⟩ := h
  unfold StackInvariant DepthsInRange ModeConsistent at *
  rw [h1, h2, h3, h4, h5]
  exact hinv

theorem stackInvariant_of_okShape {r : Result (Context α)} {s s' : Context α}
    (h : r.okShape s.shape) (hr : r = .ok s') (hinv : StackInvariant s) :
    StackInvariant s' :=
  stackInvariant_of_shape (okShape_ok h hr) hinv

theorem glMatrixMode_invariant (mode : Int) (s s' : Context α)
    (h : glMatrixMode mode s = .ok s') (hinv : StackInvariant s) : StackInvariant s' := by
  unfold glMatrixMode at h
  unfold StackInvariant DepthsInRange ModeConsistent at *
  split_ifs at h with h1 h2 h3 h4 <;> cases h
  · exact ⟨hinv.1, Or.inl ⟨h1, rfl⟩⟩
  · exact ⟨hinv.1, Or.inr (Or.inl ⟨h2, rfl⟩)⟩
  · exact ⟨hinv.1, Or.inr (Or.inr ⟨h3, rfl⟩)⟩

theorem glPushMatrix_invariant (s s' : Context α) (h : glPushMatrix s = .ok s')
    (hinv : StackInvariant s) : StackInvariant s' := by
  unfold glPushMatrix at h
  split_ifs at h with h1
  cases h
  unfold MTX_STACK_LIMIT at h1
  unfold StackInvariant DepthsInRange ModeConsistent at *
  unfold Context.setCurr
  unfold Context.curr at h1 ⊢
  obtain ⟨⟨⟨a1, a2⟩, ⟨b1, b2⟩, c1, c2⟩, hm⟩ := hinv
  cases hc : s.currMtxStack <;> simp only [hc] at h1 hm ⊢ <;>
    exact ⟨⟨⟨by omega, by omega⟩, ⟨by omega, by omega⟩, by omega, by omega⟩, hm⟩

theorem glPopMatrix_invariant (gx : GXConsts) (ext : Ext α) (s s' : Context α)
    (h : glPopMatrix gx ext s = .ok s') (hinv : StackInvariant s) : StackInvariant s' := by
  unfold glPopMatrix at h
  dsimp only at h
  split_ifs at h with h1
  refine stackInvariant_of_okShape (load_curr_matrix_shape gx ext _) h ?_
  rw [curr_setCurr] at h1
  unfold StackInvariant DepthsInRange ModeConsistent at *
  unfold Context.setCurr
  unfold Context.curr at h1 ⊢
  obtain ⟨⟨⟨a1, a2⟩, ⟨b1, b2⟩, c1, c2⟩, hm⟩ := hinv
  cases hc : s.currMtxStack <;> simp only [hc] at h1 hm ⊢ <;>
    exact ⟨⟨⟨by omega, by omega⟩, ⟨by omega, by omega⟩, by omega, by omega⟩, hm⟩

theorem wiigl_create_context_invariant [Field α] (gx : GXConsts) (ext : Ext α)
    (s0 s : Context α) (h : wiigl_create_context gx ext s0 = .ok s) : StackInvariant s := by
  have hs := okShape_ok (wiigl_create_context_shape gx ext s0) h
  simp only [Context.shape, Prod.mk.injEq] at hs
  obtain ⟨h1, h2, h3, h4, h5⟩ := hs
  unfold StackInvariant DepthsInRange ModeConsistent
  rw [h1, h2, h3, h4, h5]
  exact ⟨⟨⟨le_refl _, by decide⟩, ⟨le_refl _, by decide⟩, le_refl _, by decide⟩,
    Or.inl ⟨rfl, rfl⟩⟩

/-- Every API call that returns keeps the invariant of the matrix stacks. -/
theorem APICall.run_invariant [Field α] (gx : GXConsts) (ext : Ext α) (c : APICall α)
    (s s' : Context α) (h : c.run gx ext s = .ok s') (hinv : StackInvariant s) :
    StackInvariant s' := by
  cases c with
  | wiigl_create_context => exact wiigl_create_context_invariant gx ext s s' h
  | wiigl_swap_buffers => exact stackInvariant_of_okShape (wiigl_swap_buffers_shape gx s) h hinv
  | glClearColor r g b a =>
    exact stackInvariant_of_okShape (glClearColor_shape ext r g b a s) h hinv
  | glEnable cap => exact stackInvariant_of_okShape (glEnable_shape gx cap s) h hinv
  | glDisable cap => exact stackInvariant_of_okShape (glDisable_shape gx cap s) h hinv
  | glEnableClientState cap =>
    exact stackInvariant_of_okShape (glEnableClientState_shape gx cap s) h hinv
  | glDisableClientState cap =>
    exact stackInvariant_of_okShape (glDisableClientState_shape gx cap s) h hinv
  | glMatrixMode mode => exact glMatrixMode_invariant mode s s' h hinv
  | glPushMatrix => exact glPushMatrix_invariant s s' h hinv
  | glPopMatrix => exact glPopMatrix_invariant gx ext s s' h hinv
  | glLoadIdentity => exact stackInvariant_of_okShape (glLoadIdentity_shape gx ext s) h hinv
  | glLoadMatrixf m => exact stackInvariant_of_okShape (mutate_shape gx ext s _) h hinv
  | glMultMatrixf m => exact stackInvariant_of_okShape (mutate_shape gx ext s _) h hinv
  | glTranslatef x y z => exact stackInvariant_of_okShape (mutate_shape gx ext s _) h hinv
  | glScalef x y z => exact stackInvariant_of_okShape (mutate_shape gx ext s _) h hinv
  | glRotatef angle x y z => exact stackInvariant_of_okShape (mutate_shape gx ext s _) h hinv
  | glOrtho l r b t n f =>
    exact stackInvariant_of_okShape (glOrtho_shape gx ext s l r b t n f) h hinv
  | glFrustum l r b t n f => exact stackInvariant_of_okShape (mutate_shape gx ext s _) h hinv
  | glGenBuffers n buffers fresh =>
    exact stackInvariant_of_okShape (glGenBuffers_shape n buffers fresh s) h hinv
  | glDeleteBuffers n buffers => cases h; exact hinv
  | glBindBuffer target buffer =>
    exact stackInvariant_of_okShape (glBindBuffer_shape target buffer s) h hinv
  | glBufferData target size data usage newData =>
    exact stackInvariant_of_okShape (glBufferData_shape target size data usage newData s) h hinv
  | glBufferSubData target offset size data =>
    exact stackInvariant_of_okShape (glBufferSubData_shape target offset size data s) h hinv
  | glColor4ub r g b a => exact stackInvariant_of_okShape (glColor4ub_shape gx r g b a s) h hinv
  | glColor4f r g b a =>
    exact stackInvariant_of_okShape (glColor4f_shape gx ext r g b a s) h hinv
  | glVertexPointer size type stride pointer =>
    exact stackInvariant_of_okShape (glVertexPointer_shape gx size type stride pointer s) h hinv
  | glColorPointer size type stride pointer =>
    exact stackInvariant_of_okShape (glColorPointer_shape gx size type stride pointer s) h hinv
  | glTexCoordPointer size type stride pointer =>
    exact stackInvariant_of_okShape (glTexCoordPointer_shape gx size type stride pointer s) h
      hinv
  | glNormalPointer type stride pointer =>
    exact stackInvariant_of_okShape (glNormalPointer_shape gx type stride pointer s) h hinv
  | glDrawArrays mode first count =>
    exact stackInvariant_of_okShape (glDrawArrays_shape gx ext mode first count s) h hinv
  | glDrawElements mode count type indices =>
    exact stackInvariant_of_okShape (glDrawElements_shape gx ext mode count type indices s) h
      hinv
  | glGenTextures n textures fresh =>
    exact stackInvariant_of_okShape (glGenTextures_shape gx n textures fresh s) h hinv
  | glDeleteTextures n textures => cases h; exact hinv
  | glBindTexture target texture =>
    exact stackInvariant_of_okShape (glBindTexture_shape target texture s) h hinv
  | glTexImage2D target level internalformat width height border format type data =>
    exact stackInvariant_of_okShape
      (glTexImage2D_shape gx target level internalformat width height border format type data
        s) h hinv
  | glTexParameteri target pname param =>
    exact stackInvariant_of_okShape (glTexParameteri_shape gx target pname param s) h hinv
  | glMaterialfv face pname params =>
    exact stackInvariant_of_okShape (glMaterialfv_shape gx ext face pname params s) h hinv
  | blend_factor f =>
    have h2 : (match WiiGL.blend_factor gx f with
      | none => Result.fatal "unknown blend factor" s
      | some _ => Result.ok s) = .ok s' := h
    split at h2
    · cases h2
    · cases h2
      exact hinv
  | glBlendFunc sfactor dfactor =>
    exact stackInvariant_of_okShape (glBlendFunc_shape gx sfactor dfactor s) h hinv
  | glTexGeni coord pname param =>
    exact stackInvariant_of_okShape (glTexGeni_shape gx ext coord pname param s) h hinv
  | glDepthMask flag => exact stackInvariant_of_okShape (glDepthMask_shape flag s) h hinv
  | glPolygonOffset factor units =>
    exact stackInvariant_of_okShape (glPolygonOffset_shape factor units s) h hinv
  | glDepthFunc func => exact stackInvariant_of_okShape (glDepthFunc_shape gx func s) h hinv
  | glLightModelfv pname params =>
    exact stackInvariant_of_okShape (glLightModelfv_shape gx ext pname params s) h hinv
  | glLightfv light pname params =>
    exact stackInvariant_of_okShape (glLightfv_shape ext light pname params s) h hinv
  | glPointSize size => exact stackInvariant_of_okShape (glPointSize_shape gx size s) h hinv
  | glCullFace mode => exact stackInvariant_of_okShape (glCullFace_shape gx mode s) h hinv
  | glGetIntegerv pname data =>
    exact stackInvariant_of_okShape (glGetIntegerv_shape pname data s) h hinv
  | glGetString name => exact stackInvariant_of_okShape (glGetString_shape name s) h hinv
  | glPointParameterfv => cases h; exact hinv
  | glTexEnvi => cases h; exact hinv
  | glAlphaFunc => cases h; exact hinv
  | glFrontFace => cases h; exact hinv
  | glStencilFunc => cases h; exact hinv
  | glStencilOp => cases h; exact hinv
  | glColorMask => cases h; exact hinv
  | glClear => cases h; exact hinv
  | glClipPlane => cases h; exact hinv
  | glActiveTexture => cases h; exact hinv
  | glClientActiveTexture => cases h; exact hinv
  | glPointParameterf => cases h; exact hinv
  | glPixelStorei => cases h; exact hinv
  | glViewport => cases h; exact hinv
  | glLightModeli => cases h; exact hinv
  | glLightModelf => cases h; exact hinv
  | glPolygonMode => cases h; exact hinv
  | glReadPixels => cases h; exact hinv

/-- In every reachable state the three depth indices are in range and the matrix mode
agrees with the selected stack. -/
theorem reachable_invariant [Field α] (gx : GXConsts) (ext : Ext α) (s : Context α)
    (h : Reachable gx ext s) : StackInvariant s := by
  induction h with
  | create s0 s h => exact wiigl_create_context_invariant gx ext s0 s h
  | step s s' c _ h ih => exact APICall.run_invariant gx ext c s s' h ih

theorem createdCtx_ok :
    wiigl_create_context libogc exampleExt exampleCtx = .ok createdCtx := rfl

theorem pushedCtx_ok : glPushMatrix createdCtx = .ok pushedCtx := rfl

theorem pushedCtx_reachable : Reachable libogc exampleExt pushedCtx :=
  .step createdCtx pushedCtx .glPushMatrix (.create exampleCtx createdCtx createdCtx_ok)
    pushedCtx_ok

/-- Claim C12 (depth-index invariant): in every state reachable from
`wiigl_create_context` by any sequence of API calls none of which takes the fatal-error
path, the depth index of each of the three matrix stacks (model-view, projection, texture)
lies in `[0, 15]`. -/
theorem depth_index_invariant [Field α] (gx : GXConsts) (ext : Ext α) (s : Context α)
    (h : Reachable gx ext s) : DepthsInRange s :=
  (reachable_invariant gx ext s h).1

theorem depth_index_invariant_witness :
    Reachable libogc exampleExt pushedCtx ∧ DepthsInRange pushedCtx :=
  ⟨pushedCtx_reachable, depth_index_invariant libogc exampleExt pushedCtx pushedCtx_reachable⟩

end ReachableFacts

section BindingFacts

variable {α : Type}

/-- Claim C21 (buffer binding): `glBindBuffer(GL_ARRAY_BUFFER, h)` returns with only the
array slot of `boundBuffers` set to `h`, `glBindBuffer(GL_ELEMENT_ARRAY_BUFFER, h)` with
only the element slot set to `h`: the other slot, every buffer object and all memory are
as before, and `get_buffer` then finds `h` in the slot, the null handle when `h` is 0. Any
other target takes the fatal-error path, in the unchanged state. -/
theorem glBindBuffer_sets_one_slot (s : Context α) (target : Int) (h : Nat) :
    (glBindBuffer GL_ARRAY_BUFFER h s =
        .ok { s with boundBuffers := Function.update s.boundBuffers 0 h } ∧
      Function.update s.boundBuffers 0 h 0 = h ∧
      Function.update s.boundBuffers 0 h 1 = s.boundBuffers 1 ∧
      get_buffer GL_ARRAY_BUFFER
        { s with boundBuffers := Function.update s.boundBuffers 0 h } = some h) ∧
    (glBindBuffer GL_ELEMENT_ARRAY_BUFFER h s =
        .ok { s with boundBuffers := Function.update s.boundBuffers 1 h } ∧
      Function.update s.boundBuffers 1 h 1 = h ∧
      Function.update s.boundBuffers 1 h 0 = s.boundBuffers 0 ∧
      get_buffer GL_ELEMENT_ARRAY_BUFFER
        { s with boundBuffers := Function.update s.boundBuffers 1 h } = some h) ∧
    (target ≠ GL_ARRAY_BUFFER ∧ target ≠ GL_ELEMENT_ARRAY_BUFFER →
      glBindBuffer target h s = .fatal "bad buffer target" s) := by
  have hne : GL_ELEMENT_ARRAY_BUFFER ≠ GL_ARRAY_BUFFER := by decide
  refine ⟨⟨?_, ?_, ?_, ?_⟩, ⟨?_, ?_, ?_, ?_⟩, ?_⟩
  · unfold glBindBuffer set_buffer
    rw [if_pos rfl]
  · simp
  · exact Function.update_noteq (by decide) _ _
  · unfold get_buffer
    rw [if_pos rfl]
    simp
  · unfold glBindBuffer set_buffer
    rw [if_neg hne, if_pos rfl]
  · simp
  · exact Function.update_noteq (by decide) _ _
  · unfold get_buffer
    rw [if_neg hne, if_pos rfl]
    simp
  · rintro ⟨h1, h2⟩
    unfold glBindBuffer set_buffer
    rw [if_neg h1, if_neg h2]

theorem glBindBuffer_sets_one_slot_witness :
    (glBindBuffer GL_ARRAY_BUFFER 0 bufCtx =
        .ok { bufCtx with boundBuffers := Function.update bufCtx.boundBuffers 0 0 } ∧
      Function.update bufCtx.boundBuffers 0 0 0 = 0 ∧
      Function.update bufCtx.boundBuffers 0 0 1 = bufCtx.boundBuffers 1 ∧
      get_buffer GL_ARRAY_BUFFER
        { bufCtx with boundBuffers := Function.update bufCtx.boundBuffers 0 0 } = some 0) ∧
    (glBindBuffer GL_ELEMENT_ARRAY_BUFFER 0 bufCtx =
        .ok { bufCtx with boundBuffers := Function.update bufCtx.boundBuffers 1 0 } ∧
      Function.update bufCtx.boundBuffers 1 0 1 = 0 ∧
      Function.update bufCtx.boundBuffers 1 0 0 = bufCtx.boundBuffers 0 ∧
      get_buffer GL_ELEMENT_ARRAY_BUFFER
        { bufCtx with boundBuffers := Function.update bufCtx.boundBuffers 1 0 } = some 0) ∧
    (GL_TEXTURE_2D ≠ GL_ARRAY_BUFFER ∧ GL_TEXTURE_2D ≠ GL_ELEMENT_ARRAY_BUFFER →
      glBindBuffer GL_TEXTURE_2D 0 bufCtx = .fatal "bad buffer target" bufCtx) :=
  glBindBuffer_sets_one_slot bufCtx GL_TEXTURE_2D 0

/-- Every colour type is translated, to `GX_U8` or to `GX_F32`. -/
theorem gl_enum_to_gx_colorTypes (gx : GXConsts) (t : Int) (h : t ∈ colorTypes) :
    gl_enum_to_gx gx t = some gx.GX_U8 ∨ gl_enum_to_gx gx t = some gx.GX_F32 := by
  simp only [colorTypes, List.mem_cons, List.mem_singleton, List.not_mem_nil, or_false] at h
  rcases h with rfl | rfl
  · exact Or.inl rfl
  · exact Or.inr rfl

/-- Claim C22 (component-count validation): with an element type the function supports
(one of the five element types for positions and texture coordinates, unsigned byte or float
for colours), `glVertexPointer` is fatal exactly when the count is not 2 or 3,
`glColorPointer` exactly when it is not 3 or 4, `glTexCoordPointer` exactly when it is not
1, 2 or 3; and `glTexCoordPointer` with count 3 returns in the same state as with count 2,
the stored component field being `GX_TEX_ST`. -/
theorem component_count_validation (gx : GXConsts) (s : Context α) (n t tc : Int)
    (stride pointer : Nat) (ht : t ∈ elementTypes) (htc : tc ∈ colorTypes) :
    ((glVertexPointer gx n t stride pointer s).isFatal = true ↔ (n ≠ 2 ∧ n ≠ 3)) ∧
    ((glColorPointer gx n tc stride pointer s).isFatal = true ↔ (n ≠ 3 ∧ n ≠ 4)) ∧
    ((glTexCoordPointer gx n t stride pointer s).isFatal = true ↔ (n ≠ 1 ∧ n ≠ 2 ∧ n ≠ 3)) ∧
    (∃ s', glTexCoordPointer gx 3 t stride pointer s = .ok s' ∧
      glTexCoordPointer gx 2 t stride pointer s = .ok s' ∧
      s'.texCoordDesc.components = gx.GX_TEX_ST) := by
  obtain ⟨f, hf⟩ := gl_enum_to_gx_isSome gx t ht
  refine ⟨?_, ?_, ?_, ?_⟩
  · unfold glVertexPointer
    by_cases hn : n ≠ 2 ∧ n ≠ 3
    · simp [hn, Result.isFatal]
    · simp only [if_neg hn, hf, Result.isFatal]
      simp [hn]
  · unfold glColorPointer
    by_cases hn : n ≠ 3 ∧ n ≠ 4
    · simp [hn, Result.isFatal]
    · rw [if_neg hn]
      have h34 : n = 3 ∨ n = 4 := by omega
      rcases gl_enum_to_gx_colorTypes gx tc htc with hc | hc <;> rw [hc] <;>
        rcases h34 with rfl | rfl <;> simp only [] <;> split_ifs <;>
        simp_all [Result.isFatal]
  · unfold glTexCoordPointer
    by_cases hn : n ≠ 1 ∧ n ≠ 2 ∧ n ≠ 3
    · simp [hn, Result.isFatal]
    · simp only [if_neg hn, hf, Result.isFatal]
      simp [hn]
  · have e : glTexCoordPointer gx 3 t stride pointer s =
        glTexCoordPointer gx 2 t stride pointer s := by
      simp [glTexCoordPointer]
    obtain ⟨s', _, h1, _, h3, _⟩ :=
      glTexCoordPointer_desc gx s 2 t stride pointer (by decide) ht
    rw [e]
    exact ⟨s', h1, h1, by simpa using h3⟩

theorem component_count_validation_witness :
    GL_FLOAT ∈ elementTypes ∧ GL_UNSIGNED_BYTE ∈ colorTypes ∧
    ((glVertexPointer libogc 4 GL_FLOAT 0 0x3000 exampleCtx).isFatal = true ↔
      ((4 : Int) ≠ 2 ∧ (4 : Int) ≠ 3)) ∧
    ((glColorPointer libogc 4 GL_UNSIGNED_BYTE 0 0x3000 exampleCtx).isFatal = true ↔
      ((4 : Int) ≠ 3 ∧ (4 : Int) ≠ 4)) ∧
    ((glTexCoordPointer libogc 4 GL_FLOAT 0 0x3000 exampleCtx).isFatal = true ↔
      ((4 : Int) ≠ 1 ∧ (4 : Int) ≠ 2 ∧ (4 : Int) ≠ 3)) ∧
    (∃ s', glTexCoordPointer libogc 3 GL_FLOAT 0 0x3000 exampleCtx = .ok s' ∧
      glTexCoordPointer libogc 2 GL_FLOAT 0 0x3000 exampleCtx = .ok s' ∧
      s'.texCoordDesc.components = libogc.GX_TEX_ST) :=
  ⟨by decide, by decide,
    component_count_validation libogc exampleCtx 4 GL_FLOAT GL_UNSIGNED_BYTE 0 0x3000
      (by decide) (by decide)⟩

/-- The address of an attribute array does not depend on the element-array binding; it is
the specified one when the sum stays inside the 32-bit address space. -/
theorem resolve_pointer_withElementBinding (s : Context α) (pointer e : Nat)
    (hfit : s.boundBuffers 0 ≠ 0 → (s.buffers (s.boundBuffers 0)).data + pointer < 2 ^ 32) :
    resolve_pointer pointer (withElementBinding s e) = resolvedAddress s pointer := by
  unfold resolve_pointer resolvedAddress withElementBinding
  have h0 : Function.update s.boundBuffers 1 e 0 = s.boundBuffers 0 :=
    Function.update_noteq (by decide) _ _
  simp only [h0]
  split_ifs with hb
  · exact Nat.mod_eq_of_lt (hfit hb)
  · rfl

theorem glVertexPointer_pointer (gx : GXConsts) (s s' : Context α) (n t : Int)
    (stride pointer : Nat) (h : glVertexPointer gx n t stride pointer s = .ok s') :
    s'.posDesc.pointer = resolve_pointer pointer s := by
  unfold glVertexPointer at h
  by_cases hn : n ≠ 2 ∧ n ≠ 3
  · rw [if_pos hn] at h
    cases h
  · rw [if_neg hn] at h
    cases hf : gl_enum_to_gx gx t with
    | none => simp only [hf] at h; cases h
    | some f => simp only [hf] at h; cases h; rfl

theorem glTexCoordPointer_pointer (gx : GXConsts) (s s' : Context α) (n t : Int)
    (stride pointer : Nat) (h : glTexCoordPointer gx n t stride pointer s = .ok s') :
    s'.texCoordDesc.pointer = resolve_pointer pointer s := by
  unfold glTexCoordPointer at h
  by_cases hn : n ≠ 1 ∧ n ≠ 2 ∧ n ≠ 3
  · rw [if_pos hn] at h
    cases h
  · rw [if_neg hn] at h
    cases hf : gl_enum_to_gx gx t with
    | none => simp only [hf] at h; cases h
    | some f => simp only [hf] at h; cases h; rfl

theorem glNormalPointer_pointer (gx : GXConsts) (s s' : Context α) (t : Int)
    (stride pointer : Nat) (h : glNormalPointer gx t stride pointer s = .ok s') :
    s'.nrmDesc.pointer = resolve_pointer pointer s := by
  unfold glNormalPointer at h
  cases hf : gl_enum_to_gx gx t with
  | none => simp only [hf] at h; cases h
  | some f => simp only [hf] at h; cases h; rfl

theorem glColorPointer_pointer (gx : GXConsts) (s s' : Context α) (n t : Int)
    (stride pointer : Nat) (h : glColorPointer gx n t stride pointer s = .ok s') :
    s'.colorDesc.pointer = resolve_pointer pointer s := by
  unfold glColorPointer at h
  by_cases hn : n ≠ 3 ∧ n ≠ 4
  · rw [if_pos hn] at h
    cases h
  · rw [if_neg hn] at h
    cases hf : gl_enum_to_gx gx t with
    | none => simp only [hf] at h; cases h
    | some f =>
      simp only [hf] at h
      split at h
      · cases h
      · cases h
        rfl

/-- With a supported count and colour type `glColorPointer` returns. -/
theorem glColorPointer_returns (gx : GXConsts) (s : Context α) (n t : Int)
    (stride pointer : Nat) (hn : n ∈ [3, 4]) (ht : t ∈ colorTypes) :
    ∃ s', glColorPointer gx n t stride pointer s = .ok s' := by
  have hn2 : ¬ (n ≠ 3 ∧ n ≠ 4) := by
    simp only [List.mem_cons, List.mem_singleton, List.not_mem_nil, or_false] at hn
    omega
  have h34 : n = 3 ∨ n = 4 := by omega
  unfold glColorPointer
  rw [if_neg hn2]
  rcases gl_enum_to_gx_colorTypes gx t ht with hc | hc <;> rw [hc] <;>
    rcases h34 with rfl | rfl <;> simp only [] <;> split_ifs <;>
    first | exact ⟨_, rfl⟩ | simp_all

/-- Claim C23 (pointer resolution): for each of `glVertexPointer`, `glColorPointer`,
`glTexCoordPointer` and `glNormalPointer`, called with supported arguments, the stored base
address is the storage base of the buffer bound to the array target plus the pointer
argument taken as a byte offset (the sum staying inside the 32-bit address space) when a
buffer is bound there, and the pointer argument itself otherwise; whatever handle `e` is in
the element-array slot, the stored address is the same. -/
theorem pointer_resolution (gx : GXConsts) (s : Context α) (np nc nt t tc : Int)
    (stride pointer e : Nat) (hnp : np ∈ [2, 3]) (hnc : nc ∈ [3, 4]) (hnt : nt ∈ [1, 2, 3])
    (ht : t ∈ elementTypes) (htc : tc ∈ colorTypes)
    (hfit : s.boundBuffers 0 ≠ 0 → (s.buffers (s.boundBuffers 0)).data + pointer < 2 ^ 32) :
    (∃ s', glVertexPointer gx np t stride pointer (withElementBinding s e) = .ok s' ∧
      s'.posDesc.pointer = resolvedAddress s pointer) ∧
    (∃ s', glColorPointer gx nc tc stride pointer (withElementBinding s e) = .ok s' ∧
      s'.colorDesc.pointer = resolvedAddress s pointer) ∧
    (∃ s', glTexCoordPointer gx nt t stride pointer (withElementBinding s e) = .ok s' ∧
      s'.texCoordDesc.pointer = resolvedAddress s pointer) ∧
    (∃ s', glNormalPointer gx t stride pointer (withElementBinding s e) = .ok s' ∧
      s'.nrmDesc.pointer = resolvedAddress s pointer) := by
  have hr := resolve_pointer_withElementBinding s pointer e hfit
  refine ⟨?_, ?_, ?_, ?_⟩
  · obtain ⟨s', _, h, _⟩ := glVertexPointer_desc gx (withElementBinding s e) np t stride
      pointer hnp ht
    exact ⟨s', h, (glVertexPointer_pointer gx _ s' np t stride pointer h).trans hr⟩
  · obtain ⟨s', h⟩ := glColorPointer_returns gx (withElementBinding s e) nc tc stride
      pointer hnc htc
    exact ⟨s', h, (glColorPointer_pointer gx _ s' nc tc stride pointer h).trans hr⟩
  · obtain ⟨s', _, h, _⟩ := glTexCoordPointer_desc gx (withElementBinding s e) nt t stride
      pointer hnt ht
    exact ⟨s', h, (glTexCoordPointer_pointer gx _ s' nt t stride pointer h).trans hr⟩
  · obtain ⟨f, hf⟩ := gl_enum_to_gx_isSome gx t ht
    have h : ∃ s', glNormalPointer gx t stride pointer (withElementBinding s e) = .ok s' := by
      unfold glNormalPointer
      rw [hf]
      exact ⟨_, rfl⟩
    obtain ⟨s', h⟩ := h
    exact ⟨s', h, (glNormalPointer_pointer gx _ s' t stride pointer h).trans hr⟩

theorem pointer_resolution_witness :
    (3 : Int) ∈ [2, 3] ∧ (4 : Int) ∈ [3, 4] ∧ (2 : Int) ∈ [1, 2, 3] ∧
    GL_FLOAT ∈ elementTypes ∧ GL_UNSIGNED_BYTE ∈ colorTypes ∧
    (bufCtx.boundBuffers 0 ≠ 0 →
      (bufCtx.buffers (bufCtx.boundBuffers 0)).data + 8 < 2 ^ 32) ∧
    resolvedAddress bufCtx 8 = 0x1008 ∧
    (∃ s', glVertexPointer libogc 3 GL_FLOAT 0 8 (withElementBinding bufCtx 0x700) = .ok s' ∧
      s'.posDesc.pointer = resolvedAddress bufCtx 8) ∧
    (∃ s', glColorPointer libogc 4 GL_UNSIGNED_BYTE 0 8 (withElementBinding bufCtx 0x700)
        = .ok s' ∧
      s'.colorDesc.pointer = resolvedAddress bufCtx 8) ∧
    (∃ s', glTexCoordPointer libogc 2 GL_FLOAT 0 8 (withElementBinding bufCtx 0x700)
        = .ok s' ∧
      s'.texCoordDesc.pointer = resolvedAddress bufCtx 8) ∧
    (∃ s', glNormalPointer libogc GL_FLOAT 0 8 (withElementBinding bufCtx 0x700) = .ok s' ∧
      s'.nrmDesc.pointer = resolvedAddress bufCtx 8) :=
  ⟨by decide, by decide, by decide, by decide, by decide, fun _ => by decide, by decide,
    pointer_resolution libogc bufCtx 3 4 2 GL_FLOAT GL_UNSIGNED_BYTE 0 8 0x700 (by decide)
      (by decide) (by decide) (by decide) (by decide) (fun _ => by decide)⟩

end BindingFacts

section CapabilityFacts

variable {α : Type}

theorem testBit_set (m k n j : Nat) (hj : j < n) :
    ((m ||| (1 <<< k)) % 2 ^ n).testBit j = (m.testBit j || decide (k = j)) := by
  rw [Nat.testBit_mod_two_pow, Nat.testBit_or, Nat.one_shiftLeft, Nat.testBit_two_pow]
  simp [hj]

theorem testBit_clear (m k n j : Nat) (hj : j < n) (hn : n ≤ 32) (hk : k < 32) :
    ((m &&& (2 ^ 32 - 1 - (1 <<< k))) % 2 ^ n).testBit j =
      (m.testBit j && !decide (k = j)) := by
  have h2 : 2 ^ k < 2 ^ 32 := Nat.pow_lt_pow_right (by decide) hk
  have e : 2 ^ 32 - 1 - 1 <<< k = 2 ^ 32 - (2 ^ k + 1) := by
    rw [Nat.one_shiftLeft]
    omega
  rw [Nat.testBit_mod_two_pow, Nat.testBit_and, e, Nat.testBit_two_pow_sub_succ h2,
    Nat.testBit_two_pow]
  have : j < 32 := by omega
  simp [hj, this]

/-- What `glEnable` does for a clip plane. -/
theorem glEnable_clip (gx : GXConsts) (s : Context α) (cap : Int)
    (h0 : GL_CLIP_PLANE0 ≤ cap) (h5 : cap ≤ GL_CLIP_PLANE5) :
    glEnable gx cap s = .ok { s with serverEnabled := { s.serverEnabled with
      clipPlanes :=
        (s.serverEnabled.clipPlanes ||| (1 <<< (cap - GL_CLIP_PLANE0).toNat)) % 64 } } := by
  unfold GL_CLIP_PLANE0 at h0
  unfold GL_CLIP_PLANE5 at h5
  unfold glEnable
  rw [if_neg (by unfold GL_ALPHA_TEST; omega), if_neg (by unfold GL_BLEND; omega),
    if_pos (by
      unfold GL_CLIP_PLANE0 GL_CLIP_PLANE1 GL_CLIP_PLANE2 GL_CLIP_PLANE3 GL_CLIP_PLANE4
        GL_CLIP_PLANE5
      omega)]

/-- What `glDisable` does for a clip plane. -/
theorem glDisable_clip (gx : GXConsts) (s : Context α) (cap : Int)
    (h0 : GL_CLIP_PLANE0 ≤ cap) (h5 : cap ≤ GL_CLIP_PLANE5) :
    glDisable gx cap s = .ok { s with serverEnabled := { s.serverEnabled with
      clipPlanes :=
        (s.serverEnabled.clipPlanes &&&
          (2 ^ 32 - 1 - (1 <<< (cap - GL_CLIP_PLANE0).toNat))) % 64 } } := by
  unfold GL_CLIP_PLANE0 at h0
  unfold GL_CLIP_PLANE5 at h5
  unfold glDisable
  rw [if_neg (by unfold GL_ALPHA_TEST; omega), if_neg (by unfold GL_BLEND; omega),
    if_pos (by
      unfold GL_CLIP_PLANE0 GL_CLIP_PLANE1 GL_CLIP_PLANE2 GL_CLIP_PLANE3 GL_CLIP_PLANE4
        GL_CLIP_PLANE5
      omega)]

/-- What `glEnable` does for a light. -/
theorem glEnable_light (gx : GXConsts) (s : Context α) (cap : Int)
    (h0 : GL_LIGHT0 ≤ cap) (h7 : cap ≤ GL_LIGHT7) :
    glEnable gx cap s =
      .ok ({ s with serverEnabled := { s.serverEnabled with
          lights := (s.serverEnabled.lights ||| (1 <<< (cap - GL_LIGHT0).toNat)) % 256 } }.emit
        (.SetChanCtrl gx.GX_COLOR1A1 gx.GX_ENABLE gx.GX_SRC_REG gx.GX_SRC_REG
          (((s.serverEnabled.lights ||| (1 <<< (cap - GL_LIGHT0).toNat)) % 256 : Nat) : Int)
          gx.GX_DF_CLAMP gx.GX_AF_NONE)) := by
  unfold GL_LIGHT0 at h0
  unfold GL_LIGHT7 at h7
  unfold glEnable
  rw [if_neg (by unfold GL_ALPHA_TEST; omega), if_neg (by unfold GL_BLEND; omega),
    if_neg (by
      unfold GL_CLIP_PLANE0 GL_CLIP_PLANE1 GL_CLIP_PLANE2 GL_CLIP_PLANE3 GL_CLIP_PLANE4
        GL_CLIP_PLANE5
      omega),
    if_neg (by unfold GL_COLOR_MATERIAL; omega), if_neg (by unfold GL_CULL_FACE; omega),
    if_neg (by unfold GL_DEPTH_TEST; omega),
    if_pos (by
      unfold GL_LIGHT0 GL_LIGHT1 GL_LIGHT2 GL_LIGHT3 GL_LIGHT4 GL_LIGHT5 GL_LIGHT6 GL_LIGHT7
      omega)]

/-- What `glDisable` does for a light: the mask argument of `GX_SetChanCtrl` is the
constant `GX_LIGHT0`. -/
theorem glDisable_light (gx : GXConsts) (s : Context α) (cap : Int)
    (h0 : GL_LIGHT0 ≤ cap) (h7 : cap ≤ GL_LIGHT7) :
    glDisable gx cap s =
      .ok ({ s with serverEnabled := { s.serverEnabled with
          lights := (s.serverEnabled.lights &&&
            (2 ^ 32 - 1 - (1 <<< (cap - GL_LIGHT0).toNat))) % 256 } }.emit
        (.SetChanCtrl gx.GX_COLOR1A1 gx.GX_ENABLE gx.GX_SRC_REG gx.GX_SRC_REG gx.GX_LIGHT0
          gx.GX_DF_CLAMP gx.GX_AF_NONE)) := by
  unfold GL_LIGHT0 at h0
  unfold GL_LIGHT7 at h7
  unfold glDisable
  rw [if_neg (by unfold GL_ALPHA_TEST; omega), if_neg (by unfold GL_BLEND; omega),
    if_neg (by
      unfold GL_CLIP_PLANE0 GL_CLIP_PLANE1 GL_CLIP_PLANE2 GL_CLIP_PLANE3 GL_CLIP_PLANE4
        GL_CLIP_PLANE5
      omega),
    if_neg (by unfold GL_COLOR_MATERIAL; omega), if_neg (by unfold GL_CULL_FACE; omega),
    if_neg (by unfold GL_DEPTH_TEST; omega),
    if_pos (by
      unfold GL_LIGHT0 GL_LIGHT1 GL_LIGHT2 GL_LIGHT3 GL_LIGHT4 GL_LIGHT5 GL_LIGHT6 GL_LIGHT7
      omega)]

/-- The flags of a record whose field `clipPlanes` was replaced. -/
theorem capabilityFlag_clipPlanes (se : ServerEnabled) (X : Nat) (c : Int) :
    capabilityFlag { se with clipPlanes := X } c =
      if GL_CLIP_PLANE0 ≤ c ∧ c ≤ GL_CLIP_PLANE5 then X.testBit (c - GL_CLIP_PLANE0).toNat
      else capabilityFlag se c := by
  unfold capabilityFlag
  by_cases hclip : GL_CLIP_PLANE0 ≤ c ∧ c ≤ GL_CLIP_PLANE5
  · have h1 : c ≠ GL_ALPHA_TEST := by
      unfold GL_CLIP_PLANE0 GL_CLIP_PLANE5 at hclip
      unfold GL_ALPHA_TEST
      omega
    have h2 : c ≠ GL_BLEND := by
      unfold GL_CLIP_PLANE0 GL_CLIP_PLANE5 at hclip
      unfold GL_BLEND
      omega
    simp only [if_neg h1, if_neg h2, if_pos hclip]
  · simp only [if_neg hclip]

/-- The flags of a record whose field `lights` was replaced. -/
theorem capabilityFlag_lights (se : ServerEnabled) (X : Nat) (c : Int) :
    capabilityFlag { se with lights := X } c =
      if GL_LIGHT0 ≤ c ∧ c ≤ GL_LIGHT7 then X.testBit (c - GL_LIGHT0).toNat
      else capabilityFlag se c := by
  unfold capabilityFlag
  by_cases hl : GL_LIGHT0 ≤ c ∧ c ≤ GL_LIGHT7
  · unfold GL_LIGHT0 GL_LIGHT7 at hl
    have h1 : c ≠ GL_ALPHA_TEST := by unfold GL_ALPHA_TEST; omega
    have h2 : c ≠ GL_BLEND := by unfold GL_BLEND; omega
    have h3 : ¬ (GL_CLIP_PLANE0 ≤ c ∧ c ≤ GL_CLIP_PLANE5) := by
      unfold GL_CLIP_PLANE0 GL_CLIP_PLANE5
      omega
    have h4 : c ≠ GL_COLOR_MATERIAL := by unfold GL_COLOR_MATERIAL; omega
    have h5 : c ≠ GL_CULL_FACE := by unfold GL_CULL_FACE; omega
    have h6 : c ≠ GL_DEPTH_TEST := by unfold GL_DEPTH_TEST; omega
    have hl2 : GL_LIGHT0 ≤ c ∧ c ≤ GL_LIGHT7 := by
      unfold GL_LIGHT0 GL_LIGHT7
      exact hl
    simp only [if_neg h1, if_neg h2, if_neg h3, if_neg h4, if_neg h5, if_neg h6, if_pos hl2]
  · simp only [if_neg hl]

/-! The flags of a record in which one boolean field was replaced. -/

theorem capabilityFlag_alphaTest (se : ServerEnabled) (b : Bool) (c : Int) :
    capabilityFlag { se with alphaTest := b } c =
      if c = GL_ALPHA_TEST then b else capabilityFlag se c := by
  by_cases h : c = GL_ALPHA_TEST
  · subst h
    rfl
  · unfold capabilityFlag
    simp only [if_neg h]

theorem capabilityFlag_blend (se : ServerEnabled) (b : Bool) (c : Int) :
    capabilityFlag { se with blend := b } c =
      if c = GL_BLEND then b else capabilityFlag se c := by
  by_cases h : c = GL_BLEND
  · subst h
    rfl
  · unfold capabilityFlag
    simp only [if_neg h]

theorem capabilityFlag_colorMaterial (se : ServerEnabled) (b : Bool) (c : Int) :
    capabilityFlag { se with colorMaterial := b } c =
      if c = GL_COLOR_MATERIAL then b else capabilityFlag se c := by
  by_cases h : c = GL_COLOR_MATERIAL
  · subst h
    rfl
  · unfold capabilityFlag
    simp only [if_neg h]

theorem capabilityFlag_cullFace (se : ServerEnabled) (b : Bool) (c : Int) :
    capabilityFlag { se with cullFace := b } c =
      if c = GL_CULL_FACE then b else capabilityFlag se c := by
  by_cases h : c = GL_CULL_FACE
  · subst h
    rfl
  · unfold capabilityFlag
    simp only [if_neg h]

theorem capabilityFlag_depthTest (se : ServerEnabled) (b : Bool) (c : Int) :
    capabilityFlag { se with depthTest := b } c =
      if c = GL_DEPTH_TEST then b else capabilityFlag se c := by
  by_cases h : c = GL_DEPTH_TEST
  · subst h
    rfl
  · unfold capabilityFlag
    simp only [if_neg h]

theorem capabilityFlag_lighting (se : ServerEnabled) (b : Bool) (c : Int) :
    capabilityFlag { se with lighting := b } c =
      if c = GL_LIGHTING then b else capabilityFlag se c := by
  by_cases h : c = GL_LIGHTING
  · subst h
    rfl
  · unfold capabilityFlag
    simp only [if_neg h]

theorem capabilityFlag_normalize (se : ServerEnabled) (b : Bool) (c : Int) :
    capabilityFlag { se with normalize := b } c =
      if c = GL_NORMALIZE then b else capabilityFlag se c := by
  by_cases h : c = GL_NORMALIZE
  · subst h
    rfl
  · unfold capabilityFlag
    simp only [if_neg h]

theorem capabilityFlag_polygonOffsetFill (se : ServerEnabled) (b : Bool) (c : Int) :
    capabilityFlag { se with polygonOffsetFill := b } c =
      if c = GL_POLYGON_OFFSET_FILL then b else capabilityFlag se c := by
  by_cases h : c = GL_POLYGON_OFFSET_FILL
  · subst h
    rfl
  · unfold capabilityFlag
    simp only [if_neg h]

theorem capabilityFlag_pointSprite (se : ServerEnabled) (b : Bool) (c : Int) :
    capabilityFlag { se with pointSprite := b } c =
      if c = GL_POINT_SPRITE then b else capabilityFlag se c := by
  by_cases h : c = GL_POINT_SPRITE
  · subst h
    rfl
  · unfold capabilityFlag
    simp only [if_neg h]

theorem capabilityFlag_stencilTest (se : ServerEnabled) (b : Bool) (c : Int) :
    capabilityFlag { se with stencilTest := b } c =
      if c = GL_STENCIL_TEST then b else capabilityFlag se c := by
  by_cases h : c = GL_STENCIL_TEST
  · subst h
    rfl
  · unfold capabilityFlag
    simp only [if_neg h]

theorem capabilityFlag_texture2d (se : ServerEnabled) (b : Bool) (c : Int) :
    capabilityFlag { se with texture2d := b } c =
      if c = GL_TEXTURE_2D then b else capabilityFlag se c := by
  by_cases h : c = GL_TEXTURE_2D
  · subst h
    rfl
  · unfold capabilityFlag
    simp only [if_neg h]

theorem capabilityFlag_textureGenS (se : ServerEnabled) (b : Bool) (c : Int) :
    capabilityFlag { se with textureGenS := b } c =
      if c = GL_TEXTURE_GEN_S then b else capabilityFlag se c := by
  by_cases h : c = GL_TEXTURE_GEN_S
  · subst h
    rfl
  · unfold capabilityFlag
    simp only [if_neg h]

theorem capabilityFlag_textureGenT (se : ServerEnabled) (b : Bool) (c : Int) :
    capabilityFlag { se with textureGenT := b } c =
      if c = GL_TEXTURE_GEN_T then b else capabilityFlag se c := by
  by_cases h : c = GL_TEXTURE_GEN_T
  · subst h
    rfl
  · unfold capabilityFlag
    simp only [if_neg h]

/-- A recognised capability is a clip plane, a light, or one of the thirteen capabilities
with a field of their own. -/
theorem capabilities_cases (cap : Int) (hcap : cap ∈ capabilities) :
    (GL_CLIP_PLANE0 ≤ cap ∧ cap ≤ GL_CLIP_PLANE5) ∨ (GL_LIGHT0 ≤ cap ∧ cap ≤ GL_LIGHT7) ∨
    (cap = GL_ALPHA_TEST ∨ cap = GL_BLEND ∨ cap = GL_COLOR_MATERIAL ∨ cap = GL_CULL_FACE ∨
      cap = GL_DEPTH_TEST ∨ cap = GL_LIGHTING ∨ cap = GL_NORMALIZE ∨
      cap = GL_POLYGON_OFFSET_FILL ∨ cap = GL_POINT_SPRITE ∨ cap = GL_STENCIL_TEST ∨
      cap = GL_TEXTURE_2D ∨ cap = GL_TEXTURE_GEN_S ∨ cap = GL_TEXTURE_GEN_T) := by
  simp only [capabilities, List.mem_cons, List.mem_singleton, List.not_mem_nil, or_false]
    at hcap
  rcases hcap with h | h | h | h | h | h | h | h | h | h | h | h | h | h | h | h | h | h | h |
    h | h | h | h | h | h | h | h <;> subst h <;> decide

theorem glEnable_toggles (gx : GXConsts) (s : Context α) (cap : Int)
    (hcap : cap ∈ capabilities) :
    ∃ s', glEnable gx cap s = .ok s' ∧ capabilityFlag s'.serverEnabled cap = true ∧
      (∀ c, c ≠ cap → capabilityFlag s'.serverEnabled c = capabilityFlag s.serverEnabled c) ∧
      s'.clientEnabled = s.clientEnabled := by
  rcases capabilities_cases cap hcap with hclip | hlight | hflag
  · refine ⟨_, glEnable_clip gx s cap hclip.1 hclip.2, ?_, ?_, rfl⟩
    · simp only [capabilityFlag_clipPlanes, if_pos hclip]
      have hk : (cap - GL_CLIP_PLANE0).toNat < 6 := by
        unfold GL_CLIP_PLANE0 GL_CLIP_PLANE5 at hclip
        unfold GL_CLIP_PLANE0
        omega
      have := testBit_set s.serverEnabled.clipPlanes (cap - GL_CLIP_PLANE0).toNat 6 _ hk
      simp only [decide_True, Bool.or_true] at this
      exact this
    · intro c hc
      simp only [capabilityFlag_clipPlanes]
      split_ifs with hcl
      · have hk : (c - GL_CLIP_PLANE0).toNat < 6 := by
          unfold GL_CLIP_PLANE0 GL_CLIP_PLANE5 at hcl
          unfold GL_CLIP_PLANE0
          omega
        have hne : ¬ (cap - GL_CLIP_PLANE0).toNat = (c - GL_CLIP_PLANE0).toNat := by
          unfold GL_CLIP_PLANE0 GL_CLIP_PLANE5 at hcl hclip
          unfold GL_CLIP_PLANE0
          omega
        have e1 := testBit_set s.serverEnabled.clipPlanes (cap - GL_CLIP_PLANE0).toNat 6 _ hk
        simp only [hne, decide_False, Bool.or_false] at e1
        have e2 : ((s.serverEnabled.clipPlanes ||| 1 <<< (cap - GL_CLIP_PLANE0).toNat) %
            64).testBit (c - GL_CLIP_PLANE0).toNat =
            s.serverEnabled.clipPlanes.testBit (c - GL_CLIP_PLANE0).toNat := e1
        rw [e2]
        unfold capabilityFlag
        rw [if_neg (by unfold GL_CLIP_PLANE0 GL_CLIP_PLANE5 at hcl; unfold GL_ALPHA_TEST; omega),
          if_neg (by unfold GL_CLIP_PLANE0 GL_CLIP_PLANE5 at hcl; unfold GL_BLEND; omega),
          if_pos hcl]
      · rfl
  · refine ⟨_, glEnable_light gx s cap hlight.1 hlight.2, ?_, ?_, rfl⟩
    · simp only [serverEnabled_emit, capabilityFlag_lights, if_pos hlight]
      have hk : (cap - GL_LIGHT0).toNat < 8 := by
        unfold GL_LIGHT0 GL_LIGHT7 at hlight
        unfold GL_LIGHT0
        omega
      have := testBit_set s.serverEnabled.lights (cap - GL_LIGHT0).toNat 8 _ hk
      simp only [decide_True, Bool.or_true] at this
      exact this
    · intro c hc
      simp only [serverEnabled_emit, capabilityFlag_lights]
      split_ifs with hcl
      · have hk : (c - GL_LIGHT0).toNat < 8 := by
          unfold GL_LIGHT0 GL_LIGHT7 at hcl
          unfold GL_LIGHT0
          omega
        have hne : ¬ (cap - GL_LIGHT0).toNat = (c - GL_LIGHT0).toNat := by
          unfold GL_LIGHT0 GL_LIGHT7 at hcl hlight
          unfold GL_LIGHT0
          omega
        have e1 := testBit_set s.serverEnabled.lights (cap - GL_LIGHT0).toNat 8 _ hk
        simp only [hne, decide_False, Bool.or_false] at e1
        have e2 : ((s.serverEnabled.lights ||| 1 <<< (cap - GL_LIGHT0).toNat) %
            256).testBit (c - GL_LIGHT0).toNat =
            s.serverEnabled.lights.testBit (c - GL_LIGHT0).toNat := e1
        rw [e2]
        have e := capabilityFlag_lights s.serverEnabled s.serverEnabled.lights c
        rw [if_pos hcl] at e
        exact e.symm
      · rfl
  · rcases hflag with rfl | rfl | rfl | rfl | rfl | rfl | rfl | rfl | rfl | rfl | rfl | rfl | rfl
    · refine ⟨_, rfl, rfl, fun c hc => ?_, rfl⟩
      exact (capabilityFlag_alphaTest s.serverEnabled true c).trans (if_neg hc)
    · refine ⟨_, rfl, rfl, fun c hc => ?_, rfl⟩
      exact (capabilityFlag_blend s.serverEnabled true c).trans (if_neg hc)
    · refine ⟨_, rfl, rfl, fun c hc => ?_, rfl⟩
      exact (capabilityFlag_colorMaterial s.serverEnabled true c).trans (if_neg hc)
    · refine ⟨_, rfl, rfl, fun c hc => ?_, rfl⟩
      exact (capabilityFlag_cullFace s.serverEnabled true c).trans (if_neg hc)
    · refine ⟨_, rfl, rfl, fun c hc => ?_, rfl⟩
      exact (capabilityFlag_depthTest s.serverEnabled true c).trans (if_neg hc)
    · refine ⟨_, rfl, rfl, fun c hc => ?_, rfl⟩
      exact (capabilityFlag_lighting s.serverEnabled true c).trans (if_neg hc)
    · refine ⟨_, rfl, rfl, fun c hc => ?_, rfl⟩
      exact (capabilityFlag_normalize s.serverEnabled true c).trans (if_neg hc)
    · refine ⟨_, rfl, rfl, fun c hc => ?_, rfl⟩
      exact (capabilityFlag_polygonOffsetFill s.serverEnabled true c).trans (if_neg hc)
    · refine ⟨_, rfl, rfl, fun c hc => ?_, rfl⟩
      exact (capabilityFlag_pointSprite s.serverEnabled true c).trans (if_neg hc)
    · refine ⟨_, rfl, rfl, fun c hc => ?_, rfl⟩
      exact (capabilityFlag_stencilTest s.serverEnabled true c).trans (if_neg hc)
    · refine ⟨_, rfl, rfl, fun c hc => ?_, rfl⟩
      exact (capabilityFlag_texture2d s.serverEnabled true c).trans (if_neg hc)
    · refine ⟨_, rfl, rfl, fun c hc => ?_, rfl⟩
      exact (capabilityFlag_textureGenS s.serverEnabled true c).trans (if_neg hc)
    · refine ⟨_, rfl, rfl, fun c hc => ?_, rfl⟩
      exact (capabilityFlag_textureGenT s.serverEnabled true c).trans (if_neg hc)

theorem glDisable_toggles (gx : GXConsts) (s : Context α) (cap : Int)
    (hcap : cap ∈ capabilities) :
    ∃ s', glDisable gx cap s = .ok s' ∧ capabilityFlag s'.serverEnabled cap = false ∧
      (∀ c, c ≠ cap → capabilityFlag s'.serverEnabled c = capabilityFlag s.serverEnabled c) ∧
      s'.clientEnabled = s.clientEnabled := by
  rcases capabilities_cases cap hcap with hclip | hlight | hflag
  · have hk32 : (cap - GL_CLIP_PLANE0).toNat < 32 := by
      unfold GL_CLIP_PLANE0 GL_CLIP_PLANE5 at hclip
      unfold GL_CLIP_PLANE0
      omega
    refine ⟨_, glDisable_clip gx s cap hclip.1 hclip.2, ?_, ?_, rfl⟩
    · simp only [capabilityFlag_clipPlanes, if_pos hclip]
      have hk : (cap - GL_CLIP_PLANE0).toNat < 6 := by
        unfold GL_CLIP_PLANE0 GL_CLIP_PLANE5 at hclip
        unfold GL_CLIP_PLANE0
        omega
      have e1 := testBit_clear s.serverEnabled.clipPlanes (cap - GL_CLIP_PLANE0).toNat 6 _ hk
        (by decide) hk32
      simp only [decide_True, Bool.not_true, Bool.and_false] at e1
      exact e1
    · intro c hc
      simp only [capabilityFlag_clipPlanes]
      split_ifs with hcl
      · have hk : (c - GL_CLIP_PLANE0).toNat < 6 := by
          unfold GL_CLIP_PLANE0 GL_CLIP_PLANE5 at hcl
          unfold GL_CLIP_PLANE0
          omega
        have hne : ¬ (cap - GL_CLIP_PLANE0).toNat = (c - GL_CLIP_PLANE0).toNat := by
          unfold GL_CLIP_PLANE0 GL_CLIP_PLANE5 at hcl hclip
          unfold GL_CLIP_PLANE0
          omega
        have e1 := testBit_clear s.serverEnabled.clipPlanes (cap - GL_CLIP_PLANE0).toNat 6 _
          hk (by decide) hk32
        simp only [hne, decide_False, Bool.not_false, Bool.and_true] at e1
        have e2 : ((s.serverEnabled.clipPlanes &&&
            (2 ^ 32 - 1 - 1 <<< (cap - GL_CLIP_PLANE0).toNat)) %
            64).testBit (c - GL_CLIP_PLANE0).toNat =
            s.serverEnabled.clipPlanes.testBit (c - GL_CLIP_PLANE0).toNat := e1
        rw [e2]
        have e := capabilityFlag_clipPlanes s.serverEnabled s.serverEnabled.clipPlanes c
        rw [if_pos hcl] at e
        exact e.symm
      · rfl
  · have hk32 : (cap - GL_LIGHT0).toNat < 32 := by
      unfold GL_LIGHT0 GL_LIGHT7 at hlight
      unfold GL_LIGHT0
      omega
    refine ⟨_, glDisable_light gx s cap hlight.1 hlight.2, ?_, ?_, rfl⟩
    · simp only [serverEnabled_emit, capabilityFlag_lights, if_pos hlight]
      have hk : (cap - GL_LIGHT0).toNat < 8 := by
        unfold GL_LIGHT0 GL_LIGHT7 at hlight
        unfold GL_LIGHT0
        omega
      have e1 := testBit_clear s.serverEnabled.lights (cap - GL_LIGHT0).toNat 8 _ hk
        (by decide) hk32
      simp only [decide_True, Bool.not_true, Bool.and_false] at e1
      exact e1
    · intro c hc
      simp only [serverEnabled_emit, capabilityFlag_lights]
      split_ifs with hcl
      · have hk : (c - GL_LIGHT0).toNat < 8 := by
          unfold GL_LIGHT0 GL_LIGHT7 at hcl
          unfold GL_LIGHT0
          omega
        have hne : ¬ (cap - GL_LIGHT0).toNat = (c - GL_LIGHT0).toNat := by
          unfold GL_LIGHT0 GL_LIGHT7 at hcl hlight
          unfold GL_LIGHT0
          omega
        have e1 := testBit_clear s.serverEnabled.lights (cap - GL_LIGHT0).toNat 8 _ hk
          (by decide) hk32
        simp only [hne, decide_False, Bool.not_false, Bool.and_true] at e1
        have e2 : ((s.serverEnabled.lights &&& (2 ^ 32 - 1 - 1 <<< (cap - GL_LIGHT0).toNat)) %
            256).testBit (c - GL_LIGHT0).toNat =
            s.serverEnabled.lights.testBit (c - GL_LIGHT0).toNat := e1
        rw [e2]
        have e := capabilityFlag_lights s.serverEnabled s.serverEnabled.lights c
        rw [if_pos hcl] at e
        exact e.symm
      · rfl
  · rcases hflag with rfl | rfl | rfl | rfl | rfl | rfl | rfl | rfl | rfl | rfl | rfl | rfl | rfl
    · refine ⟨_, rfl, rfl, fun c hc => ?_, rfl⟩
      exact (capabilityFlag_alphaTest s.serverEnabled false c).trans (if_neg hc)
    · refine ⟨_, rfl, rfl, fun c hc => ?_, rfl⟩
      exact (capabilityFlag_blend s.serverEnabled false c).trans (if_neg hc)
    · refine ⟨_, rfl, rfl, fun c hc => ?_, rfl⟩
      exact (capabilityFlag_colorMaterial s.serverEnabled false c).trans (if_neg hc)
    · refine ⟨_, rfl, rfl, fun c hc => ?_, rfl⟩
      exact (capabilityFlag_cullFace s.serverEnabled false c).trans (if_neg hc)
    · refine ⟨_, rfl, rfl, fun c hc => ?_, rfl⟩
      exact (capabilityFlag_depthTest s.serverEnabled false c).trans (if_neg hc)
    · refine ⟨_, rfl, rfl, fun c hc => ?_, rfl⟩
      exact (capabilityFlag_lighting s.serverEnabled false c).trans (if_neg hc)
    · refine ⟨_, rfl, rfl, fun c hc => ?_, rfl⟩
      exact (capabilityFlag_normalize s.serverEnabled false c).trans (if_neg hc)
    · refine ⟨_, rfl, rfl, fun c hc => ?_, rfl⟩
      exact (capabilityFlag_polygonOffsetFill s.serverEnabled false c).trans (if_neg hc)
    · refine ⟨_, rfl, rfl, fun c hc => ?_, rfl⟩
      exact (capabilityFlag_pointSprite s.serverEnabled false c).trans (if_neg hc)
    · refine ⟨_, rfl, rfl, fun c hc => ?_, rfl⟩
      exact (capabilityFlag_stencilTest s.serverEnabled false c).trans (if_neg hc)
    · refine ⟨_, rfl, rfl, fun c hc => ?_, rfl⟩
      exact (capabilityFlag_texture2d s.serverEnabled false c).trans (if_neg hc)
    · refine ⟨_, rfl, rfl, fun c hc => ?_, rfl⟩
      exact (capabilityFlag_textureGenS s.serverEnabled false c).trans (if_neg hc)
    · refine ⟨_, rfl, rfl, fun c hc => ?_, rfl⟩
      exact (capabilityFlag_textureGenT s.serverEnabled false c).trans (if_neg hc)

/-- Claim C24 (enable and disable toggle exactly one capability): for every recognised
capability token, `glEnable` returns with the flag of that capability set (for `GL_LIGHTi`
bit `i` of the 8-bit light mask, for `GL_CLIP_PLANEi` bit `i` of the 6-bit clip-plane mask)
and `glDisable` returns with it cleared; the flag or bit of every other capability and the
record of the client-array flags are unchanged. -/
theorem enable_disable_toggle_one (gx : GXConsts) (s : Context α) (cap : Int)
    (hcap : cap ∈ capabilities) :
    (∃ s', glEnable gx cap s = .ok s' ∧ capabilityFlag s'.serverEnabled cap = true ∧
      (∀ c, c ≠ cap → capabilityFlag s'.serverEnabled c = capabilityFlag s.serverEnabled c) ∧
      s'.clientEnabled = s.clientEnabled) ∧
    (∃ s', glDisable gx cap s = .ok s' ∧ capabilityFlag s'.serverEnabled cap = false ∧
      (∀ c, c ≠ cap → capabilityFlag s'.serverEnabled c = capabilityFlag s.serverEnabled c) ∧
      s'.clientEnabled = s.clientEnabled) :=
  ⟨glEnable_toggles gx s cap hcap, glDisable_toggles gx s cap hcap⟩

theorem enable_disable_toggle_one_witness :
    GL_LIGHT3 ∈ capabilities ∧
    (∃ s', glEnable libogc GL_LIGHT3 exampleCtx = .ok s' ∧
      capabilityFlag s'.serverEnabled GL_LIGHT3 = true ∧
      (∀ c, c ≠ GL_LIGHT3 →
        capabilityFlag s'.serverEnabled c = capabilityFlag exampleCtx.serverEnabled c) ∧
      s'.clientEnabled = exampleCtx.clientEnabled) ∧
    (∃ s', glDisable libogc GL_LIGHT3 exampleCtx = .ok s' ∧
      capabilityFlag s'.serverEnabled GL_LIGHT3 = false ∧
      (∀ c, c ≠ GL_LIGHT3 →
        capabilityFlag s'.serverEnabled c = capabilityFlag exampleCtx.serverEnabled c) ∧
      s'.clientEnabled = exampleCtx.clientEnabled) :=
  ⟨by decide, enable_disable_toggle_one libogc exampleCtx GL_LIGHT3 (by decide)⟩

end CapabilityFacts

section DrawArraysFacts

variable {α : Type}

/-- The `int` loop counter of `glDrawArrays` takes the values `0, 1, ..., count - 1`. -/
theorem castList (l : List Nat) :
    (do let a ← l; pure (a : Int) : List Int) = List.map (fun (a : Nat) => (a : Int)) l := by
  induction l with
  | nil => rfl
  | cons x xs ih =>
    have e : (do let a ← (x :: xs); pure (a : Int) : List Int) =
        (x : Int) :: (do let a ← xs; pure (a : Int) : List Int) := rfl
    rw [e, ih]
    rfl

/-- The vertex loop of `glDrawArrays`, for indices that fit the 16-bit argument. -/
theorem drawArrays_loop (first : Int) (idx : List Nat) (t : Context α)
    (hidx : ∀ k, k < idx.length → idx[k]? = some (first + (k : Int)).toNat)
    (hfirst : 0 ≤ first) (hlast : first + (idx.length : Int) ≤ 65536) :
    ∀ n, n ≤ idx.length →
      (List.range n).foldl (fun t (i : Nat) => emitVertex (first + (i : Int)) t) t =
      { t with hw := t.hw ++ (idx.take n).flatMap (fun i =>
        (if t.clientEnabled.vertexArray then [GXCall.Position1x16 i] else []) ++
        (if t.clientEnabled.normalArray then [GXCall.Normal1x16 i] else []) ++
        (if t.clientEnabled.colorArray then [GXCall.Color1x16 i] else []) ++
        (if t.clientEnabled.textureCoordArray then [GXCall.TexCoord1x16 i] else [])) } := by
  intro n
  induction n with
  | zero => intro _; simp
  | succ n ih =>
    intro hn
    rw [List.range_succ, List.foldl_append, ih (by omega), List.take_succ]
    simp only [List.foldl_cons, List.foldl_nil]
    rw [hidx n (by omega)]
    have e : first + (n : Int) = (((first + (n : Int)).toNat : Nat) : Int) := by omega
    have hlt : (first + (n : Int)).toNat < 65536 := by omega
    simp only [emitVertex, Option.toList, List.flatMap_append, List.flatMap_cons,
      List.flatMap_nil, List.append_nil, List.append_assoc]
    rw [e, vertexRecords_of_lt _ _ hlt, ← e]
    simp only [List.append_assoc]

theorem indexRun_length (first : Int) (count : Nat) :
    (indexRun first count).length = count := by
  simp [indexRun]

theorem indexRun_get (first : Int) (count k : Nat) (hk : k < count) :
    (indexRun first count)[k]? = some (first + (k : Int)).toNat := by
  simp [indexRun, hk]

/-- With the index list `[first, ..., first + count - 1]` in memory as 16-bit values and no
element-array buffer bound, `glDrawElements` computes what `glDrawArrays` computes. -/
theorem glDrawElements_eq_glDrawArrays [Field α] (gx : GXConsts) (ext : Ext α)
    (s : Context α) (mode first : Int) (count indices : Nat)
    (hfirst : 0 ≤ first) (hlast : first + (count : Int) ≤ 65536)
    (hbuf : s.boundBuffers 1 = 0)
    (hidx : ∀ k, k < count → load16 s.mem (indices + 2 * k) = (first + (k : Int)).toNat) :
    glDrawElements gx ext mode count GL_UNSIGNED_SHORT indices s =
      glDrawArrays gx ext mode first count s := by
  obtain ⟨-, -, -, pmem, pbb, -⟩ := drawPrologue_spec gx ext s
  have hb1 : ¬ (drawPrologue gx ext s).boundBuffers 1 ≠ 0 := by rw [pbb]; simp [hbuf]
  have hlen := indexRun_length first count
  unfold glDrawElements glDrawArrays
  cases hg : gl_enum_to_gx gx mode with
  | none => rfl
  | some gmode =>
    simp only [if_neg hb1]
    have hE := drawElements_loop GL_UNSIGNED_SHORT indices (indexRun first count)
      ((drawPrologue gx ext s).emit (.Begin (gmode % 256) gx.GX_VTXFMT0 (count % 65536)))
      (Or.inr ⟨rfl, fun k hk => by
        rw [hlen] at hk
        rw [indexRun_get first count k hk, mem_emit, pmem, hidx k hk]⟩)
      count (by rw [hlen])
    have hA := drawArrays_loop first (indexRun first count)
      ((drawPrologue gx ext s).emit (.Begin (gmode % 256) gx.GX_VTXFMT0 (count % 65536)))
      (fun k hk => by
        rw [hlen] at hk
        exact indexRun_get first count k hk)
      hfirst (by rw [hlen]; exact hlast) count (by rw [hlen])
    rw [hE, castList, List.foldl_map, hA]
    rfl

/-- The vertex loop of `glDrawArrays`, for every `first`. -/
theorem drawArrays_loop_submitted (first : Int) (t : Context α) :
    ∀ n, (List.range n).foldl (fun t (i : Nat) => emitVertex (first + (i : Int)) t) t =
      { t with hw := t.hw ++ (submittedRun first n).flatMap (recordsOf t.clientEnabled) } := by
  intro n
  induction n with
  | zero => simp [submittedRun]
  | succ n ih =>
    rw [List.range_succ, List.foldl_append, ih]
    simp only [List.foldl_cons, List.foldl_nil, submittedRun, List.range_succ, List.map_append,
      List.map_cons, List.map_nil, List.flatMap_append, List.flatMap_cons, List.flatMap_nil,
      List.append_nil, emitVertex, List.append_assoc]
    rfl

theorem submittedRun_eq_indexRun (first : Int) (count : Nat) (hfirst : 0 ≤ first)
    (hlast : first + (count : Int) ≤ 65536) : submittedRun first count = indexRun first count := by
  unfold submittedRun indexRun
  apply List.map_congr_left
  intro k hk
  rw [List.mem_range] at hk
  rw [Int.emod_eq_of_lt (by omega) (by omega)]

/-- Claim C25 (`glDrawArrays` as an index run): for a supported topology,
`glDrawArrays(mode, first, count)` returns, and the vertex submissions it adds to the trace
are, for `i = 0 .. count - 1` in increasing order, the index `first + i` (as the 16-bit
argument of the submission call) for each enabled client array in the order position,
normal, color, texture coordinate; for `0 <= first` and `first + count <= 65536` the
submitted indices are `first, first + 1, ..., first + count - 1` themselves, and
`glDrawElements` with the same mode, no element-array buffer bound and that list as 16-bit
indices in memory returns in the same state, so with the same submission sequence. -/
theorem glDrawArrays_as_index_run [Field α] (gx : GXConsts) (ext : Ext α) (s : Context α)
    (mode first : Int) (count : Nat) (hmode : mode ∈ supportedTopologies) :
    ∃ s', glDrawArrays gx ext mode first count s = .ok s' ∧
      (s'.hw.drop s.hw.length).filter GXCall.isVertexRecord =
        (submittedRun first count).flatMap (recordsOf s.clientEnabled) ∧
      (0 ≤ first → first + (count : Int) ≤ 65536 →
        submittedRun first count = indexRun first count ∧
        ∀ indices, s.boundBuffers 1 = 0 →
          (∀ k, k < count →
            load16 s.mem (indices + 2 * k) = (first + (k : Int)).toNat) →
          glDrawElements gx ext mode count GL_UNSIGNED_SHORT indices s = .ok s') := by
  obtain ⟨gmode, hg⟩ := gl_enum_to_gx_topology gx mode hmode
  obtain ⟨⟨pre, hpre, hfpre⟩, pce, pse, pmem, pbb, pproj⟩ := drawPrologue_spec gx ext s
  have hA := drawArrays_loop_submitted first
    ((drawPrologue gx ext s).emit (.Begin (gmode % 256) gx.GX_VTXFMT0 (count % 65536))) count
  have hrun : ∃ s', glDrawArrays gx ext mode first count s = .ok s' ∧
      s'.hw = s.hw ++ pre ++
        [GXCall.Begin (gmode % 256) gx.GX_VTXFMT0 (count % 65536)] ++
        (submittedRun first count).flatMap (recordsOf s.clientEnabled) ++ [GXCall.End] ++
        (if s.serverEnabled.polygonOffsetFill then
          [GXCall.LoadProjectionMtx (s.projMtxStack.stack s.projMtxStack.stackPos)
            gx.GX_PERSPECTIVE]
        else []) := by
    unfold glDrawArrays
    simp only [hg]
    rw [castList, List.foldl_map, hA]
    refine ⟨_, rfl, ?_⟩
    rw [drawEpilogue_hw]
    simp only [hw_emit, clientEnabled_emit, serverEnabled_emit, projMtxStack_emit, pce, pse,
      pproj, hpre]
  obtain ⟨s', hs', hhw⟩ := hrun
  refine ⟨s', hs', ?_, ?_⟩
  · have hR : ((submittedRun first count).flatMap (recordsOf s.clientEnabled)).filter
        GXCall.isVertexRecord =
        (submittedRun first count).flatMap (recordsOf (α := α) s.clientEnabled) :=
      filter_vertex_records s.clientEnabled (submittedRun first count)
    have hT : (if s.serverEnabled.polygonOffsetFill then
        [GXCall.LoadProjectionMtx (s.projMtxStack.stack s.projMtxStack.stackPos)
          gx.GX_PERSPECTIVE]
      else []).filter GXCall.isVertexRecord = [] := by
      split_ifs <;> rfl
    rw [hhw]
    generalize (submittedRun first count).flatMap (recordsOf (α := α) s.clientEnabled) = R
      at hR ⊢
    simp only [List.append_assoc]
    rw [List.drop_left, List.filter_append, hfpre, List.nil_append, List.filter_append,
      List.filter_append, hR, List.filter_append, hT]
    simp [List.filter, GXCall.isVertexRecord]
  · intro hfirst hlast
    refine ⟨submittedRun_eq_indexRun first count hfirst hlast, ?_⟩
    intro indices hbuf hidx
    rw [glDrawElements_eq_glDrawArrays gx ext s mode first count indices hfirst hlast hbuf hidx]
    exact hs'

theorem glDrawArrays_as_index_run_witness :
    GL_TRIANGLES ∈ supportedTopologies ∧ (0 : Int) ≤ 5 ∧ (5 : Int) + ((3 : Nat) : Int) ≤ 65536 ∧
    submittedRun 5 3 = [5, 6, 7] ∧ indexRun 5 3 = [5, 6, 7] ∧ runCtx.boundBuffers 1 = 0 ∧
    (∀ k, k < 3 → load16 runCtx.mem (0x3000 + 2 * k) = ((5 : Int) + (k : Int)).toNat) ∧
    ∃ s', glDrawArrays libogc exampleExt GL_TRIANGLES 5 3 runCtx = .ok s' ∧
      (s'.hw.drop runCtx.hw.length).filter GXCall.isVertexRecord =
        (submittedRun 5 3).flatMap (recordsOf runCtx.clientEnabled) ∧
      ((0 : Int) ≤ 5 → (5 : Int) + ((3 : Nat) : Int) ≤ 65536 →
        submittedRun 5 3 = indexRun 5 3 ∧
        ∀ indices, runCtx.boundBuffers 1 = 0 →
          (∀ k, k < 3 →
            load16 runCtx.mem (indices + 2 * k) = ((5 : Int) + (k : Int)).toNat) →
          glDrawElements libogc exampleExt GL_TRIANGLES 3 GL_UNSIGNED_SHORT indices runCtx
            = .ok s') :=
  ⟨by decide, by decide, by decide, by decide, by decide, rfl, by decide,
    glDrawArrays_as_index_run libogc exampleExt runCtx GL_TRIANGLES 5 3 (by decide)⟩

end DrawArraysFacts

section DrawErrorFacts

variable {α : Type}

/-- Counterexample to claim C27: with `count = 0` and the index type `GL_FLOAT`,
`glDrawElements` returns. -/
theorem glDrawElements_bad_type_count_zero :
    GL_FLOAT ≠ GL_UNSIGNED_BYTE ∧ GL_FLOAT ≠ GL_UNSIGNED_SHORT ∧
    (glDrawElements libogc exampleExt GL_TRIANGLES 0 GL_FLOAT 0x3000 drawCtx).isFatal = false :=
  ⟨by decide, by decide, rfl⟩

/-- With an index type other than the two supported ones, the first iteration of the loop
of `glDrawElements` reaches `fatal_error`. -/
theorem drawElements_loop_bad_type (type : Int) (indices : Nat) (t : Context α)
    (h8 : type ≠ GL_UNSIGNED_BYTE) (h16 : type ≠ GL_UNSIGNED_SHORT) :
    ∀ n, 1 ≤ n →
      (List.range n).foldl
        (fun (r : Result (Context α)) i => r.andThen (fun u => drawElementsStep type indices u i))
        (Result.ok t) = .fatal "glDrawElements: bad type parameter" t := by
  intro n
  induction n with
  | zero => intro h; omega
  | succ n ih =>
    intro _
    rw [List.range_succ, List.foldl_append]
    by_cases hn : 1 ≤ n
    · rw [ih hn]
      rfl
    · have h0 : n = 0 := by omega
      subst h0
      simp only [List.range_zero, List.foldl_nil, List.foldl_cons, Result.andThen,
        drawElementsStep, if_neg h8, if_neg h16]

/-- Claim C27, amended: for every index type other than `GL_UNSIGNED_BYTE` and
`GL_UNSIGNED_SHORT`, `glDrawElements` takes the fatal-error path exactly when the mode is
unknown to `gl_enum_to_gx` or `count >= 1`: the type is examined inside the vertex loop, so
with `count = 0` and a known mode the call returns. When it is fatal no vertex has been
submitted. -/
theorem bad_index_type_is_fatal [Field α] (gx : GXConsts) (ext : Ext α) (s : Context α)
    (mode type : Int) (count indices : Nat)
    (h8 : type ≠ GL_UNSIGNED_BYTE) (h16 : type ≠ GL_UNSIGNED_SHORT) :
    ((glDrawElements gx ext mode count type indices s).isFatal = true ↔
      (gl_enum_to_gx gx mode = none ∨ 1 ≤ count)) ∧
    ((glDrawElements gx ext mode count type indices s).isFatal = true →
      ((glDrawElements gx ext mode count type indices s).state.hw.drop s.hw.length).filter
        GXCall.isVertexRecord = []) := by
  obtain ⟨⟨pre, hpre, hfpre⟩, -⟩ := drawPrologue_spec gx ext s
  unfold glDrawElements
  cases hg : gl_enum_to_gx gx mode with
  | none => simp [Result.isFatal, Result.state]
  | some gmode =>
    dsimp only
    by_cases hc : 1 ≤ count
    · rw [drawElements_loop_bad_type type _ _ h8 h16 count hc]
      simp only [Result.andThen, Result.isFatal, Result.state, hw_emit, hpre, hc, or_true,
        true_iff, true_implies, List.append_assoc, List.drop_left, List.filter_append, hfpre,
        List.nil_append]
      exact ⟨trivial, rfl⟩
    · have h0 : count = 0 := by omega
      subst h0
      simp [Result.andThen, Result.isFatal]

theorem bad_index_type_is_fatal_witness :
    GL_FLOAT ≠ GL_UNSIGNED_BYTE ∧ GL_FLOAT ≠ GL_UNSIGNED_SHORT ∧
    ((glDrawElements libogc exampleExt GL_TRIANGLES 3 GL_FLOAT 0x3000 drawCtx).isFatal = true ↔
      (gl_enum_to_gx libogc GL_TRIANGLES = none ∨ 1 ≤ 3)) ∧
    ((glDrawElements libogc exampleExt GL_TRIANGLES 3 GL_FLOAT 0x3000 drawCtx).isFatal = true →
      ((glDrawElements libogc exampleExt GL_TRIANGLES 3 GL_FLOAT 0x3000 drawCtx).state.hw.drop
        drawCtx.hw.length).filter GXCall.isVertexRecord = []) :=
  ⟨by decide, by decide,
    bad_index_type_is_fatal libogc exampleExt drawCtx GL_TRIANGLES GL_FLOAT 3 0x3000
      (by decide) (by decide)⟩

end DrawErrorFacts

section RegisterFacts

variable {α : Type}

@[simp] theorem hwRegs_emit (gx : GXConsts) (s : Context α) (c : GXCall α) :
    hwRegs gx (s.emit c).hw = c.exec gx (hwRegs gx s.hw) := by
  simp [hwRegs, Context.emit, List.foldl_append]

theorem hwRegs_append (gx : GXConsts) (xs ys : List (GXCall α)) :
    hwRegs gx (xs ++ ys) = ys.foldl (fun r c => c.exec gx r) (hwRegs gx xs) := by
  simp [hwRegs, List.foldl_append]

/-- After `glEnable(GL_LIGHTi)` the light mask in the hardware is the tracked mask. -/
theorem glEnable_light_litmask (gx : GXConsts) (s : Context α) (cap : Int)
    (h0 : GL_LIGHT0 ≤ cap) (h7 : cap ≤ GL_LIGHT7) :
    ∃ s', glEnable gx cap s = .ok s' ∧
      (hwRegs gx s'.hw).litmask = some (s'.serverEnabled.lights : Int) := by
  refine ⟨_, glEnable_light gx s cap h0 h7, ?_⟩
  simp [hwRegs_append, GXCall.exec]

/-- After `glDisable(GL_LIGHTi)` the light mask in the hardware is `GX_LIGHT0`, whatever
the tracked mask. -/
theorem glDisable_light_litmask (gx : GXConsts) (s : Context α) (cap : Int)
    (h0 : GL_LIGHT0 ≤ cap) (h7 : cap ≤ GL_LIGHT7) :
    ∃ s', glDisable gx cap s = .ok s' ∧ (hwRegs gx s'.hw).litmask = some gx.GX_LIGHT0 := by
  refine ⟨_, glDisable_light gx s cap h0 h7, ?_⟩
  simp [hwRegs_append, GXCall.exec]

/-- Claim C30 fails for `glDisable`: with the lights 0 and 1 enabled (tracked mask 3, and
the mask 3 in the hardware after the two calls of `glEnable`), `glDisable(GL_LIGHT0)` leaves
the tracked mask 2 (light 1 only), but the mask it issues to the channel control is
`GX_LIGHT0 = 1` (light 0 only). -/
theorem glDisable_light_issues_GX_LIGHT0 :
    litCtx.serverEnabled.lights = 3 ∧ (hwRegs libogc litCtx.hw).litmask = some 3 ∧
    ∃ s', glDisable libogc GL_LIGHT0 litCtx = .ok s' ∧ s'.serverEnabled.lights = 2 ∧
      (hwRegs libogc s'.hw).litmask = some 1 :=
  ⟨rfl, rfl, _, rfl, rfl, rfl⟩

/-- Claim C29 fails for the position attribute: after `wiigl_create_context` and
`glVertexPointer(3, GL_FLOAT, 0, p)`, a reachable state, the vertex descriptor of
`GX_VA_POS` is armed for indexed reads although the client flag of the vertex array is
disabled. -/
theorem glVertexPointer_arms_position :
    Reachable libogc exampleExt armedCtx ∧ armedCtx.clientEnabled.vertexArray = false ∧
    (hwRegs libogc armedCtx.hw).armed libogc.GX_VA_POS = true ∧
    (hwRegs libogc createdCtx.hw).armed libogc.GX_VA_POS = false :=
  ⟨.step createdCtx armedCtx (.glVertexPointer 3 GL_FLOAT 0 0x3000)
    (.create exampleCtx createdCtx createdCtx_ok) rfl, rfl, rfl, rfl⟩

theorem hwRegs_snoc (gx : GXConsts) (xs : List (GXCall α)) (c : GXCall α) :
    hwRegs gx (xs ++ [c]) = c.exec gx (hwRegs gx xs) := by
  simp [hwRegs, List.foldl_append]

theorem okSame_ok {β : Type} {r : Result (Context α)} {obs : Context α → β} {s : Context α}
    (h : r.okSame obs s) {s' : Context α} (hr : r = .ok s') : obs s' = obs s := by
  subst hr
  exact h

theorem okSame_ite {β : Type} {c : Prop} [Decidable c] {a b : Result (Context α)}
    {obs : Context α → β} {s : Context α} (ha : a.okSame obs s) (hb : b.okSame obs s) :
    (if c then a else b).okSame obs s := by
  split_ifs
  · exact ha
  · exact hb

theorem same_foldl {β ι : Type} (obs : Context α → β) (step : Context α → ι → Context α)
    (h : ∀ t i, obs (step t i) = obs t) (l : List ι) (s : Context α) :
    obs (l.foldl step s) = obs s := by
  induction l generalizing s with
  | nil => rfl
  | cons i l ih => rw [List.foldl_cons, ih, h]

theorem okSame_foldl {β ι : Type} (obs : Context α → β)
    (step : Context α → ι → Result (Context α)) (h : ∀ t i, (step t i).okSame obs t)
    (l : List ι) (s : Context α) (r : Result (Context α)) (hr : r.okSame obs s) :
    (l.foldl (fun (r : Result (Context α)) i => r.andThen (fun t => step t i)) r).okSame
      obs s := by
  induction l generalizing r with
  | nil => exact hr
  | cons i l ih =>
    rw [List.foldl_cons]
    apply ih
    cases r with
    | ok t =>
      have e : obs t = obs s := hr
      have h2 := h t i
      show (step t i).okSame obs s
      cases hst : step t i with
      | ok u =>
        rw [hst] at h2
        exact Eq.trans h2 e
      | fatal msg u => exact trivial
    | fatal msg t => exact trivial

/-! ### Calls that touch neither the registers nor the tracked state they mirror -/

theorem wiigl_swap_buffers_quiet (gx : GXConsts) (s : Context α) :
    (wiigl_swap_buffers gx s).okSame (Context.hwView gx) s := by
  unfold wiigl_swap_buffers
  repeat' first | apply okSame_ite | exact trivial | (show Context.hwView gx _ = _; simp only [Context.hwView, Context.emit, hwRegs_snoc, GXCall.exec])

theorem glClearColor_quiet [Field α] (gx : GXConsts) (ext : Ext α) (r g b a : α)
    (s : Context α) : (glClearColor ext r g b a s).okSame (Context.hwView gx) s := by
  unfold glClearColor
  repeat' first | apply okSame_ite | exact trivial | (show Context.hwView gx _ = _; simp only [Context.hwView, Context.emit, hwRegs_snoc, GXCall.exec])

theorem glGenBuffers_quiet (gx : GXConsts) (n buffers : Nat) (fresh : Nat → Nat)
    (s : Context α) : (glGenBuffers n buffers fresh s).okSame (Context.hwView gx) s := by
  unfold glGenBuffers
  show Context.hwView gx (List.foldl _ _ _) = _
  refine same_foldl _ _ ?_ _ _
  intro t i
  rfl

theorem glBindBuffer_quiet (gx : GXConsts) (target : Int) (buffer : Nat) (s : Context α) :
    (glBindBuffer target buffer s).okSame (Context.hwView gx) s := by
  unfold glBindBuffer set_buffer
  repeat' first | apply okSame_ite | exact trivial | exact rfl

theorem glBufferData_quiet (gx : GXConsts) (target : Int) (size data : Nat) (usage : Int)
    (newData : Nat) (s : Context α) :
    (glBufferData target size data usage newData s).okSame (Context.hwView gx) s := by
  unfold glBufferData
  cases get_buffer target s with
  | none => exact trivial
  | some buf =>
    dsimp only
    repeat' first | apply okSame_ite | exact trivial | exact rfl

theorem glBufferSubData_quiet (gx : GXConsts) (target offset : Int) (size data : Nat)
    (s : Context α) :
    (glBufferSubData target offset size data s).okSame (Context.hwView gx) s := by
  unfold glBufferSubData
  cases get_buffer target s with
  | none => exact trivial
  | some buf =>
    dsimp only
    repeat' first | apply okSame_ite | exact trivial | exact rfl

theorem glColor4ub_quiet (gx : GXConsts) (r g b a : Nat) (s : Context α) :
    (glColor4ub gx r g b a s).okSame (Context.hwView gx) s := by
  unfold glColor4ub
  repeat' first | apply okSame_ite | exact trivial | (show Context.hwView gx _ = _; simp only [Context.hwView, Context.emit, hwRegs_snoc, GXCall.exec])

theorem glColor4f_quiet [Field α] (gx : GXConsts) (ext : Ext α) (r g b a : α)
    (s : Context α) : (glColor4f gx ext r g b a s).okSame (Context.hwView gx) s := by
  unfold glColor4f
  repeat' first | apply okSame_ite | exact trivial | (show Context.hwView gx _ = _; simp only [Context.hwView, Context.emit, hwRegs_snoc, GXCall.exec])

theorem glColorPointer_quiet (gx : GXConsts) (size type : Int) (stride pointer : Nat)
    (s : Context α) :
    (glColorPointer gx size type stride pointer s).okSame (Context.hwView gx) s := by
  unfold glColorPointer
  apply okSame_ite
  · exact trivial
  · cases gl_enum_to_gx gx type with
    | none => exact trivial
    | some t =>
      dsimp only
      split <;> first | exact trivial | (show Context.hwView gx _ = _; simp only [Context.hwView, Context.emit, hwRegs_snoc, GXCall.exec])

theorem glTexCoordPointer_quiet (gx : GXConsts) (size type : Int) (stride pointer : Nat)
    (s : Context α) :
    (glTexCoordPointer gx size type stride pointer s).okSame (Context.hwView gx) s := by
  unfold glTexCoordPointer
  apply okSame_ite
  · exact trivial
  · cases gl_enum_to_gx gx type <;> first | exact trivial | (show Context.hwView gx _ = _; simp only [Context.hwView, Context.emit, hwRegs_snoc, GXCall.exec])

theorem glNormalPointer_quiet (gx : GXConsts) (type : Int) (stride pointer : Nat)
    (s : Context α) : (glNormalPointer gx type stride pointer s).okSame (Context.hwView gx) s := by
  unfold glNormalPointer
  cases gl_enum_to_gx gx type <;> first | exact trivial | (show Context.hwView gx _ = _; simp only [Context.hwView, Context.emit, hwRegs_snoc, GXCall.exec])

theorem glGenTextures_quiet (gx : GXConsts) (n textures : Nat) (fresh : Nat → Nat)
    (s : Context α) : (glGenTextures gx n textures fresh s).okSame (Context.hwView gx) s := by
  unfold glGenTextures
  show Context.hwView gx (List.foldl _ _ _) = _
  refine same_foldl _ _ ?_ _ _
  intro t i
  rfl

theorem glBindTexture_quiet (gx : GXConsts) (target : Int) (texture : Nat) (s : Context α) :
    (glBindTexture target texture s).okSame (Context.hwView gx) s := by
  unfold glBindTexture
  repeat' first | apply okSame_ite | exact trivial | exact rfl

theorem glTexImage2D_quiet (gx : GXConsts) (target level internalformat : Int)
    (width height : Nat) (border format type : Int) (data : Nat) (s : Context α) :
    (glTexImage2D gx target level internalformat width height border format type data
      s).okSame (Context.hwView gx) s := by
  unfold glTexImage2D
  apply okSame_ite
  · exact trivial
  apply okSame_ite
  · exact trivial
  cases texture_source internalformat width height fun i => load8 s.mem (data + i) <;>
    first | exact trivial | (show Context.hwView gx _ = _; simp only [Context.hwView, Context.emit, hwRegs_snoc, GXCall.exec])

theorem glTexParameteri_quiet (gx : GXConsts) (target pname param : Int) (s : Context α) :
    (glTexParameteri gx target pname param s).okSame (Context.hwView gx) s := by
  unfold glTexParameteri
  apply okSame_ite
  · exact trivial
  dsimp only
  cases gl_enum_to_gx gx param <;>
    repeat' first | apply okSame_ite | exact trivial | (show Context.hwView gx _ = _; simp only [Context.hwView, Context.emit, hwRegs_snoc, GXCall.exec])

theorem glMaterialfv_quiet [Field α] (gx : GXConsts) (ext : Ext α) (face pname : Int)
    (params : Nat → α) (s : Context α) :
    (glMaterialfv gx ext face pname params s).okSame (Context.hwView gx) s := by
  unfold glMaterialfv
  repeat' first | apply okSame_ite | exact trivial | (show Context.hwView gx _ = _; simp only [Context.hwView, Context.emit, hwRegs_snoc, GXCall.exec])

theorem glBlendFunc_quiet (gx : GXConsts) (sfactor dfactor : Int) (s : Context α) :
    (glBlendFunc gx sfactor dfactor s).okSame (Context.hwView gx) s := by
  unfold glBlendFunc
  cases blend_factor gx sfactor with
  | none => exact trivial
  | some sf =>
    cases blend_factor gx dfactor with
    | none => exact trivial
    | some df => (show Context.hwView gx _ = _; simp only [Context.hwView, Context.emit, hwRegs_snoc, GXCall.exec])

theorem glDepthMask_quiet (gx : GXConsts) (flag : Bool) (s : Context α) :
    (glDepthMask flag s).okSame (Context.hwView gx) s := by
  unfold glDepthMask
  repeat' first | apply okSame_ite | exact trivial | (show Context.hwView gx _ = _; simp only [Context.hwView, Context.emit, hwRegs_snoc, GXCall.exec])

theorem glPolygonOffset_quiet (gx : GXConsts) (factor units : α) (s : Context α) :
    (glPolygonOffset factor units s).okSame (Context.hwView gx) s := rfl

theorem glDepthFunc_quiet (gx : GXConsts) (func : Int) (s : Context α) :
    (glDepthFunc gx func s).okSame (Context.hwView gx) s := by
  unfold glDepthFunc
  cases gl_enum_to_gx gx func with
  | none => exact trivial
  | some v => (show Context.hwView gx _ = _; simp only [Context.hwView, Context.emit, hwRegs_snoc, GXCall.exec])

theorem glLightModelfv_quiet [Field α] (gx : GXConsts) (ext : Ext α) (pname : Int)
    (params : Nat → α) (s : Context α) :
    (glLightModelfv gx ext pname params s).okSame (Context.hwView gx) s := by
  unfold glLightModelfv
  repeat' first | apply okSame_ite | exact trivial | (show Context.hwView gx _ = _; simp only [Context.hwView, Context.emit, hwRegs_snoc, GXCall.exec])

theorem glLightfv_quiet [Field α] (gx : GXConsts) (ext : Ext α) (light pname : Int)
    (params : Nat → α) (s : Context α) :
    (glLightfv ext light pname params s).okSame (Context.hwView gx) s := by
  unfold glLightfv
  show Context.hwView gx (Context.emit _ _) = _
  split_ifs <;> simp only [Context.hwView, Context.emit, hwRegs_snoc, GXCall.exec]

theorem glPointSize_quiet (gx : GXConsts) (size : α) (s : Context α) :
    (glPointSize gx size s).okSame (Context.hwView gx) s := by
  unfold glPointSize
  repeat' first | apply okSame_ite | exact trivial | (show Context.hwView gx _ = _; simp only [Context.hwView, Context.emit, hwRegs_snoc, GXCall.exec])

theorem glGetIntegerv_quiet (gx : GXConsts) (pname : Int) (data : Nat) (s : Context α) :
    (glGetIntegerv pname data s).okSame (Context.hwView gx) s := by
  unfold glGetIntegerv
  repeat' first | apply okSame_ite | exact trivial | exact rfl

theorem glGetString_quiet (gx : GXConsts) (name : Int) (s : Context α) :
    (glGetString name s).okSame (Context.hwView gx) s := by
  unfold glGetString
  repeat' first | apply okSame_ite | exact trivial | exact rfl

end RegisterFacts

section MirrorFacts

variable {α : Type}

theorem matrixView_of_hwView (gx : GXConsts) {s s' : Context α}
    (h : s'.hwView gx = s.hwView gx) : s'.matrixView gx = s.matrixView gx := by
  simp only [Context.hwView, Prod.mk.injEq] at h
  obtain ⟨h1, h2, h3, h4, _⟩ := h
  simp only [Context.matrixView, h1, h2, h3, h4]

theorem mirrorsAt_of_matrixView (gx : GXConsts) {s s' : Context α}
    (h : s'.matrixView gx = s.matrixView gx) (d : StackRef) (hd : MirrorsAt gx d s) :
    MirrorsAt gx d s' := by
  simp only [Context.matrixView, Prod.mk.injEq] at h
  obtain ⟨h1, h2, h3, h4, h5, h6⟩ := h
  cases d <;> simp only [MirrorsAt] at hd ⊢
  · rw [h1, h4]
    exact hd
  · rw [h2, h5]
    exact hd
  · rw [h3, h6]
    exact hd

theorem mirrorsAt_of_quiet (gx : GXConsts) {r : Result (Context α)} {s s' : Context α}
    (h : r.okSame (Context.hwView gx) s) (hr : r = .ok s') (d : StackRef)
    (hd : MirrorsAt gx d s) : MirrorsAt gx d s' :=
  mirrorsAt_of_matrixView gx (matrixView_of_hwView gx (okSame_ok h hr)) d hd

theorem mirrorsAt_of_okSame (gx : GXConsts) {r : Result (Context α)} {s s' : Context α}
    (h : r.okSame (Context.matrixView gx) s) (hr : r = .ok s') (d : StackRef)
    (hd : MirrorsAt gx d s) : MirrorsAt gx d s' :=
  mirrorsAt_of_matrixView gx (okSame_ok h hr) d hd

/-! ### Calls that write other registers -/

theorem glEnable_matrixView (gx : GXConsts) (cap : Int) (s : Context α) :
    (glEnable gx cap s).okSame (Context.matrixView gx) s := by
  unfold glEnable
  repeat' first | apply okSame_ite | exact trivial | exact rfl | (show Context.matrixView gx _ = _; simp only [Context.matrixView, Context.emit, hwRegs_snoc, GXCall.exec, eq_self, if_true])

theorem glDisable_matrixView (gx : GXConsts) (cap : Int) (s : Context α) :
    (glDisable gx cap s).okSame (Context.matrixView gx) s := by
  unfold glDisable
  repeat' first | apply okSame_ite | exact trivial | exact rfl | (show Context.matrixView gx _ = _; simp only [Context.matrixView, Context.emit, hwRegs_snoc, GXCall.exec, eq_self, if_true])

theorem glEnableClientState_matrixView (gx : GXConsts) (cap : Int) (s : Context α) :
    (glEnableClientState gx cap s).okSame (Context.matrixView gx) s := by
  unfold glEnableClientState
  repeat' first | apply okSame_ite | exact trivial | exact rfl | (show Context.matrixView gx _ = _; simp only [Context.matrixView, Context.emit, hwRegs_snoc, GXCall.exec, eq_self, if_true])

theorem glDisableClientState_matrixView (gx : GXConsts) (cap : Int) (s : Context α) :
    (glDisableClientState gx cap s).okSame (Context.matrixView gx) s := by
  unfold glDisableClientState
  repeat' first | apply okSame_ite | exact trivial | exact rfl | (show Context.matrixView gx _ = _; simp only [Context.matrixView, Context.emit, hwRegs_snoc, GXCall.exec, eq_self, if_true])

theorem glMatrixMode_matrixView (gx : GXConsts) (mode : Int) (s : Context α) :
    (glMatrixMode mode s).okSame (Context.matrixView gx) s := by
  unfold glMatrixMode
  repeat' first | apply okSame_ite | exact trivial | exact rfl

theorem glVertexPointer_matrixView (gx : GXConsts) (size type : Int) (stride pointer : Nat)
    (s : Context α) :
    (glVertexPointer gx size type stride pointer s).okSame (Context.matrixView gx) s := by
  unfold glVertexPointer
  apply okSame_ite
  · exact trivial
  · cases gl_enum_to_gx gx type <;> first | exact trivial | (show Context.matrixView gx _ = _; simp only [Context.matrixView, Context.emit, hwRegs_snoc, GXCall.exec, eq_self, if_true])

theorem glCullFace_matrixView (gx : GXConsts) (mode : Int) (s : Context α) :
    (glCullFace gx mode s).okSame (Context.matrixView gx) s := by
  unfold glCullFace
  cases gl_enum_to_gx gx mode with
  | none => exact trivial
  | some v => (show Context.matrixView gx _ = _; simp only [Context.matrixView, Context.emit, hwRegs_snoc, GXCall.exec, eq_self, if_true])

/-! ### Calls that change or load a matrix -/

theorem modeConsistent_setCurr (s : Context α) (ms : MatrixStack α) (hm : ModeConsistent s) :
    ModeConsistent (s.setCurr ms) := by
  unfold ModeConsistent at hm ⊢
  rw [matrixMode_setCurr, currMtxStack_setCurr]
  exact hm

/-- After a store into the current stack and `load_curr_matrix`, the slot of the current
domain mirrors its stack, and so does every slot that did before. -/
theorem load_setCurr_mirrorsAt (gx : GXConsts) (ext : Ext α) (s s' : Context α)
    (ms : MatrixStack α) (hm : ModeConsistent s)
    (h : load_curr_matrix gx ext (s.setCurr ms) = .ok s') (d : StackRef)
    (hd : d = s.currMtxStack ∨ MirrorsAt gx d s) : MirrorsAt gx d s' := by
  rw [load_curr_matrix_loads gx ext _ (modeConsistent_setCurr s ms hm)] at h
  cases h
  rcases hm with ⟨_, hc⟩ | ⟨_, hc⟩ | ⟨_, hc⟩
  · cases d
    · simp [MirrorsAt, hwRegs_append, loadCalls, hc, CURR_MATRIX, Context.setCurr,
        Context.curr, GXCall.exec]
    · rcases hd with hd | hd
      · rw [hc] at hd
        cases hd
      · simpa [MirrorsAt, hwRegs_append, loadCalls, hc, CURR_MATRIX, Context.setCurr,
          Context.curr, GXCall.exec] using hd
    · rcases hd with hd | hd
      · rw [hc] at hd
        cases hd
      · simpa [MirrorsAt, hwRegs_append, loadCalls, hc, CURR_MATRIX, Context.setCurr,
          Context.curr, GXCall.exec] using hd
  · cases d
    · rcases hd with hd | hd
      · rw [hc] at hd
        cases hd
      · simpa [MirrorsAt, hwRegs_append, loadCalls, hc, CURR_MATRIX, Context.setCurr,
          Context.curr, GXCall.exec] using hd
    · simp [MirrorsAt, hwRegs_append, loadCalls, hc, CURR_MATRIX, Context.setCurr,
        Context.curr, GXCall.exec]
    · rcases hd with hd | hd
      · rw [hc] at hd
        cases hd
      · simpa [MirrorsAt, hwRegs_append, loadCalls, hc, CURR_MATRIX, Context.setCurr,
          Context.curr, GXCall.exec] using hd
  · cases d
    · rcases hd with hd | hd
      · rw [hc] at hd
        cases hd
      · simpa [MirrorsAt, hwRegs_append, loadCalls, hc, CURR_MATRIX, Context.setCurr,
          Context.curr, GXCall.exec] using hd
    · rcases hd with hd | hd
      · rw [hc] at hd
        cases hd
      · simpa [MirrorsAt, hwRegs_append, loadCalls, hc, CURR_MATRIX, Context.setCurr,
          Context.curr, GXCall.exec] using hd
    · simp [MirrorsAt, hwRegs_append, loadCalls, hc, CURR_MATRIX, Context.setCurr,
        Context.curr, GXCall.exec]

theorem mutate_mirrorsAt (gx : GXConsts) (ext : Ext α) (s s' : Context α) (m : Mtx44 α)
    (hm : ModeConsistent s) (h : load_curr_matrix gx ext (setCURR_MATRIX s m) = .ok s')
    (d : StackRef) (hd : d = s.currMtxStack ∨ MirrorsAt gx d s) : MirrorsAt gx d s' :=
  load_setCurr_mirrorsAt gx ext s s' _ hm h d hd

theorem glPushMatrix_mirrorsAt (gx : GXConsts) (s s' : Context α)
    (h : glPushMatrix s = .ok s') (d : StackRef) (hd : MirrorsAt gx d s) :
    MirrorsAt gx d s' := by
  unfold glPushMatrix at h
  split_ifs at h with h1
  cases h
  cases hc : s.currMtxStack <;> cases d <;>
    simpa [MirrorsAt, Context.setCurr, Context.curr, hc] using hd

theorem glPopMatrix_mirrorsAt (gx : GXConsts) (ext : Ext α) (s s' : Context α)
    (hm : ModeConsistent s) (h : glPopMatrix gx ext s = .ok s') (d : StackRef)
    (hd : MirrorsAt gx d s) : MirrorsAt gx d s' := by
  unfold glPopMatrix at h
  dsimp only at h
  split_ifs at h with h1
  exact load_setCurr_mirrorsAt gx ext s s' _ hm h d (Or.inr hd)

theorem glOrtho_mirrorsAt [Field α] (gx : GXConsts) (ext : Ext α) (s s' : Context α)
    (l r b t n f : α) (hm : ModeConsistent s) (h : glOrtho gx ext l r b t n f s = .ok s')
    (d : StackRef) (hd : MirrorsAt gx d s) : MirrorsAt gx d s' := by
  unfold glOrtho at h
  dsimp only at h
  by_cases hp : s.matrixMode = GL_PROJECTION
  · rw [matrixMode_setCURR_MATRIX, if_pos hp] at h
    cases h
    have h1 : GL_PROJECTION ≠ GL_MODELVIEW := by decide
    have h3 : GL_TEXTURE ≠ GL_PROJECTION := by decide
    rcases hm with ⟨hmm, hc⟩ | ⟨hmm, hc⟩ | ⟨hmm, hc⟩
    · exact absurd (hp.symm.trans hmm) h1
    · cases d
      · simpa [MirrorsAt, Context.emit, hwRegs_snoc, hc, CURR_MATRIX, setCURR_MATRIX,
          Context.setCurr, Context.curr, GXCall.exec] using hd
      · simp [MirrorsAt, Context.emit, hwRegs_snoc, hc, CURR_MATRIX, setCURR_MATRIX,
          Context.setCurr, Context.curr, GXCall.exec]
      · simpa [MirrorsAt, Context.emit, hwRegs_snoc, hc, CURR_MATRIX, setCURR_MATRIX,
          Context.setCurr, Context.curr, GXCall.exec] using hd
    · exact absurd (hmm.symm.trans hp) h3
  · rw [matrixMode_setCURR_MATRIX, if_neg hp] at h
    exact mutate_mirrorsAt gx ext s s' _ hm h d (Or.inr hd)

theorem glTexGeni_mirrorsAt [Field α] (gx : GXConsts) (ext : Ext α) (s s' : Context α)
    (coord pname param : Int) (h : glTexGeni gx ext coord pname param s = .ok s')
    (d : StackRef)
    (hsphere : d = .texture →
      ¬ (coord = GL_T ∧ pname = GL_TEXTURE_GEN_MODE ∧ param = GL_SPHERE_MAP))
    (hd : MirrorsAt gx d s) : MirrorsAt gx d s' := by
  unfold glTexGeni at h
  by_cases hp : coord = GL_T ∧ pname = GL_TEXTURE_GEN_MODE ∧ param = GL_SPHERE_MAP
  · rw [if_pos hp] at h
    cases h
    cases d
    · simpa [MirrorsAt, Context.emit, hwRegs_append, GXCall.exec] using hd
    · simpa [MirrorsAt, Context.emit, hwRegs_append, GXCall.exec] using hd
    · exact absurd hp (hsphere rfl)
  · rw [if_neg hp] at h
    cases h
    exact hd

/-! ### Draw calls -/

theorem exec_vertexRecords (gx : GXConsts) (ce : ClientEnabled) (i : Int) (r : HwRegs α) :
    (vertexRecords ce i).foldl (fun r (c : GXCall α) => c.exec gx r) r = r := by
  unfold vertexRecords
  split_ifs <;> simp [GXCall.exec]

theorem drawView_emitVertex (gx : GXConsts) (i : Int) (t : Context α) :
    (emitVertex i t).drawView gx = t.drawView gx := by
  simp only [emitVertex, Context.drawView, hwRegs_append, exec_vertexRecords]

theorem drawView_emit (gx : GXConsts) (s : Context α) (c : GXCall α)
    (h : ∀ r, (c.exec gx r).posMtx = r.posMtx ∧ (c.exec gx r).texMtx = r.texMtx ∧
      (s.serverEnabled.polygonOffsetFill = false → (c.exec gx r).projMtx = r.projMtx)) :
    (s.emit c).drawView gx = s.drawView gx := by
  obtain ⟨h1, h2, h3⟩ := h (hwRegs gx s.hw)
  simp only [Context.drawView, Context.emit, hwRegs_snoc, h1, h2]
  cases hf : s.serverEnabled.polygonOffsetFill
  · simp [h3 hf]
  · simp

theorem drawView_emit_same (gx : GXConsts) (s : Context α) (c : GXCall α)
    (h : ∀ r, c.exec gx r = r) : (s.emit c).drawView gx = s.drawView gx := by
  simp only [Context.drawView, Context.emit, hwRegs_snoc, h]

theorem drawView_setup_drawing (gx : GXConsts) (s : Context α) :
    (setup_drawing gx s).drawView gx = s.drawView gx := by
  unfold setup_drawing
  dsimp only
  refine (drawView_emit_same gx _ _ ?_).trans ?_
  · intro r
    rfl
  refine (drawView_emit_same gx _ _ ?_).trans ?_
  · intro r
    rfl
  refine (drawView_emit_same gx _ _ ?_).trans ?_
  · intro r
    rfl
  refine (drawView_emit_same gx _ _ ?_).trans ?_
  · intro r
    rfl
  by_cases h : s.clientEnabled.textureCoordArray = true
  · rw [if_pos h]
  · rw [if_neg h]
    refine drawView_emit_same gx _ _ ?_
    intro r
    rfl

theorem drawView_drawPrologue [Field α] (gx : GXConsts) (ext : Ext α) (s : Context α) :
    (drawPrologue gx ext s).drawView gx = s.drawView gx := by
  unfold drawPrologue
  dsimp only
  refine (drawView_emit_same gx _ _ ?_).trans ?_
  · intro r
    rfl
  rw [drawView_setup_drawing]
  have h1 : (if s.serverEnabled.texture2d = true ∧ s.boundTexture ≠ 0 then
      s.emit (.LoadTexObj s.boundTexture gx.GX_TEXMAP0) else s).drawView gx = s.drawView gx := by
    by_cases h : s.serverEnabled.texture2d = true ∧ s.boundTexture ≠ 0
    · rw [if_pos h]
      refine drawView_emit_same gx _ _ ?_
      intro r
      rfl
    · rw [if_neg h]
  refine Eq.trans ?_ h1
  generalize (if s.serverEnabled.texture2d = true ∧ s.boundTexture ≠ 0 then
      s.emit (.LoadTexObj s.boundTexture gx.GX_TEXMAP0) else s) = t
  by_cases h : t.serverEnabled.polygonOffsetFill = true
  · rw [if_pos h]
    refine drawView_emit gx _ _ ?_
    intro r
    refine ⟨rfl, rfl, fun hf => ?_⟩
    rw [h] at hf
    cases hf
  · rw [if_neg h]

theorem drawView_begin [Field α] (gx : GXConsts) (ext : Ext α) (s : Context α)
    (m : Int) (n : Nat) :
    ((drawPrologue gx ext s).emit (.Begin m gx.GX_VTXFMT0 n)).drawView gx = s.drawView gx := by
  refine (drawView_emit_same gx _ _ ?_).trans (drawView_drawPrologue gx ext s)
  intro r
  rfl

theorem drawEpilogue_mirrorsAt (gx : GXConsts) (s t : Context α)
    (hv : t.drawView gx = s.drawView gx) (d : StackRef) (hd : MirrorsAt gx d s) :
    MirrorsAt gx d (drawEpilogue gx t) := by
  simp only [Context.drawView, Prod.mk.injEq] at hv
  obtain ⟨h1, h2, h3, h4, h5, h6, h7⟩ := hv
  unfold drawEpilogue
  dsimp only
  rw [serverEnabled_emit, projMtxStack_emit]
  by_cases hf : t.serverEnabled.polygonOffsetFill = true
  · rw [if_pos hf]
    cases d
    · simpa [MirrorsAt, Context.emit, hwRegs_append, GXCall.exec, h1, h4] using hd
    · simp [MirrorsAt, Context.emit, hwRegs_append, GXCall.exec]
    · simpa [MirrorsAt, Context.emit, hwRegs_append, GXCall.exec, h3, h6] using hd
  · rw [if_neg hf]
    have hf2 : s.serverEnabled.polygonOffsetFill = false := by
      rw [← h7]
      simpa using hf
    have hf3 : t.serverEnabled.polygonOffsetFill = false := by simpa using hf
    rw [hf2, hf3] at h2
    cases d
    · simpa [MirrorsAt, Context.emit, hwRegs_snoc, GXCall.exec, h1, h4] using hd
    · simp only [MirrorsAt] at hd
      simpa [MirrorsAt, Context.emit, hwRegs_snoc, GXCall.exec, h5] using h2.trans hd
    · simpa [MirrorsAt, Context.emit, hwRegs_snoc, GXCall.exec, h3, h6] using hd

theorem glDrawArrays_mirrorsAt [Field α] (gx : GXConsts) (ext : Ext α) (mode first : Int)
    (count : Nat) (s s' : Context α) (h : glDrawArrays gx ext mode first count s = .ok s')
    (d : StackRef) (hd : MirrorsAt gx d s) : MirrorsAt gx d s' := by
  unfold glDrawArrays at h
  cases hmode : gl_enum_to_gx gx mode with
  | none =>
    rw [hmode] at h
    cases h
  | some m =>
    rw [hmode] at h
    cases h
    refine drawEpilogue_mirrorsAt gx s _ ?_ d hd
    refine (same_foldl (Context.drawView gx) _ ?_ _ _).trans ?_
    · intro t i
      exact drawView_emitVertex gx _ t
    · exact drawView_begin gx ext s _ _

theorem drawElementsStep_drawView (gx : GXConsts) (type : Int) (indices : Nat)
    (t : Context α) (i : Nat) :
    (drawElementsStep type indices t i).okSame (Context.drawView gx) t := by
  unfold drawElementsStep
  repeat' first | apply okSame_ite | exact trivial | exact drawView_emitVertex gx _ t

theorem glDrawElements_mirrorsAt [Field α] (gx : GXConsts) (ext : Ext α) (mode : Int)
    (count : Nat) (type : Int) (indices : Nat) (s s' : Context α)
    (h : glDrawElements gx ext mode count type indices s = .ok s') (d : StackRef)
    (hd : MirrorsAt gx d s) : MirrorsAt gx d s' := by
  unfold glDrawElements at h
  cases hmode : gl_enum_to_gx gx mode with
  | none =>
    rw [hmode] at h
    cases h
  | some m =>
    rw [hmode] at h
    dsimp only at h
    have hloop := okSame_foldl (Context.drawView gx)
      (drawElementsStep type
        (if (drawPrologue gx ext s).boundBuffers 1 ≠ 0 then
          (((drawPrologue gx ext s).buffers ((drawPrologue gx ext s).boundBuffers 1)).data +
            indices) % 2 ^ 32
        else indices))
      (drawElementsStep_drawView gx type _) (List.range count) s
      (.ok ((drawPrologue gx ext s).emit (.Begin (m % 256) gx.GX_VTXFMT0 (count % 65536))))
      (drawView_begin gx ext s _ _)
    revert h hloop
    generalize List.foldl _ _ (List.range count) = res
    intro h hloop
    cases res with
    | ok t =>
      cases h
      exact drawEpilogue_mirrorsAt gx s t hloop d hd
    | fatal msg t => cases h

/-! ### Context creation -/

theorem okAll_ok {r : Result (Context α)} {P : Context α → Prop} (h : r.okAll P)
    {s' : Context α} (hr : r = .ok s') : P s' := by
  subst hr
  exact h

theorem okAll_of_forall {r : Result (Context α)} {P : Context α → Prop}
    (h : ∀ s', r = .ok s' → P s') : r.okAll P := by
  cases r with
  | ok t => exact h t rfl
  | fatal msg t => exact trivial

theorem okAll_andThen {r : Result (Context α)} {f : Context α → Result (Context α)}
    {P Q : Context α → Prop} (hr : r.okAll P) (hf : ∀ t, P t → (f t).okAll Q) :
    (r.andThen f).okAll Q := by
  cases r with
  | ok t => exact hf t hr
  | fatal msg t => exact trivial

theorem okAll_of_okSame {β : Type} {r : Result (Context α)} {obs : Context α → β}
    {s : Context α} (h : r.okSame obs s) : r.okAll (fun t => obs t = obs s) := by
  cases r with
  | ok t => exact h
  | fatal msg t => exact trivial

theorem glMatrixMode_okAll (gx : GXConsts) (mode : Int) (s : Context α) :
    (glMatrixMode mode s).okAll (fun t =>
      ModeConsistent t ∧ (mode = GL_MODELVIEW → t.currMtxStack = .modelview) ∧
      (mode = GL_PROJECTION → t.currMtxStack = .proj) ∧
      (mode = GL_TEXTURE → t.currMtxStack = .texture) ∧
      ∀ d, MirrorsAt gx d s → MirrorsAt gx d t) := by
  have h12 : GL_MODELVIEW ≠ GL_PROJECTION := by decide
  have h13 : GL_MODELVIEW ≠ GL_TEXTURE := by decide
  have h23 : GL_PROJECTION ≠ GL_TEXTURE := by decide
  apply okAll_of_forall
  intro t h
  have hv := okSame_ok (glMatrixMode_matrixView gx mode s) h
  unfold glMatrixMode at h
  split_ifs at h with h1 h2 h3 h4 <;> cases h
  · exact ⟨Or.inl ⟨h1, rfl⟩, fun _ => rfl, fun e => absurd (h1.symm.trans e) h12,
      fun e => absurd (h1.symm.trans e) h13, fun d hd => mirrorsAt_of_matrixView gx hv d hd⟩
  · exact ⟨Or.inr (Or.inl ⟨h2, rfl⟩), fun e => absurd e h1, fun _ => rfl,
      fun e => absurd (h2.symm.trans e) h23, fun d hd => mirrorsAt_of_matrixView gx hv d hd⟩
  · exact ⟨Or.inr (Or.inr ⟨h3, rfl⟩), fun e => absurd e h1, fun e => absurd e h2,
      fun _ => rfl, fun d hd => mirrorsAt_of_matrixView gx hv d hd⟩

theorem glLoadIdentity_okAll [Field α] (gx : GXConsts) (ext : Ext α) (s : Context α)
    (hm : ModeConsistent s) :
    (glLoadIdentity gx ext s).okAll (fun t =>
      ∀ d, (d = s.currMtxStack ∨ MirrorsAt gx d s) → MirrorsAt gx d t) := by
  apply okAll_of_forall
  intro t h d hd
  exact mutate_mirrorsAt gx ext s t _ hm h d hd

/-- When `wiigl_create_context` returns, each of the three matrix slots of the hardware
holds the top of its stack. -/
theorem wiigl_create_context_mirrors [Field α] (gx : GXConsts) (ext : Ext α)
    (s0 : Context α) :
    (wiigl_create_context gx ext s0).okAll (fun s => ∀ d, MirrorsAt gx d s) := by
  unfold wiigl_create_context
  dsimp only
  apply okAll_andThen (glMatrixMode_okAll gx GL_MODELVIEW _)
  intro t1 h1
  apply okAll_andThen (glLoadIdentity_okAll gx ext t1 h1.1)
  intro t2 h2
  have m2 : MirrorsAt gx .modelview t2 := h2 _ (Or.inl (h1.2.1 rfl).symm)
  apply okAll_andThen (glMatrixMode_okAll gx GL_PROJECTION t2)
  intro t3 h3
  apply okAll_andThen (glLoadIdentity_okAll gx ext t3 h3.1)
  intro t4 h4
  have m4 : MirrorsAt gx .modelview t4 := h4 _ (Or.inr (h3.2.2.2.2 _ m2))
  have p4 : MirrorsAt gx .proj t4 := h4 _ (Or.inl (h3.2.2.1 rfl).symm)
  apply okAll_andThen (glMatrixMode_okAll gx GL_TEXTURE t4)
  intro t5 h5
  apply okAll_andThen (glLoadIdentity_okAll gx ext t5 h5.1)
  intro t6 h6
  have m6 : MirrorsAt gx .modelview t6 := h6 _ (Or.inr (h5.2.2.2.2 _ m4))
  have p6 : MirrorsAt gx .proj t6 := h6 _ (Or.inr (h5.2.2.2.2 _ p4))
  have x6 : MirrorsAt gx .texture t6 := h6 _ (Or.inl (h5.2.2.2.1 rfl).symm)
  have all6 : ∀ d, MirrorsAt gx d t6 := by
    intro d
    cases d
    · exact m6
    · exact p6
    · exact x6
  apply okAll_andThen (okAll_of_okSame (glDisable_matrixView gx GL_TEXTURE_2D _))
  intro t7 h7
  apply okAll_andThen (okAll_of_okSame (glMatrixMode_matrixView gx GL_MODELVIEW _))
  intro t8 h8
  intro d
  refine mirrorsAt_of_matrixView gx ?_ d (all6 d)
  refine Eq.trans ?_ (h8.trans (Eq.trans ?_ h7))
  · simp only [Context.matrixView, Context.emit, hwRegs_snoc, GXCall.exec, eq_self, if_true]
  · simp only [Context.matrixView, Context.emit, hwRegs_snoc, GXCall.exec]

/-! ### Every call -/

/-- Every API call that returns keeps, for each matrix domain, the agreement of the
hardware slot with the top of the stack; the one exception is the sphere-map case of
`glTexGeni` for the texture domain. -/
theorem APICall.run_mirrorsAt [Field α] (gx : GXConsts) (ext : Ext α) (c : APICall α)
    (s s' : Context α) (hm : ModeConsistent s) (h : c.run gx ext s = .ok s') (d : StackRef)
    (hsphere : d = .texture → ¬ c.isSphereMapGen) (hd : MirrorsAt gx d s) :
    MirrorsAt gx d s' := by
  cases c with
  | wiigl_create_context => exact okAll_ok (wiigl_create_context_mirrors gx ext s) h d
  | wiigl_swap_buffers =>
    exact mirrorsAt_of_quiet gx (wiigl_swap_buffers_quiet gx s) h d hd
  | glClearColor r g b a =>
    exact mirrorsAt_of_quiet gx (glClearColor_quiet gx ext r g b a s) h d hd
  | glGenBuffers n buffers fresh =>
    exact mirrorsAt_of_quiet gx (glGenBuffers_quiet gx n buffers fresh s) h d hd
  | glBindBuffer target buffer =>
    exact mirrorsAt_of_quiet gx (glBindBuffer_quiet gx target buffer s) h d hd
  | glBufferData target size data usage newData =>
    exact mirrorsAt_of_quiet gx (glBufferData_quiet gx target size data usage newData s) h d hd
  | glBufferSubData target offset size data =>
    exact mirrorsAt_of_quiet gx (glBufferSubData_quiet gx target offset size data s) h d hd
  | glColor4ub r g b a =>
    exact mirrorsAt_of_quiet gx (glColor4ub_quiet gx r g b a s) h d hd
  | glColor4f r g b a =>
    exact mirrorsAt_of_quiet gx (glColor4f_quiet gx ext r g b a s) h d hd
  | glColorPointer size type stride pointer =>
    exact mirrorsAt_of_quiet gx (glColorPointer_quiet gx size type stride pointer s) h d hd
  | glTexCoordPointer size type stride pointer =>
    exact mirrorsAt_of_quiet gx (glTexCoordPointer_quiet gx size type stride pointer s) h d hd
  | glNormalPointer type stride pointer =>
    exact mirrorsAt_of_quiet gx (glNormalPointer_quiet gx type stride pointer s) h d hd
  | glGenTextures n textures fresh =>
    exact mirrorsAt_of_quiet gx (glGenTextures_quiet gx n textures fresh s) h d hd
  | glBindTexture target texture =>
    exact mirrorsAt_of_quiet gx (glBindTexture_quiet gx target texture s) h d hd
  | glTexImage2D target level internalformat width height border format type data =>
    exact mirrorsAt_of_quiet gx (glTexImage2D_quiet gx target level internalformat width height border format type data s) h d hd
  | glTexParameteri target pname param =>
    exact mirrorsAt_of_quiet gx (glTexParameteri_quiet gx target pname param s) h d hd
  | glMaterialfv face pname params =>
    exact mirrorsAt_of_quiet gx (glMaterialfv_quiet gx ext face pname params s) h d hd
  | glBlendFunc sfactor dfactor =>
    exact mirrorsAt_of_quiet gx (glBlendFunc_quiet gx sfactor dfactor s) h d hd
  | glDepthMask flag =>
    exact mirrorsAt_of_quiet gx (glDepthMask_quiet gx flag s) h d hd
  | glPolygonOffset factor units =>
    exact mirrorsAt_of_quiet gx (glPolygonOffset_quiet gx factor units s) h d hd
  | glDepthFunc func =>
    exact mirrorsAt_of_quiet gx (glDepthFunc_quiet gx func s) h d hd
  | glLightModelfv pname params =>
    exact mirrorsAt_of_quiet gx (glLightModelfv_quiet gx ext pname params s) h d hd
  | glLightfv light pname params =>
    exact mirrorsAt_of_quiet gx (glLightfv_quiet gx ext light pname params s) h d hd
  | glPointSize size =>
    exact mirrorsAt_of_quiet gx (glPointSize_quiet gx size s) h d hd
  | glGetIntegerv pname data =>
    exact mirrorsAt_of_quiet gx (glGetIntegerv_quiet gx pname data s) h d hd
  | glGetString name =>
    exact mirrorsAt_of_quiet gx (glGetString_quiet gx name s) h d hd
  | glEnable cap =>
    exact mirrorsAt_of_okSame gx (glEnable_matrixView gx cap s) h d hd
  | glDisable cap =>
    exact mirrorsAt_of_okSame gx (glDisable_matrixView gx cap s) h d hd
  | glEnableClientState cap =>
    exact mirrorsAt_of_okSame gx (glEnableClientState_matrixView gx cap s) h d hd
  | glDisableClientState cap =>
    exact mirrorsAt_of_okSame gx (glDisableClientState_matrixView gx cap s) h d hd
  | glMatrixMode mode =>
    exact mirrorsAt_of_okSame gx (glMatrixMode_matrixView gx mode s) h d hd
  | glVertexPointer size type stride pointer =>
    exact mirrorsAt_of_okSame gx (glVertexPointer_matrixView gx size type stride pointer s) h d hd
  | glCullFace mode =>
    exact mirrorsAt_of_okSame gx (glCullFace_matrixView gx mode s) h d hd
  | glLoadIdentity => exact mutate_mirrorsAt gx ext s s' _ hm h d (Or.inr hd)
  | glLoadMatrixf m => exact mutate_mirrorsAt gx ext s s' _ hm h d (Or.inr hd)
  | glMultMatrixf m => exact mutate_mirrorsAt gx ext s s' _ hm h d (Or.inr hd)
  | glTranslatef x y z => exact mutate_mirrorsAt gx ext s s' _ hm h d (Or.inr hd)
  | glScalef x y z => exact mutate_mirrorsAt gx ext s s' _ hm h d (Or.inr hd)
  | glRotatef angle x y z => exact mutate_mirrorsAt gx ext s s' _ hm h d (Or.inr hd)
  | glFrustum l r b t n f => exact mutate_mirrorsAt gx ext s s' _ hm h d (Or.inr hd)
  | glPushMatrix => exact glPushMatrix_mirrorsAt gx s s' h d hd
  | glPopMatrix => exact glPopMatrix_mirrorsAt gx ext s s' hm h d hd
  | glOrtho l r b t n f => exact glOrtho_mirrorsAt gx ext s s' l r b t n f hm h d hd
  | glDrawArrays mode first count =>
    exact glDrawArrays_mirrorsAt gx ext mode first count s s' h d hd
  | glDrawElements mode count type indices =>
    exact glDrawElements_mirrorsAt gx ext mode count type indices s s' h d hd
  | glTexGeni coord pname param =>
    exact glTexGeni_mirrorsAt gx ext s s' coord pname param h d hsphere hd
  | blend_factor f =>
    have h2 : (match WiiGL.blend_factor gx f with
      | none => Result.fatal "unknown blend factor" s
      | some _ => Result.ok s) = .ok s' := h
    split at h2
    · cases h2
    · cases h2
      exact hd
  | glDeleteBuffers n buffers =>
    cases h
    exact hd
  | glDeleteTextures n textures =>
    cases h
    exact hd
  | glPointParameterfv =>
    cases h
    exact hd
  | glTexEnvi =>
    cases h
    exact hd
  | glAlphaFunc =>
    cases h
    exact hd
  | glFrontFace =>
    cases h
    exact hd
  | glStencilFunc =>
    cases h
    exact hd
  | glStencilOp =>
    cases h
    exact hd
  | glColorMask =>
    cases h
    exact hd
  | glClear =>
    cases h
    exact hd
  | glClipPlane =>
    cases h
    exact hd
  | glActiveTexture =>
    cases h
    exact hd
  | glClientActiveTexture =>
    cases h
    exact hd
  | glPointParameterf =>
    cases h
    exact hd
  | glPixelStorei =>
    cases h
    exact hd
  | glViewport =>
    cases h
    exact hd
  | glLightModeli =>
    cases h
    exact hd
  | glLightModelf =>
    cases h
    exact hd
  | glPolygonMode =>
    cases h
    exact hd
  | glReadPixels =>
    cases h
    exact hd

theorem reachableVia_reachable [Field α] (gx : GXConsts) (ext : Ext α)
    (allowed : APICall α → Prop) (s : Context α) (h : ReachableVia gx ext allowed s) :
    Reachable gx ext s := by
  induction h with
  | create s0 s h => exact .create s0 s h
  | step s s' c _ _ h ih => exact .step s s' c ih h

theorem reachable_reachableVia [Field α] (gx : GXConsts) (ext : Ext α) (s : Context α)
    (h : Reachable gx ext s) : ReachableVia gx ext (fun _ => True) s := by
  induction h with
  | create s0 s h => exact .create s0 s h
  | step s s' c _ h ih => exact .step s s' c ih trivial h

/-- In every state reached by calls among which the sphere-map case of `glTexGeni` occurs
only if `d` is not the texture domain, the hardware slot of `d` holds the top of the stack
of `d`. -/
theorem reachableVia_mirrorsAt [Field α] (gx : GXConsts) (ext : Ext α)
    (allowed : APICall α → Prop) (d : StackRef)
    (hallowed : d = .texture → ∀ c, allowed c → ¬ c.isSphereMapGen) (s : Context α)
    (h : ReachableVia gx ext allowed s) : MirrorsAt gx d s := by
  induction h with
  | create s0 s h => exact okAll_ok (wiigl_create_context_mirrors gx ext s0) h d
  | step s s' c hs hc h ih =>
    exact APICall.run_mirrorsAt gx ext c s s'
      (reachable_invariant gx ext s (reachableVia_reachable gx ext allowed s hs)).2 h d
      (fun hd => hallowed hd c hc) ih

theorem sphereCtx_reachable : Reachable libogc sphereExt sphereCtx :=
  .step (wiigl_create_context libogc sphereExt exampleCtx).state sphereCtx
    (.glTexGeni GL_T GL_TEXTURE_GEN_MODE GL_SPHERE_MAP) (.create exampleCtx _ rfl) rfl

/-- Counterexample to claim C28 for the texture domain: after `wiigl_create_context` and
`glTexGeni(GL_T, GL_TEXTURE_GEN_MODE, GL_SPHERE_MAP)`, a reachable state, the top of the
texture stack is the identity (entry `(0, 0)` is 1), while the matrix most recently loaded
into texture matrix 0 is the one `glTexGeni` derived from the model-view top (entry
`(0, 0)` is 1/2): the two differ. -/
theorem glTexGeni_breaks_texture_mirror :
    Reachable libogc sphereExt sphereCtx ∧
    sphereCtx.textureMtxStack.stack sphereCtx.textureMtxStack.stackPos 0 0 = 1 ∧
    (∃ m, (hwRegs libogc sphereCtx.hw).texMtx = some m ∧ m 0 0 = 1 / 2) ∧
    ¬ MirrorsTexture libogc sphereCtx := by
  have htop : sphereCtx.textureMtxStack.stack sphereCtx.textureMtxStack.stackPos 0 0 = 1 := rfl
  have hload : (hwRegs libogc sphereCtx.hw).texMtx =
      some (guMtxApplyScale (guMtxApplyTrans idMtx 0.5 (-0.5) 0) 0.5 0.5 1) := rfl
  have hentry : guMtxApplyScale (guMtxApplyTrans idMtx 0.5 (-0.5) 0) 0.5 0.5 (1 : ℚ) 0 0 =
      1 / 2 := by
    simp [guMtxApplyScale, guMtxApplyTrans, idMtx]
    norm_num
  refine ⟨sphereCtx_reachable, htop, ⟨_, hload, hentry⟩, ?_⟩
  intro h
  unfold MirrorsTexture at h
  rw [hload] at h
  have e := congrFun (congrFun (Option.some.inj h) 0) 0
  rw [hentry, htop] at e
  norm_num at e

theorem movedCtx_via :
    ReachableVia libogc exampleExt (fun c => ¬ c.isSphereMapGen) movedCtx :=
  .step _ movedCtx (.glScalef 2 2 2)
    (.step _ _ (.glMatrixMode GL_TEXTURE)
      (.step createdCtx _ (.glTranslatef 1 2 3)
        (.create exampleCtx createdCtx createdCtx_ok) (fun h => h) rfl)
      (fun h => h) rfl)
    (fun h => h) rfl

end MirrorFacts

section TextureSlotFacts

variable {α : Type}

theorem texMtx_of_hwView (gx : GXConsts) {r : Result (Context α)} {s s' : Context α}
    (h : r.okSame (Context.hwView gx) s) (hr : r = .ok s') :
    (hwRegs gx s'.hw).texMtx = (hwRegs gx s.hw).texMtx := by
  have e := okSame_ok h hr
  simp only [Context.hwView, Prod.mk.injEq] at e
  rw [e.1]

theorem texMtx_of_matrixView (gx : GXConsts) {r : Result (Context α)} {s s' : Context α}
    (h : r.okSame (Context.matrixView gx) s) (hr : r = .ok s') :
    (hwRegs gx s'.hw).texMtx = (hwRegs gx s.hw).texMtx := by
  have e := okSame_ok h hr
  simp only [Context.matrixView, Prod.mk.injEq] at e
  exact e.2.2.1

theorem ModeConsistent.texture_iff {s : Context α} (h : ModeConsistent s) :
    s.currMtxStack = .texture ↔ s.matrixMode = GL_TEXTURE := by
  have h1 : GL_MODELVIEW ≠ GL_TEXTURE := by decide
  have h2 : GL_PROJECTION ≠ GL_TEXTURE := by decide
  rcases h with ⟨hm, hc⟩ | ⟨hm, hc⟩ | ⟨hm, hc⟩
  · rw [hm, hc]
    simp [h1]
  · rw [hm, hc]
    simp [h2]
  · rw [hm, hc]
    simp

/-- Outside the texture mode, a store into the current stack and `load_curr_matrix` leave
texture matrix 0 as it is. -/
theorem load_setCurr_texMtx (gx : GXConsts) (ext : Ext α) (s s' : Context α)
    (ms : MatrixStack α) (hm : ModeConsistent s)
    (h : load_curr_matrix gx ext (s.setCurr ms) = .ok s')
    (hne : s.matrixMode ≠ GL_TEXTURE) :
    (hwRegs gx s'.hw).texMtx = (hwRegs gx s.hw).texMtx := by
  rw [load_curr_matrix_loads gx ext _ (modeConsistent_setCurr s ms hm)] at h
  cases h
  have hc : s.currMtxStack ≠ .texture := fun e => hne (hm.texture_iff.1 e)
  cases hcs : s.currMtxStack
  · simp [hwRegs_append, loadCalls, hcs, GXCall.exec]
  · simp [hwRegs_append, loadCalls, hcs, GXCall.exec]
  · exact absurd hcs hc

theorem glPopMatrix_texMtx (gx : GXConsts) (ext : Ext α) (s s' : Context α)
    (hm : ModeConsistent s) (h : glPopMatrix gx ext s = .ok s')
    (hne : s.matrixMode ≠ GL_TEXTURE) :
    (hwRegs gx s'.hw).texMtx = (hwRegs gx s.hw).texMtx := by
  unfold glPopMatrix at h
  dsimp only at h
  split_ifs at h with h1
  exact load_setCurr_texMtx gx ext s s' _ hm h hne

theorem glPopMatrix_loads_texture (gx : GXConsts) (ext : Ext α) (s s' : Context α)
    (hm : ModeConsistent s) (h : glPopMatrix gx ext s = .ok s')
    (ht : s.matrixMode = GL_TEXTURE) : MirrorsAt gx .texture s' := by
  unfold glPopMatrix at h
  dsimp only at h
  split_ifs at h with h1
  exact load_setCurr_mirrorsAt gx ext s s' _ hm h .texture (Or.inl (hm.texture_iff.2 ht).symm)

theorem glOrtho_texMtx [Field α] (gx : GXConsts) (ext : Ext α) (s s' : Context α)
    (l r b t n f : α) (hm : ModeConsistent s) (h : glOrtho gx ext l r b t n f s = .ok s')
    (hne : s.matrixMode ≠ GL_TEXTURE) :
    (hwRegs gx s'.hw).texMtx = (hwRegs gx s.hw).texMtx := by
  unfold glOrtho at h
  dsimp only at h
  by_cases hp : s.matrixMode = GL_PROJECTION
  · rw [matrixMode_setCURR_MATRIX, if_pos hp] at h
    cases h
    simp [Context.emit, hwRegs_snoc, GXCall.exec, setCURR_MATRIX]
  · rw [matrixMode_setCURR_MATRIX, if_neg hp] at h
    exact load_setCurr_texMtx gx ext s s' _ hm h hne

theorem glOrtho_loads_texture [Field α] (gx : GXConsts) (ext : Ext α) (s s' : Context α)
    (l r b t n f : α) (hm : ModeConsistent s) (h : glOrtho gx ext l r b t n f s = .ok s')
    (ht : s.matrixMode = GL_TEXTURE) : MirrorsAt gx .texture s' := by
  have h3 : GL_TEXTURE ≠ GL_PROJECTION := by decide
  unfold glOrtho at h
  dsimp only at h
  rw [matrixMode_setCURR_MATRIX, ht, if_neg h3] at h
  exact mutate_mirrorsAt gx ext s s' _ hm h .texture (Or.inl (hm.texture_iff.2 ht).symm)

theorem drawEpilogue_texMtx (gx : GXConsts) (s t : Context α)
    (hv : t.drawView gx = s.drawView gx) :
    (hwRegs gx (drawEpilogue gx t).hw).texMtx = (hwRegs gx s.hw).texMtx := by
  simp only [Context.drawView, Prod.mk.injEq] at hv
  obtain ⟨h1, h2, h3, h4, h5, h6, h7⟩ := hv
  unfold drawEpilogue
  dsimp only
  rw [serverEnabled_emit, projMtxStack_emit]
  by_cases hf : t.serverEnabled.polygonOffsetFill = true
  · rw [if_pos hf]
    simpa [Context.emit, hwRegs_append, GXCall.exec] using h3
  · rw [if_neg hf]
    simpa [Context.emit, hwRegs_snoc, GXCall.exec] using h3

theorem glDrawArrays_texMtx [Field α] (gx : GXConsts) (ext : Ext α) (mode first : Int)
    (count : Nat) (s s' : Context α) (h : glDrawArrays gx ext mode first count s = .ok s') :
    (hwRegs gx s'.hw).texMtx = (hwRegs gx s.hw).texMtx := by
  unfold glDrawArrays at h
  cases hmode : gl_enum_to_gx gx mode with
  | none =>
    rw [hmode] at h
    cases h
  | some m =>
    rw [hmode] at h
    cases h
    refine drawEpilogue_texMtx gx s _ ?_
    refine (same_foldl (Context.drawView gx) _ ?_ _ _).trans ?_
    · intro t i
      exact drawView_emitVertex gx _ t
    · exact drawView_begin gx ext s _ _

theorem glDrawElements_texMtx [Field α] (gx : GXConsts) (ext : Ext α) (mode : Int)
    (count : Nat) (type : Int) (indices : Nat) (s s' : Context α)
    (h : glDrawElements gx ext mode count type indices s = .ok s') :
    (hwRegs gx s'.hw).texMtx = (hwRegs gx s.hw).texMtx := by
  unfold glDrawElements at h
  cases hmode : gl_enum_to_gx gx mode with
  | none =>
    rw [hmode] at h
    cases h
  | some m =>
    rw [hmode] at h
    dsimp only at h
    have hloop := okSame_foldl (Context.drawView gx)
      (drawElementsStep type
        (if (drawPrologue gx ext s).boundBuffers 1 ≠ 0 then
          (((drawPrologue gx ext s).buffers ((drawPrologue gx ext s).boundBuffers 1)).data +
            indices) % 2 ^ 32
        else indices))
      (drawElementsStep_drawView gx type _) (List.range count) s
      (.ok ((drawPrologue gx ext s).emit (.Begin (m % 256) gx.GX_VTXFMT0 (count % 65536))))
      (drawView_begin gx ext s _ _)
    revert h hloop
    generalize List.foldl _ _ (List.range count) = res
    intro h hloop
    cases res with
    | ok t =>
      cases h
      exact drawEpilogue_texMtx gx s t hloop
    | fatal msg t => cases h

/-- The sphere-map case of `glTexGeni` returns; it loads `sphereMapMtx` into texture
matrix 0 and changes none of the three stacks. -/
theorem glTexGeni_sphere_loads [Field α] (gx : GXConsts) (ext : Ext α) (s : Context α) :
    ∃ s', glTexGeni gx ext GL_T GL_TEXTURE_GEN_MODE GL_SPHERE_MAP s = .ok s' ∧
      (hwRegs gx s'.hw).texMtx = some (sphereMapMtx ext s) ∧
      s'.textureMtxStack = s.textureMtxStack ∧
      s'.modelviewMtxStack = s.modelviewMtxStack ∧
      s'.projMtxStack = s.projMtxStack := by
  unfold glTexGeni
  rw [if_pos ⟨rfl, rfl, rfl⟩]
  refine ⟨_, rfl, ?_, rfl, rfl, rfl⟩
  simp [Context.emit, hwRegs_append, GXCall.exec, sphereMapMtx]

/-- A call that is no write to texture matrix 0 (its record stays as it is) leaves that
register alone. -/
theorem APICall.run_texMtx [Field α] (gx : GXConsts) (ext : Ext α) (c : APICall α)
    (s s' : Context α) (hm : ModeConsistent s) (h : c.run gx ext s = .ok s')
    (hk : ∀ w, c.texWriter ext s w = w) :
    (hwRegs gx s'.hw).texMtx = (hwRegs gx s.hw).texMtx := by
  have hne : (∀ w : Option (Mtx44 α), (if s.matrixMode = GL_TEXTURE then none else w) = w) →
      s.matrixMode ≠ GL_TEXTURE := by
    intro hw ht
    have e := hw (some (fun _ _ => 0))
    rw [if_pos ht] at e
    cases e
  cases c with
  | wiigl_create_context =>
    have e := hk (some (fun _ _ => 0))
    cases e
  | wiigl_swap_buffers =>
    exact texMtx_of_hwView gx (wiigl_swap_buffers_quiet gx s) h
  | glClearColor r g b a =>
    exact texMtx_of_hwView gx (glClearColor_quiet gx ext r g b a s) h
  | glGenBuffers n buffers fresh =>
    exact texMtx_of_hwView gx (glGenBuffers_quiet gx n buffers fresh s) h
  | glBindBuffer target buffer =>
    exact texMtx_of_hwView gx (glBindBuffer_quiet gx target buffer s) h
  | glBufferData target size data usage newData =>
    exact texMtx_of_hwView gx (glBufferData_quiet gx target size data usage newData s) h
  | glBufferSubData target offset size data =>
    exact texMtx_of_hwView gx (glBufferSubData_quiet gx target offset size data s) h
  | glColor4ub r g b a =>
    exact texMtx_of_hwView gx (glColor4ub_quiet gx r g b a s) h
  | glColor4f r g b a =>
    exact texMtx_of_hwView gx (glColor4f_quiet gx ext r g b a s) h
  | glColorPointer size type stride pointer =>
    exact texMtx_of_hwView gx (glColorPointer_quiet gx size type stride pointer s) h
  | glTexCoordPointer size type stride pointer =>
    exact texMtx_of_hwView gx (glTexCoordPointer_quiet gx size type stride pointer s) h
  | glNormalPointer type stride pointer =>
    exact texMtx_of_hwView gx (glNormalPointer_quiet gx type stride pointer s) h
  | glGenTextures n textures fresh =>
    exact texMtx_of_hwView gx (glGenTextures_quiet gx n textures fresh s) h
  | glBindTexture target texture =>
    exact texMtx_of_hwView gx (glBindTexture_quiet gx target texture s) h
  | glTexImage2D target level internalformat width height border format type data =>
    exact texMtx_of_hwView gx (glTexImage2D_quiet gx target level internalformat width height border format type data s) h
  | glTexParameteri target pname param =>
    exact texMtx_of_hwView gx (glTexParameteri_quiet gx target pname param s) h
  | glMaterialfv face pname params =>
    exact texMtx_of_hwView gx (glMaterialfv_quiet gx ext face pname params s) h
  | glBlendFunc sfactor dfactor =>
    exact texMtx_of_hwView gx (glBlendFunc_quiet gx sfactor dfactor s) h
  | glDepthMask flag =>
    exact texMtx_of_hwView gx (glDepthMask_quiet gx flag s) h
  | glPolygonOffset factor units =>
    exact texMtx_of_hwView gx (glPolygonOffset_quiet gx factor units s) h
  | glDepthFunc func =>
    exact texMtx_of_hwView gx (glDepthFunc_quiet gx func s) h
  | glLightModelfv pname params =>
    exact texMtx_of_hwView gx (glLightModelfv_quiet gx ext pname params s) h
  | glLightfv light pname params =>
    exact texMtx_of_hwView gx (glLightfv_quiet gx ext light pname params s) h
  | glPointSize size =>
    exact texMtx_of_hwView gx (glPointSize_quiet gx size s) h
  | glGetIntegerv pname data =>
    exact texMtx_of_hwView gx (glGetIntegerv_quiet gx pname data s) h
  | glGetString name =>
    exact texMtx_of_hwView gx (glGetString_quiet gx name s) h
  | glEnable cap =>
    exact texMtx_of_matrixView gx (glEnable_matrixView gx cap s) h
  | glDisable cap =>
    exact texMtx_of_matrixView gx (glDisable_matrixView gx cap s) h
  | glEnableClientState cap =>
    exact texMtx_of_matrixView gx (glEnableClientState_matrixView gx cap s) h
  | glDisableClientState cap =>
    exact texMtx_of_matrixView gx (glDisableClientState_matrixView gx cap s) h
  | glMatrixMode mode =>
    exact texMtx_of_matrixView gx (glMatrixMode_matrixView gx mode s) h
  | glVertexPointer size type stride pointer =>
    exact texMtx_of_matrixView gx (glVertexPointer_matrixView gx size type stride pointer s) h
  | glCullFace mode =>
    exact texMtx_of_matrixView gx (glCullFace_matrixView gx mode s) h
  | glLoadIdentity => exact load_setCurr_texMtx gx ext s s' _ hm h (hne hk)
  | glLoadMatrixf m => exact load_setCurr_texMtx gx ext s s' _ hm h (hne hk)
  | glMultMatrixf m => exact load_setCurr_texMtx gx ext s s' _ hm h (hne hk)
  | glTranslatef x y z => exact load_setCurr_texMtx gx ext s s' _ hm h (hne hk)
  | glScalef x y z => exact load_setCurr_texMtx gx ext s s' _ hm h (hne hk)
  | glRotatef angle x y z => exact load_setCurr_texMtx gx ext s s' _ hm h (hne hk)
  | glFrustum l r b t n f => exact load_setCurr_texMtx gx ext s s' _ hm h (hne hk)
  | glPushMatrix =>
    have h2 : WiiGL.glPushMatrix s = .ok s' := h
    unfold WiiGL.glPushMatrix at h2
    split_ifs at h2 with h1
    cases h2
    rw [hw_setCurr]
  | glPopMatrix => exact glPopMatrix_texMtx gx ext s s' hm h (hne hk)
  | glOrtho l r b t n f => exact glOrtho_texMtx gx ext s s' l r b t n f hm h (hne hk)
  | glDrawArrays mode first count =>
    exact glDrawArrays_texMtx gx ext mode first count s s' h
  | glDrawElements mode count type indices =>
    exact glDrawElements_texMtx gx ext mode count type indices s s' h
  | glTexGeni coord pname param =>
    have h2 : WiiGL.glTexGeni gx ext coord pname param s = .ok s' := h
    unfold WiiGL.glTexGeni at h2
    by_cases hp : coord = GL_T ∧ pname = GL_TEXTURE_GEN_MODE ∧ param = GL_SPHERE_MAP
    · have e := hk none
      simp only [APICall.texWriter] at e
      rw [if_pos hp] at e
      cases e
    · rw [if_neg hp] at h2
      cases h2
      rfl
  | blend_factor f =>
    have h2 : (match WiiGL.blend_factor gx f with
      | none => Result.fatal "unknown blend factor" s
      | some _ => Result.ok s) = .ok s' := h
    split at h2
    · cases h2
    · cases h2
      rfl
  | glDeleteBuffers n buffers =>
    cases h
    rfl
  | glDeleteTextures n textures =>
    cases h
    rfl
  | glPointParameterfv =>
    cases h
    rfl
  | glTexEnvi =>
    cases h
    rfl
  | glAlphaFunc =>
    cases h
    rfl
  | glFrontFace =>
    cases h
    rfl
  | glStencilFunc =>
    cases h
    rfl
  | glStencilOp =>
    cases h
    rfl
  | glColorMask =>
    cases h
    rfl
  | glClear =>
    cases h
    rfl
  | glClipPlane =>
    cases h
    rfl
  | glActiveTexture =>
    cases h
    rfl
  | glClientActiveTexture =>
    cases h
    rfl
  | glPointParameterf =>
    cases h
    rfl
  | glPixelStorei =>
    cases h
    rfl
  | glViewport =>
    cases h
    rfl
  | glLightModeli =>
    cases h
    rfl
  | glLightModelf =>
    cases h
    rfl
  | glPolygonMode =>
    cases h
    rfl
  | glReadPixels =>
    cases h
    rfl

/-- A call whose record is a load of the top of the texture stack leaves texture matrix 0
equal to that top, whatever the slot held before. -/
theorem APICall.run_loads_texture [Field α] (gx : GXConsts) (ext : Ext α) (c : APICall α)
    (s s' : Context α) (hm : ModeConsistent s) (h : c.run gx ext s = .ok s')
    (w : Option (Mtx44 α)) (hw : c.texWriter ext s w = none)
    (hd : w = none → MirrorsTexture gx s) : MirrorsTexture gx s' := by
  have hsame : c.texWriter ext s w = w → (¬ c.isSphereMapGen) → MirrorsTexture gx s' := by
    intro e hs
    rw [e] at hw
    exact APICall.run_mirrorsAt gx ext c s s' hm h .texture (fun _ => hs) (hd hw)
  have hload : ∀ ms, load_curr_matrix gx ext (s.setCurr ms) = .ok s' →
      (if s.matrixMode = GL_TEXTURE then none else w) = none → (¬ c.isSphereMapGen) →
      MirrorsTexture gx s' := by
    intro ms hl e hs
    by_cases ht : s.matrixMode = GL_TEXTURE
    · exact load_setCurr_mirrorsAt gx ext s s' ms hm hl .texture
        (Or.inl (hm.texture_iff.2 ht).symm)
    · rw [if_neg ht] at e
      exact APICall.run_mirrorsAt gx ext c s s' hm h .texture (fun _ => hs) (hd e)
  cases c with
  | wiigl_create_context =>
    exact okAll_ok (wiigl_create_context_mirrors gx ext s) h .texture
  | glLoadIdentity => exact hload _ h hw (fun e => e)
  | glLoadMatrixf m => exact hload _ h hw (fun e => e)
  | glMultMatrixf m => exact hload _ h hw (fun e => e)
  | glTranslatef x y z => exact hload _ h hw (fun e => e)
  | glScalef x y z => exact hload _ h hw (fun e => e)
  | glRotatef angle x y z => exact hload _ h hw (fun e => e)
  | glFrustum l r b t n f => exact hload _ h hw (fun e => e)
  | glPopMatrix =>
    by_cases ht : s.matrixMode = GL_TEXTURE
    · exact glPopMatrix_loads_texture gx ext s s' hm h ht
    · simp only [APICall.texWriter] at hw
      rw [if_neg ht] at hw
      exact APICall.run_mirrorsAt gx ext _ s s' hm h .texture (fun _ e => e) (hd hw)
  | glOrtho l r b t n f =>
    by_cases ht : s.matrixMode = GL_TEXTURE
    · exact glOrtho_loads_texture gx ext s s' l r b t n f hm h ht
    · simp only [APICall.texWriter] at hw
      rw [if_neg ht] at hw
      exact APICall.run_mirrorsAt gx ext _ s s' hm h .texture (fun _ e => e) (hd hw)
  | glTexGeni coord pname param =>
    by_cases hp : coord = GL_T ∧ pname = GL_TEXTURE_GEN_MODE ∧ param = GL_SPHERE_MAP
    · simp only [APICall.texWriter] at hw
      rw [if_pos hp] at hw
      cases hw
    · simp only [APICall.texWriter] at hw
      rw [if_neg hp] at hw
      exact APICall.run_mirrorsAt gx ext _ s s' hm h .texture (fun _ => hp) (hd hw)
  | _ => exact hsame rfl (fun e => e)

/-- A call whose record is the sphere-map load of `m` leaves `m` in texture matrix 0. -/
theorem APICall.run_sphere_texture [Field α] (gx : GXConsts) (ext : Ext α) (c : APICall α)
    (s s' : Context α) (hm : ModeConsistent s) (h : c.run gx ext s = .ok s')
    (w : Option (Mtx44 α)) (m : Mtx44 α) (hw : c.texWriter ext s w = some m)
    (hd : w = some m → (hwRegs gx s.hw).texMtx = some m) :
    (hwRegs gx s'.hw).texMtx = some m := by
  have hload : (if s.matrixMode = GL_TEXTURE then none else w) = some m →
      (∀ v, c.texWriter ext s v = if s.matrixMode = GL_TEXTURE then none else v) →
      (hwRegs gx s'.hw).texMtx = some m := by
    intro e hc
    by_cases ht : s.matrixMode = GL_TEXTURE
    · rw [if_pos ht] at e
      cases e
    · rw [if_neg ht] at e
      rw [APICall.run_texMtx gx ext c s s' hm h (fun v => by rw [hc v, if_neg ht])]
      exact hd e
  cases c with
  | wiigl_create_context => cases hw
  | glLoadIdentity => exact hload hw (fun _ => rfl)
  | glLoadMatrixf m => exact hload hw (fun _ => rfl)
  | glMultMatrixf m => exact hload hw (fun _ => rfl)
  | glTranslatef x y z => exact hload hw (fun _ => rfl)
  | glScalef x y z => exact hload hw (fun _ => rfl)
  | glRotatef angle x y z => exact hload hw (fun _ => rfl)
  | glFrustum l r b t n f => exact hload hw (fun _ => rfl)
  | glPopMatrix => exact hload hw (fun _ => rfl)
  | glOrtho l r b t n f => exact hload hw (fun _ => rfl)
  | glTexGeni coord pname param =>
    by_cases hp : coord = GL_T ∧ pname = GL_TEXTURE_GEN_MODE ∧ param = GL_SPHERE_MAP
    · simp only [APICall.texWriter] at hw
      rw [if_pos hp] at hw
      obtain ⟨rfl, rfl, rfl⟩ := hp
      obtain ⟨t, ht, hreg, _⟩ := glTexGeni_sphere_loads gx ext s
      have h2 : WiiGL.glTexGeni gx ext GL_T GL_TEXTURE_GEN_MODE GL_SPHERE_MAP s = .ok s' := h
      rw [ht] at h2
      cases h2
      rw [hreg]
      exact hw
    · have hk : ∀ v, (APICall.glTexGeni coord pname param).texWriter ext s v = v := by
        intro v
        simp only [APICall.texWriter]
        rw [if_neg hp]
      rw [hk w] at hw
      rw [APICall.run_texMtx gx ext _ s s' hm h hk]
      exact hd hw
  | _ =>
    rw [APICall.run_texMtx gx ext _ s s' hm h (fun _ => rfl)]
    exact hd hw

theorem reachableTex_reachable [Field α] (gx : GXConsts) (ext : Ext α)
    (w : Option (Mtx44 α)) (s : Context α) (h : ReachableTex gx ext w s) :
    Reachable gx ext s := by
  induction h with
  | create s0 s h => exact .create s0 s h
  | step w s s' c _ h ih => exact .step s s' c ih h

theorem reachable_reachableTex [Field α] (gx : GXConsts) (ext : Ext α) (s : Context α)
    (h : Reachable gx ext s) : ∃ w, ReachableTex gx ext w s := by
  induction h with
  | create s0 s h => exact ⟨none, .create s0 s h⟩
  | step s s' c _ h ih =>
    obtain ⟨w, hw⟩ := ih
    exact ⟨_, .step w s s' c hw h⟩

/-- Texture matrix 0 is what the record of its most recent write says: the top of the
texture stack after a load of that top, the matrix of the sphere-map case of `glTexGeni`
after that call. -/
theorem reachableTex_slot [Field α] (gx : GXConsts) (ext : Ext α) (w : Option (Mtx44 α))
    (s : Context α) (h : ReachableTex gx ext w s) :
    (w = none → MirrorsTexture gx s) ∧
    (∀ m, w = some m → (hwRegs gx s.hw).texMtx = some m) := by
  induction h with
  | create s0 s h =>
    refine ⟨fun _ => okAll_ok (wiigl_create_context_mirrors gx ext s0) h .texture, ?_⟩
    intro m e
    cases e
  | step w s s' c hs h ih =>
    have hm := (reachable_invariant gx ext s (reachableTex_reachable gx ext w s hs)).2
    refine ⟨fun e => APICall.run_loads_texture gx ext c s s' hm h w e ih.1, ?_⟩
    intro m e
    exact APICall.run_sphere_texture gx ext c s s' hm h w m e (fun e2 => ih.2 m e2)

theorem sphereCtx_tex :
    ReachableTex libogc sphereExt
      (some (sphereMapMtx sphereExt (wiigl_create_context libogc sphereExt exampleCtx).state))
      sphereCtx :=
  .step none (wiigl_create_context libogc sphereExt exampleCtx).state sphereCtx
    (.glTexGeni GL_T GL_TEXTURE_GEN_MODE GL_SPHERE_MAP) (.create exampleCtx _ rfl) rfl

theorem reloadedCtx_tex : ReachableTex libogc sphereExt none reloadedCtx :=
  .step _ (glMatrixMode GL_TEXTURE sphereCtx).state reloadedCtx .glLoadIdentity
    (.step _ sphereCtx _ (.glMatrixMode GL_TEXTURE) sphereCtx_tex rfl) rfl

/-- Claim C28, amended: in every state reachable from `wiigl_create_context` by API calls
that returned, the position matrix and the projection matrix most recently loaded into
the hardware are the tops of the model-view and of the projection stack. Texture matrix 0
holds what the most recent write to it loaded. Every reachable state has a record of that
write. If the record is a load of the top of the texture stack (by `wiigl_create_context`
or by a matrix call in texture mode, whatever came before), texture matrix 0 is the top of
the texture stack; this is so in particular in every state reached without the sphere-map
case of `glTexGeni`. If the record is the sphere-map case of `glTexGeni`, texture matrix 0
is the matrix that call loaded. That call, made in any reachable state, returns, loads the
matrix `sphereMapMtx` derived from the model-view top, and changes none of the stacks. -/
theorem hardware_matrices_mirror_stacks [Field α] (gx : GXConsts) (ext : Ext α)
    (s : Context α) (h : Reachable gx ext s) :
    MirrorsStacks gx s ∧
    (ReachableVia gx ext (fun c => ¬ c.isSphereMapGen) s → MirrorsTexture gx s) ∧
    (∃ w, ReachableTex gx ext w s) ∧
    (ReachableTex gx ext none s → MirrorsTexture gx s) ∧
    (∀ m, ReachableTex gx ext (some m) s → (hwRegs gx s.hw).texMtx = some m) ∧
    ∃ s', glTexGeni gx ext GL_T GL_TEXTURE_GEN_MODE GL_SPHERE_MAP s = .ok s' ∧
      (hwRegs gx s'.hw).texMtx = some (sphereMapMtx ext s) ∧
      s'.textureMtxStack = s.textureMtxStack ∧
      s'.modelviewMtxStack = s.modelviewMtxStack ∧
      s'.projMtxStack = s.projMtxStack := by
  have hv := reachable_reachableVia gx ext s h
  refine ⟨⟨?_, ?_⟩, fun ht => ?_, reachable_reachableTex gx ext s h, fun ht => ?_,
    fun m ht => ?_, glTexGeni_sphere_loads gx ext s⟩
  · exact reachableVia_mirrorsAt gx ext _ .modelview (fun e => by cases e) s hv
  · exact reachableVia_mirrorsAt gx ext _ .proj (fun e => by cases e) s hv
  · exact reachableVia_mirrorsAt gx ext _ .texture (fun _ c hc => hc) s ht
  · exact (reachableTex_slot gx ext none s ht).1 rfl
  · exact (reachableTex_slot gx ext (some m) s ht).2 m rfl

theorem hardware_matrices_mirror_stacks_witness :
    (Reachable libogc sphereExt reloadedCtx ∧ ReachableTex libogc sphereExt none reloadedCtx ∧
      MirrorsStacks libogc reloadedCtx ∧ MirrorsTexture libogc reloadedCtx ∧
      reloadedCtx.textureMtxStack.stack reloadedCtx.textureMtxStack.stackPos 0 0 = 1 ∧
      (hwRegs libogc reloadedCtx.hw).texMtx =
        some (reloadedCtx.textureMtxStack.stack reloadedCtx.textureMtxStack.stackPos)) ∧
    (Reachable libogc sphereExt sphereCtx ∧
      (hwRegs libogc sphereCtx.hw).texMtx =
        some (guMtxApplyScale (guMtxApplyTrans idMtx 0.5 (-0.5) 0) 0.5 0.5 1)) ∧
    (Reachable libogc exampleExt movedCtx ∧ MirrorsStacks libogc movedCtx ∧
      MirrorsTexture libogc movedCtx) :=
  have hr := reachableTex_reachable libogc sphereExt none reloadedCtx reloadedCtx_tex
  have hs := reachableTex_reachable libogc sphereExt _ sphereCtx sphereCtx_tex
  have hm := reachableVia_reachable libogc exampleExt _ movedCtx movedCtx_via
  ⟨⟨hr, reloadedCtx_tex, (hardware_matrices_mirror_stacks libogc sphereExt reloadedCtx hr).1,
      (hardware_matrices_mirror_stacks libogc sphereExt reloadedCtx hr).2.2.2.1
        reloadedCtx_tex, rfl,
      (hardware_matrices_mirror_stacks libogc sphereExt reloadedCtx hr).2.2.2.1
        reloadedCtx_tex⟩,
    ⟨hs, (hardware_matrices_mirror_stacks libogc sphereExt sphereCtx hs).2.2.2.2.1 _
      sphereCtx_tex⟩,
    ⟨hm, (hardware_matrices_mirror_stacks libogc exampleExt movedCtx hm).1,
      (hardware_matrices_mirror_stacks libogc exampleExt movedCtx hm).2.1 movedCtx_via⟩⟩

end TextureSlotFacts

section TexParameterFacts

variable {α : Type}

/-- The fatal-error path of `glTexParameteri` is taken exactly when no texture is bound,
or the parameter name is none of the four, or `gl_enum_to_gx` does not know the value. The
`initialized` flag of the bound texture is not looked at. -/
theorem glTexParameteri_fatal_iff (gx : GXConsts) (s : Context α)
    (target pname param : Int) :
    (glTexParameteri gx target pname param s).isFatal = true ↔
      (s.boundTexture = 0 ∨ pname ∉ textureParameters ∨ gl_enum_to_gx gx param = none) := by
  unfold glTexParameteri textureParameters
  by_cases hb : s.boundTexture = 0
  · simp [hb, Result.isFatal]
  rw [if_neg hb]
  dsimp only
  cases hv : gl_enum_to_gx gx param with
  | none =>
    simp only [hb, false_or, or_true, iff_true]
    split_ifs <;> rfl
  | some v =>
    simp only [hb, false_or, or_false, List.mem_cons, List.mem_singleton, List.not_mem_nil]
    split_ifs with h1 h2 h3 h4
    · simp [Result.isFatal, h1]
    · simp [Result.isFatal, h2]
    · simp [Result.isFatal, h3]
    · simp [Result.isFatal, h4]
    · simp [Result.isFatal, h1, h2, h3, h4]

/-- With a texture bound, one of the four parameter names and a value `gl_enum_to_gx`
knows, `glTexParameteri` returns, whatever the `initialized` flag of the bound texture. It
keeps the binding, the `initialized` flag and the image buffer, and changes no other
texture object. A filter name sets the cached filter of that name and writes both filters
into the descriptor; a wrap name leaves the cached filters alone and writes the wrap mode
of that name into the descriptor, the other wrap mode being the one read back from the
descriptor. -/
theorem glTexParameteri_effect (gx : GXConsts) (s : Context α) (target pname param v : Int)
    (hb : s.boundTexture ≠ 0) (hp : pname ∈ textureParameters)
    (hv : gl_enum_to_gx gx param = some v) :
    ∃ s', glTexParameteri gx target pname param s = .ok s' ∧
      s'.boundTexture = s.boundTexture ∧
      (∀ t, t ≠ s.boundTexture → s'.textures t = s.textures t) ∧
      (s'.textures s.boundTexture).initialized = (s.textures s.boundTexture).initialized ∧
      (s'.textures s.boundTexture).imgBuffer = (s.textures s.boundTexture).imgBuffer ∧
      (pname = GL_TEXTURE_MAG_FILTER →
        (s'.textures s.boundTexture).magFilter = to_u8 v ∧
        (s'.textures s.boundTexture).minFilter = (s.textures s.boundTexture).minFilter ∧
        (s'.textures s.boundTexture).texObj =
          { (s.textures s.boundTexture).texObj with
            minfilt := (s.textures s.boundTexture).minFilter, magfilt := to_u8 v } ∧
        s'.hw = s.hw ++ [.GetTexObjAll s.boundTexture,
          .InitTexObjFilterMode s.boundTexture (s.textures s.boundTexture).minFilter
            (to_u8 v)]) ∧
      (pname = GL_TEXTURE_MIN_FILTER →
        (s'.textures s.boundTexture).minFilter = to_u8 v ∧
        (s'.textures s.boundTexture).magFilter = (s.textures s.boundTexture).magFilter ∧
        (s'.textures s.boundTexture).texObj =
          { (s.textures s.boundTexture).texObj with
            minfilt := to_u8 v, magfilt := (s.textures s.boundTexture).magFilter } ∧
        s'.hw = s.hw ++ [.GetTexObjAll s.boundTexture,
          .InitTexObjFilterMode s.boundTexture (to_u8 v)
            (s.textures s.boundTexture).magFilter]) ∧
      (pname = GL_TEXTURE_WRAP_S →
        (s'.textures s.boundTexture).magFilter = (s.textures s.boundTexture).magFilter ∧
        (s'.textures s.boundTexture).minFilter = (s.textures s.boundTexture).minFilter ∧
        (s'.textures s.boundTexture).texObj =
          { (s.textures s.boundTexture).texObj with wrap_s := to_u8 v } ∧
        s'.hw = s.hw ++ [.GetTexObjAll s.boundTexture,
          .InitTexObjWrapMode s.boundTexture (to_u8 v)
            (s.textures s.boundTexture).texObj.wrap_t]) ∧
      (pname = GL_TEXTURE_WRAP_T →
        (s'.textures s.boundTexture).magFilter = (s.textures s.boundTexture).magFilter ∧
        (s'.textures s.boundTexture).minFilter = (s.textures s.boundTexture).minFilter ∧
        (s'.textures s.boundTexture).texObj =
          { (s.textures s.boundTexture).texObj with wrap_t := to_u8 v } ∧
        s'.hw = s.hw ++ [.GetTexObjAll s.boundTexture,
          .InitTexObjWrapMode s.boundTexture (s.textures s.boundTexture).texObj.wrap_s
            (to_u8 v)]) := by
  have h1 : GL_TEXTURE_MIN_FILTER ≠ GL_TEXTURE_MAG_FILTER := by decide
  have h2 : GL_TEXTURE_WRAP_S ≠ GL_TEXTURE_MAG_FILTER := by decide
  have h3 : GL_TEXTURE_WRAP_S ≠ GL_TEXTURE_MIN_FILTER := by decide
  have h4 : GL_TEXTURE_WRAP_T ≠ GL_TEXTURE_MAG_FILTER := by decide
  have h5 : GL_TEXTURE_WRAP_T ≠ GL_TEXTURE_MIN_FILTER := by decide
  have h6 : GL_TEXTURE_WRAP_T ≠ GL_TEXTURE_WRAP_S := by decide
  unfold textureParameters at hp
  simp only [List.mem_cons, List.mem_singleton, List.not_mem_nil, or_false] at hp
  unfold glTexParameteri
  rw [if_neg hb]
  simp only [hv]
  rcases hp with rfl | rfl | rfl | rfl
  · rw [if_pos rfl]
    refine ⟨_, rfl, rfl, ?_, ?_, ?_, ?_, ?_, ?_, ?_⟩
    · intro t ht
      exact Function.update_noteq ht _ _
    all_goals simp [h1.symm, h2.symm, h4.symm, Context.emit]
  · rw [if_neg h1, if_pos rfl]
    refine ⟨_, rfl, rfl, ?_, ?_, ?_, ?_, ?_, ?_, ?_⟩
    · intro t ht
      exact Function.update_noteq ht _ _
    all_goals simp [h1, h3.symm, h5.symm, Context.emit]
  · rw [if_neg h2, if_neg h3, if_pos rfl]
    refine ⟨_, rfl, rfl, ?_, ?_, ?_, ?_, ?_, ?_, ?_⟩
    · intro t ht
      exact Function.update_noteq ht _ _
    all_goals simp [h2, h3, h6.symm, Context.emit]
  · rw [if_neg h4, if_neg h5, if_neg h6, if_pos rfl]
    refine ⟨_, rfl, rfl, ?_, ?_, ?_, ?_, ?_, ?_, ?_⟩
    · intro t ht
      exact Function.update_noteq ht _ _
    all_goals simp [h4, h5, h6, Context.emit]

theorem glTexParameteri_effect_witness :
    texCtx.boundTexture ≠ 0 ∧ GL_TEXTURE_WRAP_T ∈ textureParameters ∧
    gl_enum_to_gx libogc GL_REPEAT = some 1 ∧
    ∃ s', glTexParameteri libogc GL_TEXTURE_2D GL_TEXTURE_WRAP_T GL_REPEAT texCtx = .ok s' ∧
      (s'.textures texCtx.boundTexture).initialized = false ∧
      (s'.textures texCtx.boundTexture).texObj.wrap_t = 1 := by
  refine ⟨by decide, by decide, rfl, ?_⟩
  obtain ⟨s', e, _, _, hi, _, _, _, _, hw⟩ :=
    glTexParameteri_effect libogc texCtx GL_TEXTURE_2D GL_TEXTURE_WRAP_T GL_REPEAT 1
      (by decide) (by decide) rfl
  refine ⟨s', e, hi, ?_⟩
  rw [(hw rfl).2.2.1]
  rfl

theorem genTexCtx_reachable : Reachable libogc exampleExt genTexCtx :=
  .step _ genTexCtx (.glBindTexture GL_TEXTURE_2D 0x900)
    (.step createdCtx _ (.glGenTextures 1 0x5000 (fun _ => 0x900))
      (.create exampleCtx createdCtx createdCtx_ok) rfl)
    rfl

/-- Claim C17 fails: `glTexParameteri` does not look at the `initialized` flag. After
`wiigl_create_context`, `glGenTextures` and `glBindTexture`, a reachable state, a texture
is bound on which no image has been uploaded (its flag is false, its image buffer `NULL`).
With each of the four parameter names the call returns instead of taking the fatal-error
path, and it changes texture state: `GL_TEXTURE_MAG_FILTER` with `GL_NEAREST` changes the
cached magnification filter from `GX_LINEAR` (1) to `GX_NEAR` (0), and `GL_TEXTURE_WRAP_S`
with `GL_REPEAT` changes the wrap mode in the descriptor, which no call has initialised,
from 0 to `GX_REPEAT` (1); the flag stays false. The wrap mode set this way does not
survive the upload: after a following `glTexImage2D` it is `GX_CLAMP` (0) again, while the
filter set before the upload is still in the descriptor. -/
theorem glTexParameteri_without_image :
    Reachable libogc exampleExt genTexCtx ∧
    genTexCtx.boundTexture = 0x900 ∧
    (genTexCtx.textures 0x900).initialized = false ∧
    (genTexCtx.textures 0x900).imgBuffer = none ∧
    (glTexParameteri libogc GL_TEXTURE_2D GL_TEXTURE_MAG_FILTER GL_NEAREST genTexCtx).isFatal
      = false ∧
    (glTexParameteri libogc GL_TEXTURE_2D GL_TEXTURE_MIN_FILTER GL_NEAREST genTexCtx).isFatal
      = false ∧
    (glTexParameteri libogc GL_TEXTURE_2D GL_TEXTURE_WRAP_S GL_REPEAT genTexCtx).isFatal
      = false ∧
    (glTexParameteri libogc GL_TEXTURE_2D GL_TEXTURE_WRAP_T GL_REPEAT genTexCtx).isFatal
      = false ∧
    (genTexCtx.textures 0x900).magFilter = 1 ∧
    ((glTexParameteri libogc GL_TEXTURE_2D GL_TEXTURE_MAG_FILTER GL_NEAREST
      genTexCtx).state.textures 0x900).magFilter = 0 ∧
    (genTexCtx.textures 0x900).texObj.wrap_s = 0 ∧
    ((glTexParameteri libogc GL_TEXTURE_2D GL_TEXTURE_WRAP_S GL_REPEAT
      genTexCtx).state.textures 0x900).texObj.wrap_s = 1 ∧
    ((glTexParameteri libogc GL_TEXTURE_2D GL_TEXTURE_WRAP_S GL_REPEAT
      genTexCtx).state.textures 0x900).initialized = false ∧
    ((glTexImage2D libogc GL_TEXTURE_2D 0 GL_RGBA 1 1 0 GL_RGBA GL_UNSIGNED_BYTE 0x4000
      (glTexParameteri libogc GL_TEXTURE_2D GL_TEXTURE_WRAP_S GL_REPEAT
        genTexCtx).state).state.textures 0x900).texObj.wrap_s = 0 ∧
    ((glTexImage2D libogc GL_TEXTURE_2D 0 GL_RGBA 1 1 0 GL_RGBA GL_UNSIGNED_BYTE 0x4000
      (glTexParameteri libogc GL_TEXTURE_2D GL_TEXTURE_MAG_FILTER GL_NEAREST
        genTexCtx).state).state.textures 0x900).texObj.magfilt = 0 := by
  refine ⟨genTexCtx_reachable, ?_, ?_, ?_, ?_, ?_, ?_, ?_, ?_, ?_, ?_, ?_, ?_, ?_, ?_⟩ <;>
    decide

end TexParameterFacts

section DescriptorFacts

variable {α : Type}

theorem okSame_congr {β : Type} {r : Result (Context α)} {obs : Context α → β}
    {s t : Context α} (h : obs s = obs t) (hr : r.okSame obs s) : r.okSame obs t := by
  cases r with
  | ok u => exact Eq.trans hr h
  | fatal msg u => exact trivial

theorem okSame_andThen {β : Type} {r : Result (Context α)}
    {f : Context α → Result (Context α)} {obs : Context α → β} {s : Context α}
    (hr : r.okSame obs s) (hf : ∀ t, (f t).okSame obs t) : (r.andThen f).okSame obs s := by
  cases r with
  | ok t => exact okSame_congr hr (hf t)
  | fatal msg t => exact trivial

/-! ### Calls that leave the registers outside the matrix slots alone -/

theorem switchView_setCurr (gx : GXConsts) (s : Context α) (ms : MatrixStack α) :
    (s.setCurr ms).switchView gx = s.switchView gx := by
  unfold Context.setCurr
  cases s.currMtxStack <;> rfl

theorem switchView_emit (gx : GXConsts) (s : Context α) (c : GXCall α)
    (h : ∀ r : HwRegs α, (c.exec gx r).numTevStages = r.numTevStages ∧
      (c.exec gx r).numChans = r.numChans ∧ (c.exec gx r).cullMode = r.cullMode ∧
      (c.exec gx r).litmask = r.litmask ∧ (c.exec gx r).armed = r.armed) :
    (s.emit c).switchView gx = s.switchView gx := by
  obtain ⟨h1, h2, h3, h4, h5⟩ := h (hwRegs gx s.hw)
  simp only [Context.switchView, Context.emit, hwRegs_snoc, h1, h2, h3, h4, h5]

theorem load_curr_matrix_switchView (gx : GXConsts) (ext : Ext α) (s : Context α) :
    (load_curr_matrix gx ext s).okSame (Context.switchView gx) s := by
  unfold load_curr_matrix
  repeat' first | apply okSame_ite | exact trivial | exact rfl | (show Context.switchView gx _ = _; simp only [Context.switchView, Context.emit, hwRegs_snoc, GXCall.exec])

theorem mutate_switchView (gx : GXConsts) (ext : Ext α) (s : Context α) (m : Mtx44 α) :
    (load_curr_matrix gx ext (setCURR_MATRIX s m)).okSame (Context.switchView gx) s :=
  okSame_congr (switchView_setCurr gx s _) (load_curr_matrix_switchView gx ext _)

theorem glMatrixMode_switchView (gx : GXConsts) (mode : Int) (s : Context α) :
    (glMatrixMode mode s).okSame (Context.switchView gx) s := by
  unfold glMatrixMode
  repeat' first | apply okSame_ite | exact trivial | exact rfl

theorem glPushMatrix_switchView (gx : GXConsts) (s : Context α) :
    (glPushMatrix s).okSame (Context.switchView gx) s := by
  unfold glPushMatrix
  apply okSame_ite
  · exact trivial
  · exact switchView_setCurr gx s _

theorem glPopMatrix_switchView (gx : GXConsts) (ext : Ext α) (s : Context α) :
    (glPopMatrix gx ext s).okSame (Context.switchView gx) s := by
  unfold glPopMatrix
  dsimp only
  apply okSame_ite
  · exact trivial
  · exact okSame_congr (switchView_setCurr gx s _) (load_curr_matrix_switchView gx ext _)

theorem glOrtho_switchView [Field α] (gx : GXConsts) (ext : Ext α) (s : Context α)
    (l r b t n f : α) : (glOrtho gx ext l r b t n f s).okSame (Context.switchView gx) s := by
  unfold glOrtho
  dsimp only
  apply okSame_ite
  · show Context.switchView gx (Context.emit _ _) = _
    refine (switchView_emit gx _ _ ?_).trans (switchView_setCurr gx s _)
    intro r
    exact ⟨rfl, rfl, rfl, rfl, rfl⟩
  · exact mutate_switchView gx ext s _

theorem glTexGeni_switchView [Field α] (gx : GXConsts) (ext : Ext α)
    (coord pname param : Int) (s : Context α) :
    (glTexGeni gx ext coord pname param s).okSame (Context.switchView gx) s := by
  unfold glTexGeni
  repeat' first | apply okSame_ite | exact trivial | exact rfl | (show Context.switchView gx _ = _; simp only [Context.switchView, Context.emit, hwRegs_snoc, GXCall.exec])

theorem switchView_emitVertex (gx : GXConsts) (i : Int) (t : Context α) :
    (emitVertex i t).switchView gx = t.switchView gx := by
  simp only [emitVertex, Context.switchView, hwRegs_append, exec_vertexRecords]

theorem switchView_setup_drawing (gx : GXConsts) (s : Context α) :
    (setup_drawing gx s).switchView gx = s.switchView gx := by
  unfold setup_drawing
  dsimp only
  by_cases h : s.clientEnabled.textureCoordArray = true
  · rw [if_pos h]
    simp only [Context.switchView, Context.emit, hwRegs_snoc, GXCall.exec]
  · rw [if_neg h]
    simp only [Context.switchView, Context.emit, hwRegs_snoc, GXCall.exec]

theorem switchView_drawPrologue [Field α] (gx : GXConsts) (ext : Ext α) (s : Context α) :
    (drawPrologue gx ext s).switchView gx = s.switchView gx := by
  unfold drawPrologue
  dsimp only
  refine (switchView_emit gx _ _ ?_).trans ?_
  · intro r
    exact ⟨rfl, rfl, rfl, rfl, rfl⟩
  rw [switchView_setup_drawing]
  have h1 : (if s.serverEnabled.texture2d = true ∧ s.boundTexture ≠ 0 then
      s.emit (.LoadTexObj s.boundTexture gx.GX_TEXMAP0) else s).switchView gx =
      s.switchView gx := by
    by_cases h : s.serverEnabled.texture2d = true ∧ s.boundTexture ≠ 0
    · rw [if_pos h]
      simp only [Context.switchView, Context.emit, hwRegs_snoc, GXCall.exec]
    · rw [if_neg h]
  refine Eq.trans ?_ h1
  generalize (if s.serverEnabled.texture2d = true ∧ s.boundTexture ≠ 0 then
      s.emit (.LoadTexObj s.boundTexture gx.GX_TEXMAP0) else s) = t
  by_cases h : t.serverEnabled.polygonOffsetFill = true
  · rw [if_pos h]
    simp only [Context.switchView, Context.emit, hwRegs_snoc, GXCall.exec]
  · rw [if_neg h]

theorem switchView_drawEpilogue (gx : GXConsts) (t : Context α) :
    (drawEpilogue gx t).switchView gx = t.switchView gx := by
  unfold drawEpilogue
  dsimp only
  rw [serverEnabled_emit]
  by_cases h : t.serverEnabled.polygonOffsetFill = true
  · rw [if_pos h]
    simp only [Context.switchView, Context.emit, hwRegs_snoc, GXCall.exec]
  · rw [if_neg h]
    simp only [Context.switchView, Context.emit, hwRegs_snoc, GXCall.exec]

theorem switchView_begin [Field α] (gx : GXConsts) (ext : Ext α) (s : Context α)
    (m : Int) (n : Nat) :
    ((drawPrologue gx ext s).emit (.Begin m gx.GX_VTXFMT0 n)).switchView gx =
      s.switchView gx := by
  refine (switchView_emit gx _ _ ?_).trans (switchView_drawPrologue gx ext s)
  intro r
  exact ⟨rfl, rfl, rfl, rfl, rfl⟩

theorem glDrawArrays_switchView [Field α] (gx : GXConsts) (ext : Ext α) (mode first : Int)
    (count : Nat) (s : Context α) :
    (glDrawArrays gx ext mode first count s).okSame (Context.switchView gx) s := by
  unfold glDrawArrays
  cases gl_enum_to_gx gx mode with
  | none => exact trivial
  | some m =>
    show Context.switchView gx (drawEpilogue gx _) = _
    rw [switchView_drawEpilogue]
    refine (same_foldl (Context.switchView gx) _ ?_ _ _).trans ?_
    · intro t i
      exact switchView_emitVertex gx _ t
    · exact switchView_begin gx ext s _ _

theorem drawElementsStep_switchView (gx : GXConsts) (type : Int) (indices : Nat)
    (t : Context α) (i : Nat) :
    (drawElementsStep type indices t i).okSame (Context.switchView gx) t := by
  unfold drawElementsStep
  repeat' first | apply okSame_ite | exact trivial | exact switchView_emitVertex gx _ t

theorem glDrawElements_switchView [Field α] (gx : GXConsts) (ext : Ext α) (mode : Int)
    (count : Nat) (type : Int) (indices : Nat) (s : Context α) :
    (glDrawElements gx ext mode count type indices s).okSame (Context.switchView gx) s := by
  unfold glDrawElements
  cases gl_enum_to_gx gx mode with
  | none => exact trivial
  | some m =>
    dsimp only
    apply okSame_andThen
    · exact okSame_foldl (Context.switchView gx) _ (drawElementsStep_switchView gx type _) _ s
        _ (switchView_begin gx ext s _ _)
    · intro t
      exact switchView_drawEpilogue gx t

/-! ### Calls that leave the vertex descriptors alone -/

theorem armedView_of_hwView (gx : GXConsts) {s s' : Context α}
    (h : s'.hwView gx = s.hwView gx) : s'.armedView gx = s.armedView gx := by
  simp only [Context.hwView, Prod.mk.injEq] at h
  obtain ⟨h1, _, _, _, _, h6, _⟩ := h
  simp only [Context.armedView, h1, h6]

theorem armedView_of_switchView (gx : GXConsts) {s s' : Context α}
    (h : s'.switchView gx = s.switchView gx) : s'.armedView gx = s.armedView gx := by
  simp only [Context.switchView, Prod.mk.injEq] at h
  obtain ⟨_, _, _, _, h5, _, h7, _⟩ := h
  simp only [Context.armedView, h5, h7]

theorem glEnable_armedView (gx : GXConsts) (cap : Int) (s : Context α) :
    (glEnable gx cap s).okSame (Context.armedView gx) s := by
  unfold glEnable
  repeat' first | apply okSame_ite | exact trivial | exact rfl | (show Context.armedView gx _ = _; simp only [Context.armedView, Context.emit, hwRegs_snoc, GXCall.exec, eq_self, if_true])

theorem glDisable_armedView (gx : GXConsts) (cap : Int) (s : Context α) :
    (glDisable gx cap s).okSame (Context.armedView gx) s := by
  unfold glDisable
  repeat' first | apply okSame_ite | exact trivial | exact rfl | (show Context.armedView gx _ = _; simp only [Context.armedView, Context.emit, hwRegs_snoc, GXCall.exec, eq_self, if_true])

theorem glCullFace_armedView (gx : GXConsts) (mode : Int) (s : Context α) :
    (glCullFace gx mode s).okSame (Context.armedView gx) s := by
  unfold glCullFace
  cases gl_enum_to_gx gx mode with
  | none => exact trivial
  | some v => (show Context.armedView gx _ = _; simp only [Context.armedView, Context.emit, hwRegs_snoc, GXCall.exec, eq_self, if_true])

/-! ### The vertex descriptors and the client flags -/

theorem vtxDistinct_ne (gx : GXConsts) (hd : VtxDistinct gx) :
    gx.GX_VA_POS ≠ gx.GX_VA_NRM ∧ gx.GX_VA_POS ≠ gx.GX_VA_CLR0 ∧
    gx.GX_VA_POS ≠ gx.GX_VA_TEX0 ∧ gx.GX_VA_NRM ≠ gx.GX_VA_CLR0 ∧
    gx.GX_VA_NRM ≠ gx.GX_VA_TEX0 ∧ gx.GX_VA_CLR0 ≠ gx.GX_VA_TEX0 ∧
    gx.GX_INDEX16 ≠ gx.GX_NONE := by
  unfold VtxDistinct at hd
  simp only [List.nodup_cons, List.mem_cons, List.mem_singleton, not_or, List.not_mem_nil,
    not_false_eq_true, List.nodup_nil, and_true] at hd
  obtain ⟨⟨⟨h12, h13, h14⟩, ⟨h23, h24⟩, h34⟩, h0⟩ := hd
  exact ⟨h12, h13, h14, h23, h24, h34, h0⟩

theorem libogc_vtxDistinct : VtxDistinct libogc := by
  unfold VtxDistinct
  decide

theorem armedMirrors_of_armedView (gx : GXConsts) {s s' : Context α}
    (h : s'.armedView gx = s.armedView gx) (hs : ArmedMirrors gx s) : ArmedMirrors gx s' := by
  simp only [Context.armedView, Prod.mk.injEq] at h
  unfold ArmedMirrors at hs ⊢
  rw [h.1, h.2]
  exact hs

theorem glEnableClientState_armed (gx : GXConsts) (hd : VtxDistinct gx) (cap : Int)
    (s s' : Context α) (h : glEnableClientState gx cap s = .ok s')
    (hs : ArmedMirrors gx s) : ArmedMirrors gx s' := by
  obtain ⟨h12, h13, h14, h23, h24, h34, h0⟩ := vtxDistinct_ne gx hd
  obtain ⟨a1, a2, a3, a4⟩ := hs
  unfold glEnableClientState at h
  dsimp only at h
  unfold ArmedMirrors
  split_ifs at h <;> cases h <;>
    simp [Context.emit, hwRegs_snoc, GXCall.exec, Function.update_apply, h12, h13, h14, h23,
      h24, h34, h0, Ne.symm h12, Ne.symm h13, Ne.symm h14, Ne.symm h23, Ne.symm h24,
      Ne.symm h34, a1, a2, a3] <;> exact a4

theorem glDisableClientState_armed (gx : GXConsts) (hd : VtxDistinct gx) (cap : Int)
    (s s' : Context α) (h : glDisableClientState gx cap s = .ok s')
    (hs : ArmedMirrors gx s) : ArmedMirrors gx s' := by
  obtain ⟨h12, h13, h14, h23, h24, h34, h0⟩ := vtxDistinct_ne gx hd
  obtain ⟨a1, a2, a3, a4⟩ := hs
  unfold glDisableClientState at h
  dsimp only at h
  unfold ArmedMirrors
  split_ifs at h <;> cases h <;>
    simp [Context.emit, hwRegs_append, hwRegs_snoc, GXCall.exec, Function.update_apply, h12,
      h13, h14, h23, h24, h34, h0, Ne.symm h0, Ne.symm h12, Ne.symm h13, Ne.symm h14,
      Ne.symm h23, Ne.symm h24, Ne.symm h34, a1, a2, a3] <;> exact a4

theorem glVertexPointer_armed (gx : GXConsts) (hd : VtxDistinct gx) (size type : Int)
    (stride pointer : Nat) (s s' : Context α)
    (h : glVertexPointer gx size type stride pointer s = .ok s') (hs : ArmedMirrors gx s) :
    ArmedMirrors gx s' := by
  obtain ⟨h12, h13, h14, h23, h24, h34, h0⟩ := vtxDistinct_ne gx hd
  obtain ⟨a1, a2, a3, a4⟩ := hs
  unfold glVertexPointer at h
  by_cases hn : size ≠ 2 ∧ size ≠ 3
  · rw [if_pos hn] at h
    cases h
  · rw [if_neg hn] at h
    cases hf : gl_enum_to_gx gx type with
    | none => simp only [hf] at h; cases h
    | some f =>
      simp only [hf] at h
      cases h
      unfold ArmedMirrors
      simp [Context.emit, hwRegs_append, GXCall.exec, Function.update_apply, Ne.symm h12,
        Ne.symm h13, Ne.symm h14, a1, a2, a3]

theorem clientEnabled_of_switchView (gx : GXConsts) {s s' : Context α}
    (h : s'.switchView gx = s.switchView gx) : s'.clientEnabled = s.clientEnabled := by
  simp only [Context.switchView, Prod.mk.injEq] at h
  exact h.2.2.2.2.2.2.1

theorem clientEnabled_of_armedView (gx : GXConsts) {s s' : Context α}
    (h : s'.armedView gx = s.armedView gx) : s'.clientEnabled = s.clientEnabled := by
  simp only [Context.armedView, Prod.mk.injEq] at h
  exact h.2

/-- When `wiigl_create_context` returns, no vertex descriptor is armed and no client array
is enabled. -/
theorem wiigl_create_context_disarmed [Field α] (gx : GXConsts) (ext : Ext α)
    (s0 : Context α) :
    (wiigl_create_context gx ext s0).okAll (fun s =>
      (hwRegs gx s.hw).armed = (fun _ => false) ∧
      s.clientEnabled = noClientArrays) := by
  unfold wiigl_create_context
  dsimp only
  apply okAll_andThen (okAll_of_okSame (glMatrixMode_switchView gx GL_MODELVIEW _))
  intro t1 h1
  apply okAll_andThen (okAll_of_okSame (mutate_switchView gx ext t1 _))
  intro t2 h2
  apply okAll_andThen (okAll_of_okSame (glMatrixMode_switchView gx GL_PROJECTION _))
  intro t3 h3
  apply okAll_andThen (okAll_of_okSame (mutate_switchView gx ext t3 _))
  intro t4 h4
  apply okAll_andThen (okAll_of_okSame (glMatrixMode_switchView gx GL_TEXTURE _))
  intro t5 h5
  apply okAll_andThen (okAll_of_okSame (mutate_switchView gx ext t5 _))
  intro t6 h6
  apply okAll_andThen (okAll_of_okSame (glDisable_armedView gx GL_TEXTURE_2D _))
  intro t7 h7
  apply okAll_andThen (okAll_of_okSame (glMatrixMode_switchView gx GL_MODELVIEW _))
  intro t8 h8
  have c1 : t1.clientEnabled = noClientArrays := by
    have e := clientEnabled_of_switchView gx h1
    exact e
  have c2 := clientEnabled_of_switchView gx h2
  have c3 := clientEnabled_of_switchView gx h3
  have c4 := clientEnabled_of_switchView gx h4
  have c5 := clientEnabled_of_switchView gx h5
  have c6 := clientEnabled_of_switchView gx h6
  have c7 : t7.clientEnabled = t6.clientEnabled := by
    have e := clientEnabled_of_armedView gx h7
    exact e
  have c8 : t8.clientEnabled = t7.clientEnabled := by
    have e := clientEnabled_of_switchView gx h8
    exact e
  refine ⟨?_, ?_⟩
  · simp only [Context.emit, hwRegs_snoc, GXCall.exec]
  · show Context.clientEnabled _ = _
    simp only [clientEnabled_emit]
    rw [c8, c7, c6, c5, c4, c3, c2, c1]

theorem wiigl_create_context_armed [Field α] (gx : GXConsts) (ext : Ext α)
    (s0 : Context α) : (wiigl_create_context gx ext s0).okAll (ArmedMirrors gx) := by
  apply okAll_of_forall
  intro s h
  obtain ⟨ha, hc⟩ := okAll_ok (wiigl_create_context_disarmed gx ext s0) h
  unfold ArmedMirrors
  rw [ha, hc]
  exact ⟨rfl, rfl, rfl, fun e => by cases e⟩

/-- Every API call that returns keeps the agreement of the vertex descriptors with the
client flags, in the form `ArmedMirrors`. -/
theorem APICall.run_armed [Field α] (gx : GXConsts) (hd : VtxDistinct gx) (ext : Ext α)
    (c : APICall α) (s s' : Context α) (h : c.run gx ext s = .ok s')
    (hs : ArmedMirrors gx s) : ArmedMirrors gx s' := by
  cases c with
  | wiigl_create_context => exact okAll_ok (wiigl_create_context_armed gx ext s) h
  | wiigl_swap_buffers =>
    exact armedMirrors_of_armedView gx (armedView_of_hwView gx (okSame_ok (wiigl_swap_buffers_quiet gx s) h)) hs
  | glClearColor r g b a =>
    exact armedMirrors_of_armedView gx (armedView_of_hwView gx (okSame_ok (glClearColor_quiet gx ext r g b a s) h)) hs
  | glGenBuffers n buffers fresh =>
    exact armedMirrors_of_armedView gx (armedView_of_hwView gx (okSame_ok (glGenBuffers_quiet gx n buffers fresh s) h)) hs
  | glBindBuffer target buffer =>
    exact armedMirrors_of_armedView gx (armedView_of_hwView gx (okSame_ok (glBindBuffer_quiet gx target buffer s) h)) hs
  | glBufferData target size data usage newData =>
    exact armedMirrors_of_armedView gx (armedView_of_hwView gx (okSame_ok (glBufferData_quiet gx target size data usage newData s) h)) hs
  | glBufferSubData target offset size data =>
    exact armedMirrors_of_armedView gx (armedView_of_hwView gx (okSame_ok (glBufferSubData_quiet gx target offset size data s) h)) hs
  | glColor4ub r g b a =>
    exact armedMirrors_of_armedView gx (armedView_of_hwView gx (okSame_ok (glColor4ub_quiet gx r g b a s) h)) hs
  | glColor4f r g b a =>
    exact armedMirrors_of_armedView gx (armedView_of_hwView gx (okSame_ok (glColor4f_quiet gx ext r g b a s) h)) hs
  | glColorPointer size type stride pointer =>
    exact armedMirrors_of_armedView gx (armedView_of_hwView gx (okSame_ok (glColorPointer_quiet gx size type stride pointer s) h)) hs
  | glTexCoordPointer size type stride pointer =>
    exact armedMirrors_of_armedView gx (armedView_of_hwView gx (okSame_ok (glTexCoordPointer_quiet gx size type stride pointer s) h)) hs
  | glNormalPointer type stride pointer =>
    exact armedMirrors_of_armedView gx (armedView_of_hwView gx (okSame_ok (glNormalPointer_quiet gx type stride pointer s) h)) hs
  | glGenTextures n textures fresh =>
    exact armedMirrors_of_armedView gx (armedView_of_hwView gx (okSame_ok (glGenTextures_quiet gx n textures fresh s) h)) hs
  | glBindTexture target texture =>
    exact armedMirrors_of_armedView gx (armedView_of_hwView gx (okSame_ok (glBindTexture_quiet gx target texture s) h)) hs
  | glTexImage2D target level internalformat width height border format type data =>
    exact armedMirrors_of_armedView gx (armedView_of_hwView gx (okSame_ok (glTexImage2D_quiet gx target level internalformat width height border format type data s) h)) hs
  | glTexParameteri target pname param =>
    exact armedMirrors_of_armedView gx (armedView_of_hwView gx (okSame_ok (glTexParameteri_quiet gx target pname param s) h)) hs
  | glMaterialfv face pname params =>
    exact armedMirrors_of_armedView gx (armedView_of_hwView gx (okSame_ok (glMaterialfv_quiet gx ext face pname params s) h)) hs
  | glBlendFunc sfactor dfactor =>
    exact armedMirrors_of_armedView gx (armedView_of_hwView gx (okSame_ok (glBlendFunc_quiet gx sfactor dfactor s) h)) hs
  | glDepthMask flag =>
    exact armedMirrors_of_armedView gx (armedView_of_hwView gx (okSame_ok (glDepthMask_quiet gx flag s) h)) hs
  | glPolygonOffset factor units =>
    exact armedMirrors_of_armedView gx (armedView_of_hwView gx (okSame_ok (glPolygonOffset_quiet gx factor units s) h)) hs
  | glDepthFunc func =>
    exact armedMirrors_of_armedView gx (armedView_of_hwView gx (okSame_ok (glDepthFunc_quiet gx func s) h)) hs
  | glLightModelfv pname params =>
    exact armedMirrors_of_armedView gx (armedView_of_hwView gx (okSame_ok (glLightModelfv_quiet gx ext pname params s) h)) hs
  | glLightfv light pname params =>
    exact armedMirrors_of_armedView gx (armedView_of_hwView gx (okSame_ok (glLightfv_quiet gx ext light pname params s) h)) hs
  | glPointSize size =>
    exact armedMirrors_of_armedView gx (armedView_of_hwView gx (okSame_ok (glPointSize_quiet gx size s) h)) hs
  | glGetIntegerv pname data =>
    exact armedMirrors_of_armedView gx (armedView_of_hwView gx (okSame_ok (glGetIntegerv_quiet gx pname data s) h)) hs
  | glGetString name =>
    exact armedMirrors_of_armedView gx (armedView_of_hwView gx (okSame_ok (glGetString_quiet gx name s) h)) hs
  | glMatrixMode mode =>
    exact armedMirrors_of_armedView gx (armedView_of_switchView gx (okSame_ok (glMatrixMode_switchView gx mode s) h)) hs
  | glPushMatrix =>
    exact armedMirrors_of_armedView gx (armedView_of_switchView gx (okSame_ok (glPushMatrix_switchView gx s) h)) hs
  | glPopMatrix =>
    exact armedMirrors_of_armedView gx (armedView_of_switchView gx (okSame_ok (glPopMatrix_switchView gx ext s) h)) hs
  | glLoadIdentity =>
    exact armedMirrors_of_armedView gx (armedView_of_switchView gx (okSame_ok (mutate_switchView gx ext s _) h)) hs
  | glLoadMatrixf m =>
    exact armedMirrors_of_armedView gx (armedView_of_switchView gx (okSame_ok (mutate_switchView gx ext s _) h)) hs
  | glMultMatrixf m =>
    exact armedMirrors_of_armedView gx (armedView_of_switchView gx (okSame_ok (mutate_switchView gx ext s _) h)) hs
  | glTranslatef x y z =>
    exact armedMirrors_of_armedView gx (armedView_of_switchView gx (okSame_ok (mutate_switchView gx ext s _) h)) hs
  | glScalef x y z =>
    exact armedMirrors_of_armedView gx (armedView_of_switchView gx (okSame_ok (mutate_switchView gx ext s _) h)) hs
  | glRotatef angle x y z =>
    exact armedMirrors_of_armedView gx (armedView_of_switchView gx (okSame_ok (mutate_switchView gx ext s _) h)) hs
  | glOrtho l r b t n f =>
    exact armedMirrors_of_armedView gx (armedView_of_switchView gx (okSame_ok (glOrtho_switchView gx ext s l r b t n f) h)) hs
  | glFrustum l r b t n f =>
    exact armedMirrors_of_armedView gx (armedView_of_switchView gx (okSame_ok (mutate_switchView gx ext s _) h)) hs
  | glDrawArrays mode first count =>
    exact armedMirrors_of_armedView gx (armedView_of_switchView gx (okSame_ok (glDrawArrays_switchView gx ext mode first count s) h)) hs
  | glDrawElements mode count type indices =>
    exact armedMirrors_of_armedView gx (armedView_of_switchView gx (okSame_ok (glDrawElements_switchView gx ext mode count type indices s) h)) hs
  | glTexGeni coord pname param =>
    exact armedMirrors_of_armedView gx (armedView_of_switchView gx (okSame_ok (glTexGeni_switchView gx ext coord pname param s) h)) hs
  | glEnable cap =>
    exact armedMirrors_of_armedView gx (okSame_ok (glEnable_armedView gx cap s) h) hs
  | glDisable cap =>
    exact armedMirrors_of_armedView gx (okSame_ok (glDisable_armedView gx cap s) h) hs
  | glCullFace mode =>
    exact armedMirrors_of_armedView gx (okSame_ok (glCullFace_armedView gx mode s) h) hs
  | glEnableClientState cap => exact glEnableClientState_armed gx hd cap s s' h hs
  | glDisableClientState cap => exact glDisableClientState_armed gx hd cap s s' h hs
  | glVertexPointer size type stride pointer =>
    exact glVertexPointer_armed gx hd size type stride pointer s s' h hs
  | blend_factor f =>
    have h2 : (match WiiGL.blend_factor gx f with
      | none => Result.fatal "unknown blend factor" s
      | some _ => Result.ok s) = .ok s' := h
    split at h2
    · cases h2
    · cases h2
      exact hs
  | glDeleteBuffers n buffers =>
    cases h
    exact hs
  | glDeleteTextures n textures =>
    cases h
    exact hs
  | glPointParameterfv =>
    cases h
    exact hs
  | glTexEnvi =>
    cases h
    exact hs
  | glAlphaFunc =>
    cases h
    exact hs
  | glFrontFace =>
    cases h
    exact hs
  | glStencilFunc =>
    cases h
    exact hs
  | glStencilOp =>
    cases h
    exact hs
  | glColorMask =>
    cases h
    exact hs
  | glClear =>
    cases h
    exact hs
  | glClipPlane =>
    cases h
    exact hs
  | glActiveTexture =>
    cases h
    exact hs
  | glClientActiveTexture =>
    cases h
    exact hs
  | glPointParameterf =>
    cases h
    exact hs
  | glPixelStorei =>
    cases h
    exact hs
  | glViewport =>
    cases h
    exact hs
  | glLightModeli =>
    cases h
    exact hs
  | glLightModelf =>
    cases h
    exact hs
  | glPolygonMode =>
    cases h
    exact hs
  | glReadPixels =>
    cases h
    exact hs

/-- In every reachable state the vertex descriptors of the normal, the colour and the
texture-coordinate attribute are armed exactly when the client array is enabled, and the
descriptor of the position attribute is armed whenever the vertex array is enabled; the
converse for the position attribute is what `glVertexPointer` breaks. -/
theorem reachable_armed [Field α] (gx : GXConsts) (hd : VtxDistinct gx) (ext : Ext α)
    (s : Context α) (h : Reachable gx ext s) : ArmedMirrors gx s := by
  induction h with
  | create s0 s h => exact okAll_ok (wiigl_create_context_armed gx ext s0) h
  | step s s' c _ h ih => exact APICall.run_armed gx hd ext c s s' h ih

end DescriptorFacts

section TexelLayoutFacts

theorem round_up_four (n : Nat) (h : n ≤ 1024) : round_up n 4 = (n + 3) / 4 * 4 := by
  unfold round_up
  omega

theorem foldl_length_inv {κ : Type} (step : List Nat → κ → List Nat)
    (h : ∀ b k, (step b k).length = b.length) (l : List κ) (b : List Nat) :
    (l.foldl step b).length = b.length := by
  induction l generalizing b with
  | nil => rfl
  | cons k l ih => rw [List.foldl_cons, ih, h]

theorem foldl_nested {β κ₁ κ₂ : Type} (f : β → κ₁ → κ₂ → β) (l₁ : List κ₁) (l₂ : List κ₂)
    (b : β) :
    l₁.foldl (fun b x => l₂.foldl (fun b y => f b x y) b) b =
      (l₁.flatMap (fun x => l₂.map (fun y => (x, y)))).foldl (fun b p => f b p.1 p.2) b := by
  induction l₁ generalizing b with
  | nil => rfl
  | cons x l₁ ih =>
    rw [List.foldl_cons, ih, List.flatMap_cons, List.foldl_append, List.foldl_map]

/-- A sequence of stores into a buffer: a position holds the value of a key that stores
there, provided the keys that store at one position agree on the value. -/
theorem foldl_set_get {κ : Type} (idx val : κ → Nat) (l : List κ) (buf : List Nat)
    (hagree : ∀ k ∈ l, ∀ k' ∈ l, idx k = idx k' → val k = val k') (k : κ) (hk : k ∈ l)
    (hlt : idx k < buf.length) :
    (l.foldl (fun b k => b.set (idx k) (val k)) buf)[idx k]? = some (val k) := by
  induction l using List.reverseRecOn with
  | nil => cases hk
  | append_singleton l a ih =>
    have hlen : (l.foldl (fun b k => b.set (idx k) (val k)) buf).length = buf.length :=
      foldl_length_inv _ (fun b k => List.length_set _ _ _) l buf
    rw [List.foldl_append, List.foldl_cons, List.foldl_nil]
    by_cases e : idx a = idx k
    · rw [e, List.getElem?_set_self (by rw [hlen]; exact hlt),
        hagree a (List.mem_append_right _ (List.mem_singleton.2 rfl)) k hk e]
    · rw [List.getElem?_set_ne e]
      have hk' : k ∈ l := by
        rcases List.mem_append.1 hk with h | h
        · exact h
        · rw [List.mem_singleton] at h
          exact absurd (congrArg idx h).symm e
      exact ih (fun k₁ h₁ k₂ h₂ => hagree k₁ (List.mem_append_left _ h₁) k₂
        (List.mem_append_left _ h₂)) hk'

theorem convert_to_rgb5a3_eq_foldl (data : Nat → Nat) (width height : Nat) :
    convert_to_rgb5a3 data width height =
      (pixelOrder width height).foldl
        (fun b p => b.set (texel_index width p.1 p.2) (texel_of data width p.1 p.2))
        (List.replicate ((round_up width 4 * round_up height 4 * 2) % 2 ^ 32 / 2) 0) := by
  unfold convert_to_rgb5a3 pixelOrder
  exact foldl_nested
    (fun (b : List Nat) (x y : Nat) => b.set (texel_index width x y) (texel_of data width x y))
    _ _ _

theorem convert_to_rgb5a3_length (data : Nat → Nat) (width height : Nat) :
    (convert_to_rgb5a3 data width height).length =
      (round_up width 4 * round_up height 4 * 2) % 2 ^ 32 / 2 := by
  rw [convert_to_rgb5a3_eq_foldl, foldl_length_inv _ (fun b k => List.length_set _ _ _),
    List.length_replicate]

theorem mem_pixelOrder (width height x y : Nat) (hx : x < width) (hy : y < height) :
    (x, y) ∈ pixelOrder width height := by
  unfold pixelOrder
  rw [List.mem_flatMap]
  exact ⟨x, List.mem_range.2 hx, List.mem_map.2 ⟨y, List.mem_range.2 hy, rfl⟩⟩

theorem lt_of_mem_pixelOrder (width height : Nat) (p : Nat × Nat)
    (hp : p ∈ pixelOrder width height) : p.1 < width ∧ p.2 < height := by
  unfold pixelOrder at hp
  rw [List.mem_flatMap] at hp
  obtain ⟨x, hx, hp⟩ := hp
  rw [List.mem_map] at hp
  obtain ⟨y, hy, rfl⟩ := hp
  exact ⟨List.mem_range.1 hx, List.mem_range.1 hy⟩

/-- The number of texels allocated, for sizes up to 1024. -/
theorem allocated_texels (width height : Nat) (hw : width ≤ 1024) (hh : height ≤ 1024) :
    (round_up width 4 * round_up height 4 * 2) % 2 ^ 32 / 2 =
      round_up width 4 * round_up height 4 := by
  rw [round_up_four width hw, round_up_four height hh]
  have h1 : (width + 3) / 4 * 4 ≤ 1024 := by omega
  have h2 : (height + 3) / 4 * 4 ≤ 1024 := by omega
  have h3 := Nat.mul_le_mul h1 h2
  generalize (width + 3) / 4 * 4 * ((height + 3) / 4 * 4) = T at h3 ⊢
  omega

/-- The index of a pixel without the reduction modulo `2^32`, and its bound. -/
theorem texel_index_bound (width height x y : Nat) (hw : width ≤ 1024) (hh : height ≤ 1024)
    (hx : x < width) (hy : y < height) :
    texel_index width x y = 16 * (x / 4 + y / 4 * (width / 4)) + 4 * (y % 4) + x % 4 ∧
    texel_index width x y < round_up width 4 * round_up height 4 := by
  rw [round_up_four width hw, round_up_four height hh]
  have hB : y / 4 ≤ (height + 3) / 4 - 1 := by omega
  have hF : width / 4 ≤ (width + 3) / 4 := by omega
  have hP := Nat.mul_le_mul hB hF
  have hQ : ((height + 3) / 4 - 1) * ((width + 3) / 4) + (width + 3) / 4 =
      (height + 3) / 4 * ((width + 3) / 4) := by
    have h1 : 1 ≤ (height + 3) / 4 := by omega
    calc ((height + 3) / 4 - 1) * ((width + 3) / 4) + (width + 3) / 4
        = ((height + 3) / 4 - 1 + 1) * ((width + 3) / 4) := by ring
      _ = (height + 3) / 4 * ((width + 3) / 4) := by rw [Nat.sub_add_cancel h1]
  have hT : (width + 3) / 4 * 4 * ((height + 3) / 4 * 4) =
      16 * ((height + 3) / 4 * ((width + 3) / 4)) := by ring
  have hU : (height + 3) / 4 * ((width + 3) / 4) ≤ 256 * 256 :=
    Nat.mul_le_mul (by omega) (by omega)
  rw [hT]
  unfold texel_index
  simp only
  generalize y / 4 * (width / 4) = P at hP ⊢
  generalize ((height + 3) / 4 - 1) * ((width + 3) / 4) = Q at hP hQ
  generalize (height + 3) / 4 * ((width + 3) / 4) = T at hQ hU ⊢
  omega

/-- For a width that is a multiple of 4, distinct pixels have distinct indices. -/
theorem texel_index_injective (k height x y x' y' : Nat) (hk : 4 * k ≤ 1024)
    (hh : height ≤ 1024) (hx : x < 4 * k) (hy : y < height) (hx' : x' < 4 * k)
    (hy' : y' < height) (h : texel_index (4 * k) x y = texel_index (4 * k) x' y') :
    x = x' ∧ y = y' := by
  have e1 := (texel_index_bound (4 * k) height x y hk hh hx hy).1
  have e2 := (texel_index_bound (4 * k) height x' y' hk hh hx' hy').1
  rw [e1, e2] at h
  have hk4 : 4 * k / 4 = k := by omega
  rw [hk4] at h
  have hb : y / 4 = y' / 4 := by
    rcases Nat.lt_trichotomy (y / 4) (y' / 4) with hlt | heq | hgt
    · have h1 := Nat.mul_le_mul_right k (Nat.succ_le_of_lt hlt)
      rw [Nat.succ_mul] at h1
      generalize y / 4 * k = P at h h1
      generalize y' / 4 * k = P' at h h1
      omega
    · exact heq
    · have h1 := Nat.mul_le_mul_right k (Nat.succ_le_of_lt hgt)
      rw [Nat.succ_mul] at h1
      generalize y / 4 * k = P at h h1
      generalize y' / 4 * k = P' at h h1
      omega
  rw [hb] at h
  generalize y' / 4 * k = P at h
  omega

end TexelLayoutFacts

section RotationFacts
variable {α : Type}

theorem rotationMtx_eq_rodrigues [Field α] (x y z s c : α) :
    rotationMtx x y z s c = rodrigues x y z s c := by
  funext i j
  fin_cases i <;> fin_cases j <;>
    simp [rotationMtx, rodrigues, crossMtx, axisVec] <;> ring

theorem rotationMtx_orthogonal [Field α] (x y z s c : α)
    (hk : x ^ 2 + y ^ 2 + z ^ 2 = 1) (hs : s ^ 2 + c ^ 2 = 1) :
    mult_mtx44 (rotationMtx x y z s c) (transpose (rotationMtx x y z s c)) = identityMtx := by
  funext i j
  fin_cases i <;> fin_cases j <;>
    simp only [mult_mtx44, transpose, rotationMtx, identityMtx] <;>
    simp only [Matrix.cons_val_zero, Matrix.cons_val_one, Matrix.head_cons,
      Matrix.cons_val_two, Matrix.tail_cons, Matrix.cons_val_three, Fin.zero_eta, Fin.mk_one,
      Fin.reduceFinMk]
  · linear_combination (1 * s ^ 2 + x * x * (1 - c) ^ 2) * hk + (1 - x * x) * hs
  · linear_combination (0 * s ^ 2 + x * y * (1 - c) ^ 2) * hk + (0 - x * y) * hs
  · linear_combination (0 * s ^ 2 + x * z * (1 - c) ^ 2) * hk + (0 - x * z) * hs
  · ring
  · linear_combination (0 * s ^ 2 + y * x * (1 - c) ^ 2) * hk + (0 - y * x) * hs
  · linear_combination (1 * s ^ 2 + y * y * (1 - c) ^ 2) * hk + (1 - y * y) * hs
  · linear_combination (0 * s ^ 2 + y * z * (1 - c) ^ 2) * hk + (0 - y * z) * hs
  · ring
  · linear_combination (0 * s ^ 2 + z * x * (1 - c) ^ 2) * hk + (0 - z * x) * hs
  · linear_combination (0 * s ^ 2 + z * y * (1 - c) ^ 2) * hk + (0 - z * y) * hs
  · linear_combination (1 * s ^ 2 + z * z * (1 - c) ^ 2) * hk + (1 - z * z) * hs
  · ring
  · ring
  · ring
  · ring
  · ring

end RotationFacts

section WiringFacts
variable {α : Type}

theorem libogc_tevDistinct : TevDistinct libogc := by
  unfold TevDistinct
  decide

theorem setup_drawing_eq (gx : GXConsts) (s : Context α) :
    setup_drawing gx s =
      { s with
        hw := s.hw ++ wiringCalls gx s.clientEnabled.textureCoordArray
          (stageWiring gx s.clientEnabled.colorArray s.clientEnabled.textureCoordArray) } := by
  unfold setup_drawing wiringCalls stageWiring
  cases s.clientEnabled.textureCoordArray <;> simp [Context.emit]

theorem stageWiring_injective (gx : GXConsts) (hd : TevDistinct gx) (c t c' t' : Bool)
    (h : stageWiring gx c t = stageWiring gx c' t') : c = c' ∧ t = t' := by
  obtain ⟨h1, h2, h3, h4⟩ := hd
  simp only [stageWiring, Prod.mk.injEq, true_and, and_true] at h
  obtain ⟨⟨hc, ht⟩, -⟩ := h
  constructor
  · cases c <;> cases c' <;> simp_all
  · cases t <;> cases t' <;> simp_all

/-- Claim C32 (four distinct stage wirings): `setup_drawing` changes nothing but the trace,
to which it appends the configuration of TEV stage 0 with the inputs `(ZERO, V, T, ZERO)`
of the specification, preceded by the load of register 1 with `(255, 255, 255, 255)` when
the texture-coordinate array is disabled; the four combinations of the two flags give four
pairwise different wirings, in the colour inputs and in the alpha inputs; and two states
that agree on the two flags get the same calls. -/
theorem setup_drawing_wiring (gx : GXConsts) (hd : TevDistinct gx) (s : Context α) :
    setup_drawing gx s =
      { s with
        hw := s.hw ++ wiringCalls gx s.clientEnabled.textureCoordArray
          (stageWiring gx s.clientEnabled.colorArray s.clientEnabled.textureCoordArray) } ∧
    (∀ c t c' t', stageWiring gx c t = stageWiring gx c' t' → c = c' ∧ t = t') ∧
    (∀ c t c' t', (stageWiring gx c t).1 = (stageWiring gx c' t').1 → c = c' ∧ t = t') ∧
    (∀ c t c' t', (stageWiring gx c t).2 = (stageWiring gx c' t').2 → c = c' ∧ t = t') ∧
    (∀ s' : Context α, s'.clientEnabled.colorArray = s.clientEnabled.colorArray →
      s'.clientEnabled.textureCoordArray = s.clientEnabled.textureCoordArray →
      (setup_drawing gx s').hw.drop s'.hw.length = (setup_drawing gx s).hw.drop s.hw.length) := by
  obtain ⟨h1, h2, h3, h4⟩ := hd
  refine ⟨setup_drawing_eq gx s, stageWiring_injective gx ⟨h1, h2, h3, h4⟩, ?_, ?_, ?_⟩
  · intro c t c' t' h
    simp only [stageWiring, Prod.mk.injEq, true_and, and_true] at h
    obtain ⟨hc, ht⟩ := h
    constructor
    · cases c <;> cases c' <;> simp_all
    · cases t <;> cases t' <;> simp_all
  · intro c t c' t' h
    simp only [stageWiring, Prod.mk.injEq, true_and, and_true] at h
    obtain ⟨hc, ht⟩ := h
    constructor
    · cases c <;> cases c' <;> simp_all
    · cases t <;> cases t' <;> simp_all
  · intro s' hc ht
    rw [setup_drawing_eq, setup_drawing_eq, hc, ht]
    simp

theorem setup_drawing_wiring_witness :
    TevDistinct libogc ∧
    stageWiring libogc true true = ((15, 10, 8, 15), (7, 5, 4, 7)) ∧
    stageWiring libogc true false = ((15, 10, 12, 15), (7, 5, 2, 7)) ∧
    stageWiring libogc false true = ((15, 2, 8, 15), (7, 1, 4, 7)) ∧
    stageWiring libogc false false = ((15, 2, 12, 15), (7, 1, 2, 7)) ∧
    setup_drawing libogc drawCtx =
      { drawCtx with
        hw := drawCtx.hw ++ wiringCalls libogc false (stageWiring libogc false false) } :=
  ⟨libogc_tevDistinct, rfl, rfl, rfl, rfl,
    (setup_drawing_wiring libogc libogc_tevDistinct drawCtx).1⟩

end WiringFacts

section CapabilityRegisterFacts
variable {α : Type}

theorem okAll_ite {c : Prop} [Decidable c] {a b : Result (Context α)}
    {P : Context α → Prop} (ha : a.okAll P) (hb : b.okAll P) :
    (if c then a else b).okAll P := by
  split_ifs
  · exact ha
  · exact hb

theorem okAll_trivial (r : Result (Context α)) : r.okAll (fun _ => True) := by
  cases r <;> exact trivial

theorem capView_of_hwView (gx : GXConsts) {s s' : Context α}
    (h : s'.hwView gx = s.hwView gx) : s'.capView gx = s.capView gx := by
  simp only [Context.hwView, Prod.mk.injEq] at h
  obtain ⟨h1, _, _, _, h5, _, _⟩ := h
  simp only [Context.capView, h1, h5]

theorem capView_of_switchView (gx : GXConsts) {s s' : Context α}
    (h : s'.switchView gx = s.switchView gx) : s'.capView gx = s.capView gx := by
  simp only [Context.switchView, Prod.mk.injEq] at h
  obtain ⟨h1, h2, h3, _, _, h6, _, _⟩ := h
  simp only [Context.capView, h1, h2, h3, h6]

theorem capView_keeps (gx : GXConsts) {s s' : Context α}
    (h : s'.capView gx = s.capView gx) :
    (LightingMirrors gx s → LightingMirrors gx s') ∧
    (CullOffMirrors gx s → CullOffMirrors gx s') := by
  simp only [Context.capView, Prod.mk.injEq] at h
  obtain ⟨h1, h2, h3, h4⟩ := h
  unfold LightingMirrors CullOffMirrors
  rw [h1, h2, h3, h4]
  exact ⟨fun x => x, fun x => x⟩

theorem glEnableClientState_capView (gx : GXConsts) (cap : Int) (s : Context α) :
    (glEnableClientState gx cap s).okSame (Context.capView gx) s := by
  unfold glEnableClientState
  repeat' first | apply okSame_ite | exact trivial | exact rfl | (show Context.capView gx _ = _; simp only [Context.capView, Context.emit, hwRegs_snoc, GXCall.exec])

theorem glDisableClientState_capView (gx : GXConsts) (cap : Int) (s : Context α) :
    (glDisableClientState gx cap s).okSame (Context.capView gx) s := by
  unfold glDisableClientState
  repeat' first | apply okSame_ite | exact trivial | exact rfl | (show Context.capView gx _ = _; simp only [Context.capView, Context.emit, hwRegs_snoc, GXCall.exec])

theorem glVertexPointer_capView (gx : GXConsts) (size type : Int) (stride pointer : Nat)
    (s : Context α) :
    (glVertexPointer gx size type stride pointer s).okSame (Context.capView gx) s := by
  unfold glVertexPointer
  apply okSame_ite
  · exact trivial
  · cases gl_enum_to_gx gx type <;> first | exact trivial | (show Context.capView gx _ = _; simp only [Context.capView, Context.emit, hwRegs_snoc, GXCall.exec])

/-! ### The lighting stage -/

theorem glEnable_lighting (gx : GXConsts) (cap : Int) (s : Context α) :
    (glEnable gx cap s).okAll (fun t => LightingMirrors gx s → LightingMirrors gx t) := by
  unfold glEnable
  repeat' first
    | apply okAll_ite
    | exact trivial
    | exact (fun h => h)
    | (show LightingMirrors gx _ → LightingMirrors gx _
       intro h
       simp [LightingMirrors, Context.emit, hwRegs_append, GXCall.exec]
       done)
    | (show LightingMirrors gx _ → LightingMirrors gx _
       intro h
       simpa [LightingMirrors, Context.emit, hwRegs_append, GXCall.exec] using h)

theorem glDisable_lighting (gx : GXConsts) (cap : Int) (s : Context α) :
    (glDisable gx cap s).okAll (fun t => LightingMirrors gx s → LightingMirrors gx t) := by
  unfold glDisable
  repeat' first
    | apply okAll_ite
    | exact trivial
    | exact (fun h => h)
    | (show LightingMirrors gx _ → LightingMirrors gx _
       intro h
       simp [LightingMirrors, Context.emit, hwRegs_append, GXCall.exec]
       done)
    | (show LightingMirrors gx _ → LightingMirrors gx _
       intro h
       simpa [LightingMirrors, Context.emit, hwRegs_append, GXCall.exec] using h)

theorem glCullFace_lighting (gx : GXConsts) (mode : Int) (s : Context α) :
    (glCullFace gx mode s).okAll (fun t => LightingMirrors gx s → LightingMirrors gx t) := by
  unfold glCullFace
  cases gl_enum_to_gx gx mode with
  | none => exact trivial
  | some v =>
    show LightingMirrors gx _ → LightingMirrors gx _
    intro h
    simpa [LightingMirrors, Context.emit, hwRegs_append, GXCall.exec] using h

theorem wiigl_create_context_lighting [Field α] (gx : GXConsts) (ext : Ext α)
    (s0 : Context α) : (wiigl_create_context gx ext s0).okAll (LightingMirrors gx) := by
  have hflag : (wiigl_create_context gx ext s0).okAll
      (fun s => s.serverEnabled.lighting = false) := by
    have h : ∃ s, wiigl_create_context gx ext s0 = .ok s ∧ s.serverEnabled.lighting = false :=
      ⟨_, rfl, rfl⟩
    obtain ⟨s, hs, hl⟩ := h
    rw [hs]
    exact hl
  have hregs : (wiigl_create_context gx ext s0).okAll
      (fun s => (hwRegs gx s.hw).numTevStages = some 1 ∧
        (hwRegs gx s.hw).numChans = some 1) := by
    unfold wiigl_create_context
    dsimp only
    apply okAll_andThen (okAll_trivial _)
    intro t1 _
    apply okAll_andThen (okAll_trivial _)
    intro t2 _
    apply okAll_andThen (okAll_trivial _)
    intro t3 _
    apply okAll_andThen (okAll_trivial _)
    intro t4 _
    apply okAll_andThen (okAll_trivial _)
    intro t5 _
    apply okAll_andThen (okAll_trivial _)
    intro t6 _
    apply okAll_andThen (okAll_trivial _)
    intro t7 _
    apply okAll_andThen (okAll_trivial _)
    intro t8 _
    refine ⟨?_, ?_⟩
    · simp only [Context.emit, hwRegs_snoc, GXCall.exec, eq_self, if_true]
    · simp only [Context.emit, hwRegs_snoc, GXCall.exec, eq_self, if_true]
  apply okAll_of_forall
  intro s h
  have h1 := okAll_ok hflag h
  obtain ⟨h2, h3⟩ := okAll_ok hregs h
  unfold LightingMirrors
  rw [h1, h2, h3]
  exact ⟨rfl, rfl⟩

/-- Every API call that returns keeps the agreement of the numbers of TEV stages and of
colour channels with the flag of `GL_LIGHTING`. -/
theorem APICall.run_lighting [Field α] (gx : GXConsts) (ext : Ext α) (c : APICall α)
    (s s' : Context α) (h : c.run gx ext s = .ok s') (hs : LightingMirrors gx s) :
    LightingMirrors gx s' := by
  cases c with
  | wiigl_create_context => exact okAll_ok (wiigl_create_context_lighting gx ext s) h
  | glEnable cap => exact okAll_ok (glEnable_lighting gx cap s) h hs
  | glDisable cap => exact okAll_ok (glDisable_lighting gx cap s) h hs
  | glCullFace mode => exact okAll_ok (glCullFace_lighting gx mode s) h hs
  | wiigl_swap_buffers =>
    exact (capView_keeps gx (capView_of_hwView gx (okSame_ok (wiigl_swap_buffers_quiet gx s) h))).1 hs
  | glClearColor r g b a =>
    exact (capView_keeps gx (capView_of_hwView gx (okSame_ok (glClearColor_quiet gx ext r g b a s) h))).1 hs
  | glGenBuffers n buffers fresh =>
    exact (capView_keeps gx (capView_of_hwView gx (okSame_ok (glGenBuffers_quiet gx n buffers fresh s) h))).1 hs
  | glBindBuffer target buffer =>
    exact (capView_keeps gx (capView_of_hwView gx (okSame_ok (glBindBuffer_quiet gx target buffer s) h))).1 hs
  | glBufferData target size data usage newData =>
    exact (capView_keeps gx (capView_of_hwView gx (okSame_ok (glBufferData_quiet gx target size data usage newData s) h))).1 hs
  | glBufferSubData target offset size data =>
    exact (capView_keeps gx (capView_of_hwView gx (okSame_ok (glBufferSubData_quiet gx target offset size data s) h))).1 hs
  | glColor4ub r g b a =>
    exact (capView_keeps gx (capView_of_hwView gx (okSame_ok (glColor4ub_quiet gx r g b a s) h))).1 hs
  | glColor4f r g b a =>
    exact (capView_keeps gx (capView_of_hwView gx (okSame_ok (glColor4f_quiet gx ext r g b a s) h))).1 hs
  | glColorPointer size type stride pointer =>
    exact (capView_keeps gx (capView_of_hwView gx (okSame_ok (glColorPointer_quiet gx size type stride pointer s) h))).1 hs
  | glTexCoordPointer size type stride pointer =>
    exact (capView_keeps gx (capView_of_hwView gx (okSame_ok (glTexCoordPointer_quiet gx size type stride pointer s) h))).1 hs
  | glNormalPointer type stride pointer =>
    exact (capView_keeps gx (capView_of_hwView gx (okSame_ok (glNormalPointer_quiet gx type stride pointer s) h))).1 hs
  | glGenTextures n textures fresh =>
    exact (capView_keeps gx (capView_of_hwView gx (okSame_ok (glGenTextures_quiet gx n textures fresh s) h))).1 hs
  | glBindTexture target texture =>
    exact (capView_keeps gx (capView_of_hwView gx (okSame_ok (glBindTexture_quiet gx target texture s) h))).1 hs
  | glTexImage2D target level internalformat width height border format type data =>
    exact (capView_keeps gx (capView_of_hwView gx (okSame_ok (glTexImage2D_quiet gx target level internalformat width height border format type data s) h))).1 hs
  | glTexParameteri target pname param =>
    exact (capView_keeps gx (capView_of_hwView gx (okSame_ok (glTexParameteri_quiet gx target pname param s) h))).1 hs
  | glMaterialfv face pname params =>
    exact (capView_keeps gx (capView_of_hwView gx (okSame_ok (glMaterialfv_quiet gx ext face pname params s) h))).1 hs
  | glBlendFunc sfactor dfactor =>
    exact (capView_keeps gx (capView_of_hwView gx (okSame_ok (glBlendFunc_quiet gx sfactor dfactor s) h))).1 hs
  | glDepthMask flag =>
    exact (capView_keeps gx (capView_of_hwView gx (okSame_ok (glDepthMask_quiet gx flag s) h))).1 hs
  | glPolygonOffset factor units =>
    exact (capView_keeps gx (capView_of_hwView gx (okSame_ok (glPolygonOffset_quiet gx factor units s) h))).1 hs
  | glDepthFunc func =>
    exact (capView_keeps gx (capView_of_hwView gx (okSame_ok (glDepthFunc_quiet gx func s) h))).1 hs
  | glLightModelfv pname params =>
    exact (capView_keeps gx (capView_of_hwView gx (okSame_ok (glLightModelfv_quiet gx ext pname params s) h))).1 hs
  | glLightfv light pname params =>
    exact (capView_keeps gx (capView_of_hwView gx (okSame_ok (glLightfv_quiet gx ext light pname params s) h))).1 hs
  | glPointSize size =>
    exact (capView_keeps gx (capView_of_hwView gx (okSame_ok (glPointSize_quiet gx size s) h))).1 hs
  | glGetIntegerv pname data =>
    exact (capView_keeps gx (capView_of_hwView gx (okSame_ok (glGetIntegerv_quiet gx pname data s) h))).1 hs
  | glGetString name =>
    exact (capView_keeps gx (capView_of_hwView gx (okSame_ok (glGetString_quiet gx name s) h))).1 hs
  | glMatrixMode mode =>
    exact (capView_keeps gx (capView_of_switchView gx (okSame_ok (glMatrixMode_switchView gx mode s) h))).1 hs
  | glPushMatrix =>
    exact (capView_keeps gx (capView_of_switchView gx (okSame_ok (glPushMatrix_switchView gx s) h))).1 hs
  | glPopMatrix =>
    exact (capView_keeps gx (capView_of_switchView gx (okSame_ok (glPopMatrix_switchView gx ext s) h))).1 hs
  | glLoadIdentity =>
    exact (capView_keeps gx (capView_of_switchView gx (okSame_ok (mutate_switchView gx ext s _) h))).1 hs
  | glLoadMatrixf m =>
    exact (capView_keeps gx (capView_of_switchView gx (okSame_ok (mutate_switchView gx ext s _) h))).1 hs
  | glMultMatrixf m =>
    exact (capView_keeps gx (capView_of_switchView gx (okSame_ok (mutate_switchView gx ext s _) h))).1 hs
  | glTranslatef x y z =>
    exact (capView_keeps gx (capView_of_switchView gx (okSame_ok (mutate_switchView gx ext s _) h))).1 hs
  | glScalef x y z =>
    exact (capView_keeps gx (capView_of_switchView gx (okSame_ok (mutate_switchView gx ext s _) h))).1 hs
  | glRotatef angle x y z =>
    exact (capView_keeps gx (capView_of_switchView gx (okSame_ok (mutate_switchView gx ext s _) h))).1 hs
  | glOrtho l r b t n f =>
    exact (capView_keeps gx (capView_of_switchView gx (okSame_ok (glOrtho_switchView gx ext s l r b t n f) h))).1 hs
  | glFrustum l r b t n f =>
    exact (capView_keeps gx (capView_of_switchView gx (okSame_ok (mutate_switchView gx ext s _) h))).1 hs
  | glDrawArrays mode first count =>
    exact (capView_keeps gx (capView_of_switchView gx (okSame_ok (glDrawArrays_switchView gx ext mode first count s) h))).1 hs
  | glDrawElements mode count type indices =>
    exact (capView_keeps gx (capView_of_switchView gx (okSame_ok (glDrawElements_switchView gx ext mode count type indices s) h))).1 hs
  | glTexGeni coord pname param =>
    exact (capView_keeps gx (capView_of_switchView gx (okSame_ok (glTexGeni_switchView gx ext coord pname param s) h))).1 hs
  | glEnableClientState cap =>
    exact (capView_keeps gx (okSame_ok (glEnableClientState_capView gx cap s) h)).1 hs
  | glDisableClientState cap =>
    exact (capView_keeps gx (okSame_ok (glDisableClientState_capView gx cap s) h)).1 hs
  | glVertexPointer size type stride pointer =>
    exact (capView_keeps gx (okSame_ok (glVertexPointer_capView gx size type stride pointer s) h)).1 hs
  | blend_factor f =>
    have h2 : (match WiiGL.blend_factor gx f with
      | none => Result.fatal "unknown blend factor" s
      | some _ => Result.ok s) = .ok s' := h
    split at h2
    · cases h2
    · cases h2
      exact hs
  | glDeleteBuffers n buffers =>
    cases h
    exact hs
  | glDeleteTextures n textures =>
    cases h
    exact hs
  | glPointParameterfv =>
    cases h
    exact hs
  | glTexEnvi =>
    cases h
    exact hs
  | glAlphaFunc =>
    cases h
    exact hs
  | glFrontFace =>
    cases h
    exact hs
  | glStencilFunc =>
    cases h
    exact hs
  | glStencilOp =>
    cases h
    exact hs
  | glColorMask =>
    cases h
    exact hs
  | glClear =>
    cases h
    exact hs
  | glClipPlane =>
    cases h
    exact hs
  | glActiveTexture =>
    cases h
    exact hs
  | glClientActiveTexture =>
    cases h
    exact hs
  | glPointParameterf =>
    cases h
    exact hs
  | glPixelStorei =>
    cases h
    exact hs
  | glViewport =>
    cases h
    exact hs
  | glLightModeli =>
    cases h
    exact hs
  | glLightModelf =>
    cases h
    exact hs
  | glPolygonMode =>
    cases h
    exact hs
  | glReadPixels =>
    cases h
    exact hs

/-- Claim C33 (the lighting stage is on only with lighting): in every state reachable from
`wiigl_create_context` by API calls that returned, the number of TEV stages and the number
of colour channels last configured in the hardware are 2 when the flag of `GL_LIGHTING` is
enabled and 1 when it is disabled. -/
theorem lighting_stage_mirrors_flag [Field α] (gx : GXConsts) (ext : Ext α) (s : Context α)
    (h : Reachable gx ext s) :
    (s.serverEnabled.lighting = true →
      (hwRegs gx s.hw).numTevStages = some 2 ∧ (hwRegs gx s.hw).numChans = some 2) ∧
    (s.serverEnabled.lighting = false →
      (hwRegs gx s.hw).numTevStages = some 1 ∧ (hwRegs gx s.hw).numChans = some 1) := by
  have hinv : LightingMirrors gx s := by
    induction h with
    | create s0 s h => exact okAll_ok (wiigl_create_context_lighting gx ext s0) h
    | step s s' c _ h ih => exact APICall.run_lighting gx ext c s s' h ih
  unfold LightingMirrors at hinv
  constructor
  · intro hl
    rw [hl] at hinv
    exact hinv
  · intro hl
    rw [hl] at hinv
    exact hinv

/-! ### The cull mode -/

theorem glEnable_cullOff (gx : GXConsts) (cap : Int) (s : Context α) :
    (glEnable gx cap s).okAll (fun t => CullOffMirrors gx s → CullOffMirrors gx t) := by
  unfold glEnable
  repeat' first
    | apply okAll_ite
    | exact trivial
    | exact (fun h => h)
    | (show CullOffMirrors gx _ → CullOffMirrors gx _
       intro h
       simp [CullOffMirrors, Context.emit, hwRegs_append, GXCall.exec]
       done)
    | (show CullOffMirrors gx _ → CullOffMirrors gx _
       intro h
       simpa [CullOffMirrors, Context.emit, hwRegs_append, GXCall.exec] using h)

theorem glDisable_cullOff (gx : GXConsts) (cap : Int) (s : Context α) :
    (glDisable gx cap s).okAll (fun t => CullOffMirrors gx s → CullOffMirrors gx t) := by
  unfold glDisable
  repeat' first
    | apply okAll_ite
    | exact trivial
    | exact (fun h => h)
    | (show CullOffMirrors gx _ → CullOffMirrors gx _
       intro h
       simp [CullOffMirrors, Context.emit, hwRegs_append, GXCall.exec]
       done)
    | (show CullOffMirrors gx _ → CullOffMirrors gx _
       intro h
       simpa [CullOffMirrors, Context.emit, hwRegs_append, GXCall.exec] using h)

theorem glDisable_texture2d (gx : GXConsts) (s : Context α) :
    glDisable gx GL_TEXTURE_2D s =
      .ok { s with serverEnabled := { s.serverEnabled with texture2d := false } } := rfl

theorem glDisable_texture2d_cullReg (gx : GXConsts) (s : Context α) :
    (glDisable gx GL_TEXTURE_2D s).okAll
      (fun t => (hwRegs gx t.hw).cullMode = (hwRegs gx s.hw).cullMode) := by
  rw [glDisable_texture2d]
  exact rfl

theorem cullReg_of_switchView (gx : GXConsts) {s s' : Context α}
    (h : s'.switchView gx = s.switchView gx) :
    (hwRegs gx s'.hw).cullMode = (hwRegs gx s.hw).cullMode := by
  simp only [Context.switchView, Prod.mk.injEq] at h
  exact h.2.2.1

/-- A first `wiigl_create_context`, one that runs `initialize_video`, leaves the cull mode
`GX_CULL_NONE` in the hardware. -/
theorem wiigl_create_context_first_cull [Field α] (gx : GXConsts) (ext : Ext α)
    (s0 : Context α) (h0 : s0.initialized = false) :
    (wiigl_create_context gx ext s0).okAll
      (fun s => (hwRegs gx s.hw).cullMode = some gx.GX_CULL_NONE) := by
  unfold wiigl_create_context
  dsimp only
  have hbase : (if s0.initialized = true then s0 else initialize_video gx s0) =
      initialize_video gx s0 := by
    rw [h0]
    rfl
  rw [hbase]
  apply okAll_andThen (okAll_of_okSame (glMatrixMode_switchView gx GL_MODELVIEW _))
  intro t1 h1
  apply okAll_andThen (okAll_of_okSame (mutate_switchView gx ext t1 _))
  intro t2 h2
  apply okAll_andThen (okAll_of_okSame (glMatrixMode_switchView gx GL_PROJECTION _))
  intro t3 h3
  apply okAll_andThen (okAll_of_okSame (mutate_switchView gx ext t3 _))
  intro t4 h4
  apply okAll_andThen (okAll_of_okSame (glMatrixMode_switchView gx GL_TEXTURE _))
  intro t5 h5
  apply okAll_andThen (okAll_of_okSame (mutate_switchView gx ext t5 _))
  intro t6 h6
  apply okAll_andThen (glDisable_texture2d_cullReg gx _)
  intro t7 h7
  apply okAll_andThen (okAll_of_okSame (glMatrixMode_switchView gx GL_MODELVIEW _))
  intro t8 h8
  have c1 : (hwRegs gx t1.hw).cullMode = some gx.GX_CULL_NONE := by
    rw [cullReg_of_switchView gx h1]
    simp only [initialize_video, Context.emit, hwRegs_snoc, GXCall.exec]
  have c6 : (hwRegs gx t6.hw).cullMode = some gx.GX_CULL_NONE := by
    rw [cullReg_of_switchView gx h6, cullReg_of_switchView gx h5,
      cullReg_of_switchView gx h4, cullReg_of_switchView gx h3,
      cullReg_of_switchView gx h2, c1]
  have c7 : (hwRegs gx t7.hw).cullMode = some gx.GX_CULL_NONE := by
    rw [h7]
    exact c6
  have c8 : (hwRegs gx t8.hw).cullMode = some gx.GX_CULL_NONE := by
    rw [cullReg_of_switchView gx h8]
    simpa only [Context.emit, hwRegs_snoc, GXCall.exec] using c7
  show (hwRegs gx (Context.hw _)).cullMode = _
  simpa only [Context.emit, hwRegs_snoc, GXCall.exec, eq_self, if_true] using c8

/-- Every API call other than `glCullFace` and `wiigl_create_context` that returns keeps
the cull mode `GX_CULL_NONE` in the hardware while the flag of `GL_CULL_FACE` is disabled. -/
theorem APICall.run_cullOff [Field α] (gx : GXConsts) (ext : Ext α) (c : APICall α)
    (hc : ¬ c.isCullFaceOrCreate) (s s' : Context α) (h : c.run gx ext s = .ok s')
    (hs : CullOffMirrors gx s) : CullOffMirrors gx s' := by
  cases c with
  | wiigl_create_context => exact absurd trivial hc
  | glCullFace mode => exact absurd trivial hc
  | glEnable cap => exact okAll_ok (glEnable_cullOff gx cap s) h hs
  | glDisable cap => exact okAll_ok (glDisable_cullOff gx cap s) h hs
  | wiigl_swap_buffers =>
    exact (capView_keeps gx (capView_of_hwView gx (okSame_ok (wiigl_swap_buffers_quiet gx s) h))).2 hs
  | glClearColor r g b a =>
    exact (capView_keeps gx (capView_of_hwView gx (okSame_ok (glClearColor_quiet gx ext r g b a s) h))).2 hs
  | glGenBuffers n buffers fresh =>
    exact (capView_keeps gx (capView_of_hwView gx (okSame_ok (glGenBuffers_quiet gx n buffers fresh s) h))).2 hs
  | glBindBuffer target buffer =>
    exact (capView_keeps gx (capView_of_hwView gx (okSame_ok (glBindBuffer_quiet gx target buffer s) h))).2 hs
  | glBufferData target size data usage newData =>
    exact (capView_keeps gx (capView_of_hwView gx (okSame_ok (glBufferData_quiet gx target size data usage newData s) h))).2 hs
  | glBufferSubData target offset size data =>
    exact (capView_keeps gx (capView_of_hwView gx (okSame_ok (glBufferSubData_quiet gx target offset size data s) h))).2 hs
  | glColor4ub r g b a =>
    exact (capView_keeps gx (capView_of_hwView gx (okSame_ok (glColor4ub_quiet gx r g b a s) h))).2 hs
  | glColor4f r g b a =>
    exact (capView_keeps gx (capView_of_hwView gx (okSame_ok (glColor4f_quiet gx ext r g b a s) h))).2 hs
  | glColorPointer size type stride pointer =>
    exact (capView_keeps gx (capView_of_hwView gx (okSame_ok (glColorPointer_quiet gx size type stride pointer s) h))).2 hs
  | glTexCoordPointer size type stride pointer =>
    exact (capView_keeps gx (capView_of_hwView gx (okSame_ok (glTexCoordPointer_quiet gx size type stride pointer s) h))).2 hs
  | glNormalPointer type stride pointer =>
    exact (capView_keeps gx (capView_of_hwView gx (okSame_ok (glNormalPointer_quiet gx type stride pointer s) h))).2 hs
  | glGenTextures n textures fresh =>
    exact (capView_keeps gx (capView_of_hwView gx (okSame_ok (glGenTextures_quiet gx n textures fresh s) h))).2 hs
  | glBindTexture target texture =>
    exact (capView_keeps gx (capView_of_hwView gx (okSame_ok (glBindTexture_quiet gx target texture s) h))).2 hs
  | glTexImage2D target level internalformat width height border format type data =>
    exact (capView_keeps gx (capView_of_hwView gx (okSame_ok (glTexImage2D_quiet gx target level internalformat width height border format type data s) h))).2 hs
  | glTexParameteri target pname param =>
    exact (capView_keeps gx (capView_of_hwView gx (okSame_ok (glTexParameteri_quiet gx target pname param s) h))).2 hs
  | glMaterialfv face pname params =>
    exact (capView_keeps gx (capView_of_hwView gx (okSame_ok (glMaterialfv_quiet gx ext face pname params s) h))).2 hs
  | glBlendFunc sfactor dfactor =>
    exact (capView_keeps gx (capView_of_hwView gx (okSame_ok (glBlendFunc_quiet gx sfactor dfactor s) h))).2 hs
  | glDepthMask flag =>
    exact (capView_keeps gx (capView_of_hwView gx (okSame_ok (glDepthMask_quiet gx flag s) h))).2 hs
  | glPolygonOffset factor units =>
    exact (capView_keeps gx (capView_of_hwView gx (okSame_ok (glPolygonOffset_quiet gx factor units s) h))).2 hs
  | glDepthFunc func =>
    exact (capView_keeps gx (capView_of_hwView gx (okSame_ok (glDepthFunc_quiet gx func s) h))).2 hs
  | glLightModelfv pname params =>
    exact (capView_keeps gx (capView_of_hwView gx (okSame_ok (glLightModelfv_quiet gx ext pname params s) h))).2 hs
  | glLightfv light pname params =>
    exact (capView_keeps gx (capView_of_hwView gx (okSame_ok (glLightfv_quiet gx ext light pname params s) h))).2 hs
  | glPointSize size =>
    exact (capView_keeps gx (capView_of_hwView gx (okSame_ok (glPointSize_quiet gx size s) h))).2 hs
  | glGetIntegerv pname data =>
    exact (capView_keeps gx (capView_of_hwView gx (okSame_ok (glGetIntegerv_quiet gx pname data s) h))).2 hs
  | glGetString name =>
    exact (capView_keeps gx (capView_of_hwView gx (okSame_ok (glGetString_quiet gx name s) h))).2 hs
  | glMatrixMode mode =>
    exact (capView_keeps gx (capView_of_switchView gx (okSame_ok (glMatrixMode_switchView gx mode s) h))).2 hs
  | glPushMatrix =>
    exact (capView_keeps gx (capView_of_switchView gx (okSame_ok (glPushMatrix_switchView gx s) h))).2 hs
  | glPopMatrix =>
    exact (capView_keeps gx (capView_of_switchView gx (okSame_ok (glPopMatrix_switchView gx ext s) h))).2 hs
  | glLoadIdentity =>
    exact (capView_keeps gx (capView_of_switchView gx (okSame_ok (mutate_switchView gx ext s _) h))).2 hs
  | glLoadMatrixf m =>
    exact (capView_keeps gx (capView_of_switchView gx (okSame_ok (mutate_switchView gx ext s _) h))).2 hs
  | glMultMatrixf m =>
    exact (capView_keeps gx (capView_of_switchView gx (okSame_ok (mutate_switchView gx ext s _) h))).2 hs
  | glTranslatef x y z =>
    exact (capView_keeps gx (capView_of_switchView gx (okSame_ok (mutate_switchView gx ext s _) h))).2 hs
  | glScalef x y z =>
    exact (capView_keeps gx (capView_of_switchView gx (okSame_ok (mutate_switchView gx ext s _) h))).2 hs
  | glRotatef angle x y z =>
    exact (capView_keeps gx (capView_of_switchView gx (okSame_ok (mutate_switchView gx ext s _) h))).2 hs
  | glOrtho l r b t n f =>
    exact (capView_keeps gx (capView_of_switchView gx (okSame_ok (glOrtho_switchView gx ext s l r b t n f) h))).2 hs
  | glFrustum l r b t n f =>
    exact (capView_keeps gx (capView_of_switchView gx (okSame_ok (mutate_switchView gx ext s _) h))).2 hs
  | glDrawArrays mode first count =>
    exact (capView_keeps gx (capView_of_switchView gx (okSame_ok (glDrawArrays_switchView gx ext mode first count s) h))).2 hs
  | glDrawElements mode count type indices =>
    exact (capView_keeps gx (capView_of_switchView gx (okSame_ok (glDrawElements_switchView gx ext mode count type indices s) h))).2 hs
  | glTexGeni coord pname param =>
    exact (capView_keeps gx (capView_of_switchView gx (okSame_ok (glTexGeni_switchView gx ext coord pname param s) h))).2 hs
  | glEnableClientState cap =>
    exact (capView_keeps gx (okSame_ok (glEnableClientState_capView gx cap s) h)).2 hs
  | glDisableClientState cap =>
    exact (capView_keeps gx (okSame_ok (glDisableClientState_capView gx cap s) h)).2 hs
  | glVertexPointer size type stride pointer =>
    exact (capView_keeps gx (okSame_ok (glVertexPointer_capView gx size type stride pointer s) h)).2 hs
  | blend_factor f =>
    have h2 : (match WiiGL.blend_factor gx f with
      | none => Result.fatal "unknown blend factor" s
      | some _ => Result.ok s) = .ok s' := h
    split at h2
    · cases h2
    · cases h2
      exact hs
  | glDeleteBuffers n buffers =>
    cases h
    exact hs
  | glDeleteTextures n textures =>
    cases h
    exact hs
  | glPointParameterfv =>
    cases h
    exact hs
  | glTexEnvi =>
    cases h
    exact hs
  | glAlphaFunc =>
    cases h
    exact hs
  | glFrontFace =>
    cases h
    exact hs
  | glStencilFunc =>
    cases h
    exact hs
  | glStencilOp =>
    cases h
    exact hs
  | glColorMask =>
    cases h
    exact hs
  | glClear =>
    cases h
    exact hs
  | glClipPlane =>
    cases h
    exact hs
  | glActiveTexture =>
    cases h
    exact hs
  | glClientActiveTexture =>
    cases h
    exact hs
  | glPointParameterf =>
    cases h
    exact hs
  | glPixelStorei =>
    cases h
    exact hs
  | glViewport =>
    cases h
    exact hs
  | glLightModeli =>
    cases h
    exact hs
  | glLightModelf =>
    cases h
    exact hs
  | glPolygonMode =>
    cases h
    exact hs
  | glReadPixels =>
    cases h
    exact hs

/-- In every state reached from a first `wiigl_create_context` by API calls other than
`glCullFace` and `wiigl_create_context`, the cull mode in the hardware is `GX_CULL_NONE`
whenever the flag of `GL_CULL_FACE` is disabled. -/
theorem cull_off_without_glCullFace [Field α] (gx : GXConsts) (ext : Ext α) (s : Context α)
    (h : ReachableFromFirst gx ext (fun c => ¬ c.isCullFaceOrCreate) s) :
    CullOffMirrors gx s := by
  induction h with
  | first s0 s h0 h =>
    intro _
    exact okAll_ok (wiigl_create_context_first_cull gx ext s0 h0) h
  | step s s' c _ hc h ih => exact APICall.run_cullOff gx ext c hc s s' h ih

end CapabilityRegisterFacts

section DrawProjectionFacts
variable {α : Type}

theorem glDrawArrays_epilogue [Field α] (gx : GXConsts) (ext : Ext α) (mode first : Int)
    (count : Nat) (s s' : Context α) (h : glDrawArrays gx ext mode first count s = .ok s') :
    ∃ t, s' = drawEpilogue gx t ∧ t.drawView gx = s.drawView gx := by
  unfold glDrawArrays at h
  cases hmode : gl_enum_to_gx gx mode with
  | none =>
    rw [hmode] at h
    cases h
  | some m =>
    rw [hmode] at h
    cases h
    refine ⟨_, rfl, ?_⟩
    refine (same_foldl (Context.drawView gx) _ ?_ _ _).trans ?_
    · intro t i
      exact drawView_emitVertex gx _ t
    · exact drawView_begin gx ext s _ _

theorem glDrawElements_epilogue [Field α] (gx : GXConsts) (ext : Ext α) (mode : Int)
    (count : Nat) (type : Int) (indices : Nat) (s s' : Context α)
    (h : glDrawElements gx ext mode count type indices s = .ok s') :
    ∃ t, s' = drawEpilogue gx t ∧ t.drawView gx = s.drawView gx := by
  unfold glDrawElements at h
  cases hmode : gl_enum_to_gx gx mode with
  | none =>
    rw [hmode] at h
    cases h
  | some m =>
    rw [hmode] at h
    dsimp only at h
    have hloop := okSame_foldl (Context.drawView gx)
      (drawElementsStep type
        (if (drawPrologue gx ext s).boundBuffers 1 ≠ 0 then
          (((drawPrologue gx ext s).buffers ((drawPrologue gx ext s).boundBuffers 1)).data +
            indices) % 2 ^ 32
        else indices))
      (drawElementsStep_drawView gx type _) (List.range count) s
      (.ok ((drawPrologue gx ext s).emit (.Begin (m % 256) gx.GX_VTXFMT0 (count % 65536))))
      (drawView_begin gx ext s _ _)
    revert h hloop
    generalize List.foldl _ _ (List.range count) = res
    intro h hloop
    cases res with
    | ok t =>
      cases h
      exact ⟨t, rfl, hloop⟩
    | fatal msg t => cases h

/-- After the epilogue of a draw with polygon offset enabled, the projection stack is as
before the draw, the projection matrix in the hardware is its top, and the kind of the
projection in the hardware is `GX_PERSPECTIVE`. -/
theorem drawEpilogue_projection (gx : GXConsts) (s t : Context α)
    (hv : t.drawView gx = s.drawView gx) (hpo : s.serverEnabled.polygonOffsetFill = true) :
    (drawEpilogue gx t).projMtxStack = s.projMtxStack ∧
    (hwRegs gx (drawEpilogue gx t).hw).projMtx =
      some (s.projMtxStack.stack s.projMtxStack.stackPos) ∧
    (hwRegs gx (drawEpilogue gx t).hw).projType = some gx.GX_PERSPECTIVE := by
  simp only [Context.drawView, Prod.mk.injEq] at hv
  obtain ⟨h1, h2, h3, h4, h5, h6, h7⟩ := hv
  have hf : t.serverEnabled.polygonOffsetFill = true := by rw [h7, hpo]
  unfold drawEpilogue
  dsimp only
  rw [serverEnabled_emit, projMtxStack_emit, if_pos hf]
  refine ⟨h5, ?_, ?_⟩
  · simp [Context.emit, hwRegs_append, GXCall.exec, h5]
  · simp [Context.emit, hwRegs_append, GXCall.exec]

/-- With polygon offset enabled and the projection matrix in the hardware equal to the top
of the projection stack, a draw that returns leaves the projection stack and the
projection matrix in the hardware as they were; the kind of the projection in the
hardware is `GX_PERSPECTIVE` afterwards, whatever it was. -/
theorem draw_restores_projection_matrix [Field α] (gx : GXConsts) (ext : Ext α)
    (s : Context α) (hpo : s.serverEnabled.polygonOffsetFill = true)
    (hm : MirrorsAt gx .proj s) :
    (∀ mode first count s', glDrawArrays gx ext mode first count s = .ok s' →
      s'.projMtxStack = s.projMtxStack ∧
      (hwRegs gx s'.hw).projMtx = (hwRegs gx s.hw).projMtx ∧
      (hwRegs gx s'.hw).projType = some gx.GX_PERSPECTIVE) ∧
    (∀ mode count type indices s', glDrawElements gx ext mode count type indices s = .ok s' →
      s'.projMtxStack = s.projMtxStack ∧
      (hwRegs gx s'.hw).projMtx = (hwRegs gx s.hw).projMtx ∧
      (hwRegs gx s'.hw).projType = some gx.GX_PERSPECTIVE) := by
  have hm2 : (hwRegs gx s.hw).projMtx =
      some (s.projMtxStack.stack s.projMtxStack.stackPos) := hm
  constructor
  · intro mode first count s' h
    obtain ⟨t, rfl, hv⟩ := glDrawArrays_epilogue gx ext mode first count s s' h
    rw [hm2]
    exact drawEpilogue_projection gx s t hv hpo
  · intro mode count type indices s' h
    obtain ⟨t, rfl, hv⟩ := glDrawElements_epilogue gx ext mode count type indices s s' h
    rw [hm2]
    exact drawEpilogue_projection gx s t hv hpo

theorem orthoCtx_reachable : Reachable libogc projectionExt orthoCtx :=
  .step _ orthoCtx (.glEnable GL_POLYGON_OFFSET_FILL)
    (.step _ _ (.glOrtho (-1) 1 (-1) 1 (-1) 1)
      (.step _ _ (.glMatrixMode GL_PROJECTION) (.create exampleCtx _ rfl) rfl) rfl) rfl

/-- Claim C31 fails for the kind of the projection: in the reachable state after
`wiigl_create_context`, `glMatrixMode(GL_PROJECTION)`, `glOrtho(-1, 1, -1, 1, -1, 1)` and
`glEnable(GL_POLYGON_OFFSET_FILL)` the projection in the hardware is of the kind
`GX_ORTHOGRAPHIC`; `glDrawArrays` and `glDrawElements` return and leave the same matrix
loaded as `GX_PERSPECTIVE`. -/
theorem draw_reloads_projection_as_perspective :
    Reachable libogc projectionExt orthoCtx ∧
    orthoCtx.serverEnabled.polygonOffsetFill = true ∧
    (hwRegs libogc orthoCtx.hw).projType = some libogc.GX_ORTHOGRAPHIC ∧
    libogc.GX_PERSPECTIVE ≠ libogc.GX_ORTHOGRAPHIC ∧
    (∃ s', glDrawArrays libogc projectionExt GL_TRIANGLES 0 3 orthoCtx = .ok s' ∧
      (hwRegs libogc s'.hw).projMtx = (hwRegs libogc orthoCtx.hw).projMtx ∧
      (hwRegs libogc s'.hw).projType = some libogc.GX_PERSPECTIVE) ∧
    (∃ s', glDrawElements libogc projectionExt GL_TRIANGLES 3 GL_UNSIGNED_SHORT 0x3000
        orthoCtx = .ok s' ∧
      (hwRegs libogc s'.hw).projMtx = (hwRegs libogc orthoCtx.hw).projMtx ∧
      (hwRegs libogc s'.hw).projType = some libogc.GX_PERSPECTIVE) :=
  ⟨orthoCtx_reachable, rfl, rfl, by decide, ⟨_, rfl, rfl, rfl⟩, ⟨_, rfl, rfl, rfl⟩⟩

end DrawProjectionFacts

section ResetFacts
variable {α : Type}

theorem capabilityFlag_noCapabilities (cap : Int) :
    capabilityFlag noCapabilities cap = false := by
  unfold capabilityFlag noCapabilities
  simp only [Nat.zero_testBit, ite_self]

/-- Claim C40 (context reset postcondition): from any prior state `wiigl_create_context`
returns, and then every server capability flag and every light and clip-plane bit is
off, every client-array flag is off, no texture and no buffer is bound, each of the three
matrix stacks is at depth 0 with the identity matrix on top, the matrix mode is
`GL_MODELVIEW` with the model-view stack selected, and the tracked depth state is: test
off (`GX_FALSE`), function `GX_LEQUAL`, writes on (`GX_TRUE`). -/
theorem wiigl_create_context_postcondition [Field α] (gx : GXConsts) (ext : Ext α)
    (s0 : Context α) :
    ∃ s, wiigl_create_context gx ext s0 = .ok s ∧
      s.serverEnabled = noCapabilities ∧
      (∀ cap, capabilityFlag s.serverEnabled cap = false) ∧
      s.clientEnabled = noClientArrays ∧
      s.boundTexture = 0 ∧ (∀ i, s.boundBuffers i = 0) ∧
      s.modelviewMtxStack.stackPos = 0 ∧ s.projMtxStack.stackPos = 0 ∧
      s.textureMtxStack.stackPos = 0 ∧
      s.modelviewMtxStack.stack 0 = identityMtx ∧ s.projMtxStack.stack 0 = identityMtx ∧
      s.textureMtxStack.stack 0 = identityMtx ∧
      s.matrixMode = GL_MODELVIEW ∧ s.currMtxStack = .modelview ∧
      s.zEnable = to_u8 gx.GX_FALSE ∧ s.zFunc = to_u8 gx.GX_LEQUAL ∧
      s.zUpdate = to_u8 gx.GX_TRUE := by
  refine ⟨_, rfl, rfl, ?_, rfl, rfl, fun _ => rfl, rfl, rfl, rfl, rfl, rfl, rfl, rfl, rfl, rfl,
    rfl, rfl⟩
  intro cap
  exact capabilityFlag_noCapabilities cap

end ResetFacts

section FinalFacts
variable {α : Type}

/-! ### The matrix of `glRotatef` -/

/-- Claim C34 (the rotation matrix is a rotation): over every field, so in exact real
arithmetic, for every unit axis `(x, y, z)` and every pair `(s, c)` with
`s * s + c * c = 1`, the matrix `R` that `glRotatef` multiplies into the top of the current
stack (when `(x, y, z)` is the normalised axis and `s`, `c` are the sine and the cosine of
the angle in radians) is the Rodrigues matrix `c * I + s * [k]x + (1 - c) * k * k^T` in its
upper-left 3x3 block with last row and column `(0, 0, 0, 1)`, and `R * R^T` is the
identity. -/
theorem glRotatef_matrix_is_rotation [Field α] (x y z s c : α)
    (hk : x ^ 2 + y ^ 2 + z ^ 2 = 1) (hs : s ^ 2 + c ^ 2 = 1) :
    (∀ (gx : GXConsts) (ext : Ext α) (st : Context α) (angle ax ay az : α),
      ext.guVecNormalize (ax, ay, az) = (x, y, z) →
      ext.sinf (angle * 3.14159265359 / 180.0) = s →
      ext.cosf (angle * 3.14159265359 / 180.0) = c →
      glRotatef gx ext angle ax ay az st =
        load_curr_matrix gx ext
          (setCURR_MATRIX st (mult_mtx44 (CURR_MATRIX st) (rotationMtx x y z s c)))) ∧
    rotationMtx x y z s c = rodrigues x y z s c ∧
    mult_mtx44 (rotationMtx x y z s c) (transpose (rotationMtx x y z s c)) = identityMtx := by
  refine ⟨?_, rotationMtx_eq_rodrigues x y z s c, rotationMtx_orthogonal x y z s c hk hs⟩
  intro gx ext st angle ax ay az hax hsin hcos
  unfold glRotatef
  simp only [hax, hsin, hcos]

/-- The rotation about the z axis with sine 3/5 and cosine 4/5. -/
theorem glRotatef_matrix_is_rotation_witness :
    ((0 : ℚ) ^ 2 + 0 ^ 2 + 1 ^ 2 = 1 ∧ ((3 : ℚ) / 5) ^ 2 + (4 / 5) ^ 2 = 1) ∧
    rotationMtx (0 : ℚ) 0 1 (3 / 5) (4 / 5) = rodrigues 0 0 1 (3 / 5) (4 / 5) ∧
    mult_mtx44 (rotationMtx (0 : ℚ) 0 1 (3 / 5) (4 / 5))
      (transpose (rotationMtx (0 : ℚ) 0 1 (3 / 5) (4 / 5))) = identityMtx :=
  ⟨⟨by norm_num, by norm_num⟩,
    (glRotatef_matrix_is_rotation (0 : ℚ) 0 1 (3 / 5) (4 / 5) (by norm_num) (by norm_num)).2⟩

/-! ### The range check of `glBufferSubData` -/

/-- A call of `glBufferSubData` that returns has found a buffer with storage, and if the
byte range does not wrap (`0 <= offset` and `offset + size < 2^32`) it lies inside the
allocated size. -/
theorem glBufferSubData_accepted_without_wrap (s : Context α) (target offset : Int)
    (size data : Nat)
    (h : (glBufferSubData target offset size data s).isFatal = false) :
    ∃ buf, get_buffer target s = some buf ∧ buf ≠ 0 ∧ (s.buffers buf).data ≠ 0 ∧
      (0 ≤ offset → offset + (size : Int) < 2 ^ 32 →
        offset + (size : Int) ≤ ((s.buffers buf).size : Int)) := by
  unfold glBufferSubData at h
  cases hb : get_buffer target s with
  | none =>
    rw [hb] at h
    cases h
  | some buf =>
    rw [hb] at h
    dsimp only at h
    by_cases h1 : buf = 0 ∨ (s.buffers buf).data = 0
    · rw [if_pos h1] at h
      cases h
    · rw [if_neg h1] at h
      by_cases h2 : (offset + (size : Int)) % 2 ^ 32 > ((s.buffers buf).size : Int)
      · rw [if_pos h2] at h
        cases h
      · refine ⟨buf, rfl, fun e => h1 (Or.inl e), fun e => h1 (Or.inr e), ?_⟩
        intro ho hsum
        rw [Int.emod_eq_of_lt (by omega) hsum] at h2
        omega

/-- Claim C35 fails on two inputs. The buffer bound to `GL_ARRAY_BUFFER` has 16 bytes of
storage at `0x1000`. With `offset = -4` and `size = 4` the 32-bit sum is 0: the call
returns, and the byte at `0xFFC`, four bytes before the storage, is overwritten (0 before,
7 afterwards). With `offset = 16` and `size = 4294967280` the 32-bit sum is 0 as well: the
call returns although `offset + size` exceeds the 16 bytes allocated. -/
theorem glBufferSubData_accepts_out_of_range :
    (bufCtx.buffers 0x800).data = 0x1000 ∧ (bufCtx.buffers 0x800).size = 16 ∧
    (glBufferSubData GL_ARRAY_BUFFER (-4) 4 0x2000 bufCtx).isFatal = false ∧
    ¬ (0 : Int) ≤ -4 ∧
    bufCtx.mem 0xFFC = 0 ∧
    (glBufferSubData GL_ARRAY_BUFFER (-4) 4 0x2000 bufCtx).state.mem 0xFFC = 7 ∧
    (glBufferSubData GL_ARRAY_BUFFER 16 4294967280 0x2000 bufCtx).isFatal = false ∧
    ¬ (16 : Int) + ((4294967280 : Nat) : Int) ≤ ((bufCtx.buffers 0x800).size : Int) := by
  decide

/-! ### Where `convert_to_rgb5a3` stores -/

/-- Claim C36 (texel writes are in bounds): for every width and height up to 1024 and
every source pixel `(x, y)` with `x < width` and `y < height`, the index at which
`convert_to_rgb5a3` stores the texel of the pixel is
`16 * ((x div 4) + (y div 4) * (width div 4)) + 4 * (y mod 4) + (x mod 4)`, it is
strictly less than `round_up(width, 4) * round_up(height, 4)`, and that product is the
number of texels of the buffer the function allocates and returns. -/
theorem texel_writes_in_bounds (data : Nat → Nat) (width height x y : Nat)
    (hw : width ≤ 1024) (hh : height ≤ 1024) (hx : x < width) (hy : y < height) :
    convert_to_rgb5a3 data width height =
      (pixelOrder width height).foldl
        (fun b p => b.set (texel_index width p.1 p.2) (texel_of data width p.1 p.2))
        (List.replicate (round_up width 4 * round_up height 4) 0) ∧
    texel_index width x y = 16 * (x / 4 + y / 4 * (width / 4)) + 4 * (y % 4) + x % 4 ∧
    texel_index width x y < round_up width 4 * round_up height 4 ∧
    (convert_to_rgb5a3 data width height).length = round_up width 4 * round_up height 4 := by
  have hb := texel_index_bound width height x y hw hh hx hy
  refine ⟨?_, hb.1, hb.2, ?_⟩
  · rw [convert_to_rgb5a3_eq_foldl, allocated_texels width height hw hh]
  · rw [convert_to_rgb5a3_length, allocated_texels width height hw hh]

/-- The pixel `(4, 2)` of a 5x3 image: index 24 of the 32 texels. -/
theorem texel_writes_in_bounds_witness :
    (5 ≤ 1024 ∧ 3 ≤ 1024 ∧ 4 < 5 ∧ 2 < 3) ∧
    texel_index 5 4 2 = 24 ∧ round_up 5 4 * round_up 3 4 = 32 ∧
    texel_index 5 4 2 < round_up 5 4 * round_up 3 4 ∧
    (convert_to_rgb5a3 byteRamp 5 3).length = round_up 5 4 * round_up 3 4 :=
  have h := texel_writes_in_bounds byteRamp 5 3 4 2 (by decide) (by decide) (by decide)
    (by decide)
  ⟨by decide, by decide, by decide, h.2.2.1, h.2.2.2⟩

/-! ### Block-aligned widths -/

theorem pixel_offset_small (width height x y : Nat) (hw : width ≤ 1024)
    (hh : height ≤ 1024) (hx : x < width) (hy : y < height) :
    pixel_offset width x y = 4 * (x + y * width) := by
  unfold pixel_offset
  have h1 : y * width ≤ 1024 * 1024 := Nat.mul_le_mul (by omega) hw
  generalize y * width = P at h1 ⊢
  omega

/-- Claim C37 (no texel is overwritten when the width is block-aligned): for every width
that is a positive multiple of 4 up to 1024 and every height up to 1024, two source pixels
with the same output index are the same pixel, and the result of `convert_to_rgb5a3` holds
at the index of each source pixel `(x, y)`, which is its position
`16 * ((y div 4) * (width div 4) + (x div 4)) + 4 * (y mod 4) + (x mod 4)` in the 4x4
blocks taken in row-major order, the texel encoded from the four bytes of that pixel. -/
theorem no_texel_overwritten (data : Nat → Nat) (width height x y : Nat)
    (hdiv : width % 4 = 0) (hw : width ≤ 1024) (hh : height ≤ 1024)
    (hx : x < width) (hy : y < height) :
    (∀ x' y', x' < width → y' < height →
      texel_index width x y = texel_index width x' y' → x = x' ∧ y = y') ∧
    texel_index width x y = 16 * (y / 4 * (width / 4) + x / 4) + 4 * (y % 4) + x % 4 ∧
    (convert_to_rgb5a3 data width height)[texel_index width x y]? =
      some (rgb5a3_pixel (data (4 * (x + y * width) + 0) % 256)
        (data (4 * (x + y * width) + 1) % 256) (data (4 * (x + y * width) + 2) % 256)
        (data (4 * (x + y * width) + 3) % 256)) := by
  have hwk : width = 4 * (width / 4) := by omega
  have hinj : ∀ x₁ y₁ x₂ y₂, x₁ < width → y₁ < height → x₂ < width → y₂ < height →
      texel_index width x₁ y₁ = texel_index width x₂ y₂ → x₁ = x₂ ∧ y₁ = y₂ := by
    intro x₁ y₁ x₂ y₂ h1 h2 h3 h4 he
    rw [hwk] at he h1 h3
    exact texel_index_injective (width / 4) height x₁ y₁ x₂ y₂ (by omega) hh h1 h2 h3 h4 he
  have hb := texel_index_bound width height x y hw hh hx hy
  refine ⟨fun x' y' hx' hy' he => hinj x y x' y' hx hy hx' hy' he, ?_, ?_⟩
  · rw [hb.1, Nat.add_comm (x / 4)]
  · have hget := foldl_set_get (fun p : Nat × Nat => texel_index width p.1 p.2)
      (fun p : Nat × Nat => texel_of data width p.1 p.2) (pixelOrder width height)
      (List.replicate ((round_up width 4 * round_up height 4 * 2) % 2 ^ 32 / 2) 0)
      (fun p hp q hq he => by
        obtain ⟨p1, p2⟩ := lt_of_mem_pixelOrder width height p hp
        obtain ⟨q1, q2⟩ := lt_of_mem_pixelOrder width height q hq
        obtain ⟨e1, e2⟩ := hinj p.1 p.2 q.1 q.2 p1 p2 q1 q2 he
        show texel_of data width p.1 p.2 = texel_of data width q.1 q.2
        rw [e1, e2])
      (x, y) (mem_pixelOrder width height x y hx hy)
      (by
        rw [List.length_replicate, allocated_texels width height hw hh]
        exact hb.2)
    rw [convert_to_rgb5a3_eq_foldl]
    rw [show texel_index width x y = (fun p : Nat × Nat => texel_index width p.1 p.2) (x, y)
      from rfl]
    rw [hget]
    show some (texel_of data width x y) = _
    unfold texel_of
    rw [pixel_offset_small width height x y hw hh hx hy]

/-- The pixel `(5, 4)` of an 8x5 image: block `(1, 1)` of two block columns, so block
number 3, row 0 and column 1 inside the block: index 49. -/
theorem no_texel_overwritten_witness :
    (8 % 4 = 0 ∧ 8 ≤ 1024 ∧ 5 ≤ 1024 ∧ 5 < 8 ∧ 4 < 5) ∧
    texel_index 8 5 4 = 49 ∧
    (convert_to_rgb5a3 byteRamp 8 5)[texel_index 8 5 4]? =
      some (rgb5a3_pixel (byteRamp (4 * (5 + 4 * 8) + 0) % 256)
        (byteRamp (4 * (5 + 4 * 8) + 1) % 256) (byteRamp (4 * (5 + 4 * 8) + 2) % 256)
        (byteRamp (4 * (5 + 4 * 8) + 3) % 256)) :=
  ⟨by decide, by decide,
    (no_texel_overwritten byteRamp 8 5 5 4 (by decide) (by decide) (by decide) (by decide)
      (by decide)).2.2⟩

/-! ### Arguments `glTexImage2D` does not read -/

/-- Claim C38 (the source-format argument does not influence the upload): two calls of
`glTexImage2D` on the same state that agree on `internalformat`, `width`, `height`, `type`
and `data` have the same outcome, whatever their `target`, `level`, `border` and `format`
arguments: the same fatal error or the same resulting state, so the same converted image
buffer and the same texture object. -/
theorem glTexImage2D_ignores_format (gx : GXConsts) (s : Context α)
    (target target2 level level2 internalformat border border2 format format2 type : Int)
    (width height data : Nat) :
    glTexImage2D gx target level internalformat width height border format type data s =
      glTexImage2D gx target2 level2 internalformat width height border2 format2 type data s ∧
    ((glTexImage2D gx target level internalformat width height border format type data
        s).state.textures s.boundTexture).imgBuffer =
      ((glTexImage2D gx target2 level2 internalformat width height border2 format2 type data
        s).state.textures s.boundTexture).imgBuffer ∧
    ((glTexImage2D gx target level internalformat width height border format type data
        s).state.textures s.boundTexture).texObj =
      ((glTexImage2D gx target2 level2 internalformat width height border2 format2 type data
        s).state.textures s.boundTexture).texObj :=
  ⟨rfl, rfl, rfl⟩

/-! ### Lighting stage and cull mode on concrete call sequences -/

theorem lightingCtx_reachable : Reachable libogc exampleExt lightingCtx :=
  .step createdCtx lightingCtx (.glEnable GL_LIGHTING)
    (.create exampleCtx createdCtx createdCtx_ok) rfl

theorem lighting_stage_mirrors_flag_witness :
    Reachable libogc exampleExt lightingCtx ∧ lightingCtx.serverEnabled.lighting = true ∧
    (hwRegs libogc lightingCtx.hw).numTevStages = some 2 ∧
    (hwRegs libogc lightingCtx.hw).numChans = some 2 :=
  ⟨lightingCtx_reachable, rfl,
    (lighting_stage_mirrors_flag libogc exampleExt lightingCtx lightingCtx_reachable).1 rfl⟩

/-- Claim C39 fails on two call sequences that start with a first `wiigl_create_context`.
After `glCullFace(GL_BACK)` the flag of `GL_CULL_FACE` is still disabled, but the cull mode
issued to the hardware is `GX_CULL_FRONT`. After `glEnable(GL_CULL_FACE)` and a second
`wiigl_create_context` the flag is disabled again, but no cull mode has been issued since
the `GX_CULL_FRONT` of `glEnable`. -/
theorem cull_mode_issued_while_disabled :
    freshCtx.initialized = false ∧
    libogc.GX_CULL_FRONT ≠ libogc.GX_CULL_NONE ∧
    (hwRegs libogc firstCtx.hw).cullMode = some libogc.GX_CULL_NONE ∧
    ReachableFromFirst libogc exampleExt (fun _ => True) culledCtx ∧
    culledCtx.serverEnabled.cullFace = false ∧
    (hwRegs libogc culledCtx.hw).cullMode = some libogc.GX_CULL_FRONT ∧
    ReachableFromFirst libogc exampleExt (fun _ => True) recreatedCtx ∧
    recreatedCtx.serverEnabled.cullFace = false ∧
    (hwRegs libogc recreatedCtx.hw).cullMode = some libogc.GX_CULL_FRONT :=
  ⟨rfl, by decide, rfl,
    .step firstCtx culledCtx (.glCullFace GL_BACK) (.first freshCtx firstCtx rfl rfl) trivial
      rfl,
    rfl, rfl,
    .step _ recreatedCtx .wiigl_create_context
      (.step firstCtx _ (.glEnable GL_CULL_FACE) (.first freshCtx firstCtx rfl rfl) trivial
        rfl) trivial rfl,
    rfl, rfl⟩

end FinalFacts

end WiiGL
